import Mathlib

/-!
# Descriptor translation and handle tracking of the D3D9 / D3D10 render layers

A shallow embedding of `source/d3d10/render_d3d10.cpp` and
`source/d3d9/render_d3d9.cpp`.

* Machine integers are natural numbers; a narrowing cast is written as an
  explicit remainder, a 32-bit complement as `bnot32`.  A member of a native
  enumeration (`DXGI_FORMAT`, `D3DFORMAT`, `D3DRESOURCETYPE`, `D3DPOOL`,
  `D3DMULTISAMPLE_TYPE`, the view dimensions) is the natural number it stands
  for, and a cast between such a member and an unsigned integer keeps it.  An
  order comparison of `D3DMULTISAMPLE_TYPE` members is one of `int`s (`to_int32`).
* A failed `assert` is a trap: the embedded function returns `none`; a method
  that only issues calls says so in `command_result.returned`, also when it
  stops at a call through a null pointer.
* Native objects are identified by their address (a natural number, `0` being
  the null pointer).  What the native API answers is read from a record of
  functions; what the layer asks of it is recorded as a list of calls.
-/

set_option autoImplicit false

namespace reshade

/-! ## Machine arithmetic -/

/-- The 32-bit complement `~x` of a 32-bit word. -/
def bnot32 (x : Nat) : Nat := 4294967295 ^^^ x

/-- The narrowing cast `static_cast<uint16_t>(x)`. -/
def to_uint16 (x : Nat) : Nat := x % 65536

/-- The value of a 32-bit word read as an `int`: words from `2^31` on are negative.
This is how the members of an unscoped enumeration whose values fit an `int`, such as
`D3DMULTISAMPLE_TYPE` (its largest member is `D3DMULTISAMPLE_FORCE_DWORD`,
`0x7fffffff`), are compared. -/
def to_int32 (x : Nat) : Int :=
  if x % 4294967296 < 2147483648 then ((x % 4294967296 : Nat) : Int)
  else ((x % 4294967296 : Nat) : Int) - 4294967296

/-- The largest `uint16_t`, `std::numeric_limits<uint16_t>::max()`. -/
def uint16_max : Nat := 65535

/-- The largest `uint32_t`, `std::numeric_limits<uint32_t>::max()`. -/
def uint32_max : Nat := 4294967295

/-- The statement `assert(c)`: continues when `c` holds and traps otherwise. -/
def assert (c : Prop) [Decidable c] : Option Unit := if c then some () else none

/-- The test `(usage & flag) != 0` by which the sources ask whether a usage (or a
native flag word) has a flag. -/
def has_flag (usage flag : Nat) : Prop := usage &&& flag ≠ 0

instance (usage flag : Nat) : Decidable (has_flag usage flag) := by
  unfold has_flag; infer_instance

/-! ## The abstract resource model (`reshade::api`) -/

namespace api

/-- Modelled from the spec: the enumeration `resource_usage` is declared in a
header that is not among the sources.  The spec describes a usage as a bitset
over eleven named flags; the numeric value of each flag is a field of this
record, so the functions below are embedded for whatever values the header
assigns. -/
structure resource_usage where
  render_target : Nat
  depth_stencil : Nat
  shader_resource : Nat
  unordered_access : Nat
  index_buffer : Nat
  vertex_buffer : Nat
  constant_buffer : Nat
  copy_source : Nat
  copy_dest : Nat
  resolve_source : Nat
  resolve_dest : Nat

/-- The eleven flag values of the enumeration. -/
def resource_usage.flags (U : resource_usage) : List Nat :=
  [U.render_target, U.depth_stencil, U.shader_resource, U.unordered_access,
   U.index_buffer, U.vertex_buffer, U.constant_buffer, U.copy_source,
   U.copy_dest, U.resolve_source, U.resolve_dest]

/-- Modelled from the spec: the flags of the bitset are distinct members, that
is, non-empty 32-bit masks no two of which share a bit. -/
def resource_usage.distinct (U : resource_usage) : Prop :=
  U.flags.Pairwise (fun a b => a &&& b = 0) ∧ ∀ m ∈ U.flags, m ≠ 0 ∧ m < 4294967296

instance (U : resource_usage) : Decidable U.distinct := by
  unfold resource_usage.distinct; infer_instance

/-- One assignment of flag values, used to evaluate the functions on concrete
inputs. -/
def usage_values : resource_usage where
  render_target := 0x4
  depth_stencil := 0x30
  shader_resource := 0xC0
  unordered_access := 0x8
  index_buffer := 0x2
  vertex_buffer := 0x1
  constant_buffer := 0x8000
  copy_source := 0x800
  copy_dest := 0x400
  resolve_source := 0x2000
  resolve_dest := 0x1000

/-- Modelled from the spec: `resource_desc` is declared in a header that is not
among the sources; the fields and their widths are those of the spec's
abstract resource descriptor (`width`, `height`, `format`: 32 bits;
`depth_or_layers`, `levels`, `samples`: 16 bits; `usage`: a 32-bit bitset). -/
structure resource_desc where
  width : Nat
  height : Nat
  depth_or_layers : Nat
  levels : Nat
  format : Nat
  samples : Nat
  usage : Nat
deriving DecidableEq, Repr

/-- The value-initialised descriptor `resource_desc desc = {}`. -/
def resource_desc.zero : resource_desc :=
  { width := 0, height := 0, depth_or_layers := 0, levels := 0, format := 0, samples := 0, usage := 0 }

/-- Every field of the descriptor fits the width of its C++ type. -/
def resource_desc.in_range (d : resource_desc) : Prop :=
  d.width < 4294967296 ∧ d.height < 4294967296 ∧ d.depth_or_layers < 65536 ∧
  d.levels < 65536 ∧ d.format < 4294967296 ∧ d.samples < 65536 ∧ d.usage < 4294967296

instance (d : resource_desc) : Decidable d.in_range := by
  unfold resource_desc.in_range; infer_instance

/-- The fields of a descriptor other than its usage: `width`, `height`,
`depth_or_layers`, `levels`, `format` and `samples`, in this order. -/
def resource_desc.shape (d : resource_desc) : Nat × Nat × Nat × Nat × Nat × Nat :=
  (d.width, d.height, d.depth_or_layers, d.levels, d.format, d.samples)

end api

open api

/-! ## Direct3D 10: resource descriptors -/

namespace d3d10

def D3D10_BIND_VERTEX_BUFFER : Nat := 0x1
def D3D10_BIND_INDEX_BUFFER : Nat := 0x2
def D3D10_BIND_CONSTANT_BUFFER : Nat := 0x4
def D3D10_BIND_SHADER_RESOURCE : Nat := 0x8
def D3D10_BIND_RENDER_TARGET : Nat := 0x20
def D3D10_BIND_DEPTH_STENCIL : Nat := 0x40

structure D3D10_BUFFER_DESC where
  ByteWidth : Nat
  Usage : Nat
  BindFlags : Nat
  CPUAccessFlags : Nat
  MiscFlags : Nat
deriving DecidableEq, Repr

structure D3D10_TEXTURE1D_DESC where
  Width : Nat
  MipLevels : Nat
  ArraySize : Nat
  Format : Nat
  Usage : Nat
  BindFlags : Nat
  CPUAccessFlags : Nat
  MiscFlags : Nat
deriving DecidableEq, Repr

structure DXGI_SAMPLE_DESC where
  Count : Nat
  Quality : Nat
deriving DecidableEq, Repr

structure D3D10_TEXTURE2D_DESC where
  Width : Nat
  Height : Nat
  MipLevels : Nat
  ArraySize : Nat
  Format : Nat
  SampleDesc : DXGI_SAMPLE_DESC
  Usage : Nat
  BindFlags : Nat
  CPUAccessFlags : Nat
  MiscFlags : Nat
deriving DecidableEq, Repr

structure D3D10_TEXTURE3D_DESC where
  Width : Nat
  Height : Nat
  Depth : Nat
  MipLevels : Nat
  Format : Nat
  Usage : Nat
  BindFlags : Nat
  CPUAccessFlags : Nat
  MiscFlags : Nat
deriving DecidableEq, Repr

/-- The function `convert_usage_to_bind_flags(usage, bind_flags)`; the result is
the new value of the in-out parameter `bind_flags`. -/
def convert_usage_to_bind_flags (U : resource_usage) (usage : Nat) (bind_flags : Nat) : Option Nat := do
  let bind_flags :=
    if usage &&& U.render_target ≠ 0 then bind_flags ||| D3D10_BIND_RENDER_TARGET
    else bind_flags &&& bnot32 D3D10_BIND_RENDER_TARGET
  let bind_flags :=
    if usage &&& U.depth_stencil ≠ 0 then bind_flags ||| D3D10_BIND_DEPTH_STENCIL
    else bind_flags &&& bnot32 D3D10_BIND_DEPTH_STENCIL
  let bind_flags :=
    if usage &&& U.shader_resource ≠ 0 then bind_flags ||| D3D10_BIND_SHADER_RESOURCE
    else bind_flags &&& bnot32 D3D10_BIND_SHADER_RESOURCE
  assert (usage &&& U.unordered_access = 0)
  let bind_flags :=
    if usage &&& U.index_buffer ≠ 0 then bind_flags ||| D3D10_BIND_INDEX_BUFFER
    else bind_flags &&& bnot32 D3D10_BIND_INDEX_BUFFER
  let bind_flags :=
    if usage &&& U.vertex_buffer ≠ 0 then bind_flags ||| D3D10_BIND_VERTEX_BUFFER
    else bind_flags &&& bnot32 D3D10_BIND_VERTEX_BUFFER
  let bind_flags :=
    if usage &&& U.constant_buffer ≠ 0 then bind_flags ||| D3D10_BIND_CONSTANT_BUFFER
    else bind_flags &&& bnot32 D3D10_BIND_CONSTANT_BUFFER
  pure bind_flags

/-- The function `convert_bind_flags_to_usage(bind_flags, usage)`; the result is
the new value of the in-out parameter `usage`. -/
def convert_bind_flags_to_usage (U : resource_usage) (bind_flags : Nat) (usage : Nat) : Nat :=
  -- Resources are generally copyable in D3D10
  let usage := usage ||| (U.copy_dest ||| U.copy_source)
  let usage := if bind_flags &&& D3D10_BIND_RENDER_TARGET ≠ 0 then usage ||| U.render_target else usage
  let usage := if bind_flags &&& D3D10_BIND_DEPTH_STENCIL ≠ 0 then usage ||| U.depth_stencil else usage
  let usage := if bind_flags &&& D3D10_BIND_SHADER_RESOURCE ≠ 0 then usage ||| U.shader_resource else usage
  let usage := if bind_flags &&& D3D10_BIND_INDEX_BUFFER ≠ 0 then usage ||| U.index_buffer else usage
  let usage := if bind_flags &&& D3D10_BIND_VERTEX_BUFFER ≠ 0 then usage ||| U.vertex_buffer else usage
  let usage := if bind_flags &&& D3D10_BIND_CONSTANT_BUFFER ≠ 0 then usage ||| U.constant_buffer else usage
  usage

/-- Abstract to native, `convert_resource_desc(const resource_desc &, D3D10_BUFFER_DESC &)`. -/
def convert_resource_desc_buffer (U : resource_usage) (desc : resource_desc)
    (internal_desc : D3D10_BUFFER_DESC) : Option D3D10_BUFFER_DESC := do
  assert (desc.height = 0)
  let internal_desc := { internal_desc with ByteWidth := desc.width }
  let bind_flags ← convert_usage_to_bind_flags U desc.usage internal_desc.BindFlags
  pure { internal_desc with BindFlags := bind_flags }

/-- Abstract to native, `convert_resource_desc(const resource_desc &, D3D10_TEXTURE1D_DESC &)`. -/
def convert_resource_desc_texture1d (U : resource_usage) (desc : resource_desc)
    (internal_desc : D3D10_TEXTURE1D_DESC) : Option D3D10_TEXTURE1D_DESC := do
  let internal_desc := { internal_desc with Width := desc.width }
  assert (desc.height = 1)
  let internal_desc := { internal_desc with MipLevels := desc.levels }
  let internal_desc := { internal_desc with ArraySize := desc.depth_or_layers }
  let internal_desc := { internal_desc with Format := desc.format }
  assert (desc.samples = 1)
  let bind_flags ← convert_usage_to_bind_flags U desc.usage internal_desc.BindFlags
  pure { internal_desc with BindFlags := bind_flags }

/-- Abstract to native, `convert_resource_desc(const resource_desc &, D3D10_TEXTURE2D_DESC &)`. -/
def convert_resource_desc_texture2d (U : resource_usage) (desc : resource_desc)
    (internal_desc : D3D10_TEXTURE2D_DESC) : Option D3D10_TEXTURE2D_DESC := do
  let internal_desc := { internal_desc with Width := desc.width }
  let internal_desc := { internal_desc with Height := desc.height }
  let internal_desc := { internal_desc with MipLevels := desc.levels }
  let internal_desc := { internal_desc with ArraySize := desc.depth_or_layers }
  let internal_desc := { internal_desc with Format := desc.format }
  let internal_desc := { internal_desc with SampleDesc := { internal_desc.SampleDesc with Count := desc.samples } }
  let bind_flags ← convert_usage_to_bind_flags U desc.usage internal_desc.BindFlags
  pure { internal_desc with BindFlags := bind_flags }

/-- Abstract to native, `convert_resource_desc(const resource_desc &, D3D10_TEXTURE3D_DESC &)`. -/
def convert_resource_desc_texture3d (U : resource_usage) (desc : resource_desc)
    (internal_desc : D3D10_TEXTURE3D_DESC) : Option D3D10_TEXTURE3D_DESC := do
  let internal_desc := { internal_desc with Width := desc.width }
  let internal_desc := { internal_desc with Height := desc.height }
  let internal_desc := { internal_desc with Depth := desc.depth_or_layers }
  let internal_desc := { internal_desc with MipLevels := desc.levels }
  let internal_desc := { internal_desc with Format := desc.format }
  assert (desc.samples = 1)
  let bind_flags ← convert_usage_to_bind_flags U desc.usage internal_desc.BindFlags
  pure { internal_desc with BindFlags := bind_flags }

/-- Native to abstract, `convert_resource_desc(const D3D10_BUFFER_DESC &)`. -/
def convert_resource_desc_from_buffer (U : resource_usage) (internal_desc : D3D10_BUFFER_DESC) :
    Option resource_desc := do
  let desc := resource_desc.zero
  let desc := { desc with width := internal_desc.ByteWidth }
  let desc := { desc with usage := convert_bind_flags_to_usage U internal_desc.BindFlags desc.usage }
  pure desc

/-- Native to abstract, `convert_resource_desc(const D3D10_TEXTURE1D_DESC &)`. -/
def convert_resource_desc_from_texture1d (U : resource_usage) (internal_desc : D3D10_TEXTURE1D_DESC) :
    Option resource_desc := do
  let desc := resource_desc.zero
  let desc := { desc with width := internal_desc.Width }
  let desc := { desc with height := 1 }
  assert (internal_desc.ArraySize ≤ uint16_max)
  let desc := { desc with depth_or_layers := to_uint16 internal_desc.ArraySize }
  assert (internal_desc.MipLevels ≤ uint16_max)
  let desc := { desc with levels := to_uint16 internal_desc.MipLevels }
  let desc := { desc with format := internal_desc.Format }
  let desc := { desc with samples := 1 }
  let desc := { desc with usage := convert_bind_flags_to_usage U internal_desc.BindFlags desc.usage }
  pure desc

/-- Native to abstract, `convert_resource_desc(const D3D10_TEXTURE2D_DESC &)`. -/
def convert_resource_desc_from_texture2d (U : resource_usage) (internal_desc : D3D10_TEXTURE2D_DESC) :
    Option resource_desc := do
  let desc := resource_desc.zero
  let desc := { desc with width := internal_desc.Width }
  let desc := { desc with height := internal_desc.Height }
  assert (internal_desc.ArraySize ≤ uint16_max)
  let desc := { desc with depth_or_layers := to_uint16 internal_desc.ArraySize }
  assert (internal_desc.MipLevels ≤ uint16_max)
  let desc := { desc with levels := to_uint16 internal_desc.MipLevels }
  let desc := { desc with format := internal_desc.Format }
  let desc := { desc with samples := to_uint16 internal_desc.SampleDesc.Count }
  let desc := { desc with usage := convert_bind_flags_to_usage U internal_desc.BindFlags desc.usage }
  let desc := { desc with usage := desc.usage ||| (if desc.samples > 1 then U.resolve_source else U.resolve_dest) }
  pure desc

/-- Native to abstract, `convert_resource_desc(const D3D10_TEXTURE3D_DESC &)`. -/
def convert_resource_desc_from_texture3d (U : resource_usage) (internal_desc : D3D10_TEXTURE3D_DESC) :
    Option resource_desc := do
  let desc := resource_desc.zero
  let desc := { desc with width := internal_desc.Width }
  let desc := { desc with height := internal_desc.Height }
  assert (internal_desc.Depth ≤ uint16_max)
  let desc := { desc with depth_or_layers := to_uint16 internal_desc.Depth }
  assert (internal_desc.MipLevels ≤ uint16_max)
  let desc := { desc with levels := to_uint16 internal_desc.MipLevels }
  let desc := { desc with format := internal_desc.Format }
  let desc := { desc with samples := 1 }
  let desc := { desc with usage := convert_bind_flags_to_usage U internal_desc.BindFlags desc.usage }
  pure desc

end d3d10

/-! ## The abstract view model and the kinds of resource and view -/

namespace api

/-- Modelled from the spec: the enumeration `resource_view_dimension` is declared
in a header that is not among the sources; its members are those the spec lists.
A value-initialised descriptor holds the member `unknown`. -/
inductive resource_view_dimension where
  | unknown
  | buffer
  | texture_1d
  | texture_1d_array
  | texture_2d
  | texture_2d_array
  | texture_2d_multisample
  | texture_2d_multisample_array
  | texture_3d
  | texture_cube
  | texture_cube_array
deriving DecidableEq, Repr

/-- Modelled from the spec: `resource_view_desc` is declared in a header that is
not among the sources; the fields are those of the spec's abstract resource view
descriptor, each of 32 bits. -/
structure resource_view_desc where
  dimension : resource_view_dimension
  format : Nat
  first_level : Nat
  levels : Nat
  first_layer : Nat
  layers : Nat
deriving DecidableEq, Repr

/-- The value-initialised descriptor `resource_view_desc desc = {}`. -/
def resource_view_desc.zero : resource_view_desc :=
  { dimension := .unknown, format := 0, first_level := 0, levels := 0, first_layer := 0, layers := 0 }

/-- Every field of the view descriptor fits its 32-bit C++ type. -/
def resource_view_desc.in_range (d : resource_view_desc) : Prop :=
  d.format < 4294967296 ∧ d.first_level < 4294967296 ∧ d.levels < 4294967296 ∧
  d.first_layer < 4294967296 ∧ d.layers < 4294967296

instance (d : resource_view_desc) : Decidable d.in_range := by
  unfold resource_view_desc.in_range; infer_instance

/-- Modelled from the spec: the enumeration `resource_type` is declared in a
header that is not among the sources; its members are the resource types the
two files name. -/
inductive resource_type where
  | unknown
  | buffer
  | texture_1d
  | texture_2d
  | texture_3d
  | surface
deriving DecidableEq, Repr

/-- Modelled from the spec: the enumeration `resource_view_type` is declared in a
header that is not among the sources; its members are the view kinds the two
files name. -/
inductive resource_view_type where
  | unknown
  | depth_stencil
  | render_target
  | shader_resource
deriving DecidableEq, Repr

end api

/-! ## Direct3D 10: view descriptors -/

namespace d3d10

def D3D10_DSV_DIMENSION_TEXTURE1D : Nat := 1
def D3D10_DSV_DIMENSION_TEXTURE1DARRAY : Nat := 2
def D3D10_DSV_DIMENSION_TEXTURE2D : Nat := 3
def D3D10_DSV_DIMENSION_TEXTURE2DARRAY : Nat := 4
def D3D10_DSV_DIMENSION_TEXTURE2DMS : Nat := 5
def D3D10_DSV_DIMENSION_TEXTURE2DMSARRAY : Nat := 6

def D3D10_RTV_DIMENSION_TEXTURE1D : Nat := 2
def D3D10_RTV_DIMENSION_TEXTURE1DARRAY : Nat := 3
def D3D10_RTV_DIMENSION_TEXTURE2D : Nat := 4
def D3D10_RTV_DIMENSION_TEXTURE2DARRAY : Nat := 5
def D3D10_RTV_DIMENSION_TEXTURE2DMS : Nat := 6
def D3D10_RTV_DIMENSION_TEXTURE2DMSARRAY : Nat := 7
def D3D10_RTV_DIMENSION_TEXTURE3D : Nat := 8

def D3D10_SRV_DIMENSION_BUFFER : Nat := 1
def D3D10_SRV_DIMENSION_TEXTURE1D : Nat := 2
def D3D10_SRV_DIMENSION_TEXTURE1DARRAY : Nat := 3
def D3D10_SRV_DIMENSION_TEXTURE2D : Nat := 4
def D3D10_SRV_DIMENSION_TEXTURE2DARRAY : Nat := 5
def D3D10_SRV_DIMENSION_TEXTURE2DMS : Nat := 6
def D3D10_SRV_DIMENSION_TEXTURE2DMSARRAY : Nat := 7
def D3D10_SRV_DIMENSION_TEXTURE3D : Nat := 8
def D3D10_SRV_DIMENSION_TEXTURECUBE : Nat := 9
def D3D10_1_SRV_DIMENSION_TEXTURECUBEARRAY : Nat := 10

/-- The native `D3D10_DEPTH_STENCIL_VIEW_DESC`.  Its anonymous union is kept as
the three 32-bit words its members overlay:
`Texture1D.MipSlice`, `Texture1DArray.MipSlice`, `Texture2D.MipSlice`,
`Texture2DArray.MipSlice` and `Texture2DMSArray.FirstArraySlice` are `w0`;
`Texture1DArray.FirstArraySlice`, `Texture2DArray.FirstArraySlice` and
`Texture2DMSArray.ArraySize` are `w1`;
`Texture1DArray.ArraySize` and `Texture2DArray.ArraySize` are `w2`. -/
structure D3D10_DEPTH_STENCIL_VIEW_DESC where
  Format : Nat
  ViewDimension : Nat
  w0 : Nat
  w1 : Nat
  w2 : Nat
deriving DecidableEq, Repr

/-- The native `D3D10_RENDER_TARGET_VIEW_DESC`.  Its anonymous union is kept as
the three 32-bit words its members overlay:
`Texture1D.MipSlice`, `Texture1DArray.MipSlice`, `Texture2D.MipSlice`,
`Texture2DArray.MipSlice`, `Texture3D.MipSlice` and
`Texture2DMSArray.FirstArraySlice` are `w0`;
`Texture1DArray.FirstArraySlice`, `Texture2DArray.FirstArraySlice`,
`Texture3D.FirstWSlice` and `Texture2DMSArray.ArraySize` are `w1`;
`Texture1DArray.ArraySize`, `Texture2DArray.ArraySize` and `Texture3D.WSize`
are `w2`. -/
structure D3D10_RENDER_TARGET_VIEW_DESC where
  Format : Nat
  ViewDimension : Nat
  w0 : Nat
  w1 : Nat
  w2 : Nat
deriving DecidableEq, Repr

/-- The native `D3D10_SHADER_RESOURCE_VIEW_DESC` and, with the same layout,
`D3D10_SHADER_RESOURCE_VIEW_DESC1` (the source passes one for the other through
`reinterpret_cast`).  The anonymous union is kept as the four 32-bit words its
members overlay:
`Buffer.FirstElement` and every `MostDetailedMip`, and
`Texture2DMSArray.FirstArraySlice`, are `w0`;
`Buffer.NumElements` and every `MipLevels`, and `Texture2DMSArray.ArraySize`,
are `w1`;
`Texture1DArray.FirstArraySlice`, `Texture2DArray.FirstArraySlice` and
`TextureCubeArray.First2DArrayFace` are `w2`;
`Texture1DArray.ArraySize`, `Texture2DArray.ArraySize` and
`TextureCubeArray.NumCubes` are `w3`. -/
structure D3D10_SHADER_RESOURCE_VIEW_DESC where
  Format : Nat
  ViewDimension : Nat
  w0 : Nat
  w1 : Nat
  w2 : Nat
  w3 : Nat
deriving DecidableEq, Repr

/-- Every field of the native shader resource view descriptor is a 32-bit word. -/
def D3D10_SHADER_RESOURCE_VIEW_DESC.in_range (n : D3D10_SHADER_RESOURCE_VIEW_DESC) : Prop :=
  n.Format < 4294967296 ∧ n.ViewDimension < 4294967296 ∧ n.w0 < 4294967296 ∧
  n.w1 < 4294967296 ∧ n.w2 < 4294967296 ∧ n.w3 < 4294967296

instance (n : D3D10_SHADER_RESOURCE_VIEW_DESC) : Decidable n.in_range := by
  unfold D3D10_SHADER_RESOURCE_VIEW_DESC.in_range; infer_instance

/-- Abstract to native,
`convert_resource_view_desc(const resource_view_desc &, D3D10_DEPTH_STENCIL_VIEW_DESC &)`. -/
def convert_resource_view_desc_dsv (desc : resource_view_desc)
    (internal_desc : D3D10_DEPTH_STENCIL_VIEW_DESC) : Option D3D10_DEPTH_STENCIL_VIEW_DESC := do
  let internal_desc := { internal_desc with Format := desc.format }
  assert (desc.dimension ≠ resource_view_dimension.buffer ∧ desc.levels = 1)
  match desc.dimension with
  | .texture_1d =>
    pure { internal_desc with ViewDimension := D3D10_DSV_DIMENSION_TEXTURE1D, w0 := desc.first_level }
  | .texture_1d_array =>
    pure { internal_desc with ViewDimension := D3D10_DSV_DIMENSION_TEXTURE1DARRAY,
                              w0 := desc.first_level, w1 := desc.first_layer, w2 := desc.layers }
  | .texture_2d =>
    pure { internal_desc with ViewDimension := D3D10_DSV_DIMENSION_TEXTURE2D, w0 := desc.first_level }
  | .texture_2d_array =>
    pure { internal_desc with ViewDimension := D3D10_DSV_DIMENSION_TEXTURE2DARRAY,
                              w0 := desc.first_level, w1 := desc.first_layer, w2 := desc.layers }
  | .texture_2d_multisample =>
    pure { internal_desc with ViewDimension := D3D10_DSV_DIMENSION_TEXTURE2DMS }
  | .texture_2d_multisample_array =>
    pure { internal_desc with ViewDimension := D3D10_DSV_DIMENSION_TEXTURE2DMSARRAY,
                              w0 := desc.first_layer, w1 := desc.layers }
  | _ => pure internal_desc

/-- Abstract to native,
`convert_resource_view_desc(const resource_view_desc &, D3D10_RENDER_TARGET_VIEW_DESC &)`. -/
def convert_resource_view_desc_rtv (desc : resource_view_desc)
    (internal_desc : D3D10_RENDER_TARGET_VIEW_DESC) : Option D3D10_RENDER_TARGET_VIEW_DESC := do
  let internal_desc := { internal_desc with Format := desc.format }
  assert (desc.dimension ≠ resource_view_dimension.buffer ∧ desc.levels = 1)
  match desc.dimension with
  | .texture_1d =>
    pure { internal_desc with ViewDimension := D3D10_RTV_DIMENSION_TEXTURE1D, w0 := desc.first_level }
  | .texture_1d_array =>
    pure { internal_desc with ViewDimension := D3D10_RTV_DIMENSION_TEXTURE1DARRAY,
                              w0 := desc.first_level, w1 := desc.first_layer, w2 := desc.layers }
  | .texture_2d =>
    pure { internal_desc with ViewDimension := D3D10_RTV_DIMENSION_TEXTURE2D, w0 := desc.first_level }
  | .texture_2d_array =>
    pure { internal_desc with ViewDimension := D3D10_RTV_DIMENSION_TEXTURE2DARRAY,
                              w0 := desc.first_level, w1 := desc.first_layer, w2 := desc.layers }
  | .texture_2d_multisample =>
    pure { internal_desc with ViewDimension := D3D10_RTV_DIMENSION_TEXTURE2DMS }
  | .texture_2d_multisample_array =>
    pure { internal_desc with ViewDimension := D3D10_RTV_DIMENSION_TEXTURE2DMSARRAY,
                              w0 := desc.first_layer, w1 := desc.layers }
  | .texture_3d =>
    pure { internal_desc with ViewDimension := D3D10_RTV_DIMENSION_TEXTURE3D,
                              w0 := desc.first_level, w1 := desc.first_layer, w2 := desc.layers }
  | _ => pure internal_desc

/-- Abstract to native,
`convert_resource_view_desc(const resource_view_desc &, D3D10_SHADER_RESOURCE_VIEW_DESC &)`. -/
def convert_resource_view_desc_srv (desc : resource_view_desc)
    (internal_desc : D3D10_SHADER_RESOURCE_VIEW_DESC) : Option D3D10_SHADER_RESOURCE_VIEW_DESC := do
  let internal_desc := { internal_desc with Format := desc.format }
  match desc.dimension with
  | .buffer =>
    let internal_desc := { internal_desc with ViewDimension := D3D10_SRV_DIMENSION_BUFFER }
    assert (desc.first_layer = 0 ∧ desc.layers = 0)
    pure { internal_desc with w0 := desc.first_level, w1 := desc.levels }
  | .texture_1d =>
    pure { internal_desc with ViewDimension := D3D10_SRV_DIMENSION_TEXTURE1D,
                              w0 := desc.first_level, w1 := desc.levels }
  | .texture_1d_array =>
    pure { internal_desc with ViewDimension := D3D10_SRV_DIMENSION_TEXTURE1DARRAY,
                              w0 := desc.first_level, w1 := desc.levels,
                              w2 := desc.first_layer, w3 := desc.layers }
  | .texture_2d =>
    pure { internal_desc with ViewDimension := D3D10_SRV_DIMENSION_TEXTURE2D,
                              w0 := desc.first_level, w1 := desc.levels }
  | .texture_2d_array =>
    pure { internal_desc with ViewDimension := D3D10_SRV_DIMENSION_TEXTURE2DARRAY,
                              w0 := desc.first_level, w1 := desc.levels,
                              w2 := desc.first_layer, w3 := desc.layers }
  | .texture_2d_multisample =>
    pure { internal_desc with ViewDimension := D3D10_SRV_DIMENSION_TEXTURE2DMS }
  | .texture_2d_multisample_array =>
    pure { internal_desc with ViewDimension := D3D10_SRV_DIMENSION_TEXTURE2DMSARRAY,
                              w0 := desc.first_layer, w1 := desc.layers }
  | .texture_3d =>
    pure { internal_desc with ViewDimension := D3D10_SRV_DIMENSION_TEXTURE3D,
                              w0 := desc.first_level, w1 := desc.levels }
  | .texture_cube =>
    pure { internal_desc with ViewDimension := D3D10_SRV_DIMENSION_TEXTURECUBE,
                              w0 := desc.first_level, w1 := desc.levels }
  | _ => pure internal_desc

/-- Abstract to native,
`convert_resource_view_desc(const resource_view_desc &, D3D10_SHADER_RESOURCE_VIEW_DESC1 &)`. -/
def convert_resource_view_desc_srv1 (desc : resource_view_desc)
    (internal_desc : D3D10_SHADER_RESOURCE_VIEW_DESC) : Option D3D10_SHADER_RESOURCE_VIEW_DESC :=
  if desc.dimension = resource_view_dimension.texture_cube_array then
    pure { internal_desc with Format := desc.format,
                              ViewDimension := D3D10_1_SRV_DIMENSION_TEXTURECUBEARRAY,
                              w0 := desc.first_level, w1 := desc.levels,
                              w2 := desc.first_layer, w3 := desc.layers / 6 }
  else
    convert_resource_view_desc_srv desc internal_desc

/-- Native to abstract,
`convert_resource_view_desc(const D3D10_SHADER_RESOURCE_VIEW_DESC &)`. -/
def convert_resource_view_desc_from_srv (internal_desc : D3D10_SHADER_RESOURCE_VIEW_DESC) :
    resource_view_desc :=
  let desc := resource_view_desc.zero
  let desc := { desc with format := internal_desc.Format }
  if internal_desc.ViewDimension = D3D10_SRV_DIMENSION_BUFFER then
    { desc with dimension := .buffer, first_level := internal_desc.w0, levels := internal_desc.w1 }
  else if internal_desc.ViewDimension = D3D10_SRV_DIMENSION_TEXTURE1D then
    { desc with dimension := .texture_1d, first_level := internal_desc.w0, levels := internal_desc.w1 }
  else if internal_desc.ViewDimension = D3D10_SRV_DIMENSION_TEXTURE1DARRAY then
    { desc with dimension := .texture_1d_array, first_level := internal_desc.w0,
                levels := internal_desc.w1, first_layer := internal_desc.w2, layers := internal_desc.w3 }
  else if internal_desc.ViewDimension = D3D10_SRV_DIMENSION_TEXTURE2D then
    { desc with dimension := .texture_2d, first_level := internal_desc.w0, levels := internal_desc.w1 }
  else if internal_desc.ViewDimension = D3D10_SRV_DIMENSION_TEXTURE2DARRAY then
    { desc with dimension := .texture_2d_array, first_level := internal_desc.w0,
                levels := internal_desc.w1, first_layer := internal_desc.w2, layers := internal_desc.w3 }
  else if internal_desc.ViewDimension = D3D10_SRV_DIMENSION_TEXTURE2DMS then
    { desc with dimension := .texture_2d_multisample }
  else if internal_desc.ViewDimension = D3D10_SRV_DIMENSION_TEXTURE2DMSARRAY then
    { desc with dimension := .texture_2d_multisample_array,
                first_layer := internal_desc.w0, layers := internal_desc.w1 }
  else if internal_desc.ViewDimension = D3D10_SRV_DIMENSION_TEXTURE3D then
    { desc with dimension := .texture_3d, first_level := internal_desc.w0, levels := internal_desc.w1 }
  else if internal_desc.ViewDimension = D3D10_SRV_DIMENSION_TEXTURECUBE then
    { desc with dimension := .texture_cube, first_level := internal_desc.w0, levels := internal_desc.w1 }
  else
    desc

/-- Native to abstract,
`convert_resource_view_desc(const D3D10_SHADER_RESOURCE_VIEW_DESC1 &)`; the product
`NumCubes * 6` is a 32-bit one. -/
def convert_resource_view_desc_from_srv1 (internal_desc : D3D10_SHADER_RESOURCE_VIEW_DESC) :
    resource_view_desc :=
  if internal_desc.ViewDimension = D3D10_1_SRV_DIMENSION_TEXTURECUBEARRAY then
    let desc := resource_view_desc.zero
    { desc with format := internal_desc.Format,
                dimension := .texture_cube_array,
                first_level := internal_desc.w0,
                levels := internal_desc.w1,
                first_layer := internal_desc.w2,
                layers := (internal_desc.w3 * 6) % 4294967296 }
  else
    convert_resource_view_desc_from_srv internal_desc

/-- Native to abstract,
`convert_resource_view_desc(const D3D10_DEPTH_STENCIL_VIEW_DESC &)`. -/
def convert_resource_view_desc_from_dsv (internal_desc : D3D10_DEPTH_STENCIL_VIEW_DESC) :
    resource_view_desc :=
  let desc := resource_view_desc.zero
  let desc := { desc with format := internal_desc.Format }
  let desc := { desc with levels := 1 }
  if internal_desc.ViewDimension = D3D10_DSV_DIMENSION_TEXTURE1D then
    { desc with dimension := .texture_1d, first_level := internal_desc.w0 }
  else if internal_desc.ViewDimension = D3D10_DSV_DIMENSION_TEXTURE1DARRAY then
    { desc with dimension := .texture_1d_array, first_level := internal_desc.w0,
                first_layer := internal_desc.w1, layers := internal_desc.w2 }
  else if internal_desc.ViewDimension = D3D10_DSV_DIMENSION_TEXTURE2D then
    { desc with dimension := .texture_2d, first_level := internal_desc.w0 }
  else if internal_desc.ViewDimension = D3D10_DSV_DIMENSION_TEXTURE2DARRAY then
    { desc with dimension := .texture_2d_array, first_level := internal_desc.w0,
                first_layer := internal_desc.w1, layers := internal_desc.w2 }
  else if internal_desc.ViewDimension = D3D10_DSV_DIMENSION_TEXTURE2DMS then
    { desc with dimension := .texture_2d_multisample }
  else if internal_desc.ViewDimension = D3D10_DSV_DIMENSION_TEXTURE2DMSARRAY then
    { desc with dimension := .texture_2d_multisample_array,
                first_layer := internal_desc.w0, layers := internal_desc.w1 }
  else
    desc

/-- Native to abstract,
`convert_resource_view_desc(const D3D10_RENDER_TARGET_VIEW_DESC &)`. -/
def convert_resource_view_desc_from_rtv (internal_desc : D3D10_RENDER_TARGET_VIEW_DESC) :
    resource_view_desc :=
  let desc := resource_view_desc.zero
  let desc := { desc with format := internal_desc.Format }
  let desc := { desc with levels := 1 }
  if internal_desc.ViewDimension = D3D10_RTV_DIMENSION_TEXTURE1D then
    { desc with dimension := .texture_1d, first_level := internal_desc.w0 }
  else if internal_desc.ViewDimension = D3D10_RTV_DIMENSION_TEXTURE1DARRAY then
    { desc with dimension := .texture_1d_array, first_level := internal_desc.w0,
                first_layer := internal_desc.w1, layers := internal_desc.w2 }
  else if internal_desc.ViewDimension = D3D10_RTV_DIMENSION_TEXTURE2D then
    { desc with dimension := .texture_2d, first_level := internal_desc.w0 }
  else if internal_desc.ViewDimension = D3D10_RTV_DIMENSION_TEXTURE2DARRAY then
    { desc with dimension := .texture_2d_array, first_level := internal_desc.w0,
                first_layer := internal_desc.w1, layers := internal_desc.w2 }
  else if internal_desc.ViewDimension = D3D10_RTV_DIMENSION_TEXTURE2DMS then
    { desc with dimension := .texture_2d_multisample }
  else if internal_desc.ViewDimension = D3D10_RTV_DIMENSION_TEXTURE2DMSARRAY then
    { desc with dimension := .texture_2d_multisample_array,
                first_layer := internal_desc.w0, layers := internal_desc.w1 }
  else if internal_desc.ViewDimension = D3D10_RTV_DIMENSION_TEXTURE3D then
    { desc with dimension := .texture_3d, first_level := internal_desc.w0,
                first_layer := internal_desc.w1, layers := internal_desc.w2 }
  else
    desc

/-- The fields of an abstract view descriptor that the native depth-stencil view
variant of its dimension does not carry are zero, and the dimension is one the
`switch` of the conversion to `D3D10_DEPTH_STENCIL_VIEW_DESC` lists.  (`levels`,
which no variant of this view kind carries, is asserted to be 1.) -/
def dsv_fields_carried (d : resource_view_desc) : Prop :=
  match d.dimension with
  | .texture_1d | .texture_2d => d.first_layer = 0 ∧ d.layers = 0
  | .texture_1d_array | .texture_2d_array => True
  | .texture_2d_multisample => d.first_level = 0 ∧ d.first_layer = 0 ∧ d.layers = 0
  | .texture_2d_multisample_array => d.first_level = 0
  | _ => False

instance (d : resource_view_desc) : Decidable (dsv_fields_carried d) := by
  unfold dsv_fields_carried; split <;> infer_instance

/-- The fields of an abstract view descriptor that the native render-target view
variant of its dimension does not carry are zero, and the dimension is one the
`switch` of the conversion to `D3D10_RENDER_TARGET_VIEW_DESC` lists. -/
def rtv_fields_carried (d : resource_view_desc) : Prop :=
  match d.dimension with
  | .texture_1d | .texture_2d => d.first_layer = 0 ∧ d.layers = 0
  | .texture_1d_array | .texture_2d_array | .texture_3d => True
  | .texture_2d_multisample => d.first_level = 0 ∧ d.first_layer = 0 ∧ d.layers = 0
  | .texture_2d_multisample_array => d.first_level = 0
  | _ => False

instance (d : resource_view_desc) : Decidable (rtv_fields_carried d) := by
  unfold rtv_fields_carried; split <;> infer_instance

/-- The fields of an abstract view descriptor that the native shader-resource view
variant of its dimension does not carry are zero, and the dimension is one the
`switch` of the conversion to `D3D10_SHADER_RESOURCE_VIEW_DESC` lists. -/
def srv_fields_carried (d : resource_view_desc) : Prop :=
  match d.dimension with
  | .buffer | .texture_1d | .texture_2d | .texture_3d | .texture_cube =>
    d.first_layer = 0 ∧ d.layers = 0
  | .texture_1d_array | .texture_2d_array => True
  | .texture_2d_multisample =>
    d.first_level = 0 ∧ d.levels = 0 ∧ d.first_layer = 0 ∧ d.layers = 0
  | .texture_2d_multisample_array => d.first_level = 0 ∧ d.levels = 0
  | _ => False

instance (d : resource_view_desc) : Decidable (srv_fields_carried d) := by
  unfold srv_fields_carried; split <;> infer_instance

def D3D10_FORMAT_SUPPORT_SHADER_SAMPLE : Nat := 0x200
def D3D10_FORMAT_SUPPORT_RENDER_TARGET : Nat := 0x4000
def D3D10_FORMAT_SUPPORT_DEPTH_STENCIL : Nat := 0x10000
def D3D10_FORMAT_SUPPORT_MULTISAMPLE_RESOLVE : Nat := 0x40000

/-- The usage flags a Direct3D 10 native descriptor gives back whenever they were
asked for: the six flags that have a bind flag of their own, and `copy_source` and
`copy_dest`, which `convert_bind_flags_to_usage` always adds. -/
def bind_flag_usages (U : resource_usage) : Nat :=
  U.render_target ||| U.depth_stencil ||| U.shader_resource ||| U.index_buffer |||
    U.vertex_buffer ||| U.constant_buffer ||| U.copy_source ||| U.copy_dest

end d3d10

/-! ## The handle registry -/

/-- Modelled from the spec: the type of the `_resources` and `_views` members is
declared in a header that is not among the sources.  The spec describes the
registry as a set keyed by the raw address of a native object, owning nothing,
with the operations `register(ptr)` and `is_registered(ptr)`. -/
structure object_registry where
  objects : List Nat
deriving DecidableEq, Repr

/-- Modelled from the spec: `register_object(ptr)` adds the address to the set. -/
def object_registry.register_object (r : object_registry) (ptr : Nat) : object_registry :=
  { objects := ptr :: r.objects }

/-- Modelled from the spec: `has_object(ptr)` tells whether the address is in the set. -/
def object_registry.has_object (r : object_registry) (ptr : Nat) : Bool :=
  decide (ptr ∈ r.objects)

/-- What a creation entry point leaves behind: the device afterwards, the returned
`bool`, the handle written through the out-parameter, and the native calls it
issued, in order. -/
structure create_result (σ κ : Type) where
  self : σ
  ret : Bool
  out : Nat
  calls : List κ
deriving DecidableEq, Repr

/-! ## Direct3D 10: the device -/

namespace d3d10

/-- The value-initialised `D3D10_BUFFER_DESC internal_desc = {}`. -/
def D3D10_BUFFER_DESC.zero : D3D10_BUFFER_DESC :=
  { ByteWidth := 0, Usage := 0, BindFlags := 0, CPUAccessFlags := 0, MiscFlags := 0 }

/-- The value-initialised `D3D10_TEXTURE1D_DESC internal_desc = {}`. -/
def D3D10_TEXTURE1D_DESC.zero : D3D10_TEXTURE1D_DESC :=
  { Width := 0, MipLevels := 0, ArraySize := 0, Format := 0, Usage := 0, BindFlags := 0,
    CPUAccessFlags := 0, MiscFlags := 0 }

/-- The value-initialised `D3D10_TEXTURE2D_DESC internal_desc = {}`. -/
def D3D10_TEXTURE2D_DESC.zero : D3D10_TEXTURE2D_DESC :=
  { Width := 0, Height := 0, MipLevels := 0, ArraySize := 0, Format := 0,
    SampleDesc := { Count := 0, Quality := 0 }, Usage := 0, BindFlags := 0,
    CPUAccessFlags := 0, MiscFlags := 0 }

/-- The value-initialised `D3D10_TEXTURE3D_DESC internal_desc = {}`. -/
def D3D10_TEXTURE3D_DESC.zero : D3D10_TEXTURE3D_DESC :=
  { Width := 0, Height := 0, Depth := 0, MipLevels := 0, Format := 0, Usage := 0, BindFlags := 0,
    CPUAccessFlags := 0, MiscFlags := 0 }

/-- The value-initialised `D3D10_DEPTH_STENCIL_VIEW_DESC internal_desc = {}`. -/
def D3D10_DEPTH_STENCIL_VIEW_DESC.zero : D3D10_DEPTH_STENCIL_VIEW_DESC :=
  { Format := 0, ViewDimension := 0, w0 := 0, w1 := 0, w2 := 0 }

/-- The value-initialised `D3D10_RENDER_TARGET_VIEW_DESC internal_desc = {}`. -/
def D3D10_RENDER_TARGET_VIEW_DESC.zero : D3D10_RENDER_TARGET_VIEW_DESC :=
  { Format := 0, ViewDimension := 0, w0 := 0, w1 := 0, w2 := 0 }

/-- The value-initialised `D3D10_SHADER_RESOURCE_VIEW_DESC internal_desc = {}`. -/
def D3D10_SHADER_RESOURCE_VIEW_DESC.zero : D3D10_SHADER_RESOURCE_VIEW_DESC :=
  { Format := 0, ViewDimension := 0, w0 := 0, w1 := 0, w2 := 0, w3 := 0 }

/-- What the native device `_orig` answers.  A creation call answers `some p` when
its `HRESULT` is a success, `p` being the address it stored in the out-parameter,
and `none` when it failed. -/
structure ID3D10Device1 where
  CreateBuffer : D3D10_BUFFER_DESC → Option Nat
  CreateTexture1D : D3D10_TEXTURE1D_DESC → Option Nat
  CreateTexture2D : D3D10_TEXTURE2D_DESC → Option Nat
  CreateTexture3D : D3D10_TEXTURE3D_DESC → Option Nat
  CreateDepthStencilView : Nat → D3D10_DEPTH_STENCIL_VIEW_DESC → Option Nat
  CreateRenderTargetView : Nat → D3D10_RENDER_TARGET_VIEW_DESC → Option Nat
  CreateShaderResourceView : Nat → D3D10_SHADER_RESOURCE_VIEW_DESC → Option Nat
  /-- The query `CheckFormatSupport(Format, &support)`: `some support` when its
  `HRESULT` is a success, `support` being the word it stored, and `none` when it
  failed. -/
  CheckFormatSupport : (Format : Nat) → Option Nat

/-- A succeeding native creation call stores a non-null object. -/
def ID3D10Device1.returns_objects (orig : ID3D10Device1) : Prop :=
  (∀ d p, orig.CreateBuffer d = some p → p ≠ 0) ∧
  (∀ d p, orig.CreateTexture1D d = some p → p ≠ 0) ∧
  (∀ d p, orig.CreateTexture2D d = some p → p ≠ 0) ∧
  (∀ d p, orig.CreateTexture3D d = some p → p ≠ 0) ∧
  (∀ r d p, orig.CreateDepthStencilView r d = some p → p ≠ 0) ∧
  (∀ r d p, orig.CreateRenderTargetView r d = some p → p ≠ 0) ∧
  (∀ r d p, orig.CreateShaderResourceView r d = some p → p ≠ 0)

/-- The native calls the device issues. -/
inductive native_call where
  | CreateBuffer (desc : D3D10_BUFFER_DESC)
  | CreateTexture1D (desc : D3D10_TEXTURE1D_DESC)
  | CreateTexture2D (desc : D3D10_TEXTURE2D_DESC)
  | CreateTexture3D (desc : D3D10_TEXTURE3D_DESC)
  | CreateDepthStencilView (resource : Nat) (desc : D3D10_DEPTH_STENCIL_VIEW_DESC)
  | CreateRenderTargetView (resource : Nat) (desc : D3D10_RENDER_TARGET_VIEW_DESC)
  | CreateShaderResourceView (resource : Nat) (desc : D3D10_SHADER_RESOURCE_VIEW_DESC)
deriving DecidableEq, Repr

/-- What the native device answered to a recorded call. -/
def ID3D10Device1.answer (orig : ID3D10Device1) : native_call → Option Nat
  | .CreateBuffer desc => orig.CreateBuffer desc
  | .CreateTexture1D desc => orig.CreateTexture1D desc
  | .CreateTexture2D desc => orig.CreateTexture2D desc
  | .CreateTexture3D desc => orig.CreateTexture3D desc
  | .CreateDepthStencilView resource desc => orig.CreateDepthStencilView resource desc
  | .CreateRenderTargetView resource desc => orig.CreateRenderTargetView resource desc
  | .CreateShaderResourceView resource desc => orig.CreateShaderResourceView resource desc

/-- The members of `reshade::d3d10::device_impl` the two registries live in. -/
structure device_impl where
  _resources : object_registry
  _views : object_registry
deriving DecidableEq, Repr

/-- The method `device_impl::check_resource_handle_valid`. -/
def device_impl.check_resource_handle_valid (self : device_impl) (resource : Nat) : Bool :=
  resource != 0 && self._resources.has_object resource

/-- The method `device_impl::check_resource_view_handle_valid`. -/
def device_impl.check_resource_view_handle_valid (self : device_impl) (view : Nat) : Bool :=
  view != 0 && self._views.has_object view

/-- The method `device_impl::create_resource(type, desc, initial_state, out_resource)`. -/
def device_impl.create_resource (U : resource_usage) (orig : ID3D10Device1) (self : device_impl)
    (type : resource_type) (desc : resource_desc) : Option (create_result device_impl native_call) :=
  match type with
  | .buffer => do
    let internal_desc ← convert_resource_desc_buffer U desc D3D10_BUFFER_DESC.zero
    match orig.CreateBuffer internal_desc with
    | some resource =>
      pure { self := { self with _resources := self._resources.register_object resource },
             ret := true, out := resource, calls := [.CreateBuffer internal_desc] }
    | none => pure { self := self, ret := false, out := 0, calls := [.CreateBuffer internal_desc] }
  | .texture_1d => do
    let internal_desc ← convert_resource_desc_texture1d U desc D3D10_TEXTURE1D_DESC.zero
    match orig.CreateTexture1D internal_desc with
    | some resource =>
      pure { self := { self with _resources := self._resources.register_object resource },
             ret := true, out := resource, calls := [.CreateTexture1D internal_desc] }
    | none => pure { self := self, ret := false, out := 0, calls := [.CreateTexture1D internal_desc] }
  | .texture_2d => do
    let internal_desc ← convert_resource_desc_texture2d U desc D3D10_TEXTURE2D_DESC.zero
    match orig.CreateTexture2D internal_desc with
    | some resource =>
      pure { self := { self with _resources := self._resources.register_object resource },
             ret := true, out := resource, calls := [.CreateTexture2D internal_desc] }
    | none => pure { self := self, ret := false, out := 0, calls := [.CreateTexture2D internal_desc] }
  | .texture_3d => do
    let internal_desc ← convert_resource_desc_texture3d U desc D3D10_TEXTURE3D_DESC.zero
    match orig.CreateTexture3D internal_desc with
    | some resource =>
      pure { self := { self with _resources := self._resources.register_object resource },
             ret := true, out := resource, calls := [.CreateTexture3D internal_desc] }
    | none => pure { self := self, ret := false, out := 0, calls := [.CreateTexture3D internal_desc] }
  | _ => pure { self := self, ret := false, out := 0, calls := [] }

/-- The method `device_impl::create_resource_view(resource, type, desc, out_view)`. -/
def device_impl.create_resource_view (orig : ID3D10Device1) (self : device_impl)
    (resource : Nat) (type : resource_view_type) (desc : resource_view_desc) :
    Option (create_result device_impl native_call) := do
  assert (resource ≠ 0)
  match type with
  | .depth_stencil =>
    let internal_desc ← convert_resource_view_desc_dsv desc D3D10_DEPTH_STENCIL_VIEW_DESC.zero
    match orig.CreateDepthStencilView resource internal_desc with
    | some view =>
      pure { self := { self with _views := self._views.register_object view },
             ret := true, out := view, calls := [.CreateDepthStencilView resource internal_desc] }
    | none =>
      pure { self := self, ret := false, out := 0, calls := [.CreateDepthStencilView resource internal_desc] }
  | .render_target =>
    let internal_desc ← convert_resource_view_desc_rtv desc D3D10_RENDER_TARGET_VIEW_DESC.zero
    match orig.CreateRenderTargetView resource internal_desc with
    | some view =>
      pure { self := { self with _views := self._views.register_object view },
             ret := true, out := view, calls := [.CreateRenderTargetView resource internal_desc] }
    | none =>
      pure { self := self, ret := false, out := 0, calls := [.CreateRenderTargetView resource internal_desc] }
  | .shader_resource =>
    let internal_desc ← convert_resource_view_desc_srv desc D3D10_SHADER_RESOURCE_VIEW_DESC.zero
    match orig.CreateShaderResourceView resource internal_desc with
    | some view =>
      pure { self := { self with _views := self._views.register_object view },
             ret := true, out := view, calls := [.CreateShaderResourceView resource internal_desc] }
    | none =>
      pure { self := self, ret := false, out := 0, calls := [.CreateShaderResourceView resource internal_desc] }
  | _ => pure { self := self, ret := false, out := 0, calls := [] }

/-- The method `device_impl::check_format_support(format, usage)`. -/
def device_impl.check_format_support (U : resource_usage) (orig : ID3D10Device1)
    (_self : device_impl) (format : Nat) (usage : Nat) : Bool :=
  if usage &&& U.unordered_access ≠ 0 then false
  else
    match orig.CheckFormatSupport format with
    | none => false
    | some support =>
      if usage &&& U.render_target ≠ 0 ∧ support &&& D3D10_FORMAT_SUPPORT_RENDER_TARGET = 0 then
        false
      else if usage &&& U.depth_stencil ≠ 0 ∧
          support &&& D3D10_FORMAT_SUPPORT_DEPTH_STENCIL = 0 then
        false
      else if usage &&& U.shader_resource ≠ 0 ∧
          support &&& D3D10_FORMAT_SUPPORT_SHADER_SAMPLE = 0 then
        false
      else if usage &&& (U.resolve_source ||| U.resolve_dest) ≠ 0 ∧
          support &&& D3D10_FORMAT_SUPPORT_MULTISAMPLE_RESOLVE = 0 then
        false
      else
        true

/-- The draw calls the device issues on the native device, with the arguments in
the order of the native signature; `BaseVertexLocation` is an `INT`. -/
inductive draw_call where
  | Draw (VertexCount StartVertexLocation : Nat)
  | DrawInstanced (VertexCountPerInstance InstanceCount StartVertexLocation
      StartInstanceLocation : Nat)
  | DrawIndexed (IndexCount StartIndexLocation : Nat) (BaseVertexLocation : Int)
  | DrawIndexedInstanced (IndexCountPerInstance InstanceCount StartIndexLocation : Nat)
      (BaseVertexLocation : Int) (StartInstanceLocation : Nat)
deriving DecidableEq, Repr

/-- The method `device_impl::draw(vertices, instances, first_vertex, first_instance)`:
the native calls it issues. -/
def device_impl.draw (_self : device_impl) (vertices instances first_vertex first_instance : Nat) :
    List draw_call :=
  if instances ≤ 1 then
    [.Draw vertices first_vertex]
  else
    [.DrawInstanced vertices instances first_vertex first_instance]

/-- The method
`device_impl::draw_indexed(indices, instances, first_index, vertex_offset, first_instance)`:
the native calls it issues. -/
def device_impl.draw_indexed (_self : device_impl) (indices instances first_index : Nat)
    (vertex_offset : Int) (first_instance : Nat) : List draw_call :=
  if instances ≤ 1 then
    [.DrawIndexed indices first_index vertex_offset]
  else
    [.DrawIndexedInstanced indices instances first_index vertex_offset first_instance]

end d3d10

/-! ## Direct3D 9: resource descriptors -/

namespace d3d9

def D3DUSAGE_RENDERTARGET : Nat := 0x1
def D3DUSAGE_DEPTHSTENCIL : Nat := 0x2

def D3DRTYPE_SURFACE : Nat := 1
def D3DRTYPE_VOLUME : Nat := 2
def D3DRTYPE_TEXTURE : Nat := 3
def D3DRTYPE_VOLUMETEXTURE : Nat := 4
def D3DRTYPE_CUBETEXTURE : Nat := 5
def D3DRTYPE_VERTEXBUFFER : Nat := 6
def D3DRTYPE_INDEXBUFFER : Nat := 7

def D3DPOOL_DEFAULT : Nat := 0

def D3DMULTISAMPLE_NONE : Nat := 0
def D3DMULTISAMPLE_NONMASKABLE : Nat := 1
def D3DMULTISAMPLE_2_SAMPLES : Nat := 2

def D3DDEVCAPS2_CAN_STRETCHRECT_FROM_TEXTURES : Nat := 0x10

/-- The macro `MAKEFOURCC(ch0, ch1, ch2, ch3)`. -/
def MAKEFOURCC (ch0 ch1 ch2 ch3 : Char) : Nat :=
  ch0.toNat ||| (ch1.toNat <<< 8) ||| (ch2.toNat <<< 16) ||| (ch3.toNat <<< 24)

def D3DFMT_UNKNOWN : Nat := 0
def D3DFMT_DXT1 : Nat := MAKEFOURCC 'D' 'X' 'T' '1'
def D3DFMT_DXT2 : Nat := MAKEFOURCC 'D' 'X' 'T' '2'
def D3DFMT_DXT3 : Nat := MAKEFOURCC 'D' 'X' 'T' '3'
def D3DFMT_DXT4 : Nat := MAKEFOURCC 'D' 'X' 'T' '4'
def D3DFMT_DXT5 : Nat := MAKEFOURCC 'D' 'X' 'T' '5'
def D3DFMT_D16_LOCKABLE : Nat := 70
def D3DFMT_D32 : Nat := 71
def D3DFMT_D15S1 : Nat := 73
def D3DFMT_D24S8 : Nat := 75
def D3DFMT_D24X8 : Nat := 77
def D3DFMT_D24X4S4 : Nat := 79
def D3DFMT_D16 : Nat := 80
def D3DFMT_D32F_LOCKABLE : Nat := 82
def D3DFMT_D24FS8 : Nat := 83
def D3DFMT_D32_LOCKABLE : Nat := 84
def D3DFMT_S8_LOCKABLE : Nat := 85
def D3DFMT_A8R8G8B8 : Nat := 21

/-- The native `D3DVOLUME_DESC`; its member `Type` is written `Type_`. -/
structure D3DVOLUME_DESC where
  Format : Nat
  Type_ : Nat
  Usage : Nat
  Pool : Nat
  Width : Nat
  Height : Nat
  Depth : Nat
deriving DecidableEq, Repr

/-- The native `D3DSURFACE_DESC`; its member `Type` is written `Type_`. -/
structure D3DSURFACE_DESC where
  Format : Nat
  Type_ : Nat
  Usage : Nat
  Pool : Nat
  MultiSampleType : Nat
  MultiSampleQuality : Nat
  Width : Nat
  Height : Nat
deriving DecidableEq, Repr

/-- The native `D3DINDEXBUFFER_DESC`; its member `Type` is written `Type_`. -/
structure D3DINDEXBUFFER_DESC where
  Format : Nat
  Type_ : Nat
  Usage : Nat
  Pool : Nat
  Size : Nat
deriving DecidableEq, Repr

/-- The native `D3DVERTEXBUFFER_DESC`; its member `Type` is written `Type_`. -/
structure D3DVERTEXBUFFER_DESC where
  Format : Nat
  Type_ : Nat
  Usage : Nat
  Pool : Nat
  Size : Nat
  FVF : Nat
deriving DecidableEq, Repr

/-- The members of `D3DCAPS9` the file reads. -/
structure D3DCAPS9 where
  Caps2 : Nat
  NumSimultaneousRTs : Nat
deriving DecidableEq, Repr

/-- The function `convert_usage_to_d3d_usage(usage, d3d_usage)`; the result is the
new value of the in-out parameter `d3d_usage`. -/
def convert_usage_to_d3d_usage (U : resource_usage) (usage : Nat) (d3d_usage : Nat) : Option Nat := do
  let d3d_usage :=
    if usage &&& (U.render_target ||| U.copy_dest ||| U.resolve_dest) ≠ 0 then
      d3d_usage ||| D3DUSAGE_RENDERTARGET
    else d3d_usage &&& bnot32 D3DUSAGE_RENDERTARGET
  let d3d_usage :=
    if usage &&& U.depth_stencil ≠ 0 then d3d_usage ||| D3DUSAGE_DEPTHSTENCIL
    else d3d_usage &&& bnot32 D3DUSAGE_DEPTHSTENCIL
  -- Unordered access is not supported in D3D9
  assert (usage &&& U.unordered_access = 0)
  pure d3d_usage

/-- The function `convert_d3d_usage_to_usage(d3d_usage, usage)`; the result is the
new value of the in-out parameter `usage`. -/
def convert_d3d_usage_to_usage (U : resource_usage) (d3d_usage : Nat) (usage : Nat) : Nat :=
  let usage := if d3d_usage &&& D3DUSAGE_RENDERTARGET ≠ 0 then usage ||| U.render_target else usage
  let usage := if d3d_usage &&& D3DUSAGE_DEPTHSTENCIL ≠ 0 then usage ||| U.depth_stencil else usage
  usage

/-- Abstract to native,
`convert_resource_desc(const resource_desc &, D3DVOLUME_DESC &, UINT *levels)`.
The pointer `levels` is `none` when null and otherwise the value it points to;
the second component of the result is the value it points to afterwards. -/
def convert_resource_desc_volume (U : resource_usage) (desc : resource_desc)
    (internal_desc : D3DVOLUME_DESC) (levels : Option Nat) : Option (D3DVOLUME_DESC × Option Nat) := do
  let internal_desc := { internal_desc with Width := desc.width }
  let internal_desc := { internal_desc with Height := desc.height }
  let internal_desc := { internal_desc with Depth := desc.depth_or_layers }
  let internal_desc := { internal_desc with Format := desc.format }
  assert (desc.samples = 1)
  let d3d_usage ← convert_usage_to_d3d_usage U desc.usage internal_desc.Usage
  let internal_desc := { internal_desc with Usage := d3d_usage }
  match levels with
  | some _ => pure (internal_desc, some desc.levels)
  | none =>
    assert (desc.levels = 1)
    pure (internal_desc, none)

/-- Abstract to native,
`convert_resource_desc(const resource_desc &, D3DSURFACE_DESC &, UINT *levels)`.
The pointer `levels` is `none` when null and otherwise the value it points to;
the second component of the result is the value it points to afterwards. -/
def convert_resource_desc_surface (U : resource_usage) (desc : resource_desc)
    (internal_desc : D3DSURFACE_DESC) (levels : Option Nat) : Option (D3DSURFACE_DESC × Option Nat) := do
  let internal_desc := { internal_desc with Width := desc.width }
  let internal_desc := { internal_desc with Height := desc.height }
  assert (desc.depth_or_layers = 1 ∨ desc.depth_or_layers = 6)
  let internal_desc := { internal_desc with Format := desc.format }
  let internal_desc :=
    { internal_desc with
        MultiSampleType := if desc.samples > 1 then desc.samples else D3DMULTISAMPLE_NONE }
  let d3d_usage ← convert_usage_to_d3d_usage U desc.usage internal_desc.Usage
  let internal_desc := { internal_desc with Usage := d3d_usage }
  match levels with
  | some _ => pure (internal_desc, some desc.levels)
  | none =>
    assert (desc.levels = 1)
    pure (internal_desc, none)

/-- Abstract to native, `convert_resource_desc(const resource_desc &, D3DINDEXBUFFER_DESC &)`. -/
def convert_resource_desc_index_buffer (U : resource_usage) (desc : resource_desc)
    (internal_desc : D3DINDEXBUFFER_DESC) : Option D3DINDEXBUFFER_DESC := do
  let internal_desc := { internal_desc with Size := desc.width }
  assert (desc.height = 0 ∧ desc.depth_or_layers = 0 ∧ desc.levels = 0 ∧ desc.format = 0 ∧ desc.samples = 0)
  assert (desc.usage &&& (U.vertex_buffer ||| U.index_buffer) = U.index_buffer)
  let d3d_usage ← convert_usage_to_d3d_usage U desc.usage internal_desc.Usage
  pure { internal_desc with Usage := d3d_usage }

/-- Abstract to native, `convert_resource_desc(const resource_desc &, D3DVERTEXBUFFER_DESC &)`. -/
def convert_resource_desc_vertex_buffer (U : resource_usage) (desc : resource_desc)
    (internal_desc : D3DVERTEXBUFFER_DESC) : Option D3DVERTEXBUFFER_DESC := do
  let internal_desc := { internal_desc with Size := desc.width }
  assert (desc.height = 0 ∧ desc.depth_or_layers = 0 ∧ desc.levels = 0 ∧ desc.format = 0 ∧ desc.samples = 0)
  assert (desc.usage &&& (U.vertex_buffer ||| U.index_buffer) = U.vertex_buffer)
  let d3d_usage ← convert_usage_to_d3d_usage U desc.usage internal_desc.Usage
  pure { internal_desc with Usage := d3d_usage }

/-- Native to abstract, `convert_resource_desc(const D3DVOLUME_DESC &, UINT levels)`. -/
def convert_resource_desc_from_volume (U : resource_usage) (internal_desc : D3DVOLUME_DESC)
    (levels : Nat) : Option resource_desc := do
  assert (internal_desc.Type_ = D3DRTYPE_VOLUME ∨ internal_desc.Type_ = D3DRTYPE_VOLUMETEXTURE)
  let desc := resource_desc.zero
  let desc := { desc with width := internal_desc.Width }
  let desc := { desc with height := internal_desc.Height }
  assert (internal_desc.Depth ≤ uint16_max)
  let desc := { desc with depth_or_layers := to_uint16 internal_desc.Depth }
  assert (levels ≤ uint16_max)
  let desc := { desc with levels := to_uint16 levels }
  let desc := { desc with format := internal_desc.Format }
  let desc := { desc with samples := 1 }
  let desc := { desc with usage := convert_d3d_usage_to_usage U internal_desc.Usage desc.usage }
  let desc :=
    { desc with
        usage := if internal_desc.Type_ = D3DRTYPE_VOLUMETEXTURE then desc.usage ||| U.shader_resource
                 else desc.usage }
  pure desc

/-- Native to abstract,
`convert_resource_desc(const D3DSURFACE_DESC &, UINT levels, const D3DCAPS9 &caps)`.
The member `MultiSampleType` is a `D3DMULTISAMPLE_TYPE`, so the two comparisons
`internal_desc.MultiSampleType >= D3DMULTISAMPLE_2_SAMPLES` are comparisons of
`int`s: a word from `2^31` on is below every member of the enumeration. -/
def convert_resource_desc_from_surface (U : resource_usage) (internal_desc : D3DSURFACE_DESC)
    (levels : Nat) (caps : D3DCAPS9) : Option resource_desc := do
  assert (internal_desc.Type_ = D3DRTYPE_SURFACE ∨ internal_desc.Type_ = D3DRTYPE_TEXTURE ∨
    internal_desc.Type_ = D3DRTYPE_CUBETEXTURE)
  let desc := resource_desc.zero
  let desc := { desc with width := internal_desc.Width }
  let desc := { desc with height := internal_desc.Height }
  let desc := { desc with depth_or_layers := if internal_desc.Type_ = D3DRTYPE_CUBETEXTURE then 6 else 1 }
  assert (levels ≤ uint16_max)
  let desc := { desc with levels := to_uint16 levels }
  let desc := { desc with format := internal_desc.Format }
  let desc :=
    { desc with
        samples := if to_int32 internal_desc.MultiSampleType ≥ to_int32 D3DMULTISAMPLE_2_SAMPLES then
                     to_uint16 internal_desc.MultiSampleType
                   else 1 }
  let desc := { desc with usage := convert_d3d_usage_to_usage U internal_desc.Usage desc.usage }
  let desc :=
    { desc with
        usage := if internal_desc.Type_ = D3DRTYPE_TEXTURE ∨ internal_desc.Type_ = D3DRTYPE_CUBETEXTURE then
                   desc.usage ||| U.shader_resource
                 else desc.usage }
  -- Copying is restricted by limitations of 'IDirect3DDevice9::StretchRect'
  if internal_desc.Pool = D3DPOOL_DEFAULT ∧ (internal_desc.Type_ = D3DRTYPE_SURFACE ∨
      (internal_desc.Type_ = D3DRTYPE_TEXTURE ∧
        caps.Caps2 &&& D3DDEVCAPS2_CAN_STRETCHRECT_FROM_TEXTURES ≠ 0)) then
    if internal_desc.Format = D3DFMT_DXT1 ∨ internal_desc.Format = D3DFMT_DXT2 ∨
        internal_desc.Format = D3DFMT_DXT3 ∨ internal_desc.Format = D3DFMT_DXT4 ∨
        internal_desc.Format = D3DFMT_DXT5 then
      -- Stretching is not supported if either surface is in a compressed format
      pure desc
    else if internal_desc.Format = D3DFMT_D16_LOCKABLE ∨ internal_desc.Format = D3DFMT_D32 ∨
        internal_desc.Format = D3DFMT_D15S1 ∨ internal_desc.Format = D3DFMT_D24S8 ∨
        internal_desc.Format = D3DFMT_D24X8 ∨ internal_desc.Format = D3DFMT_D24X4S4 ∨
        internal_desc.Format = D3DFMT_D16 ∨ internal_desc.Format = D3DFMT_D32F_LOCKABLE ∨
        internal_desc.Format = D3DFMT_D24FS8 ∨ internal_desc.Format = D3DFMT_D32_LOCKABLE ∨
        internal_desc.Format = D3DFMT_S8_LOCKABLE then
      -- Stretching depth stencil surfaces is extremly limited, so just do not allow it
      assert (internal_desc.Usage &&& D3DUSAGE_DEPTHSTENCIL ≠ 0)
      pure desc
    else if internal_desc.Format = MAKEFOURCC 'N' 'U' 'L' 'L' then
      -- Special render target format that has no memory attached, so cannot be copied
      pure desc
    else
      let desc := { desc with usage := desc.usage ||| U.copy_source }
      let desc :=
        { desc with
            usage := if to_int32 internal_desc.MultiSampleType ≥ to_int32 D3DMULTISAMPLE_2_SAMPLES then
                       desc.usage ||| U.resolve_source
                     else desc.usage }
      let desc :=
        { desc with
            usage := if internal_desc.Usage &&& D3DUSAGE_RENDERTARGET ≠ 0 then
                       desc.usage ||| (U.copy_dest ||| U.resolve_dest)
                     else desc.usage }
      pure desc
  else
    pure desc

/-- The condition under which `convert_resource_desc` for a surface reaches the
`default:` label of its `switch (internal_desc.Format)`, where the copy and resolve
flags are added: the pool is `D3DPOOL_DEFAULT`, the type is `SURFACE` (or `TEXTURE`
when the device can stretch from textures) and the format is none of the `case`
labels, which are `DXT1` to `DXT5`, the eleven depth formats and `NULL`. -/
def copies_by_stretch_rect (s : D3DSURFACE_DESC) (caps : D3DCAPS9) : Prop :=
  (s.Pool = D3DPOOL_DEFAULT ∧ (s.Type_ = D3DRTYPE_SURFACE ∨ (s.Type_ = D3DRTYPE_TEXTURE ∧
    caps.Caps2 &&& D3DDEVCAPS2_CAN_STRETCHRECT_FROM_TEXTURES ≠ 0))) ∧
  s.Format ∉ [D3DFMT_DXT1, D3DFMT_DXT2, D3DFMT_DXT3, D3DFMT_DXT4, D3DFMT_DXT5,
    D3DFMT_D16_LOCKABLE, D3DFMT_D32, D3DFMT_D15S1, D3DFMT_D24S8, D3DFMT_D24X8,
    D3DFMT_D24X4S4, D3DFMT_D16, D3DFMT_D32F_LOCKABLE, D3DFMT_D24FS8, D3DFMT_D32_LOCKABLE,
    D3DFMT_S8_LOCKABLE, MAKEFOURCC 'N' 'U' 'L' 'L']

instance (s : D3DSURFACE_DESC) (caps : D3DCAPS9) : Decidable (copies_by_stretch_rect s caps) := by
  unfold copies_by_stretch_rect; infer_instance

/-- Native to abstract, `convert_resource_desc(const D3DINDEXBUFFER_DESC &)`. -/
def convert_resource_desc_from_index_buffer (U : resource_usage) (internal_desc : D3DINDEXBUFFER_DESC) :
    Option resource_desc := do
  let desc := resource_desc.zero
  let desc := { desc with width := internal_desc.Size }
  let desc := { desc with usage := convert_d3d_usage_to_usage U internal_desc.Usage desc.usage }
  let desc := { desc with usage := desc.usage ||| U.index_buffer }
  pure desc

/-- Native to abstract, `convert_resource_desc(const D3DVERTEXBUFFER_DESC &)`. -/
def convert_resource_desc_from_vertex_buffer (U : resource_usage) (internal_desc : D3DVERTEXBUFFER_DESC) :
    Option resource_desc := do
  let desc := resource_desc.zero
  let desc := { desc with width := internal_desc.Size }
  let desc := { desc with usage := convert_d3d_usage_to_usage U internal_desc.Usage desc.usage }
  let desc := { desc with usage := desc.usage ||| U.vertex_buffer }
  pure desc

/-! ## Direct3D 9: the device -/

/-- The value-initialised `D3DSURFACE_DESC internal_desc = {}`. -/
def D3DSURFACE_DESC.zero : D3DSURFACE_DESC :=
  { Format := 0, Type_ := 0, Usage := 0, Pool := 0, MultiSampleType := 0, MultiSampleQuality := 0,
    Width := 0, Height := 0 }

/-- The value-initialised `D3DVOLUME_DESC internal_desc = {}`. -/
def D3DVOLUME_DESC.zero : D3DVOLUME_DESC :=
  { Format := 0, Type_ := 0, Usage := 0, Pool := 0, Width := 0, Height := 0, Depth := 0 }

/-- The value-initialised `D3DINDEXBUFFER_DESC internal_desc = {}`. -/
def D3DINDEXBUFFER_DESC.zero : D3DINDEXBUFFER_DESC :=
  { Format := 0, Type_ := 0, Usage := 0, Pool := 0, Size := 0 }

/-- The value-initialised `D3DVERTEXBUFFER_DESC internal_desc = {}`. -/
def D3DVERTEXBUFFER_DESC.zero : D3DVERTEXBUFFER_DESC :=
  { Format := 0, Type_ := 0, Usage := 0, Pool := 0, Size := 0, FVF := 0 }

/-- The native `D3DDEVICE_CREATION_PARAMETERS`. -/
structure D3DDEVICE_CREATION_PARAMETERS where
  AdapterOrdinal : Nat
  DeviceType : Nat
  hFocusWindow : Nat
  BehaviorFlags : Nat
deriving DecidableEq, Repr

/-- The member of `D3DPRESENT_PARAMETERS` the file reads, a `BOOL`. -/
structure D3DPRESENT_PARAMETERS where
  EnableAutoDepthStencil : Nat
deriving DecidableEq, Repr

/-- What the native device `_orig` and the native objects it created answer.  A
call that stores an object answers `some p` when its `HRESULT` is a success, `p`
being the address stored in the out-parameter, and `none` when it failed.  The
methods of a native object take the address of the object first. -/
structure IDirect3DDevice9 where
  CreateIndexBuffer : (Length Usage Format Pool : Nat) → Option Nat
  CreateVertexBuffer : (Length Usage FVF Pool : Nat) → Option Nat
  CreateTexture : (Width Height Levels Usage Format Pool : Nat) → Option Nat
  CreateVolumeTexture : (Width Height Depth Levels Usage Format Pool : Nat) → Option Nat
  GetType : (object : Nat) → Nat
  Surface_GetDesc : (surface : Nat) → D3DSURFACE_DESC
  Texture_GetLevelDesc : (texture Level : Nat) → D3DSURFACE_DESC
  Texture_GetLevelCount : (texture : Nat) → Nat
  Texture_GetSurfaceLevel : (texture Level : Nat) → Option Nat
  VolumeTexture_GetLevelDesc : (texture Level : Nat) → D3DVOLUME_DESC
  VolumeTexture_GetLevelCount : (texture : Nat) → Nat
  CubeTexture_GetLevelDesc : (texture Level : Nat) → D3DSURFACE_DESC
  CubeTexture_GetLevelCount : (texture : Nat) → Nat
  CubeTexture_GetCubeMapSurface : (texture FaceType Level : Nat) → Option Nat
  VertexBuffer_GetDesc : (buffer : Nat) → D3DVERTEXBUFFER_DESC
  IndexBuffer_GetDesc : (buffer : Nat) → D3DINDEXBUFFER_DESC
  /-- Whether `BeginStateBlock()` succeeds. -/
  BeginStateBlock : Bool
  /-- The call `EndStateBlock(&_copy_state)`: the state block it stores, or `none`. -/
  EndStateBlock : Option Nat
  /-- What `_backup_state.init_state_block()` returns; the helper works on the
  same native device. -/
  backup_state_init_state_block : Bool
  /-- The call `GetDepthStencilSurface(&surface)`: the surface it stores, or `none`. -/
  GetDepthStencilSurface : Option Nat
  /-- Whether the query `_d3d->CheckDeviceFormat(...)` of the Direct3D object that
  made the device succeeds. -/
  CheckDeviceFormat : (Adapter DeviceType AdapterFormat Usage RType CheckFormat : Nat) → Bool
  /-- Whether `QueryInterface` of the object for `IDirect3DSurface9` succeeds, that
  is, whether the object is a surface. -/
  QueryInterface_Surface : (object : Nat) → Bool
  /-- The call `surface->GetContainer(IID_PPV_ARGS(&resource))` for a container that
  is an `IDirect3DResource9`: the container it stores, or `none`. -/
  Surface_GetContainer : (surface : Nat) → Option Nat
  /-- The capabilities `GetDeviceCaps(&_caps)` stores. -/
  GetDeviceCaps : D3DCAPS9
  /-- The parameters `GetCreationParameters(&_cp)` stores. -/
  GetCreationParameters : D3DDEVICE_CREATION_PARAMETERS
  /-- The call `GetSwapChain(iSwapChain, &swapchain)`: the swap chain it stores, or
  `none`. -/
  GetSwapChain : (iSwapChain : Nat) → Option Nat
  /-- The parameters `swapchain->GetPresentParameters(&pp)` stores. -/
  SwapChain_GetPresentParameters : (swapchain : Nat) → D3DPRESENT_PARAMETERS

/-- A succeeding native call that stores an object stores a non-null one. -/
def IDirect3DDevice9.returns_objects (orig : IDirect3DDevice9) : Prop :=
  (∀ l u f q p, orig.CreateIndexBuffer l u f q = some p → p ≠ 0) ∧
  (∀ l u f q p, orig.CreateVertexBuffer l u f q = some p → p ≠ 0) ∧
  (∀ w h l u f q p, orig.CreateTexture w h l u f q = some p → p ≠ 0) ∧
  (∀ w h d l u f q p, orig.CreateVolumeTexture w h d l u f q = some p → p ≠ 0) ∧
  (∀ t l p, orig.Texture_GetSurfaceLevel t l = some p → p ≠ 0) ∧
  (∀ t f l p, orig.CubeTexture_GetCubeMapSurface t f l = some p → p ≠ 0)

/-- The add-on events the device raises through `RESHADE_ADDON_EVENT`. -/
inductive addon_event where
  | init_device
  | init_command_queue
  | destroy_command_queue
  | destroy_device
  | create_resource (type : resource_type) (desc : resource_desc)
  | set_render_targets_and_depth_stencil (count : Nat) (rtvs : Nat) (dsv : Nat)
deriving DecidableEq, Repr

/-- What the device does to the outside, in order: the add-on events it raises,
the state-changing calls on the native device and on native objects, and the
calls on the `_backup_state` helper (whose class is not part of the two files).
Calls that only read the description of an object (`GetType`, `GetDesc`,
`GetLevelDesc`, `GetLevelCount`) are not recorded, and neither are the releases a
`com_ptr` does when it goes out of scope. -/
inductive native_call where
  | addon (event : addon_event)
  | AddRef (object : Nat)
  | Release (object : Nat)
  | backup_state_release_state_block
  | backup_state_init_state_block
  | BeginStateBlock
  | EndStateBlock
  | SetFVF (FVF : Nat)
  | SetPixelShader (shader : Nat)
  | SetVertexShader (shader : Nat)
  | SetRenderState (State Value : Nat)
  | SetTextureStageState (Stage Type_ Value : Nat)
  | SetSamplerState (Sampler Type_ Value : Nat)
  | GetDepthStencilSurface
  | SetDepthStencilSurface (surface : Nat)
  | CheckDeviceFormat (Adapter DeviceType AdapterFormat Usage RType CheckFormat : Nat)
  | CreateIndexBuffer (Length Usage Format Pool : Nat)
  | CreateVertexBuffer (Length Usage FVF Pool : Nat)
  | CreateTexture (Width Height Levels Usage Format Pool : Nat)
  | CreateVolumeTexture (Width Height Depth Levels Usage Format Pool : Nat)
  | GetSurfaceLevel (texture Level : Nat)
  | GetCubeMapSurface (texture FaceType Level : Nat)
  | backup_state_capture
  | backup_state_apply_and_release
  | StateBlock_Apply (block : Nat)
  | SetTexture (Stage texture : Nat)
  | SetRenderTarget (RenderTargetIndex surface : Nat)
  | DrawPrimitiveUP (PrimitiveType PrimitiveCount VertexStreamZeroStride : Nat)
  | StretchRect (SourceSurface SourceRect DestSurface DestRect Filter : Nat)
  | Clear (Count Rects Flags Color Z Stencil : Nat)
deriving DecidableEq, Repr

/-- What the native device, or the native object called, answered to a recorded
call that stores an object; `none` for the other calls. -/
def IDirect3DDevice9.answer (orig : IDirect3DDevice9) : native_call → Option Nat
  | .CreateIndexBuffer l u f p => orig.CreateIndexBuffer l u f p
  | .CreateVertexBuffer l u f p => orig.CreateVertexBuffer l u f p
  | .CreateTexture w h l u f p => orig.CreateTexture w h l u f p
  | .CreateVolumeTexture w h d l u f p => orig.CreateVolumeTexture w h d l u f p
  | .GetSurfaceLevel t l => orig.Texture_GetSurfaceLevel t l
  | .GetCubeMapSurface t f l => orig.CubeTexture_GetCubeMapSurface t f l
  | _ => none

/-- The members of `reshade::d3d9::device_impl`: the capability snapshot `_caps`,
the creation parameters `_cp`, the state block `_copy_state` (a `com_ptr`, `0`
when null) and the registry `_resources`. -/
structure device_impl where
  _caps : D3DCAPS9
  _cp : D3DDEVICE_CREATION_PARAMETERS
  _copy_state : Nat
  _resources : object_registry
deriving DecidableEq, Repr

/-- The method `device_impl::on_reset`: the device afterwards and what the call
did to the outside. -/
def device_impl.on_reset (self : device_impl) : device_impl × List native_call :=
  -- Do not call add-on events if this device was already reset before
  if self._copy_state = 0 then (self, [])
  else
    ({ self with _copy_state := 0 },
     [.addon .destroy_command_queue, .addon .destroy_device,
      .Release self._copy_state, .backup_state_release_state_block])

def D3DFMT_X8R8G8B8 : Nat := 22

def D3DFVF_XYZ : Nat := 0x002
def D3DFVF_TEX1 : Nat := 0x100

def D3DRS_ZENABLE : Nat := 7
def D3DRS_FILLMODE : Nat := 8
def D3DRS_ALPHATESTENABLE : Nat := 15
def D3DRS_SRCBLEND : Nat := 19
def D3DRS_DESTBLEND : Nat := 20
def D3DRS_CULLMODE : Nat := 22
def D3DRS_ALPHABLENDENABLE : Nat := 27
def D3DRS_FOGENABLE : Nat := 28
def D3DRS_STENCILENABLE : Nat := 52
def D3DRS_CLIPPING : Nat := 136
def D3DRS_LIGHTING : Nat := 137
def D3DRS_COLORWRITEENABLE : Nat := 168
def D3DRS_BLENDOP : Nat := 171
def D3DRS_SCISSORTESTENABLE : Nat := 174
def D3DRS_SRGBWRITEENABLE : Nat := 194
def D3DRS_BLENDOPALPHA : Nat := 209

def D3DFILL_SOLID : Nat := 3
def D3DBLEND_ZERO : Nat := 1
def D3DBLEND_ONE : Nat := 2
def D3DCULL_NONE : Nat := 1
def D3DBLENDOP_ADD : Nat := 1
def D3DCOLORWRITEENABLE_RED : Nat := 1
def D3DCOLORWRITEENABLE_GREEN : Nat := 2
def D3DCOLORWRITEENABLE_BLUE : Nat := 4
def D3DCOLORWRITEENABLE_ALPHA : Nat := 8

def D3DTSS_COLOROP : Nat := 1
def D3DTSS_COLORARG1 : Nat := 2
def D3DTSS_ALPHAOP : Nat := 4
def D3DTSS_ALPHAARG1 : Nat := 5
def D3DTSS_TEXCOORDINDEX : Nat := 11
def D3DTSS_TEXTURETRANSFORMFLAGS : Nat := 24

def D3DTOP_SELECTARG1 : Nat := 2
def D3DTA_TEXTURE : Nat := 2
def D3DTTFF_DISABLE : Nat := 0

def D3DSAMP_ADDRESSU : Nat := 1
def D3DSAMP_ADDRESSV : Nat := 2
def D3DSAMP_ADDRESSW : Nat := 3
def D3DSAMP_MAGFILTER : Nat := 5
def D3DSAMP_MINFILTER : Nat := 6
def D3DSAMP_MIPFILTER : Nat := 7
def D3DSAMP_MIPMAPLODBIAS : Nat := 8
def D3DSAMP_MAXMIPLEVEL : Nat := 9
def D3DSAMP_SRGBTEXTURE : Nat := 11

def D3DTADDRESS_CLAMP : Nat := 3
def D3DTEXF_NONE : Nat := 0
def D3DTEXF_LINEAR : Nat := 2

/-- The state-setting calls `on_after_reset` records between `BeginStateBlock` and
`EndStateBlock`, in order; `false` and `nullptr` are `0`. -/
def copy_state_calls : List native_call :=
  [.SetFVF (D3DFVF_XYZ ||| D3DFVF_TEX1),
   .SetPixelShader 0,
   .SetVertexShader 0,
   .SetRenderState D3DRS_ZENABLE 0,
   .SetRenderState D3DRS_FILLMODE D3DFILL_SOLID,
   .SetRenderState D3DRS_ALPHATESTENABLE 0,
   .SetRenderState D3DRS_SRCBLEND D3DBLEND_ONE,
   .SetRenderState D3DRS_DESTBLEND D3DBLEND_ZERO,
   .SetRenderState D3DRS_CULLMODE D3DCULL_NONE,
   .SetRenderState D3DRS_ALPHABLENDENABLE 0,
   .SetRenderState D3DRS_FOGENABLE 0,
   .SetRenderState D3DRS_STENCILENABLE 0,
   .SetRenderState D3DRS_CLIPPING 0,
   .SetRenderState D3DRS_LIGHTING 0,
   .SetRenderState D3DRS_COLORWRITEENABLE (D3DCOLORWRITEENABLE_RED ||| D3DCOLORWRITEENABLE_GREEN |||
     D3DCOLORWRITEENABLE_BLUE ||| D3DCOLORWRITEENABLE_ALPHA),
   .SetRenderState D3DRS_SCISSORTESTENABLE 0,
   .SetRenderState D3DRS_BLENDOP D3DBLENDOP_ADD,
   .SetRenderState D3DRS_SRGBWRITEENABLE 0,
   .SetRenderState D3DRS_BLENDOPALPHA D3DBLENDOP_ADD,
   .SetTextureStageState 0 D3DTSS_COLOROP D3DTOP_SELECTARG1,
   .SetTextureStageState 0 D3DTSS_COLORARG1 D3DTA_TEXTURE,
   .SetTextureStageState 0 D3DTSS_ALPHAOP D3DTOP_SELECTARG1,
   .SetTextureStageState 0 D3DTSS_ALPHAARG1 D3DTA_TEXTURE,
   .SetTextureStageState 0 D3DTSS_TEXCOORDINDEX 0,
   .SetTextureStageState 0 D3DTSS_TEXTURETRANSFORMFLAGS D3DTTFF_DISABLE,
   .SetSamplerState 0 D3DSAMP_ADDRESSU D3DTADDRESS_CLAMP,
   .SetSamplerState 0 D3DSAMP_ADDRESSV D3DTADDRESS_CLAMP,
   .SetSamplerState 0 D3DSAMP_ADDRESSW D3DTADDRESS_CLAMP,
   .SetSamplerState 0 D3DSAMP_MAGFILTER D3DTEXF_LINEAR,
   .SetSamplerState 0 D3DSAMP_MINFILTER D3DTEXF_LINEAR,
   .SetSamplerState 0 D3DSAMP_MIPFILTER D3DTEXF_NONE,
   .SetSamplerState 0 D3DSAMP_MIPMAPLODBIAS 0,
   .SetSamplerState 0 D3DSAMP_MAXMIPLEVEL 0,
   .SetSamplerState 0 D3DSAMP_SRGBTEXTURE 0]

/-- What an add-on does when the event `create_resource` hands it the description
of a resource about to be created: the description it leaves behind. -/
structure addon_observer where
  create_resource : resource_type → resource_desc → resource_desc

/-- The method `device_impl::create_surface_replacement(new_desc, out_surface)`:
the device afterwards, the surface stored in `out_surface` when the method returns
`true` (`none` when it returns `false`), and the calls it issued. -/
def device_impl.create_surface_replacement (orig : IDirect3DDevice9) (self : device_impl)
    (new_desc : D3DSURFACE_DESC) : device_impl × Option Nat × List native_call :=
  if new_desc.MultiSampleType = D3DMULTISAMPLE_NONE then
    let create := native_call.CreateTexture new_desc.Width new_desc.Height 1 new_desc.Usage
      new_desc.Format new_desc.Pool
    match orig.CreateTexture new_desc.Width new_desc.Height 1 new_desc.Usage new_desc.Format
        new_desc.Pool with
    | some texture =>
      match orig.Texture_GetSurfaceLevel texture 0 with
      | some surface =>
        ({ self with
            _resources := (self._resources.register_object texture).register_object surface },
         some surface, [create, .GetSurfaceLevel texture 0])
      | none => (self, none, [create, .GetSurfaceLevel texture 0])
    | none => (self, none, [create])
  else (self, none, [])

/-- The part of `device_impl::on_after_reset` after the state blocks (from the
`init_device` event on); `calls` are the calls issued so far. -/
def device_impl.on_after_reset_events (U : resource_usage) (orig : IDirect3DDevice9)
    (observer : addon_observer) (self : device_impl) (pp : D3DPRESENT_PARAMETERS)
    (calls : List native_call) : Option (device_impl × List native_call) := do
  let calls := calls ++ [.addon .init_device, .addon .init_command_queue]
  if pp.EnableAutoDepthStencil ≠ 0 then
    let calls := calls ++ [.GetDepthStencilSurface]
    match orig.GetDepthStencilSurface with
    | some auto_depth_stencil =>
      let desc := orig.Surface_GetDesc auto_depth_stencil
      let new_desc := desc
      let api_desc ← convert_resource_desc_from_surface U desc 1 self._caps
      let calls := calls ++ [.addon (.create_resource .surface api_desc)]
      let api_desc := observer.create_resource .surface api_desc
      let (new_desc, _) ← convert_resource_desc_surface U api_desc new_desc none
      -- Need to replace auto depth stencil if add-on modified the description
      if desc ≠ new_desc then
        match self.create_surface_replacement orig new_desc with
        | (self, some auto_depth_stencil_replacement, created) =>
          -- The device will hold a reference to the surface after binding it
          pure (self, calls ++ created ++
            [.SetDepthStencilSurface auto_depth_stencil_replacement,
             .addon (.set_render_targets_and_depth_stencil 0 0 auto_depth_stencil_replacement)])
        | (self, none, created) =>
          pure ({ self with _resources := self._resources.register_object auto_depth_stencil },
            calls ++ created ++
            [.addon (.set_render_targets_and_depth_stencil 0 0 auto_depth_stencil)])
      else
        pure ({ self with _resources := self._resources.register_object auto_depth_stencil },
          calls ++ [.addon (.set_render_targets_and_depth_stencil 0 0 auto_depth_stencil)])
    | none => pure (self, calls)
  else pure (self, calls)

/-- The method `device_impl::on_after_reset(pp)`: the device afterwards and what
the call did to the outside, `none` when an assertion of a conversion it uses
fails.  `EndStateBlock(&_copy_state)` stores the state block in `_copy_state` when
it succeeds and leaves the member alone when it fails. -/
def device_impl.on_after_reset (U : resource_usage) (orig : IDirect3DDevice9)
    (observer : addon_observer) (self : device_impl) (pp : D3DPRESENT_PARAMETERS) :
    Option (device_impl × List native_call) :=
  -- Create state blocks used for resource copying
  if orig.BeginStateBlock then
    let calls := [native_call.BeginStateBlock] ++ copy_state_calls ++ [.EndStateBlock]
    match orig.EndStateBlock with
    | none => pure (self, calls)
    | some state =>
      let self := { self with _copy_state := state }
      let calls := calls ++ [.backup_state_init_state_block]
      if ¬ orig.backup_state_init_state_block then pure (self, calls)
      else self.on_after_reset_events U orig observer pp calls
  else
    self.on_after_reset_events U orig observer pp [.BeginStateBlock]

/-- The method `device_impl::check_format_support(format, usage)`: the returned
`bool` and the queries issued, `none` when the assertion of
`convert_usage_to_d3d_usage` fails. -/
def device_impl.check_format_support (U : resource_usage) (orig : IDirect3DDevice9)
    (self : device_impl) (format : Nat) (usage : Nat) : Option (Bool × List native_call) :=
  if usage &&& U.unordered_access ≠ 0 then pure (false, [])
  else do
    let d3d_usage ← convert_usage_to_d3d_usage U usage 0
    pure (orig.CheckDeviceFormat self._cp.AdapterOrdinal self._cp.DeviceType D3DFMT_X8R8G8B8
            d3d_usage D3DRTYPE_TEXTURE format,
          [.CheckDeviceFormat self._cp.AdapterOrdinal self._cp.DeviceType D3DFMT_X8R8G8B8
            d3d_usage D3DRTYPE_TEXTURE format])

/-- The method `device_impl::check_resource_handle_valid`. -/
def device_impl.check_resource_handle_valid (self : device_impl) (resource : Nat) : Bool :=
  resource != 0 && self._resources.has_object resource

/-- The method `device_impl::check_resource_view_handle_valid`. -/
def device_impl.check_resource_view_handle_valid (self : device_impl) (view : Nat) : Bool :=
  self.check_resource_handle_valid view

/-- The method `device_impl::get_resource_desc`. -/
def device_impl.get_resource_desc (U : resource_usage) (orig : IDirect3DDevice9) (self : device_impl)
    (resource : Nat) : Option resource_desc := do
  assert (resource ≠ 0)
  if orig.GetType resource = D3DRTYPE_SURFACE then
    let internal_desc := orig.Surface_GetDesc resource
    convert_resource_desc_from_surface U internal_desc 1 self._caps
  else if orig.GetType resource = D3DRTYPE_TEXTURE then
    let internal_desc := orig.Texture_GetLevelDesc resource 0
    let internal_desc := { internal_desc with Type_ := D3DRTYPE_TEXTURE }
    convert_resource_desc_from_surface U internal_desc (orig.Texture_GetLevelCount resource) self._caps
  else if orig.GetType resource = D3DRTYPE_VOLUMETEXTURE then
    let internal_desc := orig.VolumeTexture_GetLevelDesc resource 0
    let internal_desc := { internal_desc with Type_ := D3DRTYPE_VOLUMETEXTURE }
    convert_resource_desc_from_volume U internal_desc (orig.VolumeTexture_GetLevelCount resource)
  else if orig.GetType resource = D3DRTYPE_CUBETEXTURE then
    let internal_desc := orig.CubeTexture_GetLevelDesc resource 0
    let internal_desc := { internal_desc with Type_ := D3DRTYPE_CUBETEXTURE }
    convert_resource_desc_from_surface U internal_desc (orig.CubeTexture_GetLevelCount resource) self._caps
  else if orig.GetType resource = D3DRTYPE_VERTEXBUFFER then
    convert_resource_desc_from_vertex_buffer U (orig.VertexBuffer_GetDesc resource)
  else if orig.GetType resource = D3DRTYPE_INDEXBUFFER then
    convert_resource_desc_from_index_buffer U (orig.IndexBuffer_GetDesc resource)
  else
    assert False -- Not implemented
    pure resource_desc.zero

/-- The `buffer` case of `device_impl::create_resource`, up to its `break`: `some`
result when one of the two creation calls succeeded, and otherwise the calls
issued before the `break`. -/
def device_impl.create_resource_buffer (U : resource_usage) (orig : IDirect3DDevice9)
    (self : device_impl) (desc : resource_desc) :
    Option (Option (create_result device_impl native_call) × List native_call) := do
  let first ←
    if desc.usage = U.index_buffer then do
      let internal_desc ← convert_resource_desc_index_buffer U desc D3DINDEXBUFFER_DESC.zero
      let call := native_call.CreateIndexBuffer internal_desc.Size internal_desc.Usage D3DFMT_UNKNOWN D3DPOOL_DEFAULT
      match orig.CreateIndexBuffer internal_desc.Size internal_desc.Usage D3DFMT_UNKNOWN D3DPOOL_DEFAULT with
      | some resource =>
        pure (some { self := { self with _resources := self._resources.register_object resource },
                     ret := true, out := resource, calls := [call] }, [call])
      | none => pure (none, [call])
    else pure (none, [])
  match first with
  | (some result, calls) => pure (some result, calls)
  | (none, calls) =>
    if desc.usage = U.vertex_buffer then do
      let internal_desc ← convert_resource_desc_vertex_buffer U desc D3DVERTEXBUFFER_DESC.zero
      let call := native_call.CreateVertexBuffer internal_desc.Size internal_desc.Usage 0 D3DPOOL_DEFAULT
      match orig.CreateVertexBuffer internal_desc.Size internal_desc.Usage 0 D3DPOOL_DEFAULT with
      | some resource =>
        pure (some { self := { self with _resources := self._resources.register_object resource },
                     ret := true, out := resource, calls := calls ++ [call] }, calls ++ [call])
      | none => pure (none, calls ++ [call])
    else pure (none, calls)

/-- The method `device_impl::create_resource(type, desc, initial_state, out_resource)`. -/
def device_impl.create_resource (U : resource_usage) (orig : IDirect3DDevice9) (self : device_impl)
    (type : resource_type) (desc : resource_desc) : Option (create_result device_impl native_call) :=
  match type with
  | .buffer => do
    match ← self.create_resource_buffer U orig desc with
    | (some result, _) => pure result
    | (none, calls) => pure { self := self, ret := false, out := 0, calls := calls }
  | .texture_1d | .texture_2d => do
    -- Array or multisample textures are not supported in Direct3D 9
    if desc.depth_or_layers ≠ 1 ∨ desc.samples ≠ 1 then
      pure { self := self, ret := false, out := 0, calls := [] }
    else
      let (internal_desc, levels) ← convert_resource_desc_surface U desc D3DSURFACE_DESC.zero (some 0)
      let levels := levels.getD 0
      let call := native_call.CreateTexture internal_desc.Width internal_desc.Height levels
        internal_desc.Usage internal_desc.Format D3DPOOL_DEFAULT
      match orig.CreateTexture internal_desc.Width internal_desc.Height levels
        internal_desc.Usage internal_desc.Format D3DPOOL_DEFAULT with
      | some resource =>
        pure { self := { self with _resources := self._resources.register_object resource },
               ret := true, out := resource, calls := [call] }
      | none => pure { self := self, ret := false, out := 0, calls := [call] }
  | .texture_3d => do
    -- 3D textures can never have multisampling
    if desc.samples ≠ 1 then
      pure { self := self, ret := false, out := 0, calls := [] }
    else
      let (internal_desc, levels) ← convert_resource_desc_volume U desc D3DVOLUME_DESC.zero (some 0)
      let levels := levels.getD 0
      let call := native_call.CreateVolumeTexture internal_desc.Width internal_desc.Height
        internal_desc.Depth levels internal_desc.Usage internal_desc.Format D3DPOOL_DEFAULT
      match orig.CreateVolumeTexture internal_desc.Width internal_desc.Height
        internal_desc.Depth levels internal_desc.Usage internal_desc.Format D3DPOOL_DEFAULT with
      | some resource =>
        pure { self := { self with _resources := self._resources.register_object resource },
               ret := true, out := resource, calls := [call] }
      | none => pure { self := self, ret := false, out := 0, calls := [call] }
  | _ => pure { self := self, ret := false, out := 0, calls := [] }

/-- The method `device_impl::create_resource_view(resource, type, desc, out_view)`. -/
def device_impl.create_resource_view (U : resource_usage) (orig : IDirect3DDevice9)
    (self : device_impl) (resource : Nat) (type : resource_view_type) (desc : resource_view_desc) :
    Option (create_result device_impl native_call) := do
  assert (resource ≠ 0)
  -- Views with a different format than the resource are not supported in Direct3D 9
  let resource_desc ← self.get_resource_desc U orig resource
  assert (desc.format = resource_desc.format)
  let failed (calls : List native_call) : create_result device_impl native_call :=
    { self := self, ret := false, out := 0, calls := calls }
  if orig.GetType resource = D3DRTYPE_SURFACE then
    assert (desc.dimension = resource_view_dimension.texture_2d ∨
      desc.dimension = resource_view_dimension.texture_2d_multisample)
    assert (desc.first_layer = 0 ∧ (desc.layers = 1 ∨ desc.layers = uint32_max))
    if type = resource_view_type.depth_stencil ∨ type = resource_view_type.render_target then
      if desc.first_level ≠ 0 ∨ desc.levels ≠ 1 then pure (failed [])
      else pure { self := self, ret := true, out := resource, calls := [.AddRef resource] }
    else pure (failed [])
  else if orig.GetType resource = D3DRTYPE_TEXTURE then
    assert (desc.dimension = resource_view_dimension.texture_2d ∨
      desc.dimension = resource_view_dimension.texture_2d_multisample)
    assert (desc.first_layer = 0 ∧ (desc.layers = 1 ∨ desc.layers = uint32_max))
    if type = resource_view_type.depth_stencil ∨ type = resource_view_type.render_target then
      if desc.levels ≠ 1 then pure (failed [])
      else
        match orig.Texture_GetSurfaceLevel resource desc.first_level with
        | some surface =>
          pure { self := self, ret := true, out := surface,
                 calls := [.GetSurfaceLevel resource desc.first_level] }
        | none => pure (failed [.GetSurfaceLevel resource desc.first_level])
    else if type = resource_view_type.shader_resource ∧ desc.first_level = 0 then
      pure { self := self, ret := true, out := resource, calls := [.AddRef resource] }
    else pure (failed [])
  else if orig.GetType resource = D3DRTYPE_CUBETEXTURE then
    if type = resource_view_type.depth_stencil ∨ type = resource_view_type.render_target then
      assert (desc.dimension = resource_view_dimension.texture_2d ∨
        desc.dimension = resource_view_dimension.texture_2d_multisample)
      if desc.levels ≠ 1 ∨ desc.layers ≠ 1 then pure (failed [])
      else
        match orig.CubeTexture_GetCubeMapSurface resource desc.first_layer desc.first_level with
        | some surface =>
          pure { self := self, ret := true, out := surface,
                 calls := [.GetCubeMapSurface resource desc.first_layer desc.first_level] }
        | none => pure (failed [.GetCubeMapSurface resource desc.first_layer desc.first_level])
    else if type = resource_view_type.shader_resource ∧ desc.first_level = 0 ∧ desc.first_layer = 0 then
      assert (desc.dimension = resource_view_dimension.texture_cube)
      pure { self := self, ret := true, out := resource, calls := [.AddRef resource] }
    else pure (failed [])
  else pure (failed [])

/-- The method `device_impl::get_resource_from_view(view, out_resource)`: the handle
written to `out_resource`, `none` when the assertion fails. -/
def device_impl.get_resource_from_view (orig : IDirect3DDevice9) (_self : device_impl)
    (view : Nat) : Option Nat := do
  assert (view ≠ 0)
  if orig.QueryInterface_Surface view then
    match orig.Surface_GetContainer view with
    | some resource => pure resource
    | none =>
      -- If unable to get container, just return the resource directly
      pure view
  else
    pure view

def D3DPT_TRIANGLESTRIP : Nat := 5

def D3DCLEAR_TARGET : Nat := 0x1
def D3DCLEAR_ZBUFFER : Nat := 0x2
def D3DCLEAR_STENCIL : Nat := 0x4

/-- What a method without a result leaves behind: the calls it issued, in order,
and whether it returned; `returned` is `false` when an assertion failed, or a null
pointer was to be followed, after the calls. -/
structure command_result where
  calls : List native_call
  returned : Bool
deriving DecidableEq, Repr

/-- The loop
`for (DWORD target = 1; target < _caps.NumSimultaneousRTs; ++target)
   _orig->SetRenderTarget(target, nullptr);`. -/
def device_impl.unbind_render_targets (self : device_impl) : List native_call :=
  (List.range' 1 (self._caps.NumSimultaneousRTs - 1)).map fun target =>
    native_call.SetRenderTarget target 0

/-- The method `device_impl::copy_resource(source, destination)`.  The members of
`D3DRESOURCETYPE` are at most 7, so the shift by four bits loses nothing.  A
`com_ptr` that `GetSurfaceLevel` leaves empty holds the null pointer.  The call
`_copy_state->Apply()` goes through the pointer `_copy_state` holds: when that is
null (a device in the `Reset` state) the method stops there, after the capture of
the backup state, and does not return. -/
def device_impl.copy_resource (orig : IDirect3DDevice9) (self : device_impl)
    (source destination : Nat) : command_result :=
  if ¬ (source ≠ 0 ∧ destination ≠ 0) then { calls := [], returned := false }
  else
    let key := orig.GetType source ||| (orig.GetType destination <<< 4)
    if key = D3DRTYPE_SURFACE ||| (D3DRTYPE_SURFACE <<< 4) then
      { calls := [.StretchRect source 0 destination 0 D3DTEXF_NONE], returned := true }
    else if key = D3DRTYPE_SURFACE ||| (D3DRTYPE_TEXTURE <<< 4) then
      let destination_surface := (orig.Texture_GetSurfaceLevel destination 0).getD 0
      { calls := [.GetSurfaceLevel destination 0,
                  .StretchRect source 0 destination_surface 0 D3DTEXF_NONE],
        returned := true }
    else if key = D3DRTYPE_TEXTURE ||| (D3DRTYPE_TEXTURE <<< 4) then
      -- Capture and restore state, render targets, depth stencil surface and viewport
      -- Perform copy using rasterization pipeline
      if self._copy_state = 0 then
        { calls := [.backup_state_capture], returned := false }
      else
        let destination_surface := (orig.Texture_GetSurfaceLevel destination 0).getD 0
        { calls :=
            [.backup_state_capture,
             .StateBlock_Apply self._copy_state,
             .GetSurfaceLevel destination 0,
             .SetTexture 0 source,
             .SetRenderTarget 0 destination_surface] ++
            self.unbind_render_targets ++
            [.SetDepthStencilSurface 0,
             .DrawPrimitiveUP D3DPT_TRIANGLESTRIP 2 20,
             .backup_state_apply_and_release],
          returned := true }
    else if key = D3DRTYPE_TEXTURE ||| (D3DRTYPE_SURFACE <<< 4) then
      let source_surface := (orig.Texture_GetSurfaceLevel source 0).getD 0
      { calls := [.GetSurfaceLevel source 0,
                  .StretchRect source_surface 0 destination 0 D3DTEXF_NONE],
        returned := true }
    else
      -- Not implemented
      { calls := [], returned := false }

/-- The method `device_impl::clear_depth_stencil_view(dsv, clear_flags, depth, stencil)`;
`depth` is the 32-bit pattern of the `float`, which is handed on as it is. -/
def device_impl.clear_depth_stencil_view (_self : device_impl)
    (dsv clear_flags depth stencil : Nat) : command_result :=
  { calls :=
      [.backup_state_capture,
       .SetDepthStencilSurface dsv,
       .Clear 0 0
         ((if clear_flags &&& 0x1 ≠ 0 then D3DCLEAR_ZBUFFER else 0) |||
          (if clear_flags &&& 0x2 ≠ 0 then D3DCLEAR_STENCIL else 0))
         0 depth stencil,
       .backup_state_apply_and_release],
    returned := true }

/-- The method `device_impl::clear_render_target_view(rtv, color)`.  The four
`float` components of `color` are their 32-bit patterns; the macro
`D3DCOLOR_COLORVALUE` of the native headers, which packs them into a `D3DCOLOR`,
is the parameter `colorvalue`, and `0.0f` is the pattern `0`. -/
def device_impl.clear_render_target_view (colorvalue : Nat → Nat → Nat → Nat → Nat)
    (self : device_impl) (rtv : Nat) (color : Nat × Nat × Nat × Nat) : command_result :=
  { calls :=
      [.backup_state_capture,
       .SetRenderTarget 0 rtv] ++
      self.unbind_render_targets ++
      [.Clear 0 0 D3DCLEAR_TARGET (colorvalue color.1 color.2.1 color.2.2.1 color.2.2.2) 0 0,
       .backup_state_apply_and_release],
    returned := true }

/-- The constructor `device_impl::device_impl(device)`: the device it leaves and
what `on_after_reset` did to the outside, `none` when an assertion fails.  The
registry starts empty and the copy state block null; loading the add-ons is not
part of the two files. -/
def device_impl.construct (U : resource_usage) (orig : IDirect3DDevice9)
    (observer : addon_observer) : Option (device_impl × List native_call) := do
  let _caps := orig.GetDeviceCaps
  let _cp := orig.GetCreationParameters
  -- Limit maximum simultaneous number of render targets to 8 (usually only 4 in D3D9 anyway)
  let _caps :=
    { _caps with
        NumSimultaneousRTs := if _caps.NumSimultaneousRTs > 8 then 8 else _caps.NumSimultaneousRTs }
  let swapchain := (orig.GetSwapChain 0).getD 0
  assert (swapchain ≠ 0) -- There should always be an implicit swap chain
  let pp := orig.SwapChain_GetPresentParameters swapchain
  device_impl.on_after_reset U orig observer
    { _caps := _caps, _cp := _cp, _copy_state := 0, _resources := { objects := [] } } pp

end d3d9

/-! ## Sample inputs -/

namespace sample

/-- A 256-byte vertex buffer. -/
def buffer_desc : resource_desc :=
  { width := 256, height := 0, depth_or_layers := 0, levels := 0, format := 0, samples := 0,
    usage := usage_values.vertex_buffer }

/-- A 1D texture of width 64 with four array layers and three levels. -/
def texture1d_desc : resource_desc :=
  { width := 64, height := 1, depth_or_layers := 4, levels := 3, format := 28, samples := 1,
    usage := usage_values.shader_resource }

/-- A 640x480 render target with four samples per pixel. -/
def texture2d_desc : resource_desc :=
  { width := 640, height := 480, depth_or_layers := 1, levels := 1, format := 28, samples := 4,
    usage := usage_values.render_target ||| usage_values.shader_resource }

/-- A 32x32x32 volume texture with six levels. -/
def texture3d_desc : resource_desc :=
  { width := 32, height := 32, depth_or_layers := 32, levels := 6, format := 28, samples := 1,
    usage := usage_values.shader_resource }

/-- The creation parameters of a hardware device on the default adapter. -/
def creation_parameters : d3d9.D3DDEVICE_CREATION_PARAMETERS :=
  { AdapterOrdinal := 0, DeviceType := 1, hFocusWindow := 0, BehaviorFlags := 0 }

/-- Device capabilities without `D3DDEVCAPS2_CAN_STRETCHRECT_FROM_TEXTURES`. -/
def caps_plain : d3d9.D3DCAPS9 := { Caps2 := 0, NumSimultaneousRTs := 4 }

/-- Device capabilities with `D3DDEVCAPS2_CAN_STRETCHRECT_FROM_TEXTURES`. -/
def caps_stretch : d3d9.D3DCAPS9 := { Caps2 := 0x10, NumSimultaneousRTs := 4 }

/-- A 256x256 render target surface of format `A8R8G8B8` in the default pool. -/
def render_target_surface : d3d9.D3DSURFACE_DESC :=
  { Format := d3d9.D3DFMT_A8R8G8B8, Type_ := d3d9.D3DRTYPE_SURFACE, Usage := d3d9.D3DUSAGE_RENDERTARGET,
    Pool := d3d9.D3DPOOL_DEFAULT, MultiSampleType := 0, MultiSampleQuality := 0,
    Width := 256, Height := 256 }

/-- The native descriptor of a 256-byte vertex buffer. -/
def native_buffer : d3d10.D3D10_BUFFER_DESC :=
  { ByteWidth := 256, Usage := 0, BindFlags := d3d10.D3D10_BIND_VERTEX_BUFFER, CPUAccessFlags := 0,
    MiscFlags := 0 }

/-- The native descriptor of a 1D texture array bound as a shader resource. -/
def native_texture1d : d3d10.D3D10_TEXTURE1D_DESC :=
  { Width := 64, MipLevels := 3, ArraySize := 4, Format := 28, Usage := 0,
    BindFlags := d3d10.D3D10_BIND_SHADER_RESOURCE, CPUAccessFlags := 0, MiscFlags := 0 }

/-- The native descriptor of a 640x480 render target with four samples per pixel. -/
def native_texture2d : d3d10.D3D10_TEXTURE2D_DESC :=
  { Width := 640, Height := 480, MipLevels := 1, ArraySize := 1, Format := 28,
    SampleDesc := { Count := 4, Quality := 0 }, Usage := 0,
    BindFlags := d3d10.D3D10_BIND_RENDER_TARGET ||| d3d10.D3D10_BIND_SHADER_RESOURCE,
    CPUAccessFlags := 0, MiscFlags := 0 }

/-- The native descriptor of a 32x32x32 volume texture bound as a shader resource. -/
def native_texture3d : d3d10.D3D10_TEXTURE3D_DESC :=
  { Width := 32, Height := 32, Depth := 32, MipLevels := 6, Format := 28, Usage := 0,
    BindFlags := d3d10.D3D10_BIND_SHADER_RESOURCE, CPUAccessFlags := 0, MiscFlags := 0 }

/-- The level description of a 32x32x32 Direct3D 9 volume texture. -/
def volume_texture : d3d9.D3DVOLUME_DESC :=
  { Format := d3d9.D3DFMT_A8R8G8B8, Type_ := d3d9.D3DRTYPE_VOLUMETEXTURE, Usage := 0,
    Pool := d3d9.D3DPOOL_DEFAULT, Width := 32, Height := 32, Depth := 32 }

/-- The description of a 512-byte Direct3D 9 index buffer. -/
def index_buffer : d3d9.D3DINDEXBUFFER_DESC :=
  { Format := 101, Type_ := d3d9.D3DRTYPE_INDEXBUFFER, Usage := 0, Pool := d3d9.D3DPOOL_DEFAULT,
    Size := 512 }

/-- The description of a 512-byte Direct3D 9 vertex buffer. -/
def vertex_buffer : d3d9.D3DVERTEXBUFFER_DESC :=
  { Format := 100, Type_ := d3d9.D3DRTYPE_VERTEXBUFFER, Usage := 0, Pool := d3d9.D3DPOOL_DEFAULT,
    Size := 512, FVF := 0 }

/-- A 256x256 texture of the block-compressed format `DXT1` in the default pool. -/
def compressed_texture : d3d9.D3DSURFACE_DESC :=
  { Format := d3d9.D3DFMT_DXT1, Type_ := d3d9.D3DRTYPE_TEXTURE, Usage := 0,
    Pool := d3d9.D3DPOOL_DEFAULT, MultiSampleType := 0, MultiSampleQuality := 0,
    Width := 256, Height := 256 }

/-- A 256x256 render target surface of the format `NULL` in the default pool. -/
def null_surface : d3d9.D3DSURFACE_DESC :=
  { Format := d3d9.MAKEFOURCC 'N' 'U' 'L' 'L', Type_ := d3d9.D3DRTYPE_SURFACE,
    Usage := d3d9.D3DUSAGE_RENDERTARGET, Pool := d3d9.D3DPOOL_DEFAULT, MultiSampleType := 0,
    MultiSampleQuality := 0, Width := 256, Height := 256 }

/-- A view of two cubes (twelve layers) of a cube texture array. -/
def cube_array_view : resource_view_desc :=
  { dimension := .texture_cube_array, format := 28, first_level := 0, levels := 1,
    first_layer := 0, layers := 12 }

/-- A 256x256 render target texture with one level, as Direct3D 9 can create it. -/
def plain_texture_desc : resource_desc :=
  { width := 256, height := 256, depth_or_layers := 1, levels := 1, format := d3d9.D3DFMT_A8R8G8B8,
    samples := 1, usage := usage_values.render_target }

/-- A native 2D texture descriptor with every field set: a staging usage, access
and miscellaneous flags, a multisample quality, and the stream-output bind flag
(`0x10`) next to the depth-stencil one. -/
def busy_texture2d : d3d10.D3D10_TEXTURE2D_DESC :=
  { Width := 8, Height := 8, MipLevels := 9, ArraySize := 9, Format := 9,
    SampleDesc := { Count := 9, Quality := 7 }, Usage := 3,
    BindFlags := 0x10 ||| d3d10.D3D10_BIND_DEPTH_STENCIL,
    CPUAccessFlags := 0x10000, MiscFlags := 0x4 }

/-- A native surface descriptor with every field set: the level of a dynamic
(`0x200`) depth-stencil texture in the managed pool. -/
def busy_surface : d3d9.D3DSURFACE_DESC :=
  { Format := d3d9.D3DFMT_D24S8, Type_ := d3d9.D3DRTYPE_TEXTURE,
    Usage := 0x200 ||| d3d9.D3DUSAGE_DEPTHSTENCIL, Pool := 1, MultiSampleType := 4,
    MultiSampleQuality := 3, Width := 8, Height := 8 }

/-- What the render target surface looks like as an abstract descriptor. -/
def render_target_desc : resource_desc :=
  { width := 256, height := 256, depth_or_layers := 1, levels := 1, format := d3d9.D3DFMT_A8R8G8B8,
    samples := 1,
    usage := usage_values.render_target ||| usage_values.copy_source |||
      usage_values.copy_dest ||| usage_values.resolve_dest }

/-- A view of level 0 of a 2D texture of format `A8R8G8B8`. -/
def texture_view : resource_view_desc :=
  { dimension := .texture_2d, format := d3d9.D3DFMT_A8R8G8B8, first_level := 0, levels := 1,
    first_layer := 0, layers := 1 }

/-- A view descriptor that names a format and leaves the dimension unknown. -/
def unknown_view : resource_view_desc :=
  { dimension := .unknown, format := 28, first_level := 5, levels := 1,
    first_layer := 6, layers := 7 }

/-- A view of layers 4, 5 and 6 of level 2 of a 2D texture array. -/
def array_view : resource_view_desc :=
  { dimension := .texture_2d_array, format := 28, first_level := 2, levels := 1,
    first_layer := 4, layers := 3 }

/-- A view of the 64 elements of a buffer from element 16 on. -/
def buffer_view : resource_view_desc :=
  { dimension := .buffer, format := 28, first_level := 16, levels := 64,
    first_layer := 0, layers := 0 }

/-- The 256x256 automatic depth-stencil surface of format `D24S8`. -/
def depth_stencil_surface : d3d9.D3DSURFACE_DESC :=
  { Format := d3d9.D3DFMT_D24S8, Type_ := d3d9.D3DRTYPE_SURFACE,
    Usage := d3d9.D3DUSAGE_DEPTHSTENCIL, Pool := d3d9.D3DPOOL_DEFAULT, MultiSampleType := 0,
    MultiSampleQuality := 0, Width := 256, Height := 256 }

/-- The automatic depth-stencil surface when the application asked for non-maskable
multisampling of quality level 2. -/
def nonmaskable_depth_stencil_surface : d3d9.D3DSURFACE_DESC :=
  { depth_stencil_surface with
    MultiSampleType := d3d9.D3DMULTISAMPLE_NONMASKABLE, MultiSampleQuality := 2 }

/-- An add-on that leaves every description as it is. -/
def quiet_observer : d3d9.addon_observer :=
  { create_resource := fun _ desc => desc }

/-- A Direct3D 9 device in the `Reset` state: it has no copy state block. -/
def d3d9_reset : d3d9.device_impl :=
  { _caps := caps_plain, _cp := creation_parameters, _copy_state := 0,
    _resources := { objects := [] } }

/-- A Direct3D 10 device on which every resource creation stores the object at
address 4096 and every view creation the object at address 8192.  It knows two
formats: `R8G8B8A8_UNORM` (28), which can be sampled, rendered to and resolved,
and `D24_UNORM_S8_UINT` (45), which is a depth-stencil format. -/
def d3d10_device : d3d10.ID3D10Device1 :=
  { CreateBuffer := fun _ => some 4096
    CreateTexture1D := fun _ => some 4096
    CreateTexture2D := fun _ => some 4096
    CreateTexture3D := fun _ => some 4096
    CreateDepthStencilView := fun _ _ => some 8192
    CreateRenderTargetView := fun _ _ => some 8192
    CreateShaderResourceView := fun _ _ => some 8192
    CheckFormatSupport := fun Format =>
      if Format = 28 then some (d3d10.D3D10_FORMAT_SUPPORT_SHADER_SAMPLE |||
        d3d10.D3D10_FORMAT_SUPPORT_RENDER_TARGET ||| d3d10.D3D10_FORMAT_SUPPORT_MULTISAMPLE_RESOLVE)
      else if Format = 45 then some d3d10.D3D10_FORMAT_SUPPORT_DEPTH_STENCIL
      else none }

/-- A Direct3D 10 device on which every creation call fails. -/
def d3d10_failing_device : d3d10.ID3D10Device1 :=
  { CreateBuffer := fun _ => none
    CreateTexture1D := fun _ => none
    CreateTexture2D := fun _ => none
    CreateTexture3D := fun _ => none
    CreateDepthStencilView := fun _ _ => none
    CreateRenderTargetView := fun _ _ => none
    CreateShaderResourceView := fun _ _ => none
    CheckFormatSupport := fun _ => none }

/-- A Direct3D 10 device that has not created anything yet. -/
def d3d10_fresh : d3d10.device_impl :=
  { _resources := { objects := [] }, _views := { objects := [] } }

/-- A Direct3D 9 device on which every resource creation stores the object at
address 4096, a 256x256 `A8R8G8B8` render target texture with one level, whose
level 0 is the surface at address 8192.  Recording the copy state block gives the
block at address 12288, the automatic depth-stencil surface is at address 16384,
and `A8R8G8B8` is supported for everything but depth-stencil use. -/
def d3d9_device : d3d9.IDirect3DDevice9 :=
  { CreateIndexBuffer := fun _ _ _ _ => some 4096
    CreateVertexBuffer := fun _ _ _ _ => some 4096
    CreateTexture := fun _ _ _ _ _ _ => some 4096
    CreateVolumeTexture := fun _ _ _ _ _ _ _ => some 4096
    GetType := fun object => if object = 4096 then d3d9.D3DRTYPE_TEXTURE else d3d9.D3DRTYPE_SURFACE
    Surface_GetDesc := fun surface =>
      if surface = 16384 then depth_stencil_surface else render_target_surface
    Texture_GetLevelDesc := fun _ _ => render_target_surface
    Texture_GetLevelCount := fun _ => 1
    Texture_GetSurfaceLevel := fun _ Level => if Level = 0 then some 8192 else none
    VolumeTexture_GetLevelDesc := fun _ _ => volume_texture
    VolumeTexture_GetLevelCount := fun _ => 1
    CubeTexture_GetLevelDesc := fun _ _ => render_target_surface
    CubeTexture_GetLevelCount := fun _ => 1
    CubeTexture_GetCubeMapSurface := fun _ _ _ => none
    VertexBuffer_GetDesc := fun _ => vertex_buffer
    IndexBuffer_GetDesc := fun _ => index_buffer
    BeginStateBlock := true
    EndStateBlock := some 12288
    backup_state_init_state_block := true
    GetDepthStencilSurface := some 16384
    CheckDeviceFormat := fun _ _ _ Usage _ CheckFormat =>
      decide (CheckFormat = d3d9.D3DFMT_A8R8G8B8 ∧ Usage &&& d3d9.D3DUSAGE_DEPTHSTENCIL = 0)
    QueryInterface_Surface := fun object => decide (object ≠ 4096)
    Surface_GetContainer := fun surface => if surface = 8192 then some 4096 else none
    GetDeviceCaps := caps_plain
    GetCreationParameters := creation_parameters
    GetSwapChain := fun iSwapChain => if iSwapChain = 0 then some 20480 else none
    SwapChain_GetPresentParameters := fun _ => { EnableAutoDepthStencil := 1 } }

/-- The same Direct3D 9 device when it is out of memory: every creation call fails. -/
def d3d9_failing_device : d3d9.IDirect3DDevice9 :=
  { d3d9_device with
    CreateIndexBuffer := fun _ _ _ _ => none
    CreateVertexBuffer := fun _ _ _ _ => none
    CreateTexture := fun _ _ _ _ _ _ => none
    CreateVolumeTexture := fun _ _ _ _ _ _ _ => none
    Texture_GetSurfaceLevel := fun _ _ => none }

/-- A Direct3D 9 device that is active (its copy state block is at address 12288)
and has not created anything yet. -/
def d3d9_fresh : d3d9.device_impl :=
  { _caps := caps_plain, _cp := creation_parameters, _copy_state := 12288,
    _resources := { objects := [] } }

end sample

/-! ## Facts about bit masks -/

theorem land_lor (a b m : Nat) : (a ||| b) &&& m = (a &&& m) ||| (b &&& m) := by
  apply Nat.eq_of_testBit_eq; intro i
  simp only [Nat.testBit_and, Nat.testBit_or]
  cases a.testBit i <;> cases b.testBit i <;> cases m.testBit i <;> rfl

theorem lor_eq_zero {a b : Nat} : a ||| b = 0 ↔ a = 0 ∧ b = 0 := by
  constructor
  · intro h
    constructor
    · apply Nat.eq_of_testBit_eq; intro i
      have := congrArg (fun n => Nat.testBit n i) h
      simp only [Nat.testBit_or, Nat.zero_testBit] at this ⊢
      cases hx : a.testBit i <;> simp_all
    · apply Nat.eq_of_testBit_eq; intro i
      have := congrArg (fun n => Nat.testBit n i) h
      simp only [Nat.testBit_or, Nat.zero_testBit] at this ⊢
      cases hx : b.testBit i <;> simp_all
  · rintro ⟨rfl, rfl⟩; rfl

theorem lor_land_self (a m : Nat) : (a ||| m) &&& m = m := by
  apply Nat.eq_of_testBit_eq; intro i
  simp only [Nat.testBit_and, Nat.testBit_or]
  cases a.testBit i <;> cases m.testBit i <;> rfl

/-- A usage without unordered access passes `convert_usage_to_bind_flags`. -/
theorem d3d10.convert_usage_to_bind_flags_isSome (U : resource_usage) (usage b : Nat)
    (hu : usage &&& U.unordered_access = 0) :
    ∃ b', d3d10.convert_usage_to_bind_flags U usage b = some b' := by
  simp [d3d10.convert_usage_to_bind_flags, assert, hu]

theorem has_flag_lor (a b m : Nat) : has_flag (a ||| b) m ↔ has_flag a m ∨ has_flag b m := by
  unfold has_flag
  rw [land_lor, Ne, lor_eq_zero]
  tauto

theorem not_has_flag_zero (m : Nat) : ¬ has_flag 0 m := by
  simp [has_flag]

theorem not_has_flag_cond_lor {u f m : Nat} (c : Prop) [Decidable c]
    (hu : ¬ has_flag u m) (hf : ¬ has_flag f m) : ¬ has_flag (if c then u ||| f else u) m := by
  split <;> simp [has_flag_lor, hu, hf]

/-- Two different flags of a bitset with distinct flags share no bit. -/
theorem api.resource_usage.distinct.not_has_flag {U : resource_usage} (hU : U.distinct)
    {i j : Nat} (hi : i < U.flags.length) (hj : j < U.flags.length) (hij : i ≠ j) :
    ¬ has_flag U.flags[i] U.flags[j] := by
  have h := hU.1
  rw [List.pairwise_iff_getElem] at h
  unfold has_flag
  rw [not_not]
  rcases Nat.lt_or_gt_of_ne hij with h1 | h1
  · exact h i j hi hj h1
  · rw [Nat.and_comm]; exact h j i hj hi h1

/-- Every flag of a bitset with distinct flags is found in itself. -/
theorem api.resource_usage.distinct.has_flag_self {U : resource_usage} (hU : U.distinct)
    {i : Nat} (hi : i < U.flags.length) : has_flag U.flags[i] U.flags[i] := by
  unfold has_flag
  rw [Nat.and_self]
  exact (hU.2 _ (List.getElem_mem _)).1

/-- The flags `convert_bind_flags_to_usage` adds are never `unordered_access`. -/
theorem d3d10.convert_bind_flags_to_usage_not_unordered_access {U : resource_usage}
    (hU : U.distinct) (bind_flags usage : Nat) (hu : ¬ has_flag usage U.unordered_access) :
    ¬ has_flag (d3d10.convert_bind_flags_to_usage U bind_flags usage) U.unordered_access := by
  have h0 : ¬ has_flag U.render_target U.unordered_access :=
    hU.not_has_flag (i := 0) (j := 3) (by simp [resource_usage.flags]) (by simp [resource_usage.flags]) (by decide)
  have h1 : ¬ has_flag U.depth_stencil U.unordered_access :=
    hU.not_has_flag (i := 1) (j := 3) (by simp [resource_usage.flags]) (by simp [resource_usage.flags]) (by decide)
  have h2 : ¬ has_flag U.shader_resource U.unordered_access :=
    hU.not_has_flag (i := 2) (j := 3) (by simp [resource_usage.flags]) (by simp [resource_usage.flags]) (by decide)
  have h4 : ¬ has_flag U.index_buffer U.unordered_access :=
    hU.not_has_flag (i := 4) (j := 3) (by simp [resource_usage.flags]) (by simp [resource_usage.flags]) (by decide)
  have h5 : ¬ has_flag U.vertex_buffer U.unordered_access :=
    hU.not_has_flag (i := 5) (j := 3) (by simp [resource_usage.flags]) (by simp [resource_usage.flags]) (by decide)
  have h6 : ¬ has_flag U.constant_buffer U.unordered_access :=
    hU.not_has_flag (i := 6) (j := 3) (by simp [resource_usage.flags]) (by simp [resource_usage.flags]) (by decide)
  have h7 : ¬ has_flag U.copy_source U.unordered_access :=
    hU.not_has_flag (i := 7) (j := 3) (by simp [resource_usage.flags]) (by simp [resource_usage.flags]) (by decide)
  have h8 : ¬ has_flag U.copy_dest U.unordered_access :=
    hU.not_has_flag (i := 8) (j := 3) (by simp [resource_usage.flags]) (by simp [resource_usage.flags]) (by decide)
  have hbase : ¬ has_flag (usage ||| (U.copy_dest ||| U.copy_source)) U.unordered_access := by
    simp only [has_flag_lor, hu, h7, h8, or_self, not_false_eq_true]
  exact not_has_flag_cond_lor _ (not_has_flag_cond_lor _ (not_has_flag_cond_lor _
    (not_has_flag_cond_lor _ (not_has_flag_cond_lor _ (not_has_flag_cond_lor _ hbase h0) h1) h2)
    h4) h5) h6

/-- The flags `convert_d3d_usage_to_usage` adds are never `unordered_access`. -/
theorem d3d9.convert_d3d_usage_to_usage_not_unordered_access {U : resource_usage}
    (hU : U.distinct) (d3d_usage usage : Nat) (hu : ¬ has_flag usage U.unordered_access) :
    ¬ has_flag (d3d9.convert_d3d_usage_to_usage U d3d_usage usage) U.unordered_access := by
  have h0 : ¬ has_flag U.render_target U.unordered_access :=
    hU.not_has_flag (i := 0) (j := 3) (by simp [resource_usage.flags]) (by simp [resource_usage.flags]) (by decide)
  have h1 : ¬ has_flag U.depth_stencil U.unordered_access :=
    hU.not_has_flag (i := 1) (j := 3) (by simp [resource_usage.flags]) (by simp [resource_usage.flags]) (by decide)
  exact not_has_flag_cond_lor _ (not_has_flag_cond_lor _ hu h0) h1

namespace d3d9

/-- The comparison `MultiSampleType >= D3DMULTISAMPLE_2_SAMPLES` on the 32-bit word
of the member: it holds from 2 up to, and without, `2^31`. -/
theorem to_int32_ge_2_samples (m : Nat) :
    to_int32 m ≥ to_int32 D3DMULTISAMPLE_2_SAMPLES ↔
      2 ≤ m % 4294967296 ∧ m % 4294967296 < 2147483648 := by
  have e : to_int32 D3DMULTISAMPLE_2_SAMPLES = 2 := by decide
  rw [e]
  unfold to_int32
  split <;> omega

/-- On a multisample type that fits 16 bits the comparison is the one of the
numbers. -/
theorem to_int32_ge_2_samples_of_lt {m : Nat} (h : m < 65536) :
    to_int32 m ≥ to_int32 D3DMULTISAMPLE_2_SAMPLES ↔ m ≥ 2 := by
  rw [to_int32_ge_2_samples]
  omega

/-- The usage `convert_resource_desc` infers for a surface, texture or cube texture. -/
theorem convert_resource_desc_from_surface_usage {U : resource_usage} {s : D3DSURFACE_DESC}
    {levels : Nat} {caps : D3DCAPS9} {r : resource_desc}
    (h : convert_resource_desc_from_surface U s levels caps = some r)
    (base : Nat)
    (hbase : base = if s.Type_ = D3DRTYPE_TEXTURE ∨ s.Type_ = D3DRTYPE_CUBETEXTURE then
        convert_d3d_usage_to_usage U s.Usage 0 ||| U.shader_resource
      else convert_d3d_usage_to_usage U s.Usage 0) :
    r.usage =
      if (s.Pool = D3DPOOL_DEFAULT ∧ (s.Type_ = D3DRTYPE_SURFACE ∨ (s.Type_ = D3DRTYPE_TEXTURE ∧
            caps.Caps2 &&& D3DDEVCAPS2_CAN_STRETCHRECT_FROM_TEXTURES ≠ 0))) ∧
          s.Format ∉ [D3DFMT_DXT1, D3DFMT_DXT2, D3DFMT_DXT3, D3DFMT_DXT4, D3DFMT_DXT5,
            D3DFMT_D16_LOCKABLE, D3DFMT_D32, D3DFMT_D15S1, D3DFMT_D24S8, D3DFMT_D24X8,
            D3DFMT_D24X4S4, D3DFMT_D16, D3DFMT_D32F_LOCKABLE, D3DFMT_D24FS8, D3DFMT_D32_LOCKABLE,
            D3DFMT_S8_LOCKABLE, MAKEFOURCC 'N' 'U' 'L' 'L'] then
        if s.Usage &&& D3DUSAGE_RENDERTARGET ≠ 0 then
          (if to_int32 s.MultiSampleType ≥ to_int32 D3DMULTISAMPLE_2_SAMPLES then
            base ||| U.copy_source ||| U.resolve_source else base ||| U.copy_source) |||
            (U.copy_dest ||| U.resolve_dest)
        else
          (if to_int32 s.MultiSampleType ≥ to_int32 D3DMULTISAMPLE_2_SAMPLES then
            base ||| U.copy_source ||| U.resolve_source else base ||| U.copy_source)
      else base := by
  subst hbase
  unfold convert_resource_desc_from_surface at h
  generalize D3DFMT_DXT1 = c1 at h ⊢
  generalize D3DFMT_DXT2 = c2 at h ⊢
  generalize D3DFMT_DXT3 = c3 at h ⊢
  generalize D3DFMT_DXT4 = c4 at h ⊢
  generalize D3DFMT_DXT5 = c5 at h ⊢
  generalize D3DFMT_D16_LOCKABLE = c6 at h ⊢
  generalize D3DFMT_D32 = c7 at h ⊢
  generalize D3DFMT_D15S1 = c8 at h ⊢
  generalize D3DFMT_D24S8 = c9 at h ⊢
  generalize D3DFMT_D24X8 = c10 at h ⊢
  generalize D3DFMT_D24X4S4 = c11 at h ⊢
  generalize D3DFMT_D16 = c12 at h ⊢
  generalize D3DFMT_D32F_LOCKABLE = c13 at h ⊢
  generalize D3DFMT_D24FS8 = c14 at h ⊢
  generalize D3DFMT_D32_LOCKABLE = c15 at h ⊢
  generalize D3DFMT_S8_LOCKABLE = c16 at h ⊢
  generalize MAKEFOURCC 'N' 'U' 'L' 'L' = c17 at h ⊢
  by_cases hT : s.Type_ = D3DRTYPE_SURFACE ∨ s.Type_ = D3DRTYPE_TEXTURE ∨ s.Type_ = D3DRTYPE_CUBETEXTURE
  swap
  · simp only [assert, if_neg hT, Option.bind_eq_bind, Option.none_bind, reduceCtorEq] at h
  simp only [assert, if_pos hT, Option.pure_def, Option.bind_eq_bind, Option.some_bind] at h
  by_cases hL : levels ≤ uint16_max
  swap
  · simp only [if_neg hL, Option.none_bind, reduceCtorEq] at h
  simp only [if_pos hL, Option.some_bind, resource_desc.zero] at h
  simp only [List.mem_cons, List.mem_singleton, List.not_mem_nil, or_false, not_or]
  by_cases hC : s.Pool = D3DPOOL_DEFAULT ∧ (s.Type_ = D3DRTYPE_SURFACE ∨ (s.Type_ = D3DRTYPE_TEXTURE ∧
            caps.Caps2 &&& D3DDEVCAPS2_CAN_STRETCHRECT_FROM_TEXTURES ≠ 0))
  swap
  · rw [if_neg hC] at h
    rw [if_neg (fun hh => hC hh.1)]
    cases h; rfl
  rw [if_pos hC] at h
  by_cases h1 : s.Format = c1 ∨ s.Format = c2 ∨ s.Format = c3 ∨ s.Format = c4 ∨ s.Format = c5
  · rw [if_pos h1] at h
    have hn : ¬ ((s.Pool = D3DPOOL_DEFAULT ∧ (s.Type_ = D3DRTYPE_SURFACE ∨
        (s.Type_ = D3DRTYPE_TEXTURE ∧ caps.Caps2 &&& D3DDEVCAPS2_CAN_STRETCHRECT_FROM_TEXTURES ≠ 0))) ∧
        ¬s.Format = c1 ∧ ¬s.Format = c2 ∧ ¬s.Format = c3 ∧ ¬s.Format = c4 ∧ ¬s.Format = c5 ∧
        ¬s.Format = c6 ∧ ¬s.Format = c7 ∧ ¬s.Format = c8 ∧ ¬s.Format = c9 ∧ ¬s.Format = c10 ∧
        ¬s.Format = c11 ∧ ¬s.Format = c12 ∧ ¬s.Format = c13 ∧ ¬s.Format = c14 ∧ ¬s.Format = c15 ∧
        ¬s.Format = c16 ∧ ¬s.Format = c17) := by
      rintro ⟨-, n1, n2, n3, n4, n5, -⟩
      rcases h1 with e | e | e | e | e <;> contradiction
    rw [if_neg hn]
    cases h; rfl
  rw [if_neg h1] at h
  by_cases h2 : s.Format = c6 ∨ s.Format = c7 ∨ s.Format = c8 ∨ s.Format = c9 ∨ s.Format = c10 ∨
      s.Format = c11 ∨ s.Format = c12 ∨ s.Format = c13 ∨ s.Format = c14 ∨ s.Format = c15 ∨
      s.Format = c16
  · rw [if_pos h2] at h
    have hn : ¬ ((s.Pool = D3DPOOL_DEFAULT ∧ (s.Type_ = D3DRTYPE_SURFACE ∨
        (s.Type_ = D3DRTYPE_TEXTURE ∧ caps.Caps2 &&& D3DDEVCAPS2_CAN_STRETCHRECT_FROM_TEXTURES ≠ 0))) ∧
        ¬s.Format = c1 ∧ ¬s.Format = c2 ∧ ¬s.Format = c3 ∧ ¬s.Format = c4 ∧ ¬s.Format = c5 ∧
        ¬s.Format = c6 ∧ ¬s.Format = c7 ∧ ¬s.Format = c8 ∧ ¬s.Format = c9 ∧ ¬s.Format = c10 ∧
        ¬s.Format = c11 ∧ ¬s.Format = c12 ∧ ¬s.Format = c13 ∧ ¬s.Format = c14 ∧ ¬s.Format = c15 ∧
        ¬s.Format = c16 ∧ ¬s.Format = c17) := by
      rintro ⟨-, -, -, -, -, -, n6, n7, n8, n9, n10, n11, n12, n13, n14, n15, n16, -⟩
      rcases h2 with e | e | e | e | e | e | e | e | e | e | e <;> contradiction
    rw [if_neg hn]
    by_cases hds : s.Usage &&& D3DUSAGE_DEPTHSTENCIL ≠ 0
    · rw [if_pos hds] at h
      cases h; rfl
    · rw [if_neg hds] at h
      cases h
  rw [if_neg h2] at h
  by_cases h3 : s.Format = c17
  · rw [if_pos h3] at h
    have hn : ¬ ((s.Pool = D3DPOOL_DEFAULT ∧ (s.Type_ = D3DRTYPE_SURFACE ∨
        (s.Type_ = D3DRTYPE_TEXTURE ∧ caps.Caps2 &&& D3DDEVCAPS2_CAN_STRETCHRECT_FROM_TEXTURES ≠ 0))) ∧
        ¬s.Format = c1 ∧ ¬s.Format = c2 ∧ ¬s.Format = c3 ∧ ¬s.Format = c4 ∧ ¬s.Format = c5 ∧
        ¬s.Format = c6 ∧ ¬s.Format = c7 ∧ ¬s.Format = c8 ∧ ¬s.Format = c9 ∧ ¬s.Format = c10 ∧
        ¬s.Format = c11 ∧ ¬s.Format = c12 ∧ ¬s.Format = c13 ∧ ¬s.Format = c14 ∧ ¬s.Format = c15 ∧
        ¬s.Format = c16 ∧ ¬s.Format = c17) := by
      rintro ⟨-, -, -, -, -, -, -, -, -, -, -, -, -, -, -, -, -, n17⟩
      contradiction
    rw [if_neg hn]
    cases h; rfl
  rw [if_neg h3] at h
  simp only [not_or] at h1 h2
  rw [if_pos ⟨hC, h1.1, h1.2.1, h1.2.2.1, h1.2.2.2.1, h1.2.2.2.2, h2.1, h2.2.1, h2.2.2.1,
    h2.2.2.2.1, h2.2.2.2.2.1, h2.2.2.2.2.2.1, h2.2.2.2.2.2.2.1, h2.2.2.2.2.2.2.2.1,
    h2.2.2.2.2.2.2.2.2.1, h2.2.2.2.2.2.2.2.2.2.1, h2.2.2.2.2.2.2.2.2.2.2, h3⟩]
  cases h; rfl

end d3d9

/-! ## Facts about the registry and the creation entry points -/

theorem object_registry.has_object_register_self (r : object_registry) (p : Nat) :
    (r.register_object p).has_object p = true := by
  simp [object_registry.has_object, object_registry.register_object]

theorem object_registry.has_object_register_of_has (r : object_registry) (p q : Nat)
    (h : r.has_object q = true) : (r.register_object p).has_object q = true := by
  simp only [object_registry.has_object, object_registry.register_object, decide_eq_true_eq,
    List.mem_cons] at h ⊢
  exact Or.inr h

/-- The sample Direct3D 10 device stores non-null objects. -/
theorem sample.d3d10_device_returns_objects : sample.d3d10_device.returns_objects := by
  refine ⟨?_, ?_, ?_, ?_, ?_, ?_, ?_⟩ <;> intros <;> simp_all [sample.d3d10_device] <;> omega

/-- The failing sample Direct3D 10 device stores no object at all. -/
theorem sample.d3d10_failing_device_returns_objects : sample.d3d10_failing_device.returns_objects := by
  refine ⟨?_, ?_, ?_, ?_, ?_, ?_, ?_⟩ <;> intros <;> simp_all [sample.d3d10_failing_device]

/-- The sample Direct3D 9 device stores non-null objects. -/
theorem sample.d3d9_device_returns_objects : sample.d3d9_device.returns_objects := by
  refine ⟨?_, ?_, ?_, ?_, ?_, ?_⟩ <;> intros <;> simp_all [sample.d3d9_device] <;> omega

/-- The failing sample Direct3D 9 device stores no object at all. -/
theorem sample.d3d9_failing_device_returns_objects : sample.d3d9_failing_device.returns_objects := by
  refine ⟨?_, ?_, ?_, ?_, ?_, ?_⟩ <;> intros <;>
    simp_all [sample.d3d9_failing_device, sample.d3d9_device]

namespace d3d10

theorem d3d10_answer_ne_zero {orig : ID3D10Device1} (ho : orig.returns_objects)
    {c : native_call} {p : Nat} (h : orig.answer c = some p) : p ≠ 0 := by
  obtain ⟨h1, h2, h3, h4, h5, h6, h7⟩ := ho
  cases c with
  | CreateBuffer d => exact h1 _ _ h
  | CreateTexture1D d => exact h2 _ _ h
  | CreateTexture2D d => exact h3 _ _ h
  | CreateTexture3D d => exact h4 _ _ h
  | CreateDepthStencilView r d => exact h5 _ _ _ h
  | CreateRenderTargetView r d => exact h6 _ _ _ h
  | CreateShaderResourceView r d => exact h7 _ _ _ h

/-- The two ways `create_resource` ends. -/
theorem d3d10_create_resource_cases {U : resource_usage} {orig : ID3D10Device1}
    {self : device_impl} {type : resource_type} {desc : resource_desc}
    {res : create_result device_impl native_call}
    (h : self.create_resource U orig type desc = some res) :
    (res.ret = false ∧ res.out = 0 ∧ res.self = self) ∨
    (res.ret = true ∧
      res.self = { self with _resources := self._resources.register_object res.out } ∧
      ∃ c, res.calls = [c] ∧ orig.answer c = some res.out) := by
  unfold device_impl.create_resource at h
  cases type
  case unknown => simp only [Option.pure_def, Option.some.injEq] at h; subst h; simp
  case surface => simp only [Option.pure_def, Option.some.injEq] at h; subst h; simp
  case buffer =>
    simp only [Option.pure_def, Option.bind_eq_bind] at h
    cases hc : convert_resource_desc_buffer U desc D3D10_BUFFER_DESC.zero with
    | none => simp [hc] at h
    | some n =>
      simp only [hc, Option.some_bind] at h
      cases ho : orig.CreateBuffer n with
      | none => simp only [ho, Option.some.injEq] at h; subst h; simp
      | some p =>
        simp only [ho, Option.some.injEq] at h; subst h
        exact Or.inr ⟨rfl, rfl, _, rfl, ho⟩
  case texture_1d =>
    simp only [Option.pure_def, Option.bind_eq_bind] at h
    cases hc : convert_resource_desc_texture1d U desc D3D10_TEXTURE1D_DESC.zero with
    | none => simp [hc] at h
    | some n =>
      simp only [hc, Option.some_bind] at h
      cases ho : orig.CreateTexture1D n with
      | none => simp only [ho, Option.some.injEq] at h; subst h; simp
      | some p =>
        simp only [ho, Option.some.injEq] at h; subst h
        exact Or.inr ⟨rfl, rfl, _, rfl, ho⟩
  case texture_2d =>
    simp only [Option.pure_def, Option.bind_eq_bind] at h
    cases hc : convert_resource_desc_texture2d U desc D3D10_TEXTURE2D_DESC.zero with
    | none => simp [hc] at h
    | some n =>
      simp only [hc, Option.some_bind] at h
      cases ho : orig.CreateTexture2D n with
      | none => simp only [ho, Option.some.injEq] at h; subst h; simp
      | some p =>
        simp only [ho, Option.some.injEq] at h; subst h
        exact Or.inr ⟨rfl, rfl, _, rfl, ho⟩
  case texture_3d =>
    simp only [Option.pure_def, Option.bind_eq_bind] at h
    cases hc : convert_resource_desc_texture3d U desc D3D10_TEXTURE3D_DESC.zero with
    | none => simp [hc] at h
    | some n =>
      simp only [hc, Option.some_bind] at h
      cases ho : orig.CreateTexture3D n with
      | none => simp only [ho, Option.some.injEq] at h; subst h; simp
      | some p =>
        simp only [ho, Option.some.injEq] at h; subst h
        exact Or.inr ⟨rfl, rfl, _, rfl, ho⟩

/-- The two ways `create_resource_view` ends. -/
theorem d3d10_create_resource_view_cases {orig : ID3D10Device1}
    {self : device_impl} {resource : Nat} {type : resource_view_type} {desc : resource_view_desc}
    {res : create_result device_impl native_call}
    (h : self.create_resource_view orig resource type desc = some res) :
    (res.ret = false ∧ res.out = 0 ∧ res.self = self) ∨
    (res.ret = true ∧
      res.self = { self with _views := self._views.register_object res.out } ∧
      ∃ c, res.calls = [c] ∧ orig.answer c = some res.out) := by
  unfold device_impl.create_resource_view at h
  by_cases hr : resource ≠ 0
  swap
  · simp [assert, hr] at h
  simp only [assert, if_pos hr, Option.pure_def, Option.bind_eq_bind, Option.some_bind] at h
  cases type with
  | unknown => simp only [Option.some.injEq] at h; subst h; simp
  | depth_stencil =>
    cases hc : convert_resource_view_desc_dsv desc D3D10_DEPTH_STENCIL_VIEW_DESC.zero with
    | none => simp [hc] at h
    | some n =>
      simp only [hc, Option.some_bind] at h
      cases ho : orig.CreateDepthStencilView resource n with
      | none => simp only [ho, Option.some.injEq] at h; subst h; simp
      | some p =>
        simp only [ho, Option.some.injEq] at h; subst h
        exact Or.inr ⟨rfl, rfl, _, rfl, ho⟩
  | render_target =>
    cases hc : convert_resource_view_desc_rtv desc D3D10_RENDER_TARGET_VIEW_DESC.zero with
    | none => simp [hc] at h
    | some n =>
      simp only [hc, Option.some_bind] at h
      cases ho : orig.CreateRenderTargetView resource n with
      | none => simp only [ho, Option.some.injEq] at h; subst h; simp
      | some p =>
        simp only [ho, Option.some.injEq] at h; subst h
        exact Or.inr ⟨rfl, rfl, _, rfl, ho⟩
  | shader_resource =>
    cases hc : convert_resource_view_desc_srv desc D3D10_SHADER_RESOURCE_VIEW_DESC.zero with
    | none => simp [hc] at h
    | some n =>
      simp only [hc, Option.some_bind] at h
      cases ho : orig.CreateShaderResourceView resource n with
      | none => simp only [ho, Option.some.injEq] at h; subst h; simp
      | some p =>
        simp only [ho, Option.some.injEq] at h; subst h
        exact Or.inr ⟨rfl, rfl, _, rfl, ho⟩

end d3d10

namespace d3d9

theorem d3d9_answer_ne_zero {orig : IDirect3DDevice9} (ho : orig.returns_objects)
    {c : native_call} {p : Nat} (h : orig.answer c = some p) : p ≠ 0 := by
  obtain ⟨h1, h2, h3, h4, h5, h6⟩ := ho
  cases c with
  | CreateIndexBuffer l u f q => exact h1 _ _ _ _ _ h
  | CreateVertexBuffer l u f q => exact h2 _ _ _ _ _ h
  | CreateTexture w hh l u f q => exact h3 _ _ _ _ _ _ _ h
  | CreateVolumeTexture w hh d l u f q => exact h4 _ _ _ _ _ _ _ _ h
  | GetSurfaceLevel t l => exact h5 _ _ _ h
  | GetCubeMapSurface t f l => exact h6 _ _ _ _ h
  | _ => simp [IDirect3DDevice9.answer] at h

/-- When the `buffer` case of `create_resource` returns, it returns `true`, has
registered the handle it wrote, and that handle is the answer to the last call. -/
theorem d3d9_create_resource_buffer_some {U : resource_usage} {orig : IDirect3DDevice9}
    {self : device_impl} {desc : resource_desc}
    {res : create_result device_impl native_call} {calls : List native_call}
    (h : self.create_resource_buffer U orig desc = some (some res, calls)) :
    res.ret = true ∧
      res.self = { self with _resources := self._resources.register_object res.out } ∧
      ∃ c, res.calls.getLast? = some c ∧ orig.answer c = some res.out := by
  unfold device_impl.create_resource_buffer at h
  simp only [Option.pure_def, Option.bind_eq_bind] at h
  have second : ∀ calls0 : List native_call,
      (if desc.usage = U.vertex_buffer then
        (convert_resource_desc_vertex_buffer U desc D3DVERTEXBUFFER_DESC.zero).bind fun internal_desc =>
          match orig.CreateVertexBuffer internal_desc.Size internal_desc.Usage 0 D3DPOOL_DEFAULT with
          | some resource =>
            some (some { self := { self with _resources := self._resources.register_object resource },
                         ret := true, out := resource,
                         calls := calls0 ++ [native_call.CreateVertexBuffer internal_desc.Size
                           internal_desc.Usage 0 D3DPOOL_DEFAULT] },
                  calls0 ++ [native_call.CreateVertexBuffer internal_desc.Size
                    internal_desc.Usage 0 D3DPOOL_DEFAULT])
          | none => some (none, calls0 ++ [native_call.CreateVertexBuffer internal_desc.Size
                    internal_desc.Usage 0 D3DPOOL_DEFAULT])
      else some (none, calls0)) = some (some res, calls) →
      res.ret = true ∧
        res.self = { self with _resources := self._resources.register_object res.out } ∧
        ∃ c, res.calls.getLast? = some c ∧ orig.answer c = some res.out := by
    intro calls0 h2
    by_cases hv : desc.usage = U.vertex_buffer
    swap
    · simp [if_neg hv] at h2
    rw [if_pos hv] at h2
    cases hc : convert_resource_desc_vertex_buffer U desc D3DVERTEXBUFFER_DESC.zero with
    | none => simp [hc] at h2
    | some n =>
      simp only [hc, Option.some_bind] at h2
      cases ho : orig.CreateVertexBuffer n.Size n.Usage 0 D3DPOOL_DEFAULT with
      | none => simp [ho] at h2
      | some p =>
        simp only [ho, Option.some.injEq, Prod.mk.injEq] at h2
        obtain ⟨h2, -⟩ := h2
        subst h2
        exact ⟨rfl, rfl, _, List.getLast?_concat _, ho⟩
  by_cases hi : desc.usage = U.index_buffer
  · rw [if_pos hi] at h
    cases hc : convert_resource_desc_index_buffer U desc D3DINDEXBUFFER_DESC.zero with
    | none => simp [hc] at h
    | some n =>
      simp only [hc, Option.some_bind] at h
      cases ho : orig.CreateIndexBuffer n.Size n.Usage D3DFMT_UNKNOWN D3DPOOL_DEFAULT with
      | none =>
        simp only [ho, Option.some_bind] at h
        exact second _ h
      | some p =>
        simp only [ho, Option.some_bind, Option.some.injEq, Prod.mk.injEq] at h
        obtain ⟨h, -⟩ := h
        subst h
        exact ⟨rfl, rfl, _, rfl, ho⟩
  · rw [if_neg hi] at h
    simp only [Option.some_bind] at h
    exact second _ h

/-- The two ways `create_resource` ends. -/
theorem d3d9_create_resource_cases {U : resource_usage} {orig : IDirect3DDevice9}
    {self : device_impl} {type : resource_type} {desc : resource_desc}
    {res : create_result device_impl native_call}
    (h : self.create_resource U orig type desc = some res) :
    (res.ret = false ∧ res.out = 0 ∧ res.self = self) ∨
    (res.ret = true ∧
      res.self = { self with _resources := self._resources.register_object res.out } ∧
      ∃ c, res.calls.getLast? = some c ∧ orig.answer c = some res.out) := by
  have texture : (if desc.depth_or_layers ≠ 1 ∨ desc.samples ≠ 1 then
        some { self := self, ret := false, out := 0, calls := [] }
      else
        (convert_resource_desc_surface U desc D3DSURFACE_DESC.zero (some 0)).bind fun x =>
          match orig.CreateTexture x.1.Width x.1.Height (x.2.getD 0) x.1.Usage x.1.Format
              D3DPOOL_DEFAULT with
          | some resource =>
            some { self := { self with _resources := self._resources.register_object resource },
                   ret := true, out := resource,
                   calls := [native_call.CreateTexture x.1.Width x.1.Height (x.2.getD 0) x.1.Usage
                     x.1.Format D3DPOOL_DEFAULT] }
          | none =>
            some { self := self, ret := false, out := 0,
                   calls := [native_call.CreateTexture x.1.Width x.1.Height (x.2.getD 0) x.1.Usage
                     x.1.Format D3DPOOL_DEFAULT] }) = some res →
      (res.ret = false ∧ res.out = 0 ∧ res.self = self) ∨
      (res.ret = true ∧
        res.self = { self with _resources := self._resources.register_object res.out } ∧
        ∃ c, res.calls.getLast? = some c ∧ orig.answer c = some res.out) := by
    intro h
    split_ifs at h with hd
    · simp only [Option.some.injEq] at h; subst h; simp
    · cases hc : convert_resource_desc_surface U desc D3DSURFACE_DESC.zero (some 0) with
      | none => simp [hc] at h
      | some x =>
        simp only [hc, Option.some_bind] at h
        cases ho : orig.CreateTexture x.1.Width x.1.Height (x.2.getD 0) x.1.Usage x.1.Format
            D3DPOOL_DEFAULT with
        | none => simp only [ho, Option.some.injEq] at h; subst h; simp
        | some p =>
          simp only [ho, Option.some.injEq] at h; subst h
          exact Or.inr ⟨rfl, rfl, _, rfl, ho⟩
  unfold device_impl.create_resource at h
  cases type with
  | unknown => simp only [Option.pure_def, Option.some.injEq] at h; subst h; simp
  | surface => simp only [Option.pure_def, Option.some.injEq] at h; subst h; simp
  | buffer =>
    simp only [Option.pure_def, Option.bind_eq_bind] at h
    cases hb : self.create_resource_buffer U orig desc with
    | none => simp [hb] at h
    | some x =>
      obtain ⟨r, calls⟩ := x
      cases r with
      | none => simp only [hb, Option.some_bind, Option.some.injEq] at h; subst h; simp
      | some r =>
        simp only [hb, Option.some_bind, Option.some.injEq] at h; subst h
        exact Or.inr (d3d9_create_resource_buffer_some hb)
  | texture_1d =>
    simp only [Option.pure_def, Option.bind_eq_bind] at h
    exact texture h
  | texture_2d =>
    simp only [Option.pure_def, Option.bind_eq_bind] at h
    exact texture h
  | texture_3d =>
    simp only [Option.pure_def, Option.bind_eq_bind] at h
    split_ifs at h with hd
    · simp only [Option.some.injEq] at h; subst h; simp
    · cases hc : convert_resource_desc_volume U desc D3DVOLUME_DESC.zero (some 0) with
      | none => simp [hc] at h
      | some x =>
        simp only [hc, Option.some_bind] at h
        cases ho : orig.CreateVolumeTexture x.1.Width x.1.Height x.1.Depth (x.2.getD 0) x.1.Usage
            x.1.Format D3DPOOL_DEFAULT with
        | none => simp only [ho, Option.some.injEq] at h; subst h; simp
        | some p =>
          simp only [ho, Option.some.injEq] at h; subst h
          exact Or.inr ⟨rfl, rfl, _, rfl, ho⟩

/-- The ways `create_resource_view` ends: it never changes the device, and a view it
returns is either the resource itself, with one more reference, or the surface a
`GetSurfaceLevel` or `GetCubeMapSurface` call stored. -/
theorem d3d9_create_resource_view_cases {U : resource_usage} {orig : IDirect3DDevice9}
    {self : device_impl} {resource : Nat} {type : resource_view_type} {desc : resource_view_desc}
    {res : create_result device_impl native_call}
    (h : self.create_resource_view U orig resource type desc = some res) :
    res.self = self ∧ resource ≠ 0 ∧
    ((res.ret = false ∧ res.out = 0) ∨
     (res.ret = true ∧ res.out = resource ∧ res.calls = [native_call.AddRef resource]) ∨
     (res.ret = true ∧ ∃ c, res.calls = [c] ∧ orig.answer c = some res.out ∧
        ((∃ l, c = native_call.GetSurfaceLevel resource l) ∨
         (∃ f l, c = native_call.GetCubeMapSurface resource f l)))) := by
  unfold device_impl.create_resource_view at h
  by_cases hr : resource ≠ 0
  swap
  · simp [assert, hr] at h
  simp only [assert, if_pos hr, Option.pure_def, Option.bind_eq_bind, Option.some_bind] at h
  cases hg : self.get_resource_desc U orig resource with
  | none => simp [hg] at h
  | some rd =>
    simp only [hg, Option.some_bind] at h
    by_cases hf : desc.format = rd.format
    swap
    · simp [if_neg hf] at h
    simp only [if_pos hf, Option.some_bind] at h
    by_cases t1 : orig.GetType resource = D3DRTYPE_SURFACE
    · rw [if_pos t1] at h
      split_ifs at h
      all_goals simp only [Option.some_bind, Option.none_bind, reduceCtorEq, Option.some.injEq] at h
      all_goals subst h
      all_goals first
        | exact ⟨rfl, hr, Or.inl ⟨rfl, rfl⟩⟩
        | exact ⟨rfl, hr, Or.inr (Or.inl ⟨rfl, rfl, rfl⟩)⟩
    rw [if_neg t1] at h
    by_cases t2 : orig.GetType resource = D3DRTYPE_TEXTURE
    · rw [if_pos t2] at h
      split_ifs at h
      all_goals simp only [Option.some_bind, Option.none_bind, reduceCtorEq, Option.some.injEq] at h
      all_goals try split at h
      all_goals try simp only [Option.some.injEq] at h
      all_goals subst h
      all_goals first
        | exact ⟨rfl, hr, Or.inl ⟨rfl, rfl⟩⟩
        | exact ⟨rfl, hr, Or.inr (Or.inl ⟨rfl, rfl, rfl⟩)⟩
        | exact ⟨rfl, hr, Or.inr (Or.inr ⟨rfl, _, rfl, by assumption, Or.inl ⟨_, rfl⟩⟩)⟩
    rw [if_neg t2] at h
    by_cases t3 : orig.GetType resource = D3DRTYPE_CUBETEXTURE
    · rw [if_pos t3] at h
      split_ifs at h
      all_goals simp only [Option.some_bind, Option.none_bind, reduceCtorEq, Option.some.injEq] at h
      all_goals try split at h
      all_goals try simp only [Option.some.injEq] at h
      all_goals subst h
      all_goals first
        | exact ⟨rfl, hr, Or.inl ⟨rfl, rfl⟩⟩
        | exact ⟨rfl, hr, Or.inr (Or.inl ⟨rfl, rfl, rfl⟩)⟩
        | exact ⟨rfl, hr, Or.inr (Or.inr ⟨rfl, _, rfl, by assumption, Or.inr ⟨_, _, rfl⟩⟩)⟩
    rw [if_neg t3] at h
    simp only [Option.some.injEq] at h
    subst h
    exact ⟨rfl, hr, Or.inl ⟨rfl, rfl⟩⟩

end d3d9

/-! ## The claims -/

namespace d3d10

/-- C1. Direct3D 10 round trip of the resource descriptors.  Let `d` be an abstract
descriptor whose fields fit their types and whose usage has no unordered access.
For every initial native descriptor `n0`, converting `d` to native on top of `n0`
and converting the result back succeeds and restores `width`, `height`,
`depth_or_layers`, `levels`, `format` and `samples` of `d`: for a buffer when
`height`, `depth_or_layers`, `levels`, `format` and `samples` are `0`; for a 1D
texture when `height = 1` and `samples = 1`; for a 2D texture always; for a 3D
texture when `samples = 1`. -/
theorem convert_resource_desc_round_trip (U : resource_usage) (d : resource_desc)
    (hd : d.in_range) (hu : d.usage &&& U.unordered_access = 0) :
    (d.height = 0 → d.depth_or_layers = 0 → d.levels = 0 → d.format = 0 → d.samples = 0 →
      ∀ n0, ((convert_resource_desc_buffer U d n0).bind (convert_resource_desc_from_buffer U)).map
        resource_desc.shape = some d.shape) ∧
    (d.height = 1 → d.samples = 1 →
      ∀ n0, ((convert_resource_desc_texture1d U d n0).bind (convert_resource_desc_from_texture1d U)).map
        resource_desc.shape = some d.shape) ∧
    (∀ n0, ((convert_resource_desc_texture2d U d n0).bind (convert_resource_desc_from_texture2d U)).map
        resource_desc.shape = some d.shape) ∧
    (d.samples = 1 →
      ∀ n0, ((convert_resource_desc_texture3d U d n0).bind (convert_resource_desc_from_texture3d U)).map
        resource_desc.shape = some d.shape) := by
  obtain ⟨_, _, hdepth, hlevels, _, hsamples, _⟩ := hd
  have h16 : ∀ x, x < 65536 → x ≤ uint16_max ∧ to_uint16 x = x := by
    intro x hx
    exact ⟨by unfold uint16_max; omega, by unfold to_uint16; omega⟩
  refine ⟨?_, ?_, ?_, ?_⟩
  · intro h1 h2 h3 h4 h5 n0
    obtain ⟨b, hb⟩ := convert_usage_to_bind_flags_isSome U d.usage n0.BindFlags hu
    simp [convert_resource_desc_buffer, convert_resource_desc_from_buffer, assert, hb,
      resource_desc.shape, resource_desc.zero, h1, h2, h3, h4, h5]
  · intro h1 h2 n0
    obtain ⟨b, hb⟩ := convert_usage_to_bind_flags_isSome U d.usage n0.BindFlags hu
    simp [convert_resource_desc_texture1d, convert_resource_desc_from_texture1d, assert, hb,
      resource_desc.shape, resource_desc.zero, h1, h2, h16 _ hdepth, h16 _ hlevels]
  · intro n0
    obtain ⟨b, hb⟩ := convert_usage_to_bind_flags_isSome U d.usage n0.BindFlags hu
    simp [convert_resource_desc_texture2d, convert_resource_desc_from_texture2d, assert, hb,
      resource_desc.shape, resource_desc.zero, h16 _ hdepth, h16 _ hlevels, h16 _ hsamples]
  · intro h1 n0
    obtain ⟨b, hb⟩ := convert_usage_to_bind_flags_isSome U d.usage n0.BindFlags hu
    simp [convert_resource_desc_texture3d, convert_resource_desc_from_texture3d, assert, hb,
      resource_desc.shape, resource_desc.zero, h1, h16 _ hdepth, h16 _ hlevels]

/-- The round trip of C1 on a vertex buffer, a 1D texture array, a multisampled
render target and a volume texture, each started from the value-initialised
native descriptor. -/
theorem convert_resource_desc_round_trip_witness :
    (sample.buffer_desc.in_range ∧ sample.texture1d_desc.in_range ∧
      sample.texture2d_desc.in_range ∧ sample.texture3d_desc.in_range) ∧
    ((convert_resource_desc_buffer usage_values sample.buffer_desc D3D10_BUFFER_DESC.zero).bind
      (convert_resource_desc_from_buffer usage_values)).map resource_desc.shape
      = some sample.buffer_desc.shape ∧
    ((convert_resource_desc_texture1d usage_values sample.texture1d_desc D3D10_TEXTURE1D_DESC.zero).bind
      (convert_resource_desc_from_texture1d usage_values)).map resource_desc.shape
      = some sample.texture1d_desc.shape ∧
    ((convert_resource_desc_texture2d usage_values sample.texture2d_desc D3D10_TEXTURE2D_DESC.zero).bind
      (convert_resource_desc_from_texture2d usage_values)).map resource_desc.shape
      = some sample.texture2d_desc.shape ∧
    ((convert_resource_desc_texture3d usage_values sample.texture3d_desc D3D10_TEXTURE3D_DESC.zero).bind
      (convert_resource_desc_from_texture3d usage_values)).map resource_desc.shape
      = some sample.texture3d_desc.shape :=
  ⟨by decide,
   (convert_resource_desc_round_trip usage_values sample.buffer_desc (by decide) (by decide)).1
     rfl rfl rfl rfl rfl _,
   (convert_resource_desc_round_trip usage_values sample.texture1d_desc (by decide) (by decide)).2.1
     rfl rfl _,
   (convert_resource_desc_round_trip usage_values sample.texture2d_desc (by decide) (by decide)).2.2.1 _,
   (convert_resource_desc_round_trip usage_values sample.texture3d_desc (by decide) (by decide)).2.2.2
     rfl _⟩

end d3d10

namespace d3d9

/-- C2, as stated, fails.  Each of these native descriptors has
`D3DUSAGE_RENDERTARGET`, is converted without a trap, and comes back with neither
`copy_dest` nor `copy_source`: a render target face of a cube texture; a render
target texture on a device that cannot stretch from textures; a render target
outside the default pool; a render target of the format `NULL`; one of a
block-compressed format; one of a depth format. -/
theorem render_target_without_copy_usage :
    [{ sample.render_target_surface with Type_ := D3DRTYPE_CUBETEXTURE },
     { sample.render_target_surface with Type_ := D3DRTYPE_TEXTURE },
     { sample.render_target_surface with Pool := 1 },
     { sample.render_target_surface with Format := MAKEFOURCC 'N' 'U' 'L' 'L' },
     { sample.render_target_surface with Format := D3DFMT_DXT1 },
     { sample.render_target_surface with
         Format := D3DFMT_D24S8, Usage := D3DUSAGE_RENDERTARGET ||| D3DUSAGE_DEPTHSTENCIL }].map
      (fun s => (decide (has_flag s.Usage D3DUSAGE_RENDERTARGET),
        (convert_resource_desc_from_surface usage_values s 1 sample.caps_plain).map
          (fun d => (d.usage &&& usage_values.copy_dest, d.usage &&& usage_values.copy_source))))
      = List.replicate 6 (true, some (0, 0)) := by
  decide

/-- C2, amended.  Let the flags of `resource_usage` be distinct.  A native surface
descriptor that has `D3DUSAGE_RENDERTARGET`, lies in `D3DPOOL_DEFAULT`, is of type
`SURFACE` (or of type `TEXTURE` when `Caps2` has
`D3DDEVCAPS2_CAN_STRETCHRECT_FROM_TEXTURES`) and whose format is none of
`DXT1` .. `DXT5`, none of the eleven depth formats and not `NULL`, is converted,
for a level count of at most 65535, into a descriptor whose usage has both
`copy_dest` and `copy_source`. -/
theorem render_target_surface_has_copy_usage (U : resource_usage) (hU : U.distinct)
    (s : D3DSURFACE_DESC) (levels : Nat) (caps : D3DCAPS9)
    (hrt : has_flag s.Usage D3DUSAGE_RENDERTARGET)
    (hpool : s.Pool = D3DPOOL_DEFAULT)
    (htype : s.Type_ = D3DRTYPE_SURFACE ∨
      (s.Type_ = D3DRTYPE_TEXTURE ∧ has_flag caps.Caps2 D3DDEVCAPS2_CAN_STRETCHRECT_FROM_TEXTURES))
    (hfmt : s.Format ∉ [D3DFMT_DXT1, D3DFMT_DXT2, D3DFMT_DXT3, D3DFMT_DXT4, D3DFMT_DXT5,
      D3DFMT_D16_LOCKABLE, D3DFMT_D32, D3DFMT_D15S1, D3DFMT_D24S8, D3DFMT_D24X8, D3DFMT_D24X4S4,
      D3DFMT_D16, D3DFMT_D32F_LOCKABLE, D3DFMT_D24FS8, D3DFMT_D32_LOCKABLE, D3DFMT_S8_LOCKABLE,
      MAKEFOURCC 'N' 'U' 'L' 'L'])
    (hlevels : levels ≤ uint16_max) :
    ∃ d, convert_resource_desc_from_surface U s levels caps = some d ∧
      has_flag d.usage U.copy_dest ∧ has_flag d.usage U.copy_source := by
  have hdest : has_flag U.copy_dest U.copy_dest := hU.has_flag_self (i := 8) (by simp [resource_usage.flags])
  have hsrc : has_flag U.copy_source U.copy_source := hU.has_flag_self (i := 7) (by simp [resource_usage.flags])
  simp only [List.mem_cons, List.mem_singleton, List.not_mem_nil, not_or, or_false] at hfmt
  obtain ⟨f1, f2, f3, f4, f5, f6, f7, f8, f9, f10, f11, f12, f13, f14, f15, f16, f17⟩ := hfmt
  unfold has_flag at hrt
  have htype3 : s.Type_ = D3DRTYPE_SURFACE ∨ s.Type_ = D3DRTYPE_TEXTURE ∨ s.Type_ = D3DRTYPE_CUBETEXTURE := by
    rcases htype with h | h
    · exact Or.inl h
    · exact Or.inr (Or.inl h.1)
  have hcond : s.Pool = D3DPOOL_DEFAULT ∧ (s.Type_ = D3DRTYPE_SURFACE ∨
      (s.Type_ = D3DRTYPE_TEXTURE ∧ caps.Caps2 &&& D3DDEVCAPS2_CAN_STRETCHRECT_FROM_TEXTURES ≠ 0)) :=
    ⟨hpool, htype⟩
  simp only [convert_resource_desc_from_surface, assert, htype3, hlevels, hcond, if_true,
    f1, f2, f3, f4, f5, f6, f7, f8, f9, f10, f11, f12, f13, f14, f15, f16, f17, or_self, if_false,
    hrt, ne_eq, not_false_eq_true, Option.pure_def, Option.bind_eq_bind, Option.some_bind,
    ite_true, ite_false]
  refine ⟨_, rfl, ?_, ?_⟩
  · simp only [has_flag_lor, hdest, true_or, or_true]
  · split_ifs <;> simp only [has_flag_lor, hsrc, true_or, or_true]

/-- The amended C2 on a 256x256 `A8R8G8B8` render target surface in the default pool. -/
theorem render_target_surface_has_copy_usage_witness :
    has_flag sample.render_target_surface.Usage D3DUSAGE_RENDERTARGET ∧
    ∃ d, convert_resource_desc_from_surface usage_values sample.render_target_surface 1
        sample.caps_plain = some d ∧
      has_flag d.usage usage_values.copy_dest ∧ has_flag d.usage usage_values.copy_source :=
  ⟨by decide,
   render_target_surface_has_copy_usage usage_values (by decide) sample.render_target_surface 1
     sample.caps_plain (by decide) (by decide) (by decide) (by decide) (by decide)⟩

end d3d9

/-- C3. Let the flags of `resource_usage` be distinct.  Whenever one of the eight
native-to-abstract resource conversions (Direct3D 10 buffer, 1D, 2D and 3D texture;
Direct3D 9 volume, surface, index buffer and vertex buffer) returns a descriptor,
that is, does not trap, the usage of the descriptor has no `unordered_access`. -/
theorem native_to_abstract_never_unordered_access (U : resource_usage) (hU : U.distinct) :
    (∀ n r, d3d10.convert_resource_desc_from_buffer U n = some r →
      ¬ has_flag r.usage U.unordered_access) ∧
    (∀ n r, d3d10.convert_resource_desc_from_texture1d U n = some r →
      ¬ has_flag r.usage U.unordered_access) ∧
    (∀ n r, d3d10.convert_resource_desc_from_texture2d U n = some r →
      ¬ has_flag r.usage U.unordered_access) ∧
    (∀ n r, d3d10.convert_resource_desc_from_texture3d U n = some r →
      ¬ has_flag r.usage U.unordered_access) ∧
    (∀ n levels r, d3d9.convert_resource_desc_from_volume U n levels = some r →
      ¬ has_flag r.usage U.unordered_access) ∧
    (∀ n levels caps r, d3d9.convert_resource_desc_from_surface U n levels caps = some r →
      ¬ has_flag r.usage U.unordered_access) ∧
    (∀ n r, d3d9.convert_resource_desc_from_index_buffer U n = some r →
      ¬ has_flag r.usage U.unordered_access) ∧
    (∀ n r, d3d9.convert_resource_desc_from_vertex_buffer U n = some r →
      ¬ has_flag r.usage U.unordered_access) := by
  have h2 : ¬ has_flag U.shader_resource U.unordered_access :=
    hU.not_has_flag (i := 2) (j := 3) (by simp [resource_usage.flags]) (by simp [resource_usage.flags]) (by decide)
  have h4 : ¬ has_flag U.index_buffer U.unordered_access :=
    hU.not_has_flag (i := 4) (j := 3) (by simp [resource_usage.flags]) (by simp [resource_usage.flags]) (by decide)
  have h5 : ¬ has_flag U.vertex_buffer U.unordered_access :=
    hU.not_has_flag (i := 5) (j := 3) (by simp [resource_usage.flags]) (by simp [resource_usage.flags]) (by decide)
  have h7 : ¬ has_flag U.copy_source U.unordered_access :=
    hU.not_has_flag (i := 7) (j := 3) (by simp [resource_usage.flags]) (by simp [resource_usage.flags]) (by decide)
  have h8 : ¬ has_flag U.copy_dest U.unordered_access :=
    hU.not_has_flag (i := 8) (j := 3) (by simp [resource_usage.flags]) (by simp [resource_usage.flags]) (by decide)
  have h9 : ¬ has_flag U.resolve_source U.unordered_access :=
    hU.not_has_flag (i := 9) (j := 3) (by simp [resource_usage.flags]) (by simp [resource_usage.flags]) (by decide)
  have h10 : ¬ has_flag U.resolve_dest U.unordered_access :=
    hU.not_has_flag (i := 10) (j := 3) (by simp [resource_usage.flags]) (by simp [resource_usage.flags]) (by decide)
  have h10b := fun b =>
    d3d10.convert_bind_flags_to_usage_not_unordered_access hU b 0 (not_has_flag_zero _)
  have h9b := fun b =>
    d3d9.convert_d3d_usage_to_usage_not_unordered_access hU b 0 (not_has_flag_zero _)
  refine ⟨?_, ?_, ?_, ?_, ?_, ?_, ?_, ?_⟩
  · intro n r h
    simp only [d3d10.convert_resource_desc_from_buffer, resource_desc.zero, Option.pure_def,
      Option.some.injEq] at h
    subst h
    exact h10b _
  · intro n r h
    simp only [d3d10.convert_resource_desc_from_texture1d, resource_desc.zero, assert,
      Option.pure_def, Option.bind_eq_bind] at h
    split_ifs at h <;> simp only [Option.some_bind, Option.none_bind, Option.some.injEq, reduceCtorEq] at h
    subst h
    exact h10b _
  · intro n r h
    simp only [d3d10.convert_resource_desc_from_texture2d, resource_desc.zero, assert,
      Option.pure_def, Option.bind_eq_bind] at h
    split_ifs at h <;> simp only [Option.some_bind, Option.none_bind, Option.some.injEq, reduceCtorEq] at h
    all_goals subst h
    all_goals simp only [has_flag_lor, h10b, h9, h10, or_self, not_false_eq_true]
  · intro n r h
    simp only [d3d10.convert_resource_desc_from_texture3d, resource_desc.zero, assert,
      Option.pure_def, Option.bind_eq_bind] at h
    split_ifs at h <;> simp only [Option.some_bind, Option.none_bind, Option.some.injEq, reduceCtorEq] at h
    subst h
    exact h10b _
  · intro n levels r h
    simp only [d3d9.convert_resource_desc_from_volume, resource_desc.zero, assert,
      Option.pure_def, Option.bind_eq_bind] at h
    split_ifs at h <;> simp only [Option.some_bind, Option.none_bind, Option.some.injEq, reduceCtorEq] at h
    all_goals subst h
    all_goals simp only [has_flag_lor, h9b, h2, or_self, not_false_eq_true]
  · intro n levels caps r h
    rw [d3d9.convert_resource_desc_from_surface_usage h _ rfl]
    split_ifs <;> simp only [has_flag_lor, h9b, h2, h7, h8, h9, h10, or_self, not_false_eq_true]
  · intro n r h
    simp only [d3d9.convert_resource_desc_from_index_buffer, resource_desc.zero, Option.pure_def,
      Option.some.injEq] at h
    subst h
    simp only [has_flag_lor, h9b, h4, or_self, not_false_eq_true]
  · intro n r h
    simp only [d3d9.convert_resource_desc_from_vertex_buffer, resource_desc.zero, Option.pure_def,
      Option.some.injEq] at h
    subst h
    simp only [has_flag_lor, h9b, h5, or_self, not_false_eq_true]

/-- C3 on one native descriptor of each of the eight shapes. -/
theorem native_to_abstract_never_unordered_access_witness :
    (d3d10.convert_resource_desc_from_buffer usage_values sample.native_buffer
        = some ⟨256, 0, 0, 0, 0, 0, 3073⟩ ∧
      ¬ has_flag 3073 usage_values.unordered_access) ∧
    (d3d10.convert_resource_desc_from_texture1d usage_values sample.native_texture1d
        = some ⟨64, 1, 4, 3, 28, 1, 3264⟩ ∧
      ¬ has_flag 3264 usage_values.unordered_access) ∧
    (d3d10.convert_resource_desc_from_texture2d usage_values sample.native_texture2d
        = some ⟨640, 480, 1, 1, 28, 4, 11460⟩ ∧
      ¬ has_flag 11460 usage_values.unordered_access) ∧
    (d3d10.convert_resource_desc_from_texture3d usage_values sample.native_texture3d
        = some ⟨32, 32, 32, 6, 28, 1, 3264⟩ ∧
      ¬ has_flag 3264 usage_values.unordered_access) ∧
    (d3d9.convert_resource_desc_from_volume usage_values sample.volume_texture 6
        = some ⟨32, 32, 32, 6, 21, 1, 192⟩ ∧
      ¬ has_flag 192 usage_values.unordered_access) ∧
    (d3d9.convert_resource_desc_from_surface usage_values sample.render_target_surface 1
        sample.caps_plain = some ⟨256, 256, 1, 1, 21, 1, 7172⟩ ∧
      ¬ has_flag 7172 usage_values.unordered_access) ∧
    (d3d9.convert_resource_desc_from_index_buffer usage_values sample.index_buffer
        = some ⟨512, 0, 0, 0, 0, 0, 2⟩ ∧
      ¬ has_flag 2 usage_values.unordered_access) ∧
    (d3d9.convert_resource_desc_from_vertex_buffer usage_values sample.vertex_buffer
        = some ⟨512, 0, 0, 0, 0, 0, 1⟩ ∧
      ¬ has_flag 1 usage_values.unordered_access) :=
  ⟨⟨by decide, (native_to_abstract_never_unordered_access usage_values (by decide)).1
      sample.native_buffer ⟨256, 0, 0, 0, 0, 0, 3073⟩ (by decide)⟩,
   ⟨by decide, (native_to_abstract_never_unordered_access usage_values (by decide)).2.1
      sample.native_texture1d ⟨64, 1, 4, 3, 28, 1, 3264⟩ (by decide)⟩,
   ⟨by decide, (native_to_abstract_never_unordered_access usage_values (by decide)).2.2.1
      sample.native_texture2d ⟨640, 480, 1, 1, 28, 4, 11460⟩ (by decide)⟩,
   ⟨by decide, (native_to_abstract_never_unordered_access usage_values (by decide)).2.2.2.1
      sample.native_texture3d ⟨32, 32, 32, 6, 28, 1, 3264⟩ (by decide)⟩,
   ⟨by decide, (native_to_abstract_never_unordered_access usage_values (by decide)).2.2.2.2.1
      sample.volume_texture 6 ⟨32, 32, 32, 6, 21, 1, 192⟩ (by decide)⟩,
   ⟨by decide, (native_to_abstract_never_unordered_access usage_values (by decide)).2.2.2.2.2.1
      sample.render_target_surface 1 sample.caps_plain ⟨256, 256, 1, 1, 21, 1, 7172⟩ (by decide)⟩,
   ⟨by decide, (native_to_abstract_never_unordered_access usage_values (by decide)).2.2.2.2.2.2.1
      sample.index_buffer ⟨512, 0, 0, 0, 0, 0, 2⟩ (by decide)⟩,
   ⟨by decide, (native_to_abstract_never_unordered_access usage_values (by decide)).2.2.2.2.2.2.2
      sample.vertex_buffer ⟨512, 0, 0, 0, 0, 0, 1⟩ (by decide)⟩⟩

namespace d3d10

/-- C4. Let `d` be a view descriptor of dimension `texture_cube_array` whose fields
fit 32 bits and whose `layers` is a multiple of 6.  On top of every initial native
descriptor, converting `d` to a `D3D10_SHADER_RESOURCE_VIEW_DESC1` succeeds and gives
the cube array variant with `NumCubes = layers / 6`, and converting that native
descriptor back returns `d`. -/
theorem cube_array_view_round_trip (d : resource_view_desc) (hd : d.in_range)
    (hdim : d.dimension = resource_view_dimension.texture_cube_array) (h6 : d.layers % 6 = 0)
    (n0 : D3D10_SHADER_RESOURCE_VIEW_DESC) :
    (convert_resource_view_desc_srv1 d n0).map
        (fun n => (n.ViewDimension, n.w3, convert_resource_view_desc_from_srv1 n))
      = some (D3D10_1_SRV_DIMENSION_TEXTURECUBEARRAY, d.layers / 6, d) := by
  obtain ⟨_, _, _, _, hl⟩ := hd
  have hmul : d.layers / 6 * 6 % 4294967296 = d.layers := by omega
  cases d with
  | mk dimension format first_level levels first_layer layers =>
    simp only at hdim hmul
    subst hdim
    simp [convert_resource_view_desc_srv1, convert_resource_view_desc_from_srv1,
      resource_view_desc.zero, hmul]

/-- C4 on the view of twelve layers: two cubes, and twelve layers again. -/
theorem cube_array_view_round_trip_witness :
    sample.cube_array_view.layers = 12 ∧
    (convert_resource_view_desc_srv1 sample.cube_array_view D3D10_SHADER_RESOURCE_VIEW_DESC.zero).map
        (fun n => (n.ViewDimension, n.w3, convert_resource_view_desc_from_srv1 n))
      = some (D3D10_1_SRV_DIMENSION_TEXTURECUBEARRAY, 12 / 6, sample.cube_array_view) :=
  ⟨rfl, cube_array_view_round_trip sample.cube_array_view (by decide) rfl (by decide)
    D3D10_SHADER_RESOURCE_VIEW_DESC.zero⟩

end d3d10

namespace d3d9

/-- C5. Let the flags of `resource_usage` be distinct.  Whenever the conversion of a
native surface descriptor returns a descriptor, that is, does not trap, and the
format is one of `DXT1` .. `DXT5` or the format `NULL`, the returned usage has
neither `copy_source` nor `copy_dest`. -/
theorem compressed_or_null_format_has_no_copy_usage (U : resource_usage) (hU : U.distinct)
    (s : D3DSURFACE_DESC) (levels : Nat) (caps : D3DCAPS9) (r : resource_desc)
    (h : convert_resource_desc_from_surface U s levels caps = some r)
    (hfmt : s.Format ∈ [D3DFMT_DXT1, D3DFMT_DXT2, D3DFMT_DXT3, D3DFMT_DXT4, D3DFMT_DXT5] ∨
      s.Format = MAKEFOURCC 'N' 'U' 'L' 'L') :
    ¬ has_flag r.usage U.copy_source ∧ ¬ has_flag r.usage U.copy_dest := by
  have hn : ¬ ((s.Pool = D3DPOOL_DEFAULT ∧ (s.Type_ = D3DRTYPE_SURFACE ∨ (s.Type_ = D3DRTYPE_TEXTURE ∧
      caps.Caps2 &&& D3DDEVCAPS2_CAN_STRETCHRECT_FROM_TEXTURES ≠ 0))) ∧
      s.Format ∉ [D3DFMT_DXT1, D3DFMT_DXT2, D3DFMT_DXT3, D3DFMT_DXT4, D3DFMT_DXT5,
        D3DFMT_D16_LOCKABLE, D3DFMT_D32, D3DFMT_D15S1, D3DFMT_D24S8, D3DFMT_D24X8,
        D3DFMT_D24X4S4, D3DFMT_D16, D3DFMT_D32F_LOCKABLE, D3DFMT_D24FS8, D3DFMT_D32_LOCKABLE,
        D3DFMT_S8_LOCKABLE, MAKEFOURCC 'N' 'U' 'L' 'L']) := by
    rintro ⟨-, hnot⟩
    apply hnot
    rcases hfmt with hmem | heq
    · simp only [List.mem_cons, List.mem_singleton, List.not_mem_nil, or_false] at hmem ⊢
      rcases hmem with e | e | e | e | e <;> simp only [e, true_or, or_true]
    · simp only [List.mem_cons, List.mem_singleton, heq, or_true, true_or]
  have hs := convert_resource_desc_from_surface_usage h _ rfl
  rw [if_neg hn] at hs
  have c0 : ¬ has_flag U.render_target U.copy_source :=
    hU.not_has_flag (i := 0) (j := 7) (by simp [resource_usage.flags]) (by simp [resource_usage.flags]) (by decide)
  have c1 : ¬ has_flag U.depth_stencil U.copy_source :=
    hU.not_has_flag (i := 1) (j := 7) (by simp [resource_usage.flags]) (by simp [resource_usage.flags]) (by decide)
  have c2 : ¬ has_flag U.shader_resource U.copy_source :=
    hU.not_has_flag (i := 2) (j := 7) (by simp [resource_usage.flags]) (by simp [resource_usage.flags]) (by decide)
  have d0 : ¬ has_flag U.render_target U.copy_dest :=
    hU.not_has_flag (i := 0) (j := 8) (by simp [resource_usage.flags]) (by simp [resource_usage.flags]) (by decide)
  have d1 : ¬ has_flag U.depth_stencil U.copy_dest :=
    hU.not_has_flag (i := 1) (j := 8) (by simp [resource_usage.flags]) (by simp [resource_usage.flags]) (by decide)
  have d2 : ¬ has_flag U.shader_resource U.copy_dest :=
    hU.not_has_flag (i := 2) (j := 8) (by simp [resource_usage.flags]) (by simp [resource_usage.flags]) (by decide)
  have hc : ¬ has_flag (convert_d3d_usage_to_usage U s.Usage 0) U.copy_source :=
    not_has_flag_cond_lor _ (not_has_flag_cond_lor _ (not_has_flag_zero _) c0) c1
  have hd : ¬ has_flag (convert_d3d_usage_to_usage U s.Usage 0) U.copy_dest :=
    not_has_flag_cond_lor _ (not_has_flag_cond_lor _ (not_has_flag_zero _) d0) d1
  rw [hs]
  constructor
  · split_ifs <;> simp only [has_flag_lor, hc, c2, or_self, not_false_eq_true]
  · split_ifs <;> simp only [has_flag_lor, hd, d2, or_self, not_false_eq_true]

/-- C5 on a `DXT1` texture of a device that can stretch from textures, and on a
render target surface of the format `NULL`. -/
theorem compressed_or_null_format_has_no_copy_usage_witness :
    (convert_resource_desc_from_surface usage_values sample.compressed_texture 9 sample.caps_stretch
        = some ⟨256, 256, 1, 9, 827611204, 1, 192⟩ ∧
      ¬ has_flag 192 usage_values.copy_source ∧ ¬ has_flag 192 usage_values.copy_dest) ∧
    (convert_resource_desc_from_surface usage_values sample.null_surface 1 sample.caps_stretch
        = some ⟨256, 256, 1, 1, 1280070990, 1, 4⟩ ∧
      ¬ has_flag 4 usage_values.copy_source ∧ ¬ has_flag 4 usage_values.copy_dest) :=
  ⟨⟨by decide, compressed_or_null_format_has_no_copy_usage usage_values (by decide)
      sample.compressed_texture 9 sample.caps_stretch ⟨256, 256, 1, 9, 827611204, 1, 192⟩
      (by decide) (Or.inl (by decide))⟩,
   ⟨by decide, compressed_or_null_format_has_no_copy_usage usage_values (by decide)
      sample.null_surface 1 sample.caps_stretch ⟨256, 256, 1, 1, 1280070990, 1, 4⟩
      (by decide) (Or.inr (by decide))⟩⟩

end d3d9

/-- C6. In both devices and for every content of the registries,
`check_resource_handle_valid` and `check_resource_view_handle_valid` return `false`
for the handle `0`, and for a handle other than `0` they return exactly what the
registry (`_resources`, resp. `_views`; on Direct3D 9 `_resources` for both) answers
for that address: `true` when the address is in the set and `false` when it is not. -/
theorem check_handle_valid_iff_registered :
    (∀ dev : d3d10.device_impl,
      dev.check_resource_handle_valid 0 = false ∧ dev.check_resource_view_handle_valid 0 = false ∧
      ∀ h, h ≠ 0 →
        dev.check_resource_handle_valid h = dev._resources.has_object h ∧
        (dev.check_resource_handle_valid h = true ↔ h ∈ dev._resources.objects) ∧
        dev.check_resource_view_handle_valid h = dev._views.has_object h ∧
        (dev.check_resource_view_handle_valid h = true ↔ h ∈ dev._views.objects)) ∧
    (∀ dev : d3d9.device_impl,
      dev.check_resource_handle_valid 0 = false ∧ dev.check_resource_view_handle_valid 0 = false ∧
      ∀ h, h ≠ 0 →
        dev.check_resource_handle_valid h = dev._resources.has_object h ∧
        (dev.check_resource_handle_valid h = true ↔ h ∈ dev._resources.objects) ∧
        dev.check_resource_view_handle_valid h = dev._resources.has_object h ∧
        (dev.check_resource_view_handle_valid h = true ↔ h ∈ dev._resources.objects)) := by
  constructor
  · intro dev
    refine ⟨rfl, rfl, ?_⟩
    intro h hh
    simp [d3d10.device_impl.check_resource_handle_valid,
      d3d10.device_impl.check_resource_view_handle_valid, object_registry.has_object, hh]
  · intro dev
    refine ⟨rfl, rfl, ?_⟩
    intro h hh
    simp [d3d9.device_impl.check_resource_handle_valid,
      d3d9.device_impl.check_resource_view_handle_valid, object_registry.has_object, hh]

/-- C6 on registries that hold the null pointer and one object: the null handle is
invalid, the registered address is valid, and an address never registered is not. -/
theorem check_handle_valid_iff_registered_witness :
    ((⟨⟨[0, 4096]⟩, ⟨[0, 8192]⟩⟩ : d3d10.device_impl).check_resource_handle_valid 0 = false ∧
      ((⟨⟨[0, 4096]⟩, ⟨[0, 8192]⟩⟩ : d3d10.device_impl).check_resource_handle_valid 4096 = true ↔
        4096 ∈ [0, 4096]) ∧
      ((⟨⟨[0, 4096]⟩, ⟨[0, 8192]⟩⟩ : d3d10.device_impl).check_resource_view_handle_valid 4096 = true ↔
        4096 ∈ [0, 8192])) ∧
    ((⟨sample.caps_plain, sample.creation_parameters, 0, ⟨[0, 4096]⟩⟩ : d3d9.device_impl).check_resource_view_handle_valid 0 = false ∧
      ((⟨sample.caps_plain, sample.creation_parameters, 0, ⟨[0, 4096]⟩⟩ : d3d9.device_impl).check_resource_handle_valid 4096 = true ↔
        4096 ∈ [0, 4096]) ∧
      ((⟨sample.caps_plain, sample.creation_parameters, 0, ⟨[0, 4096]⟩⟩ : d3d9.device_impl).check_resource_view_handle_valid 8192 = true ↔
        8192 ∈ [0, 4096])) :=
  ⟨⟨(check_handle_valid_iff_registered.1 ⟨⟨[0, 4096]⟩, ⟨[0, 8192]⟩⟩).1,
    ((check_handle_valid_iff_registered.1 ⟨⟨[0, 4096]⟩, ⟨[0, 8192]⟩⟩).2.2 4096 (by decide)).2.1,
    ((check_handle_valid_iff_registered.1 ⟨⟨[0, 4096]⟩, ⟨[0, 8192]⟩⟩).2.2 4096 (by decide)).2.2.2⟩,
   ⟨(check_handle_valid_iff_registered.2 ⟨sample.caps_plain, sample.creation_parameters, 0, ⟨[0, 4096]⟩⟩).2.1,
    ((check_handle_valid_iff_registered.2 ⟨sample.caps_plain, sample.creation_parameters, 0, ⟨[0, 4096]⟩⟩).2.2 4096 (by decide)).2.1,
    ((check_handle_valid_iff_registered.2 ⟨sample.caps_plain, sample.creation_parameters, 0, ⟨[0, 4096]⟩⟩).2.2 8192 (by decide)).2.2.2⟩⟩

/-- C7. In both devices, when the native device stores non-null objects and
`create_resource` returns `true`, the handle written is the address the last native
creation call stored, `check_resource_handle_valid` returns `true` for it on the
device as the call leaves it, and every resource handle and view handle that was
valid before the call is still valid. -/
theorem create_resource_registers_handle (U : resource_usage) :
    (∀ (orig : d3d10.ID3D10Device1) (dev : d3d10.device_impl) (type : resource_type)
        (desc : resource_desc) (res : create_result d3d10.device_impl d3d10.native_call),
      orig.returns_objects → dev.create_resource U orig type desc = some res → res.ret = true →
        (∃ c, res.calls.getLast? = some c ∧ orig.answer c = some res.out) ∧
        res.self.check_resource_handle_valid res.out = true ∧
        (∀ h, dev.check_resource_handle_valid h = true →
          res.self.check_resource_handle_valid h = true) ∧
        (∀ h, dev.check_resource_view_handle_valid h = true →
          res.self.check_resource_view_handle_valid h = true)) ∧
    (∀ (orig : d3d9.IDirect3DDevice9) (dev : d3d9.device_impl) (type : resource_type)
        (desc : resource_desc) (res : create_result d3d9.device_impl d3d9.native_call),
      orig.returns_objects → dev.create_resource U orig type desc = some res → res.ret = true →
        (∃ c, res.calls.getLast? = some c ∧ orig.answer c = some res.out) ∧
        res.self.check_resource_handle_valid res.out = true ∧
        (∀ h, dev.check_resource_handle_valid h = true →
          res.self.check_resource_handle_valid h = true) ∧
        (∀ h, dev.check_resource_view_handle_valid h = true →
          res.self.check_resource_view_handle_valid h = true)) := by
  constructor
  · intro orig dev type desc res ho h hret
    rcases d3d10.d3d10_create_resource_cases h with ⟨hf, -, -⟩ | ⟨-, hself, c, hc, ha⟩
    · rw [hret] at hf; cases hf
    have hne : res.out ≠ 0 := d3d10.d3d10_answer_ne_zero ho ha
    refine ⟨⟨c, by rw [hc]; rfl, ha⟩, ?_, ?_, ?_⟩
    · rw [hself]
      simp [d3d10.device_impl.check_resource_handle_valid, hne,
        object_registry.has_object_register_self]
    · intro x hx
      rw [hself]
      simp only [d3d10.device_impl.check_resource_handle_valid, Bool.and_eq_true] at hx ⊢
      exact ⟨hx.1, object_registry.has_object_register_of_has _ _ _ hx.2⟩
    · intro x hx
      rw [hself]
      exact hx
  · intro orig dev type desc res ho h hret
    rcases d3d9.d3d9_create_resource_cases h with ⟨hf, -, -⟩ | ⟨-, hself, c, hc, ha⟩
    · rw [hret] at hf; cases hf
    have hne : res.out ≠ 0 := d3d9.d3d9_answer_ne_zero ho ha
    have hkeep : ∀ x, dev.check_resource_handle_valid x = true →
        res.self.check_resource_handle_valid x = true := by
      intro x hx
      rw [hself]
      simp only [d3d9.device_impl.check_resource_handle_valid, Bool.and_eq_true] at hx ⊢
      exact ⟨hx.1, object_registry.has_object_register_of_has _ _ _ hx.2⟩
    refine ⟨⟨c, hc, ha⟩, ?_, hkeep, ?_⟩
    · rw [hself]
      simp [d3d9.device_impl.check_resource_handle_valid, hne,
        object_registry.has_object_register_self]
    · intro x hx
      exact hkeep x hx

/-- C7 on the creation of a 2D texture: on a Direct3D 10 device that already holds
the resource 20480, and on a fresh Direct3D 9 device. -/
theorem create_resource_registers_handle_witness :
    ((⟨⟨[20480]⟩, ⟨[]⟩⟩ : d3d10.device_impl).create_resource usage_values sample.d3d10_device
        .texture_2d sample.texture2d_desc
      = some ⟨⟨⟨[4096, 20480]⟩, ⟨[]⟩⟩, true, 4096, [.CreateTexture2D sample.native_texture2d]⟩ ∧
      (⟨⟨[4096, 20480]⟩, ⟨[]⟩⟩ : d3d10.device_impl).check_resource_handle_valid 4096 = true ∧
      (⟨⟨[4096, 20480]⟩, ⟨[]⟩⟩ : d3d10.device_impl).check_resource_handle_valid 20480 = true) ∧
    (sample.d3d9_fresh.create_resource usage_values sample.d3d9_device
        .texture_2d sample.plain_texture_desc
      = some ⟨⟨sample.caps_plain, sample.creation_parameters, 12288, ⟨[4096]⟩⟩, true, 4096,
          [.CreateTexture 256 256 1 1 21 0]⟩ ∧
      (⟨sample.caps_plain, sample.creation_parameters, 12288, ⟨[4096]⟩⟩ : d3d9.device_impl).check_resource_handle_valid 4096
        = true) :=
  ⟨⟨by decide,
    ((create_resource_registers_handle usage_values).1 sample.d3d10_device ⟨⟨[20480]⟩, ⟨[]⟩⟩
      .texture_2d sample.texture2d_desc
      ⟨⟨⟨[4096, 20480]⟩, ⟨[]⟩⟩, true, 4096, [.CreateTexture2D sample.native_texture2d]⟩
      sample.d3d10_device_returns_objects (by decide) rfl).2.1,
    ((create_resource_registers_handle usage_values).1 sample.d3d10_device ⟨⟨[20480]⟩, ⟨[]⟩⟩
      .texture_2d sample.texture2d_desc
      ⟨⟨⟨[4096, 20480]⟩, ⟨[]⟩⟩, true, 4096, [.CreateTexture2D sample.native_texture2d]⟩
      sample.d3d10_device_returns_objects (by decide) rfl).2.2.1 20480 (by decide)⟩,
   ⟨by decide,
    ((create_resource_registers_handle usage_values).2 sample.d3d9_device sample.d3d9_fresh
      .texture_2d sample.plain_texture_desc
      ⟨⟨sample.caps_plain, sample.creation_parameters, 12288, ⟨[4096]⟩⟩, true, 4096, [.CreateTexture 256 256 1 1 21 0]⟩
      sample.d3d9_device_returns_objects (by decide) rfl).2.1⟩⟩

/-- C8, on Direct3D 9, at a failing input.  A fresh device creates a 2D render
target texture (the handle 4096, valid afterwards) and then a render target view of
its level 0: `create_resource_view` returns `true` with the surface 8192 that
`GetSurfaceLevel` stored, and `check_resource_view_handle_valid` returns `false` for
that view handle, because nothing registered the surface. -/
theorem d3d9.created_level_view_is_not_valid :
    ((sample.d3d9_fresh.create_resource usage_values sample.d3d9_device .texture_2d
        sample.plain_texture_desc).bind fun created =>
      (created.self.create_resource_view usage_values sample.d3d9_device created.out
        .render_target sample.texture_view).map fun view =>
        (created.ret, created.out, created.self.check_resource_handle_valid created.out,
         view.ret, view.out, view.calls,
         view.self.check_resource_view_handle_valid view.out))
      = some (true, 4096, true, true, 8192, [.GetSurfaceLevel 4096 0], false) := by
  rfl

/-- C9. In both devices, when the native device stores non-null objects, whenever
`create_resource` or `create_resource_view` returns (does not trap), it returns
`false` exactly when the handle it wrote is `0`, and in that case it leaves the
device, hence its registries, as it found it. -/
theorem create_returns_false_iff_null_handle (U : resource_usage) :
    (∀ (orig : d3d10.ID3D10Device1) (dev : d3d10.device_impl) (type : resource_type)
        (desc : resource_desc) (res : create_result d3d10.device_impl d3d10.native_call),
      orig.returns_objects → dev.create_resource U orig type desc = some res →
        (res.ret = false ↔ res.out = 0) ∧ (res.ret = false → res.self = dev)) ∧
    (∀ (orig : d3d10.ID3D10Device1) (dev : d3d10.device_impl) (resource : Nat)
        (type : resource_view_type) (desc : resource_view_desc)
        (res : create_result d3d10.device_impl d3d10.native_call),
      orig.returns_objects → dev.create_resource_view orig resource type desc = some res →
        (res.ret = false ↔ res.out = 0) ∧ (res.ret = false → res.self = dev)) ∧
    (∀ (orig : d3d9.IDirect3DDevice9) (dev : d3d9.device_impl) (type : resource_type)
        (desc : resource_desc) (res : create_result d3d9.device_impl d3d9.native_call),
      orig.returns_objects → dev.create_resource U orig type desc = some res →
        (res.ret = false ↔ res.out = 0) ∧ (res.ret = false → res.self = dev)) ∧
    (∀ (orig : d3d9.IDirect3DDevice9) (dev : d3d9.device_impl) (resource : Nat)
        (type : resource_view_type) (desc : resource_view_desc)
        (res : create_result d3d9.device_impl d3d9.native_call),
      orig.returns_objects → dev.create_resource_view U orig resource type desc = some res →
        (res.ret = false ↔ res.out = 0) ∧ (res.ret = false → res.self = dev)) := by
  refine ⟨?_, ?_, ?_, ?_⟩
  · intro orig dev type desc res ho h
    rcases d3d10.d3d10_create_resource_cases h with ⟨hf, hz, hs⟩ | ⟨ht, -, c, -, ha⟩
    · exact ⟨⟨fun _ => hz, fun _ => hf⟩, fun _ => hs⟩
    · have hne : res.out ≠ 0 := d3d10.d3d10_answer_ne_zero ho ha
      exact ⟨⟨fun hf => (by rw [ht] at hf; cases hf), fun hz => absurd hz hne⟩,
        fun hf => (by rw [ht] at hf; cases hf)⟩
  · intro orig dev resource type desc res ho h
    rcases d3d10.d3d10_create_resource_view_cases h with ⟨hf, hz, hs⟩ | ⟨ht, -, c, -, ha⟩
    · exact ⟨⟨fun _ => hz, fun _ => hf⟩, fun _ => hs⟩
    · have hne : res.out ≠ 0 := d3d10.d3d10_answer_ne_zero ho ha
      exact ⟨⟨fun hf => (by rw [ht] at hf; cases hf), fun hz => absurd hz hne⟩,
        fun hf => (by rw [ht] at hf; cases hf)⟩
  · intro orig dev type desc res ho h
    rcases d3d9.d3d9_create_resource_cases h with ⟨hf, hz, hs⟩ | ⟨ht, -, c, -, ha⟩
    · exact ⟨⟨fun _ => hz, fun _ => hf⟩, fun _ => hs⟩
    · have hne : res.out ≠ 0 := d3d9.d3d9_answer_ne_zero ho ha
      exact ⟨⟨fun hf => (by rw [ht] at hf; cases hf), fun hz => absurd hz hne⟩,
        fun hf => (by rw [ht] at hf; cases hf)⟩
  · intro orig dev resource type desc res ho h
    obtain ⟨hs, hr, hcases⟩ := d3d9.d3d9_create_resource_view_cases h
    rcases hcases with ⟨hf, hz⟩ | ⟨ht, ho', -⟩ | ⟨ht, c, -, ha, -⟩
    · exact ⟨⟨fun _ => hz, fun _ => hf⟩, fun _ => hs⟩
    · have hne : res.out ≠ 0 := by rw [ho']; exact hr
      exact ⟨⟨fun hf => (by rw [ht] at hf; cases hf), fun hz => absurd hz hne⟩, fun _ => hs⟩
    · have hne : res.out ≠ 0 := d3d9.d3d9_answer_ne_zero ho ha
      exact ⟨⟨fun hf => (by rw [ht] at hf; cases hf), fun hz => absurd hz hne⟩, fun _ => hs⟩

/-- C9 on four calls: a Direct3D 10 texture creation that fails natively, a
Direct3D 10 view creation that succeeds, a Direct3D 9 texture creation that fails
natively, and a Direct3D 9 view creation that succeeds. -/
theorem create_returns_false_iff_null_handle_witness :
    (sample.d3d10_fresh.create_resource usage_values sample.d3d10_failing_device .texture_2d
        sample.texture2d_desc
      = some ⟨sample.d3d10_fresh, false, 0, [.CreateTexture2D sample.native_texture2d]⟩ ∧
      ((false = false ↔ 0 = 0) ∧ (false = false → sample.d3d10_fresh = sample.d3d10_fresh))) ∧
    (sample.d3d10_fresh.create_resource_view sample.d3d10_device 4096 .render_target
        sample.texture_view
      = some ⟨⟨⟨[]⟩, ⟨[8192]⟩⟩, true, 8192, [.CreateRenderTargetView 4096 ⟨21, 4, 0, 0, 0⟩]⟩ ∧
      (true = false ↔ 8192 = 0)) ∧
    (sample.d3d9_fresh.create_resource usage_values sample.d3d9_failing_device .texture_2d
        sample.plain_texture_desc
      = some ⟨sample.d3d9_fresh, false, 0, [.CreateTexture 256 256 1 1 21 0]⟩ ∧
      ((false = false ↔ 0 = 0) ∧ (false = false → sample.d3d9_fresh = sample.d3d9_fresh))) ∧
    (sample.d3d9_fresh.create_resource_view usage_values sample.d3d9_device 4096 .render_target
        sample.texture_view
      = some ⟨sample.d3d9_fresh, true, 8192, [.GetSurfaceLevel 4096 0]⟩ ∧
      (true = false ↔ 8192 = 0)) :=
  ⟨⟨by decide,
    (create_returns_false_iff_null_handle usage_values).1 sample.d3d10_failing_device
      sample.d3d10_fresh .texture_2d sample.texture2d_desc
      ⟨sample.d3d10_fresh, false, 0, [.CreateTexture2D sample.native_texture2d]⟩
      sample.d3d10_failing_device_returns_objects (by decide)⟩,
   ⟨by decide,
    ((create_returns_false_iff_null_handle usage_values).2.1 sample.d3d10_device
      sample.d3d10_fresh 4096 .render_target sample.texture_view
      ⟨⟨⟨[]⟩, ⟨[8192]⟩⟩, true, 8192, [.CreateRenderTargetView 4096 ⟨21, 4, 0, 0, 0⟩]⟩
      sample.d3d10_device_returns_objects (by decide)).1⟩,
   ⟨by decide,
    (create_returns_false_iff_null_handle usage_values).2.2.1 sample.d3d9_failing_device
      sample.d3d9_fresh .texture_2d sample.plain_texture_desc
      ⟨sample.d3d9_fresh, false, 0, [.CreateTexture 256 256 1 1 21 0]⟩
      sample.d3d9_failing_device_returns_objects (by decide)⟩,
   ⟨by decide,
    ((create_returns_false_iff_null_handle usage_values).2.2.2 sample.d3d9_device
      sample.d3d9_fresh 4096 .render_target sample.texture_view
      ⟨sample.d3d9_fresh, true, 8192, [.GetSurfaceLevel 4096 0]⟩
      sample.d3d9_device_returns_objects (by decide)).1⟩⟩

/-- C10. For every Direct3D 9 device, a second `on_reset` right after a first one
does nothing to the outside and leaves the device as the first call left it; so the
two calls together leave the same device and the same sequence of add-on events and
calls as the first call alone. -/
theorem d3d9.on_reset_idempotent (dev : d3d9.device_impl) :
    (dev.on_reset.1).on_reset = (dev.on_reset.1, []) ∧
    (dev.on_reset.1).on_reset.1 = dev.on_reset.1 ∧
    dev.on_reset.2 ++ (dev.on_reset.1).on_reset.2 = dev.on_reset.2 := by
  have h : (dev.on_reset.1).on_reset = (dev.on_reset.1, []) := by
    unfold d3d9.device_impl.on_reset
    split_ifs <;> simp_all
  rw [h]
  simp

/-! ### Device reset, format support and buffer creation -/

theorem has_flag_lor_right (u a b : Nat) : has_flag u (a ||| b) ↔ has_flag u a ∨ has_flag u b := by
  unfold has_flag
  rw [Nat.and_comm u (a ||| b), Nat.and_comm u a, Nat.and_comm u b]
  exact has_flag_lor a b u

/-- The native usage word `convert_usage_to_d3d_usage` makes out of the word `0`. -/
theorem d3d9.convert_usage_to_d3d_usage_zero (U : resource_usage) (usage : Nat)
    (hu : ¬ has_flag usage U.unordered_access) :
    d3d9.convert_usage_to_d3d_usage U usage 0 =
      some ((if has_flag usage U.render_target ∨ has_flag usage U.copy_dest ∨
                has_flag usage U.resolve_dest then d3d9.D3DUSAGE_RENDERTARGET else 0) |||
            (if has_flag usage U.depth_stencil then d3d9.D3DUSAGE_DEPTHSTENCIL else 0)) := by
  have hu' : usage &&& U.unordered_access = 0 := by
    unfold has_flag at hu
    exact not_not.mp hu
  have h3 : (usage &&& (U.render_target ||| U.copy_dest ||| U.resolve_dest) ≠ 0) ↔
      (has_flag usage U.render_target ∨ has_flag usage U.copy_dest ∨
        has_flag usage U.resolve_dest) := by
    show has_flag usage _ ↔ _
    rw [has_flag_lor_right, has_flag_lor_right, or_assoc]
  unfold d3d9.convert_usage_to_d3d_usage
  simp only [assert, hu', if_true, Option.pure_def, Option.bind_eq_bind, Option.some_bind]
  congr 1
  by_cases c1 : has_flag usage U.render_target ∨ has_flag usage U.copy_dest ∨
      has_flag usage U.resolve_dest
  · have c1' := h3.mpr c1
    by_cases c2 : has_flag usage U.depth_stencil
    · have c2' : usage &&& U.depth_stencil ≠ 0 := c2
      rw [if_pos c1', if_pos c2', if_pos c1, if_pos c2]
      decide
    · have c2' : ¬ (usage &&& U.depth_stencil ≠ 0) := c2
      rw [if_pos c1', if_neg c2', if_pos c1, if_neg c2]
      decide
  · have c1' := fun h => c1 (h3.mp h)
    by_cases c2 : has_flag usage U.depth_stencil
    · have c2' : usage &&& U.depth_stencil ≠ 0 := c2
      rw [if_neg c1', if_pos c2', if_neg c1, if_pos c2]
      decide
    · have c2' : ¬ (usage &&& U.depth_stencil ≠ 0) := c2
      rw [if_neg c1', if_neg c2', if_neg c1, if_neg c2]
      decide

/-- C11, at two failing inputs.  On a device in the `Reset` state (no copy state
block): when `BeginStateBlock` fails, `on_after_reset` still raises `init_device`
and `init_command_queue`, and the `on_reset` that follows raises nothing, so the
add-ons never see the teardown; when `EndStateBlock` succeeds and the backup state
block cannot be initialised, `on_after_reset` raises no event but leaves the copy
state block in place, and the `on_reset` that follows raises `destroy_command_queue`
and `destroy_device` for a device that was never announced. -/
theorem d3d9.failed_rebuild_leaves_device_half_active :
    (sample.d3d9_reset._copy_state = 0) ∧
    ((sample.d3d9_reset.on_after_reset usage_values
        { sample.d3d9_device with BeginStateBlock := false } sample.quiet_observer ⟨0⟩).map
        fun after => (after.1._copy_state, after.2, after.1.on_reset.2))
      = some (0, [.BeginStateBlock, .addon .init_device, .addon .init_command_queue], []) ∧
    ((sample.d3d9_reset.on_after_reset usage_values
        { sample.d3d9_device with backup_state_init_state_block := false }
        sample.quiet_observer ⟨0⟩).map
        fun after => (after.1._copy_state, after.2, after.1.on_reset.2))
      = some (12288,
          [.BeginStateBlock] ++ d3d9.copy_state_calls ++
            [.EndStateBlock, .backup_state_init_state_block],
          [.addon .destroy_command_queue, .addon .destroy_device, .Release 12288,
           .backup_state_release_state_block]) := by
  refine ⟨rfl, ?_, ?_⟩ <;> rfl

/-- C12. In both devices, `check_format_support(format, usage)` returns `false`,
without asking the native API, for every format and every usage that has
`unordered_access`, whatever the native device would answer. -/
theorem check_format_support_rejects_unordered_access (U : resource_usage) (format usage : Nat)
    (h : has_flag usage U.unordered_access) :
    (∀ (orig : d3d10.ID3D10Device1) (dev : d3d10.device_impl),
      dev.check_format_support U orig format usage = false) ∧
    (∀ (orig : d3d9.IDirect3DDevice9) (dev : d3d9.device_impl),
      dev.check_format_support U orig format usage = some (false, [])) := by
  unfold has_flag at h
  constructor
  · intro orig dev
    simp only [d3d10.device_impl.check_format_support, if_pos h]
  · intro orig dev
    simp only [d3d9.device_impl.check_format_support, if_pos h, Option.pure_def]

/-- C12 on a render target with unordered access, for a format the sample devices
support as a render target. -/
theorem check_format_support_rejects_unordered_access_witness :
    has_flag (usage_values.render_target ||| usage_values.unordered_access)
      usage_values.unordered_access ∧
    sample.d3d10_fresh.check_format_support usage_values sample.d3d10_device 28
      (usage_values.render_target ||| usage_values.unordered_access) = false ∧
    sample.d3d10_fresh.check_format_support usage_values sample.d3d10_device 28
      usage_values.render_target = true ∧
    sample.d3d9_fresh.check_format_support usage_values sample.d3d9_device 21
      (usage_values.render_target ||| usage_values.unordered_access) = some (false, []) :=
  ⟨by decide,
   (check_format_support_rejects_unordered_access usage_values 28
      (usage_values.render_target ||| usage_values.unordered_access) (by decide)).1
      sample.d3d10_device sample.d3d10_fresh,
   by decide,
   (check_format_support_rejects_unordered_access usage_values 21
      (usage_values.render_target ||| usage_values.unordered_access) (by decide)).2
      sample.d3d9_device sample.d3d9_fresh⟩

namespace d3d10

/-- C13. The Direct3D 10 `check_format_support(format, usage)` returns `true` if and
only if the usage has no `unordered_access`, the native `CheckFormatSupport`
succeeds, and the support word it stores has `RENDER_TARGET` if the usage has
`render_target`, `DEPTH_STENCIL` if it has `depth_stencil`, `SHADER_SAMPLE` if it
has `shader_resource`, and `MULTISAMPLE_RESOLVE` if it has `resolve_source` or
`resolve_dest`.  In particular it returns `false` when the native call fails. -/
theorem check_format_support_iff (U : resource_usage) (orig : ID3D10Device1) (dev : device_impl)
    (format usage : Nat) :
    (dev.check_format_support U orig format usage = true ↔
      ¬ has_flag usage U.unordered_access ∧
      ∃ support, orig.CheckFormatSupport format = some support ∧
        (has_flag usage U.render_target → has_flag support D3D10_FORMAT_SUPPORT_RENDER_TARGET) ∧
        (has_flag usage U.depth_stencil → has_flag support D3D10_FORMAT_SUPPORT_DEPTH_STENCIL) ∧
        (has_flag usage U.shader_resource → has_flag support D3D10_FORMAT_SUPPORT_SHADER_SAMPLE) ∧
        (has_flag usage U.resolve_source ∨ has_flag usage U.resolve_dest →
          has_flag support D3D10_FORMAT_SUPPORT_MULTISAMPLE_RESOLVE)) ∧
    (orig.CheckFormatSupport format = none →
      dev.check_format_support U orig format usage = false) := by
  have hres : (usage &&& (U.resolve_source ||| U.resolve_dest) ≠ 0) ↔
      (has_flag usage U.resolve_source ∨ has_flag usage U.resolve_dest) := by
    rw [← has_flag, has_flag_lor_right]
  unfold device_impl.check_format_support
  constructor
  · by_cases hua : usage &&& U.unordered_access ≠ 0
    · rw [if_pos hua]
      constructor
      · intro h; cases h
      · rintro ⟨h, -⟩; exact absurd hua h
    rw [if_neg hua]
    cases hc : orig.CheckFormatSupport format with
    | none => simp
    | some support =>
      simp only [hres, has_flag, hua, not_false_eq_true, true_and, Option.some.injEq,
        exists_eq_left']
      by_cases h1 : usage &&& U.render_target ≠ 0 ∧
          support &&& D3D10_FORMAT_SUPPORT_RENDER_TARGET = 0
      · rw [if_pos h1]
        simp only [Bool.false_eq_true, false_iff, not_and]
        intro hh
        exact absurd h1.2 (hh h1.1)
      rw [if_neg h1]
      by_cases h2 : usage &&& U.depth_stencil ≠ 0 ∧
          support &&& D3D10_FORMAT_SUPPORT_DEPTH_STENCIL = 0
      · rw [if_pos h2]
        simp only [Bool.false_eq_true, false_iff, not_and]
        intro _ hh
        exact absurd h2.2 (hh h2.1)
      rw [if_neg h2]
      by_cases h3 : usage &&& U.shader_resource ≠ 0 ∧
          support &&& D3D10_FORMAT_SUPPORT_SHADER_SAMPLE = 0
      · rw [if_pos h3]
        simp only [Bool.false_eq_true, false_iff, not_and]
        intro _ _ hh
        exact absurd h3.2 (hh h3.1)
      rw [if_neg h3]
      by_cases h4 : (usage &&& U.resolve_source ≠ 0 ∨ usage &&& U.resolve_dest ≠ 0) ∧
          support &&& D3D10_FORMAT_SUPPORT_MULTISAMPLE_RESOLVE = 0
      · rw [if_pos h4]
        simp only [Bool.false_eq_true, false_iff, not_and]
        intro _ _ _ hh
        exact absurd h4.2 (hh h4.1)
      rw [if_neg h4]
      simp only [true_iff]
      refine ⟨?_, ?_, ?_, ?_⟩
      · intro hh heq; exact h1 ⟨hh, heq⟩
      · intro hh heq; exact h2 ⟨hh, heq⟩
      · intro hh heq; exact h3 ⟨hh, heq⟩
      · intro hh heq; exact h4 ⟨hh, heq⟩
  · intro hnone
    rw [hnone]
    split_ifs <;> rfl

/-- C13 on the sample device: format 28 is supported as a resolvable render target
and format 45 is not, and a format the native call fails for is not supported. -/
theorem check_format_support_iff_witness :
    sample.d3d10_fresh.check_format_support usage_values sample.d3d10_device 28
      (usage_values.render_target ||| usage_values.resolve_dest) = true ∧
    ¬ (sample.d3d10_fresh.check_format_support usage_values sample.d3d10_device 45
      (usage_values.render_target ||| usage_values.resolve_dest) = true) ∧
    sample.d3d10_fresh.check_format_support usage_values sample.d3d10_device 99
      usage_values.render_target = false :=
  ⟨(check_format_support_iff usage_values sample.d3d10_device sample.d3d10_fresh 28
      (usage_values.render_target ||| usage_values.resolve_dest)).1.mpr
      ⟨by decide, _, rfl, by decide⟩,
   fun h => absurd
     ((check_format_support_iff usage_values sample.d3d10_device sample.d3d10_fresh 45
        (usage_values.render_target ||| usage_values.resolve_dest)).1.mp h)
     (by
       rintro ⟨-, support, hs, hrt, -⟩
       cases hs
       exact absurd (hrt (by decide)) (by decide)),
   (check_format_support_iff usage_values sample.d3d10_device sample.d3d10_fresh 99
      usage_values.render_target).2 rfl⟩

end d3d10

namespace d3d9

/-- C14. For every format and every usage without `unordered_access`, the
Direct3D 9 `check_format_support` issues exactly one query, `CheckDeviceFormat` for
the device's adapter and device type, the adapter format `D3DFMT_X8R8G8B8`, the
resource type `D3DRTYPE_TEXTURE` and the format asked about, with a usage word `w`
that has `D3DUSAGE_RENDERTARGET` iff the usage has one of `render_target`,
`copy_dest`, `resolve_dest`, has `D3DUSAGE_DEPTHSTENCIL` iff the usage has
`depth_stencil`, and has no other bit; and it returns whether that query succeeded.
So two such usages that agree on the two conditions get the same answer. -/
theorem check_format_support_query (U : resource_usage) (orig : IDirect3DDevice9)
    (dev : device_impl) (format usage : Nat) (hu : ¬ has_flag usage U.unordered_access) :
    (∃ w,
      dev.check_format_support U orig format usage =
        some (orig.CheckDeviceFormat dev._cp.AdapterOrdinal dev._cp.DeviceType D3DFMT_X8R8G8B8 w
                D3DRTYPE_TEXTURE format,
              [.CheckDeviceFormat dev._cp.AdapterOrdinal dev._cp.DeviceType D3DFMT_X8R8G8B8 w
                D3DRTYPE_TEXTURE format]) ∧
      (has_flag w D3DUSAGE_RENDERTARGET ↔
        has_flag usage U.render_target ∨ has_flag usage U.copy_dest ∨
          has_flag usage U.resolve_dest) ∧
      (has_flag w D3DUSAGE_DEPTHSTENCIL ↔ has_flag usage U.depth_stencil) ∧
      w &&& bnot32 (D3DUSAGE_RENDERTARGET ||| D3DUSAGE_DEPTHSTENCIL) = 0) ∧
    (∀ usage', ¬ has_flag usage' U.unordered_access →
      ((has_flag usage U.render_target ∨ has_flag usage U.copy_dest ∨
          has_flag usage U.resolve_dest) ↔
        (has_flag usage' U.render_target ∨ has_flag usage' U.copy_dest ∨
          has_flag usage' U.resolve_dest)) →
      (has_flag usage U.depth_stencil ↔ has_flag usage' U.depth_stencil) →
      dev.check_format_support U orig format usage =
        dev.check_format_support U orig format usage') := by
  have key : ∀ u, ¬ has_flag u U.unordered_access →
      dev.check_format_support U orig format u =
        some (orig.CheckDeviceFormat dev._cp.AdapterOrdinal dev._cp.DeviceType D3DFMT_X8R8G8B8
                ((if has_flag u U.render_target ∨ has_flag u U.copy_dest ∨
                    has_flag u U.resolve_dest then D3DUSAGE_RENDERTARGET else 0) |||
                  (if has_flag u U.depth_stencil then D3DUSAGE_DEPTHSTENCIL else 0))
                D3DRTYPE_TEXTURE format,
              [.CheckDeviceFormat dev._cp.AdapterOrdinal dev._cp.DeviceType D3DFMT_X8R8G8B8
                ((if has_flag u U.render_target ∨ has_flag u U.copy_dest ∨
                    has_flag u U.resolve_dest then D3DUSAGE_RENDERTARGET else 0) |||
                  (if has_flag u U.depth_stencil then D3DUSAGE_DEPTHSTENCIL else 0))
                D3DRTYPE_TEXTURE format]) := by
    intro u hu0
    have hu1 : ¬ (u &&& U.unordered_access ≠ 0) := hu0
    simp only [device_impl.check_format_support, if_neg hu1,
      convert_usage_to_d3d_usage_zero U u hu0, Option.pure_def, Option.bind_eq_bind,
      Option.some_bind]
  constructor
  · refine ⟨_, key usage hu, ?_, ?_, ?_⟩
    · by_cases c1 : has_flag usage U.render_target ∨ has_flag usage U.copy_dest ∨
          has_flag usage U.resolve_dest <;> by_cases c2 : has_flag usage U.depth_stencil <;>
        simp only [c1, c2, if_true, if_false, iff_true, iff_false] <;> decide
    · by_cases c1 : has_flag usage U.render_target ∨ has_flag usage U.copy_dest ∨
          has_flag usage U.resolve_dest <;> by_cases c2 : has_flag usage U.depth_stencil <;>
        simp only [c1, c2, if_true, if_false, iff_true, iff_false] <;> decide
    · by_cases c1 : has_flag usage U.render_target ∨ has_flag usage U.copy_dest ∨
          has_flag usage U.resolve_dest <;> by_cases c2 : has_flag usage U.depth_stencil <;>
        simp only [c1, c2, if_true, if_false] <;> decide
  · intro usage' hu' h1 h2
    rw [key usage hu, key usage' hu']
    simp only [h1, h2]

/-- C14 on the sample device: a usage with `copy_dest` and `shader_resource` asks
for the native usage word `D3DUSAGE_RENDERTARGET`, as the usage `render_target` does. -/
theorem check_format_support_query_witness :
    sample.d3d9_fresh.check_format_support usage_values sample.d3d9_device 21
        (usage_values.copy_dest ||| usage_values.shader_resource)
      = some (true, [.CheckDeviceFormat 0 1 22 1 3 21]) ∧
    sample.d3d9_fresh.check_format_support usage_values sample.d3d9_device 21
        (usage_values.copy_dest ||| usage_values.shader_resource)
      = sample.d3d9_fresh.check_format_support usage_values sample.d3d9_device 21
        usage_values.render_target :=
  ⟨by decide,
   (check_format_support_query usage_values sample.d3d9_device sample.d3d9_fresh 21
      (usage_values.copy_dest ||| usage_values.shader_resource) (by decide)).2
      usage_values.render_target (by decide) (by decide) (by decide)⟩

/-- C15, at failing inputs.  `create_resource(buffer, desc)` compares the whole
usage with `index_buffer` and with `vertex_buffer`: an index buffer, or a vertex
buffer, that also asks for `copy_dest` gets no native creation call and the
recoverable failure (`false`, null handle), and so does a descriptor with both
flags or with neither, although `convert_resource_desc` accepts the first two
descriptors and asserts on the last two.  Only the bare usage `index_buffer`
reaches `CreateIndexBuffer`. -/
theorem create_buffer_compares_whole_usage :
    ([usage_values.index_buffer ||| usage_values.copy_dest,
      usage_values.vertex_buffer ||| usage_values.copy_dest,
      usage_values.index_buffer ||| usage_values.vertex_buffer,
      0].map fun usage =>
        (sample.d3d9_fresh.create_resource usage_values sample.d3d9_device .buffer
          { sample.buffer_desc with usage := usage }).map fun r => (r.ret, r.out, r.calls))
      = List.replicate 4 (some (false, 0, [])) ∧
    ((convert_resource_desc_index_buffer usage_values
        { sample.buffer_desc with usage := usage_values.index_buffer ||| usage_values.copy_dest }
        D3DINDEXBUFFER_DESC.zero).isSome,
     (convert_resource_desc_vertex_buffer usage_values
        { sample.buffer_desc with usage := usage_values.vertex_buffer ||| usage_values.copy_dest }
        D3DVERTEXBUFFER_DESC.zero).isSome,
     (convert_resource_desc_index_buffer usage_values
        { sample.buffer_desc with usage := usage_values.index_buffer ||| usage_values.vertex_buffer }
        D3DINDEXBUFFER_DESC.zero).isSome,
     (convert_resource_desc_vertex_buffer usage_values
        { sample.buffer_desc with usage := 0 } D3DVERTEXBUFFER_DESC.zero).isSome)
      = (true, true, false, false) ∧
    ((sample.d3d9_fresh.create_resource usage_values sample.d3d9_device .buffer
        { sample.buffer_desc with usage := usage_values.index_buffer }).map
        fun r => (r.ret, r.out, r.calls))
      = some (true, 4096, [.CreateIndexBuffer 256 0 0 0]) := by
  refine ⟨?_, ?_, ?_⟩ <;> rfl

end d3d9

/-! ### The usage and bind flag table of Direct3D 10 -/

theorem land_set_or_clear_other {c : Prop} [Decidable c] (b X Y : Nat) (h1 : X &&& Y = 0)
    (h2 : bnot32 X &&& Y = Y) : (if c then b ||| X else b &&& bnot32 X) &&& Y = b &&& Y := by
  split
  · rw [land_lor, h1, Nat.or_zero]
  · rw [Nat.and_assoc, h2]

theorem land_set_or_clear_self {c : Prop} [Decidable c] (b X : Nat) (h : bnot32 X &&& X = 0) :
    (if c then b ||| X else b &&& bnot32 X) &&& X = if c then X else 0 := by
  split
  · exact lor_land_self b X
  · rw [Nat.and_assoc, h, Nat.and_zero]

theorem has_flag_ite_zero {c : Prop} [Decidable c] (X Y : Nat) :
    has_flag (if c then X else 0) Y ↔ c ∧ has_flag X Y := by
  split <;> simp_all [has_flag]

theorem ite_lor_eq {c : Prop} [Decidable c] (u X : Nat) :
    (if c then u ||| X else u) = u ||| (if c then X else 0) := by
  split <;> simp

/-- Two flags of a bitset with distinct flags meet exactly when they are the same flag. -/
theorem api.resource_usage.distinct.has_flag_iff {U : resource_usage} (hU : U.distinct)
    {i j : Nat} (hi : i < U.flags.length) (hj : j < U.flags.length) :
    has_flag U.flags[i] U.flags[j] ↔ i = j := by
  constructor
  · intro h
    by_contra hne
    exact hU.not_has_flag hi hj hne h
  · rintro rfl
    exact hU.has_flag_self hi

namespace d3d10

/-- What `convert_usage_to_bind_flags` returns, flag by flag: each of the six bind
flags it manages is set exactly when the usage has the matching flag. -/
theorem convert_usage_to_bind_flags_flags (U : resource_usage) (u b : Nat)
    (hu : ¬ has_flag u U.unordered_access) :
    ∃ f, convert_usage_to_bind_flags U u b = some f ∧
      f &&& D3D10_BIND_RENDER_TARGET
        = (if has_flag u U.render_target then D3D10_BIND_RENDER_TARGET else 0) ∧
      f &&& D3D10_BIND_DEPTH_STENCIL
        = (if has_flag u U.depth_stencil then D3D10_BIND_DEPTH_STENCIL else 0) ∧
      f &&& D3D10_BIND_SHADER_RESOURCE
        = (if has_flag u U.shader_resource then D3D10_BIND_SHADER_RESOURCE else 0) ∧
      f &&& D3D10_BIND_INDEX_BUFFER
        = (if has_flag u U.index_buffer then D3D10_BIND_INDEX_BUFFER else 0) ∧
      f &&& D3D10_BIND_VERTEX_BUFFER
        = (if has_flag u U.vertex_buffer then D3D10_BIND_VERTEX_BUFFER else 0) ∧
      f &&& D3D10_BIND_CONSTANT_BUFFER
        = (if has_flag u U.constant_buffer then D3D10_BIND_CONSTANT_BUFFER else 0) := by
  have hu' : u &&& U.unordered_access = 0 := not_not.mp hu
  obtain ⟨f, hf⟩ := convert_usage_to_bind_flags_isSome U u b hu'
  refine ⟨f, hf, ?_⟩
  simp only [convert_usage_to_bind_flags, assert, hu', if_true, Option.pure_def,
    Option.bind_eq_bind, Option.some_bind, Option.some.injEq] at hf
  subst hf
  unfold has_flag
  refine ⟨?_, ?_, ?_, ?_, ?_, ?_⟩
  · rw [land_set_or_clear_other _ _ _ (by decide) (by decide),
      land_set_or_clear_other _ _ _ (by decide) (by decide),
      land_set_or_clear_other _ _ _ (by decide) (by decide),
      land_set_or_clear_other _ _ _ (by decide) (by decide),
      land_set_or_clear_other _ _ _ (by decide) (by decide),
      land_set_or_clear_self _ _ (by decide)]
  · rw [land_set_or_clear_other _ _ _ (by decide) (by decide),
      land_set_or_clear_other _ _ _ (by decide) (by decide),
      land_set_or_clear_other _ _ _ (by decide) (by decide),
      land_set_or_clear_other _ _ _ (by decide) (by decide),
      land_set_or_clear_self _ _ (by decide)]
  · rw [land_set_or_clear_other _ _ _ (by decide) (by decide),
      land_set_or_clear_other _ _ _ (by decide) (by decide),
      land_set_or_clear_other _ _ _ (by decide) (by decide),
      land_set_or_clear_self _ _ (by decide)]
  · rw [land_set_or_clear_other _ _ _ (by decide) (by decide),
      land_set_or_clear_other _ _ _ (by decide) (by decide),
      land_set_or_clear_self _ _ (by decide)]
  · rw [land_set_or_clear_other _ _ _ (by decide) (by decide),
      land_set_or_clear_self _ _ (by decide)]
  · rw [land_set_or_clear_self _ _ (by decide)]

/-- The usage `convert_bind_flags_to_usage` returns, as one disjunction. -/
theorem convert_bind_flags_to_usage_eq (U : resource_usage) (f u0 : Nat) :
    convert_bind_flags_to_usage U f u0 =
      u0 ||| (U.copy_dest ||| U.copy_source) |||
        (if has_flag f D3D10_BIND_RENDER_TARGET then U.render_target else 0) |||
        (if has_flag f D3D10_BIND_DEPTH_STENCIL then U.depth_stencil else 0) |||
        (if has_flag f D3D10_BIND_SHADER_RESOURCE then U.shader_resource else 0) |||
        (if has_flag f D3D10_BIND_INDEX_BUFFER then U.index_buffer else 0) |||
        (if has_flag f D3D10_BIND_VERTEX_BUFFER then U.vertex_buffer else 0) |||
        (if has_flag f D3D10_BIND_CONSTANT_BUFFER then U.constant_buffer else 0) := by
  unfold convert_bind_flags_to_usage has_flag
  simp only [ite_lor_eq]

end d3d10

theorem testBit_ite_zero {c : Prop} [Decidable c] (X i : Nat) :
    (if c then X else 0).testBit i = (decide c && X.testBit i) := by
  split <;> simp_all

theorem has_flag_of_testBit {u m i : Nat} (hu : u.testBit i = true) (hm : m.testBit i = true) :
    has_flag u m := by
  unfold has_flag
  intro h
  have := congrArg (fun n => Nat.testBit n i) h
  simp [Nat.testBit_and, hu, hm] at this

/-- Which flags the usage built by `convert_bind_flags_to_usage` has, by the place
of the flag in the list of flags: `copy_dest` and `copy_source` always, and each of
the six flags with a bind flag exactly when its condition holds. -/
theorem usage_disjunction_has_flag {U : resource_usage} (hU : U.distinct)
    (c1 c2 c3 c4 c5 c6 : Prop) [Decidable c1] [Decidable c2] [Decidable c3] [Decidable c4]
    [Decidable c5] [Decidable c6] {j : Nat} (hj : j < U.flags.length) :
    has_flag (0 ||| (U.copy_dest ||| U.copy_source) |||
        (if c1 then U.render_target else 0) ||| (if c2 then U.depth_stencil else 0) |||
        (if c3 then U.shader_resource else 0) ||| (if c4 then U.index_buffer else 0) |||
        (if c5 then U.vertex_buffer else 0) ||| (if c6 then U.constant_buffer else 0))
      U.flags[j] ↔
    (8 = j ∨ 7 = j) ∨ (c1 ∧ 0 = j) ∨ (c2 ∧ 1 = j) ∨ (c3 ∧ 2 = j) ∨ (c4 ∧ 4 = j) ∨
      (c5 ∧ 5 = j) ∨ (c6 ∧ 6 = j) := by
  have e0 : has_flag U.render_target U.flags[j] ↔ 0 = j :=
    hU.has_flag_iff (i := 0) (by simp [resource_usage.flags]) hj
  have e1 : has_flag U.depth_stencil U.flags[j] ↔ 1 = j :=
    hU.has_flag_iff (i := 1) (by simp [resource_usage.flags]) hj
  have e2 : has_flag U.shader_resource U.flags[j] ↔ 2 = j :=
    hU.has_flag_iff (i := 2) (by simp [resource_usage.flags]) hj
  have e4 : has_flag U.index_buffer U.flags[j] ↔ 4 = j :=
    hU.has_flag_iff (i := 4) (by simp [resource_usage.flags]) hj
  have e5 : has_flag U.vertex_buffer U.flags[j] ↔ 5 = j :=
    hU.has_flag_iff (i := 5) (by simp [resource_usage.flags]) hj
  have e6 : has_flag U.constant_buffer U.flags[j] ↔ 6 = j :=
    hU.has_flag_iff (i := 6) (by simp [resource_usage.flags]) hj
  have e7 : has_flag U.copy_source U.flags[j] ↔ 7 = j :=
    hU.has_flag_iff (i := 7) (by simp [resource_usage.flags]) hj
  have e8 : has_flag U.copy_dest U.flags[j] ↔ 8 = j :=
    hU.has_flag_iff (i := 8) (by simp [resource_usage.flags]) hj
  simp only [has_flag_lor, has_flag_ite_zero, e0, e1, e2, e4, e5, e6, e7, e8, not_has_flag_zero,
    false_or, or_assoc]

namespace d3d10

/-- C17. Let the flags of `resource_usage` be distinct.  For every usage `u`
without `unordered_access` and every initial bind flag word `b`,
`convert_usage_to_bind_flags(u, b)` returns a word in which each of
`D3D10_BIND_RENDER_TARGET`, `DEPTH_STENCIL`, `SHADER_RESOURCE`, `INDEX_BUFFER`,
`VERTEX_BUFFER`, `CONSTANT_BUFFER` is set iff `u` has `render_target`,
`depth_stencil`, `shader_resource`, `index_buffer`, `vertex_buffer`,
`constant_buffer`; and `convert_bind_flags_to_usage` makes of that word, starting
from the empty usage, a usage that has each of these six flags iff `u` has it, and
has `copy_source` and `copy_dest`. -/
theorem usage_bind_flags_table (U : resource_usage) (hU : U.distinct) (u b : Nat)
    (hu : ¬ has_flag u U.unordered_access) :
    ∃ f, convert_usage_to_bind_flags U u b = some f ∧
      ((has_flag f D3D10_BIND_RENDER_TARGET ↔ has_flag u U.render_target) ∧
       (has_flag f D3D10_BIND_DEPTH_STENCIL ↔ has_flag u U.depth_stencil) ∧
       (has_flag f D3D10_BIND_SHADER_RESOURCE ↔ has_flag u U.shader_resource) ∧
       (has_flag f D3D10_BIND_INDEX_BUFFER ↔ has_flag u U.index_buffer) ∧
       (has_flag f D3D10_BIND_VERTEX_BUFFER ↔ has_flag u U.vertex_buffer) ∧
       (has_flag f D3D10_BIND_CONSTANT_BUFFER ↔ has_flag u U.constant_buffer)) ∧
      ((has_flag (convert_bind_flags_to_usage U f 0) U.render_target ↔
          has_flag u U.render_target) ∧
       (has_flag (convert_bind_flags_to_usage U f 0) U.depth_stencil ↔
          has_flag u U.depth_stencil) ∧
       (has_flag (convert_bind_flags_to_usage U f 0) U.shader_resource ↔
          has_flag u U.shader_resource) ∧
       (has_flag (convert_bind_flags_to_usage U f 0) U.index_buffer ↔
          has_flag u U.index_buffer) ∧
       (has_flag (convert_bind_flags_to_usage U f 0) U.vertex_buffer ↔
          has_flag u U.vertex_buffer) ∧
       (has_flag (convert_bind_flags_to_usage U f 0) U.constant_buffer ↔
          has_flag u U.constant_buffer) ∧
       has_flag (convert_bind_flags_to_usage U f 0) U.copy_source ∧
       has_flag (convert_bind_flags_to_usage U f 0) U.copy_dest) := by
  obtain ⟨f, hf, e1, e2, e3, e4, e5, e6⟩ := convert_usage_to_bind_flags_flags U u b hu
  have flag : ∀ {c : Prop} [Decidable c] {X : Nat}, X ≠ 0 →
      f &&& X = (if c then X else 0) → (has_flag f X ↔ c) := by
    intro c _ X hX h
    unfold has_flag
    rw [h]
    split <;> simp_all
  have g1 := flag (by decide) e1
  have g2 := flag (by decide) e2
  have g3 := flag (by decide) e3
  have g4 := flag (by decide) e4
  have g5 := flag (by decide) e5
  have g6 := flag (by decide) e6
  refine ⟨f, hf, ⟨g1, g2, g3, g4, g5, g6⟩, ?_⟩
  have back := fun (j : Nat) (hj : j < U.flags.length) =>
    usage_disjunction_has_flag hU (has_flag f D3D10_BIND_RENDER_TARGET)
      (has_flag f D3D10_BIND_DEPTH_STENCIL) (has_flag f D3D10_BIND_SHADER_RESOURCE)
      (has_flag f D3D10_BIND_INDEX_BUFFER) (has_flag f D3D10_BIND_VERTEX_BUFFER)
      (has_flag f D3D10_BIND_CONSTANT_BUFFER) hj
  rw [convert_bind_flags_to_usage_eq]
  refine ⟨?_, ?_, ?_, ?_, ?_, ?_, ?_, ?_⟩
  · exact (back 0 (by simp [resource_usage.flags])).trans (by simp [g1])
  · exact (back 1 (by simp [resource_usage.flags])).trans (by simp [g2])
  · exact (back 2 (by simp [resource_usage.flags])).trans (by simp [g3])
  · exact (back 4 (by simp [resource_usage.flags])).trans (by simp [g4])
  · exact (back 5 (by simp [resource_usage.flags])).trans (by simp [g5])
  · exact (back 6 (by simp [resource_usage.flags])).trans (by simp [g6])
  · exact (back 7 (by simp [resource_usage.flags])).mpr (by simp)
  · exact (back 8 (by simp [resource_usage.flags])).mpr (by simp)

/-- C17 on the usage `render_target | shader_resource`, starting from a bind flag
word with all 32 bits set. -/
theorem usage_bind_flags_table_witness :
    ¬ has_flag (usage_values.render_target ||| usage_values.shader_resource)
      usage_values.unordered_access ∧
    convert_usage_to_bind_flags usage_values
      (usage_values.render_target ||| usage_values.shader_resource) 4294967295
      = some 4294967224 ∧
    ∃ f, convert_usage_to_bind_flags usage_values
        (usage_values.render_target ||| usage_values.shader_resource) 4294967295 = some f ∧
      ((has_flag f D3D10_BIND_RENDER_TARGET ↔
          has_flag (usage_values.render_target ||| usage_values.shader_resource)
            usage_values.render_target) ∧
       (has_flag f D3D10_BIND_DEPTH_STENCIL ↔
          has_flag (usage_values.render_target ||| usage_values.shader_resource)
            usage_values.depth_stencil) ∧
       (has_flag f D3D10_BIND_SHADER_RESOURCE ↔
          has_flag (usage_values.render_target ||| usage_values.shader_resource)
            usage_values.shader_resource) ∧
       (has_flag f D3D10_BIND_INDEX_BUFFER ↔
          has_flag (usage_values.render_target ||| usage_values.shader_resource)
            usage_values.index_buffer) ∧
       (has_flag f D3D10_BIND_VERTEX_BUFFER ↔
          has_flag (usage_values.render_target ||| usage_values.shader_resource)
            usage_values.vertex_buffer) ∧
       (has_flag f D3D10_BIND_CONSTANT_BUFFER ↔
          has_flag (usage_values.render_target ||| usage_values.shader_resource)
            usage_values.constant_buffer)) :=
  ⟨by decide, by decide,
   (usage_bind_flags_table usage_values (by decide)
      (usage_values.render_target ||| usage_values.shader_resource) 4294967295
      (by decide)).imp fun _ h => ⟨h.1, h.2.1⟩⟩

end d3d10

/-! ### Round trip of the usage through the Direct3D 10 resource descriptors -/

namespace d3d10

/-- C16, as stated, fails.  Each of these two descriptors meets the asserted
preconditions of its shape (the conversion to native succeeds), and has in its usage
a flag that the round trip through the native descriptor does not give back:
`resolve_source` on a 2D texture with one sample per pixel, and `resolve_dest` on a
3D texture.  Each pair is the flag as found in the usage before and after. -/
theorem round_trip_loses_usage_bits :
    ((convert_resource_desc_texture2d usage_values
        { sample.texture2d_desc with
            samples := 1
            usage := usage_values.shader_resource ||| usage_values.resolve_source }
        D3D10_TEXTURE2D_DESC.zero).bind (convert_resource_desc_from_texture2d usage_values)).map
        (fun r => ((usage_values.shader_resource ||| usage_values.resolve_source) &&&
          usage_values.resolve_source, r.usage &&& usage_values.resolve_source))
      = some (usage_values.resolve_source, 0) ∧
    ((convert_resource_desc_texture3d usage_values
        { sample.texture3d_desc with
            usage := usage_values.shader_resource ||| usage_values.resolve_dest }
        D3D10_TEXTURE3D_DESC.zero).bind (convert_resource_desc_from_texture3d usage_values)).map
        (fun r => ((usage_values.shader_resource ||| usage_values.resolve_dest) &&&
          usage_values.resolve_dest, r.usage &&& usage_values.resolve_dest))
      = some (usage_values.resolve_dest, 0) := by
  decide

/-- The bits of a usage that the bind flags carry through: what one conversion to
bind flags and back keeps of every bit of `u` that belongs to one of the flags
listed in `bind_flag_usages`. -/
theorem round_trip_usage_bits (U : resource_usage) (u b : Nat)
    (hu : ¬ has_flag u U.unordered_access) :
    ∃ f, convert_usage_to_bind_flags U u b = some f ∧
      ∀ u0 i, u.testBit i = true → (bind_flag_usages U).testBit i = true →
        (convert_bind_flags_to_usage U f u0).testBit i = true := by
  obtain ⟨f, hf, e1, e2, e3, e4, e5, e6⟩ := convert_usage_to_bind_flags_flags U u b hu
  have flag : ∀ {c : Prop} [Decidable c] {X : Nat}, X ≠ 0 →
      f &&& X = (if c then X else 0) → c → has_flag f X := by
    intro c _ X hX h hc
    unfold has_flag
    rw [h, if_pos hc]
    exact hX
  refine ⟨f, hf, ?_⟩
  intro u0 i hui hki
  rw [convert_bind_flags_to_usage_eq]
  simp only [bind_flag_usages, Nat.testBit_or, Bool.or_eq_true] at hki
  simp only [Nat.testBit_or, testBit_ite_zero, Bool.or_eq_true, Bool.and_eq_true,
    decide_eq_true_eq]
  rcases hki with ((((((h | h) | h) | h) | h) | h) | h) | h
  · exact Or.inl (Or.inl (Or.inl (Or.inl (Or.inl (Or.inr
      ⟨flag (by decide) e1 (has_flag_of_testBit hui h), h⟩)))))
  · exact Or.inl (Or.inl (Or.inl (Or.inl (Or.inr
      ⟨flag (by decide) e2 (has_flag_of_testBit hui h), h⟩))))
  · exact Or.inl (Or.inl (Or.inl (Or.inr
      ⟨flag (by decide) e3 (has_flag_of_testBit hui h), h⟩)))
  · exact Or.inl (Or.inl (Or.inr
      ⟨flag (by decide) e4 (has_flag_of_testBit hui h), h⟩))
  · exact Or.inl (Or.inr
      ⟨flag (by decide) e5 (has_flag_of_testBit hui h), h⟩)
  · exact Or.inr
      ⟨flag (by decide) e6 (has_flag_of_testBit hui h), h⟩
  · exact Or.inl (Or.inl (Or.inl (Or.inl (Or.inl (Or.inl (Or.inr (Or.inr h)))))))
  · exact Or.inl (Or.inl (Or.inl (Or.inl (Or.inl (Or.inl (Or.inr (Or.inl h)))))))

/-- C16, amended.  For every abstract descriptor `d` whose fields fit their types
and whose usage has no `unordered_access`, and for each of the four shapes under
its asserted preconditions, converting `d` to native on top of any initial native
descriptor and back succeeds, and every bit of `d.usage` that belongs to one of the
flags `render_target`, `depth_stencil`, `shader_resource`, `index_buffer`,
`vertex_buffer`, `constant_buffer`, `copy_source`, `copy_dest` is set in the usage
that comes back; for the 2D texture so is every bit of `resolve_source` when
`samples > 1` and every bit of `resolve_dest` otherwise. -/
theorem round_trip_keeps_bind_flag_usages (U : resource_usage) (d : resource_desc)
    (hd : d.in_range) (hu : ¬ has_flag d.usage U.unordered_access) :
    (d.height = 0 → ∀ n0, ∃ r,
      (convert_resource_desc_buffer U d n0).bind (convert_resource_desc_from_buffer U) = some r ∧
      ∀ i, d.usage.testBit i = true → (bind_flag_usages U).testBit i = true →
        r.usage.testBit i = true) ∧
    (d.height = 1 → d.samples = 1 → ∀ n0, ∃ r,
      (convert_resource_desc_texture1d U d n0).bind (convert_resource_desc_from_texture1d U)
        = some r ∧
      ∀ i, d.usage.testBit i = true → (bind_flag_usages U).testBit i = true →
        r.usage.testBit i = true) ∧
    (∀ n0, ∃ r,
      (convert_resource_desc_texture2d U d n0).bind (convert_resource_desc_from_texture2d U)
        = some r ∧
      (∀ i, d.usage.testBit i = true → (bind_flag_usages U).testBit i = true →
        r.usage.testBit i = true) ∧
      (∀ i, (if d.samples > 1 then U.resolve_source else U.resolve_dest).testBit i = true →
        r.usage.testBit i = true)) ∧
    (d.samples = 1 → ∀ n0, ∃ r,
      (convert_resource_desc_texture3d U d n0).bind (convert_resource_desc_from_texture3d U)
        = some r ∧
      ∀ i, d.usage.testBit i = true → (bind_flag_usages U).testBit i = true →
        r.usage.testBit i = true) := by
  obtain ⟨_, _, hdepth, hlevels, _, hsamples, _⟩ := hd
  have h16 : ∀ x, x < 65536 → x ≤ uint16_max ∧ to_uint16 x = x := by
    intro x hx
    exact ⟨by unfold uint16_max; omega, by unfold to_uint16; omega⟩
  refine ⟨?_, ?_, ?_, ?_⟩
  · intro h1 n0
    obtain ⟨f, hf, hbits⟩ := round_trip_usage_bits U d.usage n0.BindFlags hu
    refine ⟨{ resource_desc.zero with
      width := d.width, usage := convert_bind_flags_to_usage U f 0 }, ?_, hbits 0⟩
    simp [convert_resource_desc_buffer, convert_resource_desc_from_buffer, assert, hf,
      resource_desc.zero, h1]
  · intro h1 h2 n0
    obtain ⟨f, hf, hbits⟩ := round_trip_usage_bits U d.usage n0.BindFlags hu
    refine ⟨{
      width := d.width, height := 1, depth_or_layers := d.depth_or_layers,
      levels := d.levels, format := d.format, samples := 1,
      usage := convert_bind_flags_to_usage U f 0 }, ?_, hbits 0⟩
    simp [convert_resource_desc_texture1d, convert_resource_desc_from_texture1d, assert, hf,
      resource_desc.zero, h1, h2, h16 _ hdepth, h16 _ hlevels]
  · intro n0
    obtain ⟨f, hf, hbits⟩ := round_trip_usage_bits U d.usage n0.BindFlags hu
    refine ⟨{
      width := d.width, height := d.height, depth_or_layers := d.depth_or_layers,
      levels := d.levels, format := d.format, samples := d.samples,
      usage := convert_bind_flags_to_usage U f 0 |||
        (if d.samples > 1 then U.resolve_source else U.resolve_dest) }, ?_, ?_, ?_⟩
    · simp [convert_resource_desc_texture2d, convert_resource_desc_from_texture2d, assert, hf,
        resource_desc.zero, h16 _ hdepth, h16 _ hlevels, h16 _ hsamples]
    · intro i h1 h2
      simp only [Nat.testBit_or, Bool.or_eq_true]
      exact Or.inl (hbits 0 i h1 h2)
    · intro i h1
      simp only [Nat.testBit_or, Bool.or_eq_true]
      exact Or.inr h1
  · intro h1 n0
    obtain ⟨f, hf, hbits⟩ := round_trip_usage_bits U d.usage n0.BindFlags hu
    refine ⟨{
      width := d.width, height := d.height, depth_or_layers := d.depth_or_layers,
      levels := d.levels, format := d.format, samples := 1,
      usage := convert_bind_flags_to_usage U f 0 }, ?_, hbits 0⟩
    simp [convert_resource_desc_texture3d, convert_resource_desc_from_texture3d, assert, hf,
      resource_desc.zero, h1, h16 _ hdepth, h16 _ hlevels]

/-- The amended C16 on the multisampled 640x480 render target, converted on top of
a zeroed native descriptor. -/
theorem round_trip_keeps_bind_flag_usages_witness :
    sample.texture2d_desc.in_range ∧
    ¬ has_flag sample.texture2d_desc.usage usage_values.unordered_access ∧
    ∃ r,
      (convert_resource_desc_texture2d usage_values sample.texture2d_desc
        D3D10_TEXTURE2D_DESC.zero).bind (convert_resource_desc_from_texture2d usage_values)
        = some r ∧
      (∀ i, sample.texture2d_desc.usage.testBit i = true →
        (bind_flag_usages usage_values).testBit i = true → r.usage.testBit i = true) ∧
      (∀ i, (if sample.texture2d_desc.samples > 1 then usage_values.resolve_source
          else usage_values.resolve_dest).testBit i = true → r.usage.testBit i = true) :=
  ⟨by decide, by decide,
   (round_trip_keeps_bind_flag_usages usage_values sample.texture2d_desc
      (by decide) (by decide)).2.2.1 D3D10_TEXTURE2D_DESC.zero⟩

end d3d10


/-! ### Round trip of the Direct3D 9 surface descriptor -/

namespace d3d9

/-- The fields other than the usage that `convert_resource_desc` reads off a surface,
texture or cube texture, and the bound on `levels` its assertion checks. -/
theorem convert_resource_desc_from_surface_shape {U : resource_usage} {s : D3DSURFACE_DESC}
    {levels : Nat} {caps : D3DCAPS9} {r : resource_desc}
    (h : convert_resource_desc_from_surface U s levels caps = some r) :
    levels ≤ uint16_max ∧
    r.shape = (s.Width, s.Height, (if s.Type_ = D3DRTYPE_CUBETEXTURE then 6 else 1),
      to_uint16 levels, s.Format,
      (if to_int32 s.MultiSampleType ≥ to_int32 D3DMULTISAMPLE_2_SAMPLES then to_uint16 s.MultiSampleType
       else 1)) := by
  unfold convert_resource_desc_from_surface at h
  generalize D3DFMT_DXT1 = c1 at h ⊢
  generalize D3DFMT_DXT2 = c2 at h ⊢
  generalize D3DFMT_DXT3 = c3 at h ⊢
  generalize D3DFMT_DXT4 = c4 at h ⊢
  generalize D3DFMT_DXT5 = c5 at h ⊢
  generalize D3DFMT_D16_LOCKABLE = c6 at h ⊢
  generalize D3DFMT_D32 = c7 at h ⊢
  generalize D3DFMT_D15S1 = c8 at h ⊢
  generalize D3DFMT_D24S8 = c9 at h ⊢
  generalize D3DFMT_D24X8 = c10 at h ⊢
  generalize D3DFMT_D24X4S4 = c11 at h ⊢
  generalize D3DFMT_D16 = c12 at h ⊢
  generalize D3DFMT_D32F_LOCKABLE = c13 at h ⊢
  generalize D3DFMT_D24FS8 = c14 at h ⊢
  generalize D3DFMT_D32_LOCKABLE = c15 at h ⊢
  generalize D3DFMT_S8_LOCKABLE = c16 at h ⊢
  generalize MAKEFOURCC 'N' 'U' 'L' 'L' = c17 at h ⊢
  by_cases hT : s.Type_ = D3DRTYPE_SURFACE ∨ s.Type_ = D3DRTYPE_TEXTURE ∨ s.Type_ = D3DRTYPE_CUBETEXTURE
  swap
  · simp only [assert, if_neg hT, Option.bind_eq_bind, Option.none_bind, reduceCtorEq] at h
  simp only [assert, if_pos hT, Option.pure_def, Option.bind_eq_bind, Option.some_bind] at h
  by_cases hL : levels ≤ uint16_max
  swap
  · simp only [if_neg hL, Option.none_bind, reduceCtorEq] at h
  simp only [if_pos hL, Option.some_bind, resource_desc.zero] at h
  refine ⟨hL, ?_⟩
  by_cases hC : s.Pool = D3DPOOL_DEFAULT ∧ (s.Type_ = D3DRTYPE_SURFACE ∨ (s.Type_ = D3DRTYPE_TEXTURE ∧
            caps.Caps2 &&& D3DDEVCAPS2_CAN_STRETCHRECT_FROM_TEXTURES ≠ 0))
  swap
  · rw [if_neg hC] at h
    cases h; rfl
  rw [if_pos hC] at h
  by_cases h1 : s.Format = c1 ∨ s.Format = c2 ∨ s.Format = c3 ∨ s.Format = c4 ∨ s.Format = c5
  · rw [if_pos h1] at h
    cases h; rfl
  rw [if_neg h1] at h
  by_cases h2 : s.Format = c6 ∨ s.Format = c7 ∨ s.Format = c8 ∨ s.Format = c9 ∨ s.Format = c10 ∨
      s.Format = c11 ∨ s.Format = c12 ∨ s.Format = c13 ∨ s.Format = c14 ∨ s.Format = c15 ∨
      s.Format = c16
  · rw [if_pos h2] at h
    by_cases hds : s.Usage &&& D3DUSAGE_DEPTHSTENCIL ≠ 0
    · rw [if_pos hds] at h
      cases h; rfl
    · rw [if_neg hds] at h
      cases h
  rw [if_neg h2] at h
  by_cases h3 : s.Format = c17
  · rw [if_pos h3] at h
    cases h; rfl
  rw [if_neg h3] at h
  cases h; rfl

/-- What `convert_resource_desc` writes into a surface descriptor and into the level
count behind a non-null `levels` pointer. -/
theorem convert_resource_desc_surface_eq (U : resource_usage) (d : resource_desc)
    (hl : d.depth_or_layers = 1 ∨ d.depth_or_layers = 6)
    (hu : ¬ has_flag d.usage U.unordered_access) (n0 : D3DSURFACE_DESC) (l0 : Nat) :
    ∃ u, convert_usage_to_d3d_usage U d.usage n0.Usage = some u ∧
      convert_resource_desc_surface U d n0 (some l0) =
        some ({ n0 with
                  Width := d.width, Height := d.height, Format := d.format,
                  MultiSampleType := (if d.samples > 1 then d.samples else D3DMULTISAMPLE_NONE),
                  Usage := u }, some d.levels) := by
  have hu0 : d.usage &&& U.unordered_access = 0 := by
    unfold has_flag at hu
    exact not_not.mp hu
  have hc : ∃ u, convert_usage_to_d3d_usage U d.usage n0.Usage = some u := by
    unfold convert_usage_to_d3d_usage
    simp only [assert, hu0, if_true, Option.pure_def, Option.bind_eq_bind, Option.some_bind]
    exact ⟨_, rfl⟩
  obtain ⟨u, hc⟩ := hc
  refine ⟨u, hc, ?_⟩
  unfold convert_resource_desc_surface
  simp only [assert, hl, if_true, hc, Option.pure_def, Option.bind_eq_bind, Option.some_bind]

/-- C18. For every abstract descriptor `d` whose fields fit their types, with
`depth_or_layers = 1`, `samples ≥ 1` and a usage without `unordered_access`, every
initial surface descriptor `n0` of type `D3DRTYPE_SURFACE`, every value `l0` behind
the `levels` pointer and every `caps`: the conversion of `d` to the native surface
descriptor succeeds and writes `d.levels` to `levels`, and whenever the conversion of
that descriptor and level count back does not trap, its result has the width,
height, depth_or_layers, levels, format and samples of `d`. -/
theorem surface_round_trip_shape (U : resource_usage) (d : resource_desc)
    (hd : d.in_range) (hl : d.depth_or_layers = 1) (hs : 1 ≤ d.samples)
    (hu : ¬ has_flag d.usage U.unordered_access)
    (n0 : D3DSURFACE_DESC) (hn : n0.Type_ = D3DRTYPE_SURFACE) (l0 : Nat) (caps : D3DCAPS9) :
    ∃ n, convert_resource_desc_surface U d n0 (some l0) = some (n, some d.levels) ∧
      ∀ r, convert_resource_desc_from_surface U n d.levels caps = some r →
        r.shape = d.shape := by
  obtain ⟨u, -, hc⟩ := convert_resource_desc_surface_eq U d (Or.inl hl) hu n0 l0
  refine ⟨_, hc, ?_⟩
  intro r hr
  obtain ⟨-, hshape⟩ := convert_resource_desc_from_surface_shape hr
  obtain ⟨_, _, _, hlevels, _, hsamples, _⟩ := hd
  have hT : ¬ n0.Type_ = D3DRTYPE_CUBETEXTURE := by
    rw [hn]; decide
  rw [hshape]
  unfold resource_desc.shape
  simp only [hT, if_false, hl]
  have e1 : to_uint16 d.levels = d.levels := by unfold to_uint16; omega
  rw [e1]
  by_cases h1 : d.samples > 1
  · have h2 : to_int32 d.samples ≥ to_int32 D3DMULTISAMPLE_2_SAMPLES :=
      (to_int32_ge_2_samples_of_lt hsamples).mpr h1
    have e2 : to_uint16 d.samples = d.samples := by unfold to_uint16; omega
    simp only [if_pos h1, if_pos h2, e2]
  · have h2 : ¬ to_int32 D3DMULTISAMPLE_NONE ≥ to_int32 D3DMULTISAMPLE_2_SAMPLES := by decide
    have e2 : d.samples = 1 := by omega
    simp only [if_neg h1, if_neg h2]
    rw [e2]

/-- C18 on a 256x256 render target with one level and one sample per pixel, converted
on top of the descriptor of a depth-stencil surface; the conversion back returns. -/
theorem surface_round_trip_shape_witness :
    sample.plain_texture_desc.in_range ∧ sample.plain_texture_desc.depth_or_layers = 1 ∧
    1 ≤ sample.plain_texture_desc.samples ∧
    ¬ has_flag sample.plain_texture_desc.usage usage_values.unordered_access ∧
    sample.depth_stencil_surface.Type_ = D3DRTYPE_SURFACE ∧
    ((convert_resource_desc_surface usage_values sample.plain_texture_desc
        sample.depth_stencil_surface (some 7)).bind
      (fun p => convert_resource_desc_from_surface usage_values p.1 sample.plain_texture_desc.levels
        sample.caps_plain)).isSome = true ∧
    ∃ n, convert_resource_desc_surface usage_values sample.plain_texture_desc
        sample.depth_stencil_surface (some 7) = some (n, some sample.plain_texture_desc.levels) ∧
      ∀ r, convert_resource_desc_from_surface usage_values n sample.plain_texture_desc.levels
          sample.caps_plain = some r →
        r.shape = sample.plain_texture_desc.shape :=
  ⟨by decide, by decide, by decide, by decide, by decide, by decide,
   surface_round_trip_shape usage_values sample.plain_texture_desc (by decide) (by decide)
     (by decide) (by decide) sample.depth_stencil_surface (by decide) 7 sample.caps_plain⟩

end d3d9

/-! ### View descriptors of Direct3D 10: the unknown dimension and the two target kinds -/

namespace d3d10

/-- C19. For every abstract view descriptor `d` with dimension `unknown` (and
`levels = 1` for the depth-stencil and render-target kinds) and every initial native
view descriptor `n0`, each of the four conversions to native returns `n0` with only
its `Format` replaced by `d.format`: the `ViewDimension` and the words of the union
are those of `n0`. -/
theorem unknown_dimension_changes_only_format (d : resource_view_desc)
    (hdim : d.dimension = resource_view_dimension.unknown) :
    (d.levels = 1 → ∀ n0 : D3D10_DEPTH_STENCIL_VIEW_DESC,
      convert_resource_view_desc_dsv d n0 = some { n0 with Format := d.format }) ∧
    (d.levels = 1 → ∀ n0 : D3D10_RENDER_TARGET_VIEW_DESC,
      convert_resource_view_desc_rtv d n0 = some { n0 with Format := d.format }) ∧
    (∀ n0 : D3D10_SHADER_RESOURCE_VIEW_DESC,
      convert_resource_view_desc_srv d n0 = some { n0 with Format := d.format }) ∧
    (∀ n0 : D3D10_SHADER_RESOURCE_VIEW_DESC,
      convert_resource_view_desc_srv1 d n0 = some { n0 with Format := d.format }) := by
  have hsrv : ∀ n0 : D3D10_SHADER_RESOURCE_VIEW_DESC,
      convert_resource_view_desc_srv d n0 = some { n0 with Format := d.format } := by
    intro n0
    unfold convert_resource_view_desc_srv
    simp only [hdim, Option.pure_def]
  refine ⟨?_, ?_, hsrv, ?_⟩
  · intro hl n0
    unfold convert_resource_view_desc_dsv
    simp [assert, hdim, hl]
  · intro hl n0
    unfold convert_resource_view_desc_rtv
    simp [assert, hdim, hl]
  · intro n0
    unfold convert_resource_view_desc_srv1
    rw [if_neg (by rw [hdim]; decide)]
    exact hsrv n0

/-- C19 on a descriptor of unknown dimension and format 28 and on native descriptors
whose view dimension and union words are all set. -/
theorem unknown_dimension_changes_only_format_witness :
    sample.unknown_view.dimension = resource_view_dimension.unknown ∧
    sample.unknown_view.levels = 1 ∧
    convert_resource_view_desc_dsv sample.unknown_view
      { Format := 45, ViewDimension := 4, w0 := 1, w1 := 2, w2 := 3 }
      = some { Format := 28, ViewDimension := 4, w0 := 1, w1 := 2, w2 := 3 } ∧
    convert_resource_view_desc_rtv sample.unknown_view
      { Format := 45, ViewDimension := 8, w0 := 1, w1 := 2, w2 := 3 }
      = some { Format := 28, ViewDimension := 8, w0 := 1, w1 := 2, w2 := 3 } ∧
    convert_resource_view_desc_srv sample.unknown_view
      { Format := 45, ViewDimension := 5, w0 := 1, w1 := 2, w2 := 3, w3 := 4 }
      = some { Format := 28, ViewDimension := 5, w0 := 1, w1 := 2, w2 := 3, w3 := 4 } ∧
    convert_resource_view_desc_srv1 sample.unknown_view
      { Format := 45, ViewDimension := 10, w0 := 1, w1 := 2, w2 := 3, w3 := 4 }
      = some { Format := 28, ViewDimension := 10, w0 := 1, w1 := 2, w2 := 3, w3 := 4 } :=
  ⟨rfl, rfl,
   (unknown_dimension_changes_only_format sample.unknown_view rfl).1 rfl _,
   (unknown_dimension_changes_only_format sample.unknown_view rfl).2.1 rfl _,
   (unknown_dimension_changes_only_format sample.unknown_view rfl).2.2.1 _,
   (unknown_dimension_changes_only_format sample.unknown_view rfl).2.2.2 _⟩

/-- C20. The abstract view descriptor made from any native depth-stencil or
render-target view descriptor, whatever its `ViewDimension`, has `levels = 1` and a
dimension other than `buffer`; and the conversion to native of either kind traps on
every abstract descriptor with dimension `buffer` or `levels ≠ 1`. -/
theorem target_views_have_one_level_and_no_buffer :
    (∀ n : D3D10_DEPTH_STENCIL_VIEW_DESC,
      (convert_resource_view_desc_from_dsv n).levels = 1 ∧
      (convert_resource_view_desc_from_dsv n).dimension ≠ resource_view_dimension.buffer) ∧
    (∀ n : D3D10_RENDER_TARGET_VIEW_DESC,
      (convert_resource_view_desc_from_rtv n).levels = 1 ∧
      (convert_resource_view_desc_from_rtv n).dimension ≠ resource_view_dimension.buffer) ∧
    (∀ (d : resource_view_desc) (n0 : D3D10_DEPTH_STENCIL_VIEW_DESC),
      d.dimension = resource_view_dimension.buffer ∨ d.levels ≠ 1 →
      convert_resource_view_desc_dsv d n0 = none) ∧
    (∀ (d : resource_view_desc) (n0 : D3D10_RENDER_TARGET_VIEW_DESC),
      d.dimension = resource_view_dimension.buffer ∨ d.levels ≠ 1 →
      convert_resource_view_desc_rtv d n0 = none) := by
  refine ⟨?_, ?_, ?_, ?_⟩
  · intro n
    unfold convert_resource_view_desc_from_dsv
    simp only [resource_view_desc.zero]
    split_ifs <;> exact ⟨rfl, fun h => by cases h⟩
  · intro n
    unfold convert_resource_view_desc_from_rtv
    simp only [resource_view_desc.zero]
    split_ifs <;> exact ⟨rfl, fun h => by cases h⟩
  · intro d n0 h
    have hn : ¬ (d.dimension ≠ resource_view_dimension.buffer ∧ d.levels = 1) := by
      rintro ⟨h1, h2⟩
      rcases h with h | h
      · exact h1 h
      · exact h h2
    unfold convert_resource_view_desc_dsv
    simp only [assert, if_neg hn, Option.bind_eq_bind, Option.none_bind]
  · intro d n0 h
    have hn : ¬ (d.dimension ≠ resource_view_dimension.buffer ∧ d.levels = 1) := by
      rintro ⟨h1, h2⟩
      rcases h with h | h
      · exact h1 h
      · exact h h2
    unfold convert_resource_view_desc_rtv
    simp only [assert, if_neg hn, Option.bind_eq_bind, Option.none_bind]

/-- C20 at a native descriptor whose `ViewDimension` no `case` lists, and at abstract
descriptors of dimension `buffer` and of two levels. -/
theorem target_views_have_one_level_and_no_buffer_witness :
    (sample.texture_view.dimension = resource_view_dimension.buffer ∨
      { sample.texture_view with levels := 2 }.levels ≠ 1) ∧
    convert_resource_view_desc_from_dsv { Format := 45, ViewDimension := 77, w0 := 1, w1 := 2, w2 := 3 }
      = { dimension := .unknown, format := 45, first_level := 0, levels := 1,
          first_layer := 0, layers := 0 } ∧
    convert_resource_view_desc_dsv { sample.texture_view with levels := 2 }
      D3D10_DEPTH_STENCIL_VIEW_DESC.zero = none ∧
    convert_resource_view_desc_rtv { sample.texture_view with dimension := .buffer }
      D3D10_RENDER_TARGET_VIEW_DESC.zero = none :=
  ⟨by decide, by decide,
   target_views_have_one_level_and_no_buffer.2.2.1 _ _ (Or.inr (by decide)),
   target_views_have_one_level_and_no_buffer.2.2.2 _ _ (Or.inl rfl)⟩

end d3d10

/-! ### Round trip of the Direct3D 10 view descriptors -/

namespace d3d10

/-- C21. For each of the three view kinds and every abstract view descriptor `d`
whose dimension the kind's conversion lists and whose fields that the native variant
of that dimension does not carry are zero (with `levels = 1` for the depth-stencil
and render-target kinds): converting `d` to native on top of any initial native
descriptor succeeds, and converting the result back gives `d` again, with its format,
dimension, first_level, levels, first_layer and layers. -/
theorem view_desc_round_trip (d : resource_view_desc) :
    (d.levels = 1 → dsv_fields_carried d → ∀ n0, ∃ n,
      convert_resource_view_desc_dsv d n0 = some n ∧ convert_resource_view_desc_from_dsv n = d) ∧
    (d.levels = 1 → rtv_fields_carried d → ∀ n0, ∃ n,
      convert_resource_view_desc_rtv d n0 = some n ∧ convert_resource_view_desc_from_rtv n = d) ∧
    (srv_fields_carried d → ∀ n0, ∃ n,
      convert_resource_view_desc_srv d n0 = some n ∧ convert_resource_view_desc_from_srv n = d) := by
  obtain ⟨dim, format, first_level, levels, first_layer, layers⟩ := d
  refine ⟨?_, ?_, ?_⟩
  · intro hl hc n0
    simp only at hl
    subst hl
    cases dim <;> simp only [dsv_fields_carried] at hc
    all_goals
      obtain ⟨rfl, rfl, rfl⟩ := hc
      exact ⟨_, rfl, rfl⟩
  · intro hl hc n0
    simp only at hl
    subst hl
    cases dim <;> simp only [rtv_fields_carried] at hc
    all_goals
      obtain ⟨rfl, rfl, rfl⟩ := hc
      exact ⟨_, rfl, rfl⟩
  · intro hc n0
    cases dim <;> simp only [srv_fields_carried] at hc
    all_goals
      obtain ⟨rfl, rfl, rfl, rfl⟩ := hc
      exact ⟨_, rfl, rfl⟩

/-- C21 on a view of three layers of a 2D texture array from level 2 on (for the two
target kinds) and on a view of 64 elements of a buffer from element 16 on. -/
theorem view_desc_round_trip_witness :
    sample.array_view.levels = 1 ∧ dsv_fields_carried sample.array_view ∧
    rtv_fields_carried sample.array_view ∧ srv_fields_carried sample.buffer_view ∧
    (∃ n, convert_resource_view_desc_dsv sample.array_view
        { Format := 0, ViewDimension := 5, w0 := 9, w1 := 9, w2 := 9 } = some n ∧
      convert_resource_view_desc_from_dsv n = sample.array_view) ∧
    (∃ n, convert_resource_view_desc_rtv sample.array_view
        { Format := 0, ViewDimension := 8, w0 := 9, w1 := 9, w2 := 9 } = some n ∧
      convert_resource_view_desc_from_rtv n = sample.array_view) ∧
    (∃ n, convert_resource_view_desc_srv sample.buffer_view
        { Format := 0, ViewDimension := 9, w0 := 9, w1 := 9, w2 := 9, w3 := 9 } = some n ∧
      convert_resource_view_desc_from_srv n = sample.buffer_view) :=
  ⟨rfl, by decide, by decide, by decide,
   (view_desc_round_trip sample.array_view).1 rfl (by decide) _,
   (view_desc_round_trip sample.array_view).2.1 rfl (by decide) _,
   (view_desc_round_trip sample.buffer_view).2.2 (by decide) _⟩

end d3d10

/-! ### Views of Direct3D 9 resources -/

namespace d3d9

/-- Where the view of a successful `create_resource_view` comes from: it is the
resource itself, which then is a surface, a texture or a cube texture, or it is the
surface a `GetSurfaceLevel` or `GetCubeMapSurface` call on the resource stored. -/
theorem d3d9_created_view_source {U : resource_usage} {orig : IDirect3DDevice9}
    {self : device_impl} {resource : Nat} {type : resource_view_type} {desc : resource_view_desc}
    {res : create_result device_impl native_call}
    (h : self.create_resource_view U orig resource type desc = some res)
    (hret : res.ret = true) :
    res.self = self ∧ resource ≠ 0 ∧
    ((res.out = resource ∧ (orig.GetType resource = D3DRTYPE_SURFACE ∨
        orig.GetType resource = D3DRTYPE_TEXTURE ∨ orig.GetType resource = D3DRTYPE_CUBETEXTURE)) ∨
     (∃ l, orig.Texture_GetSurfaceLevel resource l = some res.out) ∨
     (∃ f l, orig.CubeTexture_GetCubeMapSurface resource f l = some res.out)) := by
  unfold device_impl.create_resource_view at h
  by_cases hr : resource ≠ 0
  swap
  · simp [assert, hr] at h
  simp only [assert, if_pos hr, Option.pure_def, Option.bind_eq_bind, Option.some_bind] at h
  cases hg : self.get_resource_desc U orig resource with
  | none => simp [hg] at h
  | some rd =>
    simp only [hg, Option.some_bind] at h
    by_cases hf : desc.format = rd.format
    swap
    · simp [if_neg hf] at h
    simp only [if_pos hf, Option.some_bind] at h
    by_cases t1 : orig.GetType resource = D3DRTYPE_SURFACE
    · rw [if_pos t1] at h
      split_ifs at h
      all_goals simp only [Option.some_bind, Option.none_bind, reduceCtorEq, Option.some.injEq] at h
      all_goals subst h
      all_goals first
        | exact Bool.noConfusion hret
        | exact ⟨rfl, hr, Or.inl ⟨rfl, Or.inl t1⟩⟩
    rw [if_neg t1] at h
    by_cases t2 : orig.GetType resource = D3DRTYPE_TEXTURE
    · rw [if_pos t2] at h
      split_ifs at h
      all_goals simp only [Option.some_bind, Option.none_bind, reduceCtorEq, Option.some.injEq] at h
      all_goals try split at h
      all_goals try simp only [Option.some.injEq] at h
      all_goals subst h
      all_goals first
        | exact Bool.noConfusion hret
        | exact ⟨rfl, hr, Or.inl ⟨rfl, Or.inr (Or.inl t2)⟩⟩
        | exact ⟨rfl, hr, Or.inr (Or.inl ⟨_, by assumption⟩)⟩
    rw [if_neg t2] at h
    by_cases t3 : orig.GetType resource = D3DRTYPE_CUBETEXTURE
    · rw [if_pos t3] at h
      split_ifs at h
      all_goals simp only [Option.some_bind, Option.none_bind, reduceCtorEq, Option.some.injEq] at h
      all_goals try split at h
      all_goals try simp only [Option.some.injEq] at h
      all_goals subst h
      all_goals first
        | exact Bool.noConfusion hret
        | exact ⟨rfl, hr, Or.inl ⟨rfl, Or.inr (Or.inr t3)⟩⟩
        | exact ⟨rfl, hr, Or.inr (Or.inr ⟨_, _, by assumption⟩)⟩
    rw [if_neg t3] at h
    simp only [Option.some.injEq] at h
    subst h
    exact Bool.noConfusion hret

/-- C22. Let the native objects behave as follows: a succeeding call stores a
non-null object; the resource, if `GetType` says it is a surface, is a standalone
one (it is a surface and reports no container); if it is a texture or a cube
texture, it is not a surface; and every surface fetched from it by `GetSurfaceLevel`
or `GetCubeMapSurface` is a surface that reports the resource as its container.
Then for every successful `create_resource_view(resource, type, desc)` returning the
view `v`, `get_resource_from_view(v)` returns `resource`. -/
theorem get_resource_from_created_view (U : resource_usage) (orig : IDirect3DDevice9)
    (self : device_impl) (resource : Nat) (type : resource_view_type) (desc : resource_view_desc)
    (res : create_result device_impl native_call)
    (hobj : orig.returns_objects)
    (hsurface : orig.GetType resource = D3DRTYPE_SURFACE →
      orig.QueryInterface_Surface resource = true ∧ orig.Surface_GetContainer resource = none)
    (htexture : orig.GetType resource = D3DRTYPE_TEXTURE ∨
      orig.GetType resource = D3DRTYPE_CUBETEXTURE → orig.QueryInterface_Surface resource = false)
    (hlevel : ∀ l s, orig.Texture_GetSurfaceLevel resource l = some s →
      orig.QueryInterface_Surface s = true ∧ orig.Surface_GetContainer s = some resource)
    (hface : ∀ f l s, orig.CubeTexture_GetCubeMapSurface resource f l = some s →
      orig.QueryInterface_Surface s = true ∧ orig.Surface_GetContainer s = some resource)
    (h : self.create_resource_view U orig resource type desc = some res)
    (hret : res.ret = true) :
    res.self.get_resource_from_view orig res.out = some resource := by
  obtain ⟨-, hr, hsrc⟩ := d3d9_created_view_source h hret
  unfold device_impl.get_resource_from_view
  rcases hsrc with ⟨hout, ht⟩ | ⟨l, hl⟩ | ⟨f, l, hl⟩
  · rw [hout]
    simp only [assert, if_pos hr, Option.pure_def, Option.bind_eq_bind, Option.some_bind]
    rcases ht with ht | ht | ht
    · obtain ⟨h1, h2⟩ := hsurface ht
      simp [h1, h2]
    · simp [htexture (Or.inl ht)]
    · simp [htexture (Or.inr ht)]
  · obtain ⟨h1, h2⟩ := hlevel l _ hl
    have hne : res.out ≠ 0 := hobj.2.2.2.2.1 _ _ _ hl
    simp [assert, hne, h1, h2]
  · obtain ⟨h1, h2⟩ := hface f l _ hl
    have hne : res.out ≠ 0 := hobj.2.2.2.2.2 _ _ _ _ hl
    simp [assert, hne, h1, h2]

/-- C22 on the sample device: a render-target view of level 0 of the texture at
4096 is the surface at 8192, whose container is the texture. -/
theorem get_resource_from_created_view_witness :
    (sample.d3d9_fresh.create_resource_view usage_values sample.d3d9_device 4096
        .render_target sample.texture_view).map (fun r => (r.ret, r.out)) = some (true, 8192) ∧
    sample.d3d9_fresh.get_resource_from_view sample.d3d9_device 8192 = some 4096 :=
  ⟨by decide,
   get_resource_from_created_view usage_values sample.d3d9_device sample.d3d9_fresh 4096
     .render_target sample.texture_view
     { self := sample.d3d9_fresh, ret := true, out := 8192,
       calls := [.GetSurfaceLevel 4096 0] }
     sample.d3d9_device_returns_objects
     (fun h => absurd h (by decide))
     (fun _ => rfl)
     (fun l s h => by
        have hs : s = 8192 := by
          simp only [sample.d3d9_device] at h
          split at h <;> simp_all
        subst hs
        exact ⟨rfl, rfl⟩)
     (fun f l s h => by simp [sample.d3d9_device] at h)
     (by decide) rfl⟩

end d3d9

namespace d3d9

/-- C23. Let `resource` be a non-null surface and `desc` a view descriptor that
passes the assertions of `create_resource_view` (the format of the resource, a 2D
dimension, `first_layer = 0`, `layers` 1 or the maximum).  A depth-stencil or
render-target view with `first_level = 0` and `levels = 1` is created with success:
the view handle is the resource handle, the one call issued is `AddRef` on the
resource, and the device is unchanged.  With `first_level ≠ 0`, with `levels ≠ 1` or
with the view type `shader_resource`, the method returns `false` and the null handle
and issues no call. -/
theorem surface_view_is_the_surface (U : resource_usage) (orig : IDirect3DDevice9)
    (self : device_impl) (resource : Nat) (type : resource_view_type) (desc : resource_view_desc)
    (rd : resource_desc)
    (hr : resource ≠ 0) (ht : orig.GetType resource = D3DRTYPE_SURFACE)
    (hrd : self.get_resource_desc U orig resource = some rd) (hf : desc.format = rd.format)
    (hdim : desc.dimension = resource_view_dimension.texture_2d ∨
      desc.dimension = resource_view_dimension.texture_2d_multisample)
    (hlayer : desc.first_layer = 0 ∧ (desc.layers = 1 ∨ desc.layers = uint32_max)) :
    ((type = resource_view_type.depth_stencil ∨ type = resource_view_type.render_target) →
      desc.first_level = 0 → desc.levels = 1 →
      self.create_resource_view U orig resource type desc =
        some { self := self, ret := true, out := resource, calls := [.AddRef resource] }) ∧
    (desc.first_level ≠ 0 ∨ desc.levels ≠ 1 ∨ type = resource_view_type.shader_resource →
      self.create_resource_view U orig resource type desc =
        some { self := self, ret := false, out := 0, calls := [] }) := by
  unfold device_impl.create_resource_view
  simp only [assert, if_pos hr, hrd, if_pos hf, if_pos ht, if_pos hdim, if_pos hlayer,
    Option.pure_def, Option.bind_eq_bind, Option.some_bind]
  constructor
  · intro htype h1 h2
    have hn : ¬ (desc.first_level ≠ 0 ∨ desc.levels ≠ 1) := by
      rintro (h | h)
      · exact h h1
      · exact h h2
    rw [if_pos htype, if_neg hn]
  · intro h
    by_cases htype : type = resource_view_type.depth_stencil ∨ type = resource_view_type.render_target
    · rw [if_pos htype]
      rcases h with h | h | h
      · rw [if_pos (Or.inl h)]
      · rw [if_pos (Or.inr h)]
      · subst h
        rcases htype with h | h <;> cases h
    · rw [if_neg htype]

/-- C23 on the render target surface at 8192 of the sample device: a render-target
view of its only level is the surface itself, a view from level 1 on and a
shader-resource view are refused. -/
theorem surface_view_is_the_surface_witness :
    (8192 ≠ 0 ∧ sample.d3d9_device.GetType 8192 = D3DRTYPE_SURFACE ∧
      (sample.d3d9_fresh.get_resource_desc usage_values sample.d3d9_device 8192).map
        (fun rd => rd.format) = some sample.texture_view.format) ∧
    sample.d3d9_fresh.create_resource_view usage_values sample.d3d9_device 8192
      .render_target sample.texture_view =
        some { self := sample.d3d9_fresh, ret := true, out := 8192, calls := [.AddRef 8192] } ∧
    sample.d3d9_fresh.create_resource_view usage_values sample.d3d9_device 8192
      .render_target { sample.texture_view with first_level := 1 } =
        some { self := sample.d3d9_fresh, ret := false, out := 0, calls := [] } ∧
    sample.d3d9_fresh.create_resource_view usage_values sample.d3d9_device 8192
      .shader_resource sample.texture_view =
        some { self := sample.d3d9_fresh, ret := false, out := 0, calls := [] } :=
  ⟨by decide,
   (surface_view_is_the_surface usage_values sample.d3d9_device sample.d3d9_fresh 8192
      .render_target sample.texture_view
      sample.render_target_desc
      (by decide) (by decide) (by decide) (by decide) (by decide) (by decide)).1
      (by decide) (by decide) (by decide),
   (surface_view_is_the_surface usage_values sample.d3d9_device sample.d3d9_fresh 8192
      .render_target { sample.texture_view with first_level := 1 }
      sample.render_target_desc
      (by decide) (by decide) (by decide) (by decide) (by decide) (by decide)).2
      (Or.inl (by decide)),
   (surface_view_is_the_surface usage_values sample.d3d9_device sample.d3d9_fresh 8192
      .shader_resource sample.texture_view
      sample.render_target_desc
      (by decide) (by decide) (by decide) (by decide) (by decide) (by decide)).2
      (Or.inr (Or.inr rfl))⟩

end d3d9

/-! ### Draw calls of Direct3D 10 -/

namespace d3d10

/-- C24. For all arguments, `draw` and `draw_indexed` each issue exactly one native
call: with `instances ≤ 1` (zero included) the call `Draw(vertices, first_vertex)`,
resp. `DrawIndexed(indices, first_index, vertex_offset)`, in which `first_instance`
does not appear; with `instances > 1` the call `DrawInstanced`, resp.
`DrawIndexedInstanced`, with every argument as it was passed. -/
theorem draw_issues_one_native_call (self : device_impl)
    (count instances first : Nat) (vertex_offset : Int) (first_instance : Nat) :
    (self.draw count instances first first_instance).length = 1 ∧
    (self.draw_indexed count instances first vertex_offset first_instance).length = 1 ∧
    (instances ≤ 1 →
      self.draw count instances first first_instance = [.Draw count first] ∧
      self.draw_indexed count instances first vertex_offset first_instance =
        [.DrawIndexed count first vertex_offset]) ∧
    (instances > 1 →
      self.draw count instances first first_instance =
        [.DrawInstanced count instances first first_instance] ∧
      self.draw_indexed count instances first vertex_offset first_instance =
        [.DrawIndexedInstanced count instances first vertex_offset first_instance]) := by
  by_cases h : instances ≤ 1
  · have h2 : ¬ instances > 1 := Nat.not_lt.mpr h
    simp [device_impl.draw, device_impl.draw_indexed, h, h2]
  · have h2 : instances > 1 := Nat.lt_of_not_le h
    simp [device_impl.draw, device_impl.draw_indexed, h, h2]

/-- C24 at no instance, one instance and four instances of a triangle, with a
non-zero `first_instance` and a negative `vertex_offset`. -/
theorem draw_issues_one_native_call_witness :
    sample.d3d10_fresh.draw 3 0 6 9 = [.Draw 3 6] ∧
    sample.d3d10_fresh.draw_indexed 3 1 6 (-2) 9 = [.DrawIndexed 3 6 (-2)] ∧
    sample.d3d10_fresh.draw 3 4 6 9 = [.DrawInstanced 3 4 6 9] ∧
    sample.d3d10_fresh.draw_indexed 3 4 6 (-2) 9 = [.DrawIndexedInstanced 3 4 6 (-2) 9] :=
  ⟨((draw_issues_one_native_call sample.d3d10_fresh 3 0 6 (-2) 9).2.2.1 (by decide)).1,
   ((draw_issues_one_native_call sample.d3d10_fresh 3 1 6 (-2) 9).2.2.1 (by decide)).2,
   ((draw_issues_one_native_call sample.d3d10_fresh 3 4 6 (-2) 9).2.2.2 (by decide)).1,
   ((draw_issues_one_native_call sample.d3d10_fresh 3 4 6 (-2) 9).2.2.2 (by decide)).2⟩

end d3d10

/-! ### Copies and clears of Direct3D 9 -/

namespace d3d9

/-- The render target slots the unbinding loop sets to null are the slots from 1 up
to, and without, the cached `NumSimultaneousRTs`, each once and in rising order. -/
theorem unbind_render_targets_slots (self : device_impl) :
    self.unbind_render_targets.length = self._caps.NumSimultaneousRTs - 1 ∧
    (∀ c ∈ self.unbind_render_targets, ∃ target, c = native_call.SetRenderTarget target 0 ∧
      1 ≤ target ∧ target < self._caps.NumSimultaneousRTs) ∧
    (∀ target, 1 ≤ target → target < self._caps.NumSimultaneousRTs →
      native_call.SetRenderTarget target 0 ∈ self.unbind_render_targets) ∧
    self.unbind_render_targets.Pairwise (fun a b => a ≠ b) := by
  unfold device_impl.unbind_render_targets
  refine ⟨by simp, ?_, ?_, ?_⟩
  · intro c hc
    simp only [List.mem_map, List.mem_range'_1] at hc
    obtain ⟨t, ⟨h1, h2⟩, rfl⟩ := hc
    exact ⟨t, rfl, h1, by omega⟩
  · intro t h1 h2
    simp only [List.mem_map, List.mem_range'_1]
    exact ⟨t, ⟨h1, by omega⟩, rfl⟩
  · rw [List.pairwise_map]
    refine (List.nodup_range' 1 _).imp ?_
    intro a b hab h
    exact hab (by injection h)

/-- The texture-to-texture case of `copy_resource`: without a copy state block the
method stops after the capture of the backup state, with one it issues the whole
sequence and returns. -/
theorem copy_resource_texture_to_texture (orig : IDirect3DDevice9) (self : device_impl)
    (source destination : Nat) (hs : source ≠ 0) (hd : destination ≠ 0)
    (hts : orig.GetType source = D3DRTYPE_TEXTURE)
    (htd : orig.GetType destination = D3DRTYPE_TEXTURE) :
    self.copy_resource orig source destination =
      if self._copy_state = 0 then { calls := [.backup_state_capture], returned := false }
      else
        { calls :=
            [.backup_state_capture,
             .StateBlock_Apply self._copy_state,
             .GetSurfaceLevel destination 0,
             .SetTexture 0 source,
             .SetRenderTarget 0 ((orig.Texture_GetSurfaceLevel destination 0).getD 0)] ++
            self.unbind_render_targets ++
            [.SetDepthStencilSurface 0,
             .DrawPrimitiveUP D3DPT_TRIANGLESTRIP 2 20,
             .backup_state_apply_and_release],
          returned := true } := by
  have hnn : ¬ ¬ (source ≠ 0 ∧ destination ≠ 0) := not_not.mpr ⟨hs, hd⟩
  unfold device_impl.copy_resource
  rw [if_neg hnn, hts, htd]
  rfl

end d3d9

namespace d3d9

/-- The surface replacement leaves the capability snapshot alone. -/
theorem create_surface_replacement_caps (orig : IDirect3DDevice9) (self : device_impl)
    (new_desc : D3DSURFACE_DESC) :
    (self.create_surface_replacement orig new_desc).1._caps = self._caps := by
  unfold device_impl.create_surface_replacement
  split
  · split
    · split <;> rfl
    · rfl
  · rfl

/-- The events of `on_after_reset` leave the capability snapshot alone. -/
theorem on_after_reset_events_caps {U : resource_usage} {orig : IDirect3DDevice9}
    {observer : addon_observer} {self dev : device_impl} {pp : D3DPRESENT_PARAMETERS}
    {calls0 calls : List native_call}
    (h : self.on_after_reset_events U orig observer pp calls0 = some (dev, calls)) :
    dev._caps = self._caps := by
  unfold device_impl.on_after_reset_events at h
  simp only [Option.pure_def, Option.bind_eq_bind] at h
  split at h
  · split at h
    · rename_i ads _
      cases h1 : convert_resource_desc_from_surface U (orig.Surface_GetDesc ads) 1 self._caps with
      | none => simp [h1] at h
      | some api_desc =>
        simp only [h1, Option.some_bind] at h
        cases h2 : convert_resource_desc_surface U (observer.create_resource .surface api_desc)
            (orig.Surface_GetDesc ads) none with
        | none => simp [h2] at h
        | some p =>
          simp only [h2, Option.some_bind] at h
          have hc := create_surface_replacement_caps orig self p.1
          split at h
          · split at h
            · rename_i heq
              simp only [Option.some.injEq, Prod.mk.injEq] at h
              rw [heq] at hc
              rw [← h.1]
              exact hc
            · rename_i heq
              simp only [Option.some.injEq, Prod.mk.injEq] at h
              rw [heq] at hc
              rw [← h.1]
              exact hc
          · simp only [Option.some.injEq, Prod.mk.injEq] at h
            rw [← h.1]
    · simp only [Option.some.injEq, Prod.mk.injEq] at h
      rw [← h.1]
  · simp only [Option.some.injEq, Prod.mk.injEq] at h
    rw [← h.1]

/-- The method `on_after_reset` leaves the capability snapshot alone. -/
theorem on_after_reset_caps {U : resource_usage} {orig : IDirect3DDevice9}
    {observer : addon_observer} {self dev : device_impl} {pp : D3DPRESENT_PARAMETERS}
    {calls : List native_call}
    (h : self.on_after_reset U orig observer pp = some (dev, calls)) :
    dev._caps = self._caps := by
  unfold device_impl.on_after_reset at h
  split at h
  · split at h
    · simp only [Option.pure_def, Option.some.injEq, Prod.mk.injEq] at h
      rw [← h.1]
    · split at h
      · simp only [Option.pure_def, Option.some.injEq, Prod.mk.injEq] at h
        rw [← h.1]
      · have hc := on_after_reset_events_caps h
        exact hc
  · exact on_after_reset_events_caps h

/-- The constructor caches the native `NumSimultaneousRTs` clamped to 8. -/
theorem construct_caps {U : resource_usage} {orig : IDirect3DDevice9}
    {observer : addon_observer} {dev : device_impl} {calls : List native_call}
    (h : device_impl.construct U orig observer = some (dev, calls)) :
    dev._caps.NumSimultaneousRTs = min orig.GetDeviceCaps.NumSimultaneousRTs 8 ∧
    dev._caps.Caps2 = orig.GetDeviceCaps.Caps2 := by
  unfold device_impl.construct at h
  simp only [Option.pure_def, Option.bind_eq_bind] at h
  cases ha : assert ((orig.GetSwapChain 0).getD 0 ≠ 0) with
  | none => simp [ha] at h
  | some _ =>
    simp only [ha, Option.some_bind] at h
    rw [on_after_reset_caps h]
    refine ⟨?_, rfl⟩
    show (if orig.GetDeviceCaps.NumSimultaneousRTs > 8 then 8
      else orig.GetDeviceCaps.NumSimultaneousRTs) = _
    split <;> omega

/-- C26, the claim as stated fails at two inputs.  On the device in the `Reset`
state, which holds no copy state block, the copy of the texture at 4096 onto itself
issues the capture of the backup state and stops at the `Apply` on the missing
block: no other call of the sequence is issued and `apply_and_release` is not the
last call.  On the active device whose `GetSurfaceLevel` fails, the whole sequence
is issued, and the surface it sets as render target 0 is the null pointer. -/
theorem copy_sequence_needs_copy_state :
    (4096 ≠ 0 ∧ sample.d3d9_device.GetType 4096 = D3DRTYPE_TEXTURE ∧
      sample.d3d9_reset._copy_state = 0) ∧
    sample.d3d9_reset.copy_resource sample.d3d9_device 4096 4096 =
      { calls := [.backup_state_capture], returned := false } ∧
    (sample.d3d9_reset.copy_resource sample.d3d9_device 4096 4096).calls ≠
      [.backup_state_capture, .StateBlock_Apply 0, .GetSurfaceLevel 4096 0,
       .SetTexture 0 4096, .SetRenderTarget 0 8192, .SetRenderTarget 1 0,
       .SetRenderTarget 2 0, .SetRenderTarget 3 0, .SetDepthStencilSurface 0,
       .DrawPrimitiveUP D3DPT_TRIANGLESTRIP 2 20, .backup_state_apply_and_release] ∧
    (sample.d3d9_reset.copy_resource sample.d3d9_device 4096 4096).calls.getLast? ≠
      some .backup_state_apply_and_release ∧
    (sample.d3d9_failing_device.GetType 4096 = D3DRTYPE_TEXTURE ∧
      sample.d3d9_failing_device.Texture_GetSurfaceLevel 4096 0 = none ∧
      sample.d3d9_fresh._copy_state ≠ 0) ∧
    sample.d3d9_fresh.copy_resource sample.d3d9_failing_device 4096 4096 =
      { calls :=
          [.backup_state_capture, .StateBlock_Apply 12288, .GetSurfaceLevel 4096 0,
           .SetTexture 0 4096, .SetRenderTarget 0 0, .SetRenderTarget 1 0,
           .SetRenderTarget 2 0, .SetRenderTarget 3 0, .SetDepthStencilSurface 0,
           .DrawPrimitiveUP D3DPT_TRIANGLESTRIP 2 20, .backup_state_apply_and_release],
        returned := true } := by
  refine ⟨by decide, rfl, ?_, ?_, ⟨rfl, rfl, by decide⟩, rfl⟩
  · intro h
    have e : sample.d3d9_reset.copy_resource sample.d3d9_device 4096 4096 =
        { calls := [.backup_state_capture], returned := false } := rfl
    rw [e] at h
    cases h
  · intro h
    have e : sample.d3d9_reset.copy_resource sample.d3d9_device 4096 4096 =
        { calls := [.backup_state_capture], returned := false } := rfl
    rw [e] at h
    cases h

/-- C26, amended.  On a device that holds its copy state block, when source and
destination are textures, `copy_resource` issues, in this order: the capture of the
backup state; `Apply` on the copy state block; the fetch of level 0 of the
destination; `SetTexture(0, source)`; `SetRenderTarget(0, s)` for the surface `s`
the fetch stored; `SetRenderTarget(target, nullptr)` for every `target` from 1 up
to, and without, the cached `NumSimultaneousRTs`; `SetDepthStencilSurface(nullptr)`;
one `DrawPrimitiveUP` of two primitives of a triangle strip; `apply_and_release` on
the backup state; and it returns.  So the capture is the first call and the release
the last one, each issued once; when the fetch succeeded, the surface of the
destination is set as render target 0 and is the only non-null render target set,
every slot from 1 on being set to null.  The cached `NumSimultaneousRTs` of a device
the constructor made is the native number clamped to 8. -/
theorem copy_texture_to_texture_sequence (orig : IDirect3DDevice9) (self : device_impl)
    (source destination : Nat) (hs : source ≠ 0) (hd : destination ≠ 0)
    (hts : orig.GetType source = D3DRTYPE_TEXTURE)
    (htd : orig.GetType destination = D3DRTYPE_TEXTURE)
    (hcs : self._copy_state ≠ 0) :
    self.copy_resource orig source destination =
      { calls :=
          [.backup_state_capture,
           .StateBlock_Apply self._copy_state,
           .GetSurfaceLevel destination 0,
           .SetTexture 0 source,
           .SetRenderTarget 0 ((orig.Texture_GetSurfaceLevel destination 0).getD 0)] ++
          (List.range' 1 (self._caps.NumSimultaneousRTs - 1)).map
            (fun target => native_call.SetRenderTarget target 0) ++
          [.SetDepthStencilSurface 0,
           .DrawPrimitiveUP D3DPT_TRIANGLESTRIP 2 20,
           .backup_state_apply_and_release],
        returned := true } ∧
    (self.copy_resource orig source destination).calls.head? = some .backup_state_capture ∧
    (self.copy_resource orig source destination).calls.getLast? =
      some .backup_state_apply_and_release ∧
    (self.copy_resource orig source destination).calls.count .backup_state_capture = 1 ∧
    (self.copy_resource orig source destination).calls.count .backup_state_apply_and_release = 1 ∧
    (∀ s, orig.Texture_GetSurfaceLevel destination 0 = some s →
      native_call.SetRenderTarget 0 s ∈ (self.copy_resource orig source destination).calls ∧
      ∀ target x, native_call.SetRenderTarget target x ∈
          (self.copy_resource orig source destination).calls →
        x ≠ 0 → target = 0 ∧ x = s) ∧
    (∀ target, 1 ≤ target → target < self._caps.NumSimultaneousRTs →
      native_call.SetRenderTarget target 0 ∈
        (self.copy_resource orig source destination).calls) ∧
    (∀ U observer calls, device_impl.construct U orig observer = some (self, calls) →
      self._caps.NumSimultaneousRTs = min orig.GetDeviceCaps.NumSimultaneousRTs 8 ∧
      self._caps.NumSimultaneousRTs ≤ 8) := by
  have e : self.copy_resource orig source destination =
      { calls :=
          [.backup_state_capture,
           .StateBlock_Apply self._copy_state,
           .GetSurfaceLevel destination 0,
           .SetTexture 0 source,
           .SetRenderTarget 0 ((orig.Texture_GetSurfaceLevel destination 0).getD 0)] ++
          (List.range' 1 (self._caps.NumSimultaneousRTs - 1)).map
            (fun target => native_call.SetRenderTarget target 0) ++
          [.SetDepthStencilSurface 0,
           .DrawPrimitiveUP D3DPT_TRIANGLESTRIP 2 20,
           .backup_state_apply_and_release],
        returned := true } := by
    rw [copy_resource_texture_to_texture orig self source destination hs hd hts htd,
      if_neg hcs]
    rfl
  have hcount : ∀ c : native_call, (∀ t, c ≠ .SetRenderTarget t 0) →
      ((List.range' 1 (self._caps.NumSimultaneousRTs - 1)).map
        (fun target => native_call.SetRenderTarget target 0)).count c = 0 := by
    intro c hc
    rw [List.count_eq_zero]
    intro hmem
    simp only [List.mem_map] at hmem
    obtain ⟨t, -, ht⟩ := hmem
    exact hc t ht.symm
  refine ⟨e, ?_, ?_, ?_, ?_, ?_, ?_, ?_⟩
  · rw [e]; rfl
  · rw [e]
    show (_ ++ [_, _, _]).getLast? = _
    rw [List.getLast?_append]
    rfl
  · rw [e]
    simp [List.count_cons, hcount native_call.backup_state_capture (fun t h => by cases h)]
  · rw [e]
    simp [List.count_cons,
      hcount native_call.backup_state_apply_and_release (fun t h => by cases h)]
  · intro s hsome
    rw [e, hsome]
    refine ⟨by simp, ?_⟩
    intro target x hmem hx
    simp only [Option.getD_some, List.mem_append, List.mem_cons, List.mem_singleton,
      List.not_mem_nil, List.mem_map, reduceCtorEq, or_false, false_or,
      native_call.SetRenderTarget.injEq] at hmem
    rcases hmem with ⟨h1, h2⟩ | ⟨t, -, -, h2⟩
    · exact ⟨h1, h2⟩
    · exact absurd h2.symm hx
  · intro target h1 h2
    rw [e]
    have hm := (unbind_render_targets_slots self).2.2.1 target h1 h2
    show _ ∈ ([_, _, _, _, _] ++ self.unbind_render_targets ++ [_, _, _])
    simp only [List.mem_append]
    exact Or.inl (Or.inr hm)
  · intro U observer calls h
    have := (construct_caps h).1
    exact ⟨this, by omega⟩

/-- C26 on the active sample device, whose four render target slots leave three to
unbind: a copy of the texture at 4096 onto itself. -/
theorem copy_texture_to_texture_sequence_witness :
    (4096 ≠ 0 ∧ sample.d3d9_device.GetType 4096 = D3DRTYPE_TEXTURE ∧
      sample.d3d9_fresh._copy_state ≠ 0) ∧
    sample.d3d9_fresh.copy_resource sample.d3d9_device 4096 4096 =
      { calls :=
          [.backup_state_capture, .StateBlock_Apply 12288, .GetSurfaceLevel 4096 0,
           .SetTexture 0 4096, .SetRenderTarget 0 8192, .SetRenderTarget 1 0,
           .SetRenderTarget 2 0, .SetRenderTarget 3 0, .SetDepthStencilSurface 0,
           .DrawPrimitiveUP D3DPT_TRIANGLESTRIP 2 20, .backup_state_apply_and_release],
        returned := true } ∧
    (device_impl.construct usage_values
        { sample.d3d9_device with GetDeviceCaps := { Caps2 := 0, NumSimultaneousRTs := 16 } }
        sample.quiet_observer).map (fun made => made.1._caps.NumSimultaneousRTs) = some 8 :=
  ⟨by decide,
   (copy_texture_to_texture_sequence sample.d3d9_device sample.d3d9_fresh 4096 4096
      (by decide) (by decide) (by decide) (by decide) (by decide)).1,
   rfl⟩


/-- C27. `clear_depth_stencil_view` issues the capture of the backup state, the
binding of the view as the depth-stencil surface, one `Clear` and
`apply_and_release`; the flag word of the `Clear` has `D3DCLEAR_ZBUFFER` exactly
when bit `0x1` of `clear_flags` is set, `D3DCLEAR_STENCIL` exactly when bit `0x2` is
set, and never `D3DCLEAR_TARGET`.  `clear_render_target_view` issues the capture,
the binding of the view as render target 0, `SetRenderTarget(target, nullptr)` for
every `target` from 1 up to, and without, the cached `NumSimultaneousRTs`, one
`Clear` whose flag word is `D3DCLEAR_TARGET`, and `apply_and_release`. -/
theorem clear_view_sequences (self : device_impl) (view clear_flags depth stencil : Nat)
    (colorvalue : Nat → Nat → Nat → Nat → Nat) (color : Nat × Nat × Nat × Nat) :
    (∃ flags,
      self.clear_depth_stencil_view view clear_flags depth stencil =
        { calls := [.backup_state_capture, .SetDepthStencilSurface view,
                    .Clear 0 0 flags 0 depth stencil, .backup_state_apply_and_release],
          returned := true } ∧
      (has_flag flags D3DCLEAR_ZBUFFER ↔ clear_flags &&& 0x1 ≠ 0) ∧
      (has_flag flags D3DCLEAR_STENCIL ↔ clear_flags &&& 0x2 ≠ 0) ∧
      ¬ has_flag flags D3DCLEAR_TARGET) ∧
    self.clear_render_target_view colorvalue view color =
      { calls :=
          [.backup_state_capture, .SetRenderTarget 0 view] ++
          (List.range' 1 (self._caps.NumSimultaneousRTs - 1)).map
            (fun target => native_call.SetRenderTarget target 0) ++
          [.Clear 0 0 D3DCLEAR_TARGET (colorvalue color.1 color.2.1 color.2.2.1 color.2.2.2) 0 0,
           .backup_state_apply_and_release],
        returned := true } := by
  have zz : has_flag D3DCLEAR_ZBUFFER D3DCLEAR_ZBUFFER := by decide
  have ss : has_flag D3DCLEAR_STENCIL D3DCLEAR_STENCIL := by decide
  have zs : ¬ has_flag D3DCLEAR_ZBUFFER D3DCLEAR_STENCIL := by decide
  have sz : ¬ has_flag D3DCLEAR_STENCIL D3DCLEAR_ZBUFFER := by decide
  have zt : ¬ has_flag D3DCLEAR_ZBUFFER D3DCLEAR_TARGET := by decide
  have st : ¬ has_flag D3DCLEAR_STENCIL D3DCLEAR_TARGET := by decide
  refine ⟨⟨_, rfl, ?_, ?_, ?_⟩, rfl⟩
  · rw [has_flag_lor, has_flag_ite_zero, has_flag_ite_zero]
    constructor
    · rintro (⟨h, -⟩ | ⟨-, h⟩)
      · exact h
      · exact absurd h sz
    · intro h
      exact Or.inl ⟨h, zz⟩
  · rw [has_flag_lor, has_flag_ite_zero, has_flag_ite_zero]
    constructor
    · rintro (⟨-, h⟩ | ⟨h, -⟩)
      · exact absurd h zs
      · exact h
    · intro h
      exact Or.inr ⟨h, ss⟩
  · rw [has_flag_lor, has_flag_ite_zero, has_flag_ite_zero]
    rintro (⟨-, h⟩ | ⟨-, h⟩)
    · exact zt h
    · exact st h

end d3d9

/-! ### Unordered access and the inferred copy and resolve flags -/

/-- The assertion of `convert_usage_to_bind_flags` fails exactly on a usage with
`unordered_access`. -/
theorem d3d10.convert_usage_to_bind_flags_eq_none (U : resource_usage) (usage b : Nat) :
    d3d10.convert_usage_to_bind_flags U usage b = none ↔ has_flag usage U.unordered_access := by
  unfold d3d10.convert_usage_to_bind_flags has_flag
  by_cases h : usage &&& U.unordered_access = 0
  · simp [assert, h]
  · simp [assert, h]

/-- The assertion of `convert_usage_to_d3d_usage` fails exactly on a usage with
`unordered_access`. -/
theorem d3d9.convert_usage_to_d3d_usage_eq_none (U : resource_usage) (usage w : Nat) :
    d3d9.convert_usage_to_d3d_usage U usage w = none ↔ has_flag usage U.unordered_access := by
  unfold d3d9.convert_usage_to_d3d_usage has_flag
  by_cases h : usage &&& U.unordered_access = 0
  · simp [assert, h]
  · simp [assert, h]

/-- C28. Whenever `desc.usage` includes `unordered_access`, every conversion of an
abstract resource descriptor to a native one fails on its assertion, whatever the
initial native descriptor (and, on Direct3D 9, whatever the `levels` pointer): the
four of Direct3D 10 (buffer, 1D, 2D, 3D texture) and the four of Direct3D 9 (volume,
surface, index buffer, vertex buffer).  The conversion to `D3D10_TEXTURE2D_DESC`
fails on no other input. -/
theorem unordered_access_traps_every_conversion (U : resource_usage) (desc : resource_desc) :
    (has_flag desc.usage U.unordered_access →
      (∀ n0, d3d10.convert_resource_desc_buffer U desc n0 = none) ∧
      (∀ n0, d3d10.convert_resource_desc_texture1d U desc n0 = none) ∧
      (∀ n0, d3d10.convert_resource_desc_texture2d U desc n0 = none) ∧
      (∀ n0, d3d10.convert_resource_desc_texture3d U desc n0 = none) ∧
      (∀ n0 levels, d3d9.convert_resource_desc_volume U desc n0 levels = none) ∧
      (∀ n0 levels, d3d9.convert_resource_desc_surface U desc n0 levels = none) ∧
      (∀ n0, d3d9.convert_resource_desc_index_buffer U desc n0 = none) ∧
      (∀ n0, d3d9.convert_resource_desc_vertex_buffer U desc n0 = none)) ∧
    (∀ n0, d3d10.convert_resource_desc_texture2d U desc n0 = none ↔
      has_flag desc.usage U.unordered_access) := by
  have h2d : ∀ n0, d3d10.convert_resource_desc_texture2d U desc n0 = none ↔
      has_flag desc.usage U.unordered_access := by
    intro n0
    unfold d3d10.convert_resource_desc_texture2d
    simp only [Option.pure_def, Option.bind_eq_bind, Option.bind_eq_none, reduceCtorEq,
      imp_false]
    rw [← d3d10.convert_usage_to_bind_flags_eq_none U desc.usage n0.BindFlags]
    cases d3d10.convert_usage_to_bind_flags U desc.usage n0.BindFlags <;> simp
  refine ⟨?_, h2d⟩
  intro hua
  have h10 : ∀ b, d3d10.convert_usage_to_bind_flags U desc.usage b = none :=
    fun b => (d3d10.convert_usage_to_bind_flags_eq_none U desc.usage b).mpr hua
  have h9 : ∀ w, d3d9.convert_usage_to_d3d_usage U desc.usage w = none :=
    fun w => (d3d9.convert_usage_to_d3d_usage_eq_none U desc.usage w).mpr hua
  refine ⟨?_, ?_, fun n0 => (h2d n0).mpr hua, ?_, ?_, ?_, ?_, ?_⟩
  · intro n0
    unfold d3d10.convert_resource_desc_buffer
    simp [assert, h10]
  · intro n0
    unfold d3d10.convert_resource_desc_texture1d
    simp [assert, h10]
  · intro n0
    unfold d3d10.convert_resource_desc_texture3d
    simp [assert, h10]
  · intro n0 levels
    unfold d3d9.convert_resource_desc_volume
    simp [assert, h9]
  · intro n0 levels
    unfold d3d9.convert_resource_desc_surface
    simp [assert, h9]
  · intro n0
    unfold d3d9.convert_resource_desc_index_buffer
    simp [assert, h9]
  · intro n0
    unfold d3d9.convert_resource_desc_vertex_buffer
    simp [assert, h9]

/-- C28 on the 2D render target with `unordered_access` added to its usage, and
without it. -/
theorem unordered_access_traps_every_conversion_witness :
    has_flag { sample.texture2d_desc with
      usage := usage_values.render_target ||| usage_values.unordered_access }.usage
      usage_values.unordered_access ∧
    d3d10.convert_resource_desc_texture2d usage_values
      { sample.texture2d_desc with
        usage := usage_values.render_target ||| usage_values.unordered_access }
      d3d10.D3D10_TEXTURE2D_DESC.zero = none ∧
    d3d9.convert_resource_desc_surface usage_values
      { sample.texture2d_desc with
        usage := usage_values.render_target ||| usage_values.unordered_access }
      d3d9.D3DSURFACE_DESC.zero (some 0) = none ∧
    (d3d10.convert_resource_desc_texture2d usage_values sample.texture2d_desc
      d3d10.D3D10_TEXTURE2D_DESC.zero).isSome = true :=
  ⟨by decide,
   ((unordered_access_traps_every_conversion usage_values
      { sample.texture2d_desc with
        usage := usage_values.render_target ||| usage_values.unordered_access }).1
      (by decide)).2.2.1 _,
   ((unordered_access_traps_every_conversion usage_values
      { sample.texture2d_desc with
        usage := usage_values.render_target ||| usage_values.unordered_access }).1
      (by decide)).2.2.2.2.2.1 _ _,
   by decide⟩

namespace d3d9

/-- The usage `convert_d3d_usage_to_usage` builds from nothing has none of the flags
that come after `constant_buffer` in the list of flags. -/
theorem convert_d3d_usage_to_usage_no_copy_flag {U : resource_usage} (hU : U.distinct)
    (w : Nat) {j : Nat} (hj7 : 7 ≤ j) (hj : j < U.flags.length) :
    ¬ has_flag (convert_d3d_usage_to_usage U w 0) U.flags[j] ∧
    ¬ has_flag (convert_d3d_usage_to_usage U w 0 ||| U.shader_resource) U.flags[j] := by
  have e0 : ¬ has_flag U.render_target U.flags[j] := fun h =>
    absurd ((hU.has_flag_iff (i := 0) (by simp [resource_usage.flags]) hj).mp h) (by omega)
  have e1 : ¬ has_flag U.depth_stencil U.flags[j] := fun h =>
    absurd ((hU.has_flag_iff (i := 1) (by simp [resource_usage.flags]) hj).mp h) (by omega)
  have e2 : ¬ has_flag U.shader_resource U.flags[j] := fun h =>
    absurd ((hU.has_flag_iff (i := 2) (by simp [resource_usage.flags]) hj).mp h) (by omega)
  have hb : ¬ has_flag (convert_d3d_usage_to_usage U w 0) U.flags[j] := by
    unfold convert_d3d_usage_to_usage
    exact not_has_flag_cond_lor _ (not_has_flag_cond_lor _ (not_has_flag_zero _) e0) e1
  refine ⟨hb, ?_⟩
  rw [has_flag_lor]
  rintro (h | h)
  · exact hb h
  · exact e2 h

/-- Which of the flags after `constant_buffer` a usage has that is made of a base
without any of them and of the copy and resolve flags under three conditions. -/
theorem copy_resolve_has_flag {U : resource_usage} (hU : U.distinct) (base : Nat)
    (c1 c2 c3 : Prop) [Decidable c1] [Decidable c2] [Decidable c3]
    {j : Nat} (hj : j < U.flags.length) (hbase : ¬ has_flag base U.flags[j]) :
    has_flag (base ||| (if c1 then U.copy_source else 0) |||
        (if c2 then U.resolve_source else 0) |||
        (if c3 then U.copy_dest ||| U.resolve_dest else 0)) U.flags[j] ↔
      (c1 ∧ 7 = j) ∨ (c2 ∧ 9 = j) ∨ (c3 ∧ (8 = j ∨ 10 = j)) := by
  have e7 : has_flag U.copy_source U.flags[j] ↔ 7 = j :=
    hU.has_flag_iff (i := 7) (by simp [resource_usage.flags]) hj
  have e8 : has_flag U.copy_dest U.flags[j] ↔ 8 = j :=
    hU.has_flag_iff (i := 8) (by simp [resource_usage.flags]) hj
  have e9 : has_flag U.resolve_source U.flags[j] ↔ 9 = j :=
    hU.has_flag_iff (i := 9) (by simp [resource_usage.flags]) hj
  have e10 : has_flag U.resolve_dest U.flags[j] ↔ 10 = j :=
    hU.has_flag_iff (i := 10) (by simp [resource_usage.flags]) hj
  simp only [has_flag_lor, has_flag_ite_zero, e7, e8, e9, e10, hbase, false_or, or_assoc]

/-- C29. Let the flags of `resource_usage` be distinct.  Whenever the conversion of
a native surface descriptor returns a descriptor, its usage has `copy_source`
exactly when the pool is `D3DPOOL_DEFAULT`, the type is `SURFACE` (or `TEXTURE` with
`D3DDEVCAPS2_CAN_STRETCHRECT_FROM_TEXTURES` in `Caps2`) and the format is none of
`DXT1` to `DXT5`, none of the eleven depth formats and not `NULL`; it has
`resolve_source` exactly when, on top of that, the multisample type is at least
`D3DMULTISAMPLE_2_SAMPLES`; and it has `copy_dest`, and likewise `resolve_dest`,
exactly when, on top of the first condition, `Usage` has `D3DUSAGE_RENDERTARGET`.
The multisample types are compared as the code compares them, as `int`s: the 32-bit
word of the member is at least `D3DMULTISAMPLE_2_SAMPLES` when it lies from 2 up
to, and without, `2^31`. -/
theorem surface_copy_and_resolve_usage (U : resource_usage) (hU : U.distinct)
    (s : D3DSURFACE_DESC) (levels : Nat) (caps : D3DCAPS9) (r : resource_desc)
    (h : convert_resource_desc_from_surface U s levels caps = some r) :
    (has_flag r.usage U.copy_source ↔ copies_by_stretch_rect s caps) ∧
    (has_flag r.usage U.resolve_source ↔
      copies_by_stretch_rect s caps ∧
        to_int32 s.MultiSampleType ≥ to_int32 D3DMULTISAMPLE_2_SAMPLES) ∧
    (has_flag r.usage U.copy_dest ↔
      copies_by_stretch_rect s caps ∧ has_flag s.Usage D3DUSAGE_RENDERTARGET) ∧
    (has_flag r.usage U.resolve_dest ↔
      copies_by_stretch_rect s caps ∧ has_flag s.Usage D3DUSAGE_RENDERTARGET) ∧
    (to_int32 s.MultiSampleType ≥ to_int32 D3DMULTISAMPLE_2_SAMPLES ↔
      2 ≤ s.MultiSampleType % 4294967296 ∧ s.MultiSampleType % 4294967296 < 2147483648) := by
  have hu := convert_resource_desc_from_surface_usage h _ rfl
  have hshape : r.usage =
      (if s.Type_ = D3DRTYPE_TEXTURE ∨ s.Type_ = D3DRTYPE_CUBETEXTURE then
        convert_d3d_usage_to_usage U s.Usage 0 ||| U.shader_resource
       else convert_d3d_usage_to_usage U s.Usage 0) |||
      (if copies_by_stretch_rect s caps then U.copy_source else 0) |||
      (if copies_by_stretch_rect s caps ∧
          to_int32 s.MultiSampleType ≥ to_int32 D3DMULTISAMPLE_2_SAMPLES then
        U.resolve_source else 0) |||
      (if copies_by_stretch_rect s caps ∧ has_flag s.Usage D3DUSAGE_RENDERTARGET then
        U.copy_dest ||| U.resolve_dest else 0) := by
    rw [hu]
    generalize (if s.Type_ = D3DRTYPE_TEXTURE ∨ s.Type_ = D3DRTYPE_CUBETEXTURE then
        convert_d3d_usage_to_usage U s.Usage 0 ||| U.shader_resource
       else convert_d3d_usage_to_usage U s.Usage 0) = base
    show (if copies_by_stretch_rect s caps then
        (if has_flag s.Usage D3DUSAGE_RENDERTARGET then _ else _) else _) = _
    by_cases g : copies_by_stretch_rect s caps
    · by_cases hrt : has_flag s.Usage D3DUSAGE_RENDERTARGET
      · by_cases hms : to_int32 s.MultiSampleType ≥ to_int32 D3DMULTISAMPLE_2_SAMPLES
        · simp only [g, hrt, hms, and_self, if_true]
        · simp only [g, hrt, hms, and_self, and_false, if_true, if_false, Nat.or_zero]
      · by_cases hms : to_int32 s.MultiSampleType ≥ to_int32 D3DMULTISAMPLE_2_SAMPLES
        · simp only [g, hrt, hms, and_self, and_false, if_true, if_false, Nat.or_zero]
        · simp only [g, hrt, hms, and_false, if_true, if_false, Nat.or_zero]
    · simp only [g, false_and, if_false, Nat.or_zero]
  have hbase : ∀ j, 7 ≤ j → ∀ hj : j < U.flags.length,
      ¬ has_flag (if s.Type_ = D3DRTYPE_TEXTURE ∨ s.Type_ = D3DRTYPE_CUBETEXTURE then
        convert_d3d_usage_to_usage U s.Usage 0 ||| U.shader_resource
       else convert_d3d_usage_to_usage U s.Usage 0) U.flags[j] := by
    intro j hj7 hj
    split
    · exact (convert_d3d_usage_to_usage_no_copy_flag hU s.Usage hj7 hj).2
    · exact (convert_d3d_usage_to_usage_no_copy_flag hU s.Usage hj7 hj).1
  have key : ∀ j, 7 ≤ j → ∀ hj : j < U.flags.length,
      (has_flag r.usage U.flags[j] ↔
        (copies_by_stretch_rect s caps ∧ 7 = j) ∨
        ((copies_by_stretch_rect s caps ∧
          to_int32 s.MultiSampleType ≥ to_int32 D3DMULTISAMPLE_2_SAMPLES) ∧ 9 = j) ∨
        ((copies_by_stretch_rect s caps ∧ has_flag s.Usage D3DUSAGE_RENDERTARGET) ∧
          (8 = j ∨ 10 = j))) := by
    intro j hj7 hj
    rw [hshape]
    exact copy_resolve_has_flag hU _ _ _ _ hj (hbase j hj7 hj)
  refine ⟨?_, ?_, ?_, ?_, to_int32_ge_2_samples s.MultiSampleType⟩
  · have := key 7 (by omega) (by simp [resource_usage.flags])
    simpa using this
  · have := key 9 (by omega) (by simp [resource_usage.flags])
    simpa using this
  · have := key 8 (by omega) (by simp [resource_usage.flags])
    simpa using this
  · have := key 10 (by omega) (by simp [resource_usage.flags])
    simpa using this

/-- C29 on the 256x256 `A8R8G8B8` render target surface of the default pool: with
one sample per pixel it has the copy flags and `resolve_dest` and no
`resolve_source`; with the multisample type `D3DMULTISAMPLE_4_SAMPLES` (4) it has
`resolve_source` too; and with the word `0x80000004` in the multisample type, which
is negative as an `int`, it has one sample and no `resolve_source`. -/
theorem surface_copy_and_resolve_usage_witness :
    convert_resource_desc_from_surface usage_values sample.render_target_surface 1
      sample.caps_plain = some sample.render_target_desc ∧
    copies_by_stretch_rect sample.render_target_surface sample.caps_plain ∧
    has_flag sample.render_target_desc.usage usage_values.copy_source ∧
    ¬ has_flag sample.render_target_desc.usage usage_values.resolve_source ∧
    has_flag sample.render_target_desc.usage usage_values.copy_dest ∧
    has_flag sample.render_target_desc.usage usage_values.resolve_dest ∧
    (convert_resource_desc_from_surface usage_values
        { sample.render_target_surface with MultiSampleType := 4 } 1 sample.caps_plain =
      some { sample.render_target_desc with
              samples := 4
              usage := sample.render_target_desc.usage ||| usage_values.resolve_source } ∧
     has_flag (sample.render_target_desc.usage ||| usage_values.resolve_source)
       usage_values.resolve_source) ∧
    (convert_resource_desc_from_surface usage_values
        { sample.render_target_surface with MultiSampleType := 0x80000004 } 1 sample.caps_plain =
      some sample.render_target_desc ∧
     sample.render_target_desc.samples = 1 ∧
     ¬ has_flag sample.render_target_desc.usage usage_values.resolve_source) :=
  ⟨by decide, by decide,
   (surface_copy_and_resolve_usage usage_values (by decide) sample.render_target_surface 1
      sample.caps_plain sample.render_target_desc (by decide)).1.mpr (by decide),
   fun h => absurd ((surface_copy_and_resolve_usage usage_values (by decide)
      sample.render_target_surface 1 sample.caps_plain sample.render_target_desc
      (by decide)).2.1.mp h).2 (by decide),
   (surface_copy_and_resolve_usage usage_values (by decide) sample.render_target_surface 1
      sample.caps_plain sample.render_target_desc (by decide)).2.2.1.mpr ⟨by decide, by decide⟩,
   (surface_copy_and_resolve_usage usage_values (by decide) sample.render_target_surface 1
      sample.caps_plain sample.render_target_desc (by decide)).2.2.2.1.mpr
      ⟨by decide, by decide⟩,
   ⟨by decide,
    (surface_copy_and_resolve_usage usage_values (by decide)
      { sample.render_target_surface with MultiSampleType := 4 } 1 sample.caps_plain
      { sample.render_target_desc with
          samples := 4
          usage := sample.render_target_desc.usage ||| usage_values.resolve_source }
      (by decide)).2.1.mpr ⟨by decide, by decide⟩⟩,
   ⟨by decide, by decide,
    fun h => absurd ((surface_copy_and_resolve_usage usage_values (by decide)
      { sample.render_target_surface with MultiSampleType := 0x80000004 } 1 sample.caps_plain
      sample.render_target_desc (by decide)).2.1.mp h).2 (by decide)⟩⟩

end d3d9

namespace d3d10

/-- The usage `convert_bind_flags_to_usage` builds from nothing has neither
`resolve_source` nor `resolve_dest`. -/
theorem convert_bind_flags_to_usage_no_resolve_flag {U : resource_usage} (hU : U.distinct)
    (bind_flags : Nat) :
    ¬ has_flag (convert_bind_flags_to_usage U bind_flags 0) U.resolve_source ∧
    ¬ has_flag (convert_bind_flags_to_usage U bind_flags 0) U.resolve_dest := by
  rw [convert_bind_flags_to_usage_eq]
  constructor
  · intro h
    have := (usage_disjunction_has_flag hU _ _ _ _ _ _ (j := 9)
      (by simp [resource_usage.flags])).mp h
    omega
  · intro h
    have := (usage_disjunction_has_flag hU _ _ _ _ _ _ (j := 10)
      (by simp [resource_usage.flags])).mp h
    omega

/-- C30. Let the flags of `resource_usage` be distinct.  Whenever the conversion of
a `D3D10_TEXTURE2D_DESC` returns a descriptor, its `samples` is the native sample
count narrowed to 16 bits, and its usage has `resolve_source` exactly when `samples`
is greater than 1 and `resolve_dest` exactly when it is not, so exactly one of the
two.  The descriptors the buffer, 1D texture and 3D texture conversions return have
neither flag. -/
theorem texture2d_resolve_usage (U : resource_usage) (hU : U.distinct) :
    (∀ n r, convert_resource_desc_from_texture2d U n = some r →
      r.samples = to_uint16 n.SampleDesc.Count ∧
      (has_flag r.usage U.resolve_source ↔ r.samples > 1) ∧
      (has_flag r.usage U.resolve_dest ↔ ¬ r.samples > 1)) ∧
    (∀ n r, convert_resource_desc_from_buffer U n = some r →
      ¬ has_flag r.usage U.resolve_source ∧ ¬ has_flag r.usage U.resolve_dest) ∧
    (∀ n r, convert_resource_desc_from_texture1d U n = some r →
      ¬ has_flag r.usage U.resolve_source ∧ ¬ has_flag r.usage U.resolve_dest) ∧
    (∀ n r, convert_resource_desc_from_texture3d U n = some r →
      ¬ has_flag r.usage U.resolve_source ∧ ¬ has_flag r.usage U.resolve_dest) := by
  have ss : has_flag U.resolve_source U.resolve_source :=
    hU.has_flag_self (i := 9) (by simp [resource_usage.flags])
  have dd : has_flag U.resolve_dest U.resolve_dest :=
    hU.has_flag_self (i := 10) (by simp [resource_usage.flags])
  have sd : ¬ has_flag U.resolve_source U.resolve_dest :=
    hU.not_has_flag (i := 9) (j := 10) (by simp [resource_usage.flags])
      (by simp [resource_usage.flags]) (by decide)
  have ds : ¬ has_flag U.resolve_dest U.resolve_source :=
    hU.not_has_flag (i := 10) (j := 9) (by simp [resource_usage.flags])
      (by simp [resource_usage.flags]) (by decide)
  refine ⟨?_, ?_, ?_, ?_⟩
  · intro n r h
    obtain ⟨b1, b2⟩ := convert_bind_flags_to_usage_no_resolve_flag hU n.BindFlags
    unfold convert_resource_desc_from_texture2d at h
    by_cases h1 : n.ArraySize ≤ uint16_max
    swap
    · simp [assert, h1] at h
    by_cases h2 : n.MipLevels ≤ uint16_max
    swap
    · simp [assert, h1, h2] at h
    simp only [assert, if_pos h1, if_pos h2, Option.pure_def, Option.bind_eq_bind,
      Option.some_bind, Option.some.injEq, resource_desc.zero] at h
    subst h
    refine ⟨rfl, ?_, ?_⟩
    · show has_flag (_ ||| _) _ ↔ to_uint16 n.SampleDesc.Count > 1
      rw [has_flag_lor]
      by_cases c : to_uint16 n.SampleDesc.Count > 1
      · rw [if_pos c]
        exact ⟨fun _ => c, fun _ => Or.inr ss⟩
      · rw [if_neg c]
        constructor
        · rintro (h | h)
          · exact absurd h b1
          · exact absurd h ds
        · intro h
          exact absurd h c
    · show has_flag (_ ||| _) _ ↔ ¬ to_uint16 n.SampleDesc.Count > 1
      rw [has_flag_lor]
      by_cases c : to_uint16 n.SampleDesc.Count > 1
      · rw [if_pos c]
        constructor
        · rintro (h | h)
          · exact absurd h b2
          · exact absurd h sd
        · intro h
          exact absurd c h
      · rw [if_neg c]
        exact ⟨fun _ => c, fun _ => Or.inr dd⟩
  · intro n r h
    unfold convert_resource_desc_from_buffer at h
    simp only [Option.pure_def, Option.some.injEq, resource_desc.zero] at h
    subst h
    exact convert_bind_flags_to_usage_no_resolve_flag hU n.BindFlags
  · intro n r h
    unfold convert_resource_desc_from_texture1d at h
    by_cases h1 : n.ArraySize ≤ uint16_max
    swap
    · simp [assert, h1] at h
    by_cases h2 : n.MipLevels ≤ uint16_max
    swap
    · simp [assert, h1, h2] at h
    simp only [assert, if_pos h1, if_pos h2, Option.pure_def, Option.bind_eq_bind,
      Option.some_bind, Option.some.injEq, resource_desc.zero] at h
    subst h
    exact convert_bind_flags_to_usage_no_resolve_flag hU n.BindFlags
  · intro n r h
    unfold convert_resource_desc_from_texture3d at h
    by_cases h1 : n.Depth ≤ uint16_max
    swap
    · simp [assert, h1] at h
    by_cases h2 : n.MipLevels ≤ uint16_max
    swap
    · simp [assert, h1, h2] at h
    simp only [assert, if_pos h1, if_pos h2, Option.pure_def, Option.bind_eq_bind,
      Option.some_bind, Option.some.injEq, resource_desc.zero] at h
    subst h
    exact convert_bind_flags_to_usage_no_resolve_flag hU n.BindFlags

/-- C30 on the native 2D texture of the samples, on the same texture with sample
count 65537, which narrows to 1, and on the native buffer. -/
theorem texture2d_resolve_usage_witness :
    usage_values.distinct ∧
    (∃ r, convert_resource_desc_from_texture2d usage_values sample.native_texture2d = some r ∧
      r.samples = to_uint16 sample.native_texture2d.SampleDesc.Count ∧
      (has_flag r.usage usage_values.resolve_source ↔ r.samples > 1) ∧
      (has_flag r.usage usage_values.resolve_dest ↔ ¬ r.samples > 1)) ∧
    (∃ r, convert_resource_desc_from_texture2d usage_values
        { sample.native_texture2d with SampleDesc := { Count := 65537, Quality := 0 } } = some r ∧
      r.samples = 1 ∧ has_flag r.usage usage_values.resolve_dest ∧
      ¬ has_flag r.usage usage_values.resolve_source) ∧
    (∃ r, convert_resource_desc_from_buffer usage_values sample.native_buffer = some r ∧
      ¬ has_flag r.usage usage_values.resolve_source ∧
      ¬ has_flag r.usage usage_values.resolve_dest) :=
  ⟨by decide,
   ⟨_, rfl, (texture2d_resolve_usage usage_values (by decide)).1 _ _ rfl⟩,
   ⟨_, rfl, by decide, by decide, by decide⟩,
   ⟨_, rfl, (texture2d_resolve_usage usage_values (by decide)).2.1 _ _ rfl⟩⟩

end d3d10

/-! ### What the conversions to native leave alone -/

/-- Clearing a flag by `& ~flag` keeps every bit of a 32-bit mask that does not meet
the flag. -/
theorem bnot32_land_of_disjoint {X Y : Nat} (hY : Y < 4294967296) (h : X &&& Y = 0) :
    bnot32 X &&& Y = Y := by
  apply Nat.eq_of_testBit_eq
  intro i
  simp only [bnot32, Nat.testBit_and, Nat.testBit_xor]
  by_cases hi : i < 32
  · have h1 : (4294967295 : Nat).testBit i = true := by
      have e : (4294967295 : Nat) = 2 ^ 32 - 1 := by norm_num
      rw [e, Nat.testBit_two_pow_sub_one]
      simp [hi]
    have h2 : (X.testBit i && Y.testBit i) = false := by
      have := congrArg (fun n => Nat.testBit n i) h
      simpa [Nat.testBit_and] using this
    cases hX : X.testBit i <;> cases hYi : Y.testBit i <;> simp_all
  · have h3 : Y.testBit i = false := by
      apply Nat.testBit_lt_two_pow
      calc Y < 2 ^ 32 := by norm_num; exact hY
        _ ≤ 2 ^ i := Nat.pow_le_pow_right (by norm_num) (by omega)
    simp [h3]

/-- Setting or clearing a flag keeps every bit of a 32-bit mask that does not meet
the flag. -/
theorem land_set_or_clear_disjoint {c : Prop} [Decidable c] (b : Nat) {X Y : Nat}
    (hY : Y < 4294967296) (h : X &&& Y = 0) :
    (if c then b ||| X else b &&& bnot32 X) &&& Y = b &&& Y :=
  land_set_or_clear_other b X Y h (bnot32_land_of_disjoint hY h)

/-- A mask that meets none of two flags does not meet their disjunction, and
conversely. -/
theorem land_lor_eq_zero {a b m : Nat} : (a ||| b) &&& m = 0 ↔ a &&& m = 0 ∧ b &&& m = 0 := by
  rw [land_lor, lor_eq_zero]

namespace d3d9

/-- What `convert_usage_to_d3d_usage` returns for any initial word: the two flags it
manages are set exactly when the usage asks for them, and every other bit of a
32-bit mask is as it was. -/
theorem convert_usage_to_d3d_usage_word (U : resource_usage) (usage w : Nat)
    (hu : ¬ has_flag usage U.unordered_access) :
    ∃ w', convert_usage_to_d3d_usage U usage w = some w' ∧
      w' &&& D3DUSAGE_RENDERTARGET =
        (if has_flag usage U.render_target ∨ has_flag usage U.copy_dest ∨
            has_flag usage U.resolve_dest then D3DUSAGE_RENDERTARGET else 0) ∧
      w' &&& D3DUSAGE_DEPTHSTENCIL =
        (if has_flag usage U.depth_stencil then D3DUSAGE_DEPTHSTENCIL else 0) ∧
      ∀ Y, Y < 4294967296 → (D3DUSAGE_RENDERTARGET ||| D3DUSAGE_DEPTHSTENCIL) &&& Y = 0 →
        w' &&& Y = w &&& Y := by
  have hu' : usage &&& U.unordered_access = 0 := by
    unfold has_flag at hu
    exact not_not.mp hu
  have h3 : (usage &&& (U.render_target ||| U.copy_dest ||| U.resolve_dest) ≠ 0) ↔
      (has_flag usage U.render_target ∨ has_flag usage U.copy_dest ∨
        has_flag usage U.resolve_dest) := by
    show has_flag usage _ ↔ _
    rw [has_flag_lor_right, has_flag_lor_right, or_assoc]
  unfold convert_usage_to_d3d_usage
  simp only [assert, hu', if_true, Option.pure_def, Option.bind_eq_bind, Option.some_bind]
  refine ⟨_, rfl, ?_, ?_, ?_⟩
  · rw [land_set_or_clear_other _ _ _ (by decide) (by decide),
      land_set_or_clear_self _ _ (by decide)]
    by_cases c : has_flag usage U.render_target ∨ has_flag usage U.copy_dest ∨
        has_flag usage U.resolve_dest
    · rw [if_pos c, if_pos (h3.mpr c)]
    · rw [if_neg c, if_neg (fun h => c (h3.mp h))]
  · rw [land_set_or_clear_self _ _ (by decide)]
    rfl
  · intro Y hY hd
    obtain ⟨h1, h2⟩ := land_lor_eq_zero.mp hd
    rw [land_set_or_clear_disjoint _ hY h2, land_set_or_clear_disjoint _ hY h1]

/-- A native usage word with `D3DUSAGE_RENDERTARGET` is read back as a usage with
`render_target`. -/
theorem convert_d3d_usage_to_usage_render_target {U : resource_usage} (hU : U.distinct)
    {w : Nat} (hw : has_flag w D3DUSAGE_RENDERTARGET) (usage : Nat) :
    has_flag (convert_d3d_usage_to_usage U w usage) U.render_target := by
  have rr : has_flag U.render_target U.render_target :=
    hU.has_flag_self (i := 0) (by simp [resource_usage.flags])
  have hw' : w &&& D3DUSAGE_RENDERTARGET ≠ 0 := hw
  unfold convert_d3d_usage_to_usage
  simp only [if_pos hw']
  split
  · rw [has_flag_lor, has_flag_lor]
    exact Or.inl (Or.inr rr)
  · rw [has_flag_lor]
    exact Or.inr rr

/-- Every flag of the usage read off the native usage word is in the usage the
surface conversion returns. -/
theorem convert_resource_desc_from_surface_usage_ge {U : resource_usage} {s : D3DSURFACE_DESC}
    {levels : Nat} {caps : D3DCAPS9} {r : resource_desc}
    (h : convert_resource_desc_from_surface U s levels caps = some r) {m : Nat}
    (hm : has_flag (convert_d3d_usage_to_usage U s.Usage 0) m) : has_flag r.usage m := by
  have hb : has_flag (if s.Type_ = D3DRTYPE_TEXTURE ∨ s.Type_ = D3DRTYPE_CUBETEXTURE then
        convert_d3d_usage_to_usage U s.Usage 0 ||| U.shader_resource
      else convert_d3d_usage_to_usage U s.Usage 0) m := by
    split
    · rw [has_flag_lor]; exact Or.inl hm
    · exact hm
  rw [convert_resource_desc_from_surface_usage h _ rfl]
  generalize (if s.Type_ = D3DRTYPE_TEXTURE ∨ s.Type_ = D3DRTYPE_CUBETEXTURE then
        convert_d3d_usage_to_usage U s.Usage 0 ||| U.shader_resource
      else convert_d3d_usage_to_usage U s.Usage 0) = base at hb ⊢
  split
  · split
    · split
      · simp only [has_flag_lor, hb, true_or]
      · simp only [has_flag_lor, hb, true_or]
    · split
      · simp only [has_flag_lor, hb, true_or]
      · simp only [has_flag_lor, hb, true_or]
  · exact hb

/-- What the four conversions to a native Direct3D 9 descriptor write and what they
leave alone: the usage word is the one `convert_usage_to_d3d_usage` makes of the
initial word, and `Type`, `Pool` (and `MultiSampleQuality`, `FVF`, and the `Format`
of a buffer) are those of the initial descriptor. -/
theorem convert_resource_desc_native_frame (U : resource_usage) (desc : resource_desc) :
    (∀ n0 levels n l, convert_resource_desc_volume U desc n0 levels = some (n, l) →
      convert_usage_to_d3d_usage U desc.usage n0.Usage = some n.Usage ∧
      n.Type_ = n0.Type_ ∧ n.Pool = n0.Pool) ∧
    (∀ n0 levels n l, convert_resource_desc_surface U desc n0 levels = some (n, l) →
      convert_usage_to_d3d_usage U desc.usage n0.Usage = some n.Usage ∧
      n.Type_ = n0.Type_ ∧ n.Pool = n0.Pool ∧ n.MultiSampleQuality = n0.MultiSampleQuality) ∧
    (∀ n0 n, convert_resource_desc_index_buffer U desc n0 = some n →
      convert_usage_to_d3d_usage U desc.usage n0.Usage = some n.Usage ∧
      n.Type_ = n0.Type_ ∧ n.Pool = n0.Pool ∧ n.Format = n0.Format) ∧
    (∀ n0 n, convert_resource_desc_vertex_buffer U desc n0 = some n →
      convert_usage_to_d3d_usage U desc.usage n0.Usage = some n.Usage ∧
      n.Type_ = n0.Type_ ∧ n.Pool = n0.Pool ∧ n.Format = n0.Format ∧ n.FVF = n0.FVF) := by
  refine ⟨?_, ?_, ?_, ?_⟩
  · intro n0 levels n l h
    unfold convert_resource_desc_volume at h
    by_cases h1 : desc.samples = 1
    swap
    · simp [assert, h1] at h
    simp only [assert, if_pos h1, Option.pure_def, Option.bind_eq_bind, Option.some_bind] at h
    cases hc : convert_usage_to_d3d_usage U desc.usage n0.Usage with
    | none => simp [hc] at h
    | some w' =>
      simp only [hc, Option.some_bind] at h
      cases levels with
      | some l0 =>
        simp only [Option.some.injEq, Prod.mk.injEq] at h
        obtain ⟨rfl, -⟩ := h
        exact ⟨rfl, rfl, rfl⟩
      | none =>
        by_cases h2 : desc.levels = 1
        swap
        · simp [h2] at h
        simp only [if_pos h2, Option.some_bind, Option.some.injEq, Prod.mk.injEq] at h
        obtain ⟨rfl, -⟩ := h
        exact ⟨rfl, rfl, rfl⟩
  · intro n0 levels n l h
    unfold convert_resource_desc_surface at h
    by_cases h1 : desc.depth_or_layers = 1 ∨ desc.depth_or_layers = 6
    swap
    · simp [assert, h1] at h
    simp only [assert, if_pos h1, Option.pure_def, Option.bind_eq_bind, Option.some_bind] at h
    cases hc : convert_usage_to_d3d_usage U desc.usage n0.Usage with
    | none => simp [hc] at h
    | some w' =>
      simp only [hc, Option.some_bind] at h
      cases levels with
      | some l0 =>
        simp only [Option.some.injEq, Prod.mk.injEq] at h
        obtain ⟨rfl, -⟩ := h
        exact ⟨rfl, rfl, rfl, rfl⟩
      | none =>
        by_cases h2 : desc.levels = 1
        swap
        · simp [h2] at h
        simp only [if_pos h2, Option.some_bind, Option.some.injEq, Prod.mk.injEq] at h
        obtain ⟨rfl, -⟩ := h
        exact ⟨rfl, rfl, rfl, rfl⟩
  · intro n0 n h
    unfold convert_resource_desc_index_buffer at h
    by_cases h1 : desc.height = 0 ∧ desc.depth_or_layers = 0 ∧ desc.levels = 0 ∧
        desc.format = 0 ∧ desc.samples = 0
    swap
    · simp [assert, h1] at h
    by_cases h2 : desc.usage &&& (U.vertex_buffer ||| U.index_buffer) = U.index_buffer
    swap
    · simp [assert, h1, h2] at h
    simp only [assert, if_pos h1, if_pos h2, Option.pure_def, Option.bind_eq_bind,
      Option.some_bind] at h
    cases hc : convert_usage_to_d3d_usage U desc.usage n0.Usage with
    | none => simp [hc] at h
    | some w' =>
      simp only [hc, Option.some_bind, Option.some.injEq] at h
      subst h
      exact ⟨rfl, rfl, rfl, rfl⟩
  · intro n0 n h
    unfold convert_resource_desc_vertex_buffer at h
    by_cases h1 : desc.height = 0 ∧ desc.depth_or_layers = 0 ∧ desc.levels = 0 ∧
        desc.format = 0 ∧ desc.samples = 0
    swap
    · simp [assert, h1] at h
    by_cases h2 : desc.usage &&& (U.vertex_buffer ||| U.index_buffer) = U.vertex_buffer
    swap
    · simp [assert, h1, h2] at h
    simp only [assert, if_pos h1, if_pos h2, Option.pure_def, Option.bind_eq_bind,
      Option.some_bind] at h
    cases hc : convert_usage_to_d3d_usage U desc.usage n0.Usage with
    | none => simp [hc] at h
    | some w' =>
      simp only [hc, Option.some_bind, Option.some.injEq] at h
      subst h
      exact ⟨rfl, rfl, rfl, rfl, rfl⟩

end d3d9

namespace d3d9

/-- C31. Let the flags of `resource_usage` be distinct.  For every descriptor whose
usage `u` has no `unordered_access` and every initial native usage word `w`,
`convert_usage_to_d3d_usage(u, w)` returns a word that has `D3DUSAGE_RENDERTARGET`
exactly when `u` has `render_target`, `copy_dest` or `resolve_dest`, and
`D3DUSAGE_DEPTHSTENCIL` exactly when `u` has `depth_stencil`.  So when `u` has
`copy_dest` or `resolve_dest`, every descriptor that a conversion to a native
Direct3D 9 descriptor (volume, surface, index buffer, vertex buffer) followed by the
conversion back returns has `render_target` in its usage, whether `u` had it or
not. -/
theorem copy_dest_comes_back_as_render_target (U : resource_usage) (hU : U.distinct)
    (desc : resource_desc) (w : Nat) (hu : ¬ has_flag desc.usage U.unordered_access) :
    (∃ w', convert_usage_to_d3d_usage U desc.usage w = some w' ∧
      (has_flag w' D3DUSAGE_RENDERTARGET ↔
        has_flag desc.usage U.render_target ∨ has_flag desc.usage U.copy_dest ∨
          has_flag desc.usage U.resolve_dest) ∧
      (has_flag w' D3DUSAGE_DEPTHSTENCIL ↔ has_flag desc.usage U.depth_stencil)) ∧
    (has_flag desc.usage U.copy_dest ∨ has_flag desc.usage U.resolve_dest →
      (∀ n0 levels n l, convert_resource_desc_volume U desc n0 levels = some (n, l) →
        ∀ levels' r, convert_resource_desc_from_volume U n levels' = some r →
          has_flag r.usage U.render_target) ∧
      (∀ n0 levels n l, convert_resource_desc_surface U desc n0 levels = some (n, l) →
        ∀ levels' caps r, convert_resource_desc_from_surface U n levels' caps = some r →
          has_flag r.usage U.render_target) ∧
      (∀ n0 n, convert_resource_desc_index_buffer U desc n0 = some n →
        ∀ r, convert_resource_desc_from_index_buffer U n = some r →
          has_flag r.usage U.render_target) ∧
      (∀ n0 n, convert_resource_desc_vertex_buffer U desc n0 = some n →
        ∀ r, convert_resource_desc_from_vertex_buffer U n = some r →
          has_flag r.usage U.render_target)) := by
  have word : ∀ w0 w', convert_usage_to_d3d_usage U desc.usage w0 = some w' →
      (has_flag w' D3DUSAGE_RENDERTARGET ↔
        has_flag desc.usage U.render_target ∨ has_flag desc.usage U.copy_dest ∨
          has_flag desc.usage U.resolve_dest) ∧
      (has_flag w' D3DUSAGE_DEPTHSTENCIL ↔ has_flag desc.usage U.depth_stencil) := by
    intro w0 w' hw
    obtain ⟨w'', hw'', e1, e2, -⟩ := convert_usage_to_d3d_usage_word U desc.usage w0 hu
    rw [hw] at hw''
    cases hw''
    unfold has_flag at e1 e2 ⊢
    constructor
    · rw [e1]
      split
      · rename_i c
        exact ⟨fun _ => c, fun _ => by decide⟩
      · rename_i c
        exact ⟨fun h => absurd rfl h, fun h => absurd h c⟩
    · rw [e2]
      split
      · rename_i c
        exact ⟨fun _ => c, fun _ => by decide⟩
      · rename_i c
        exact ⟨fun h => absurd rfl h, fun h => absurd h c⟩
  constructor
  · obtain ⟨w', hw', -⟩ := convert_usage_to_d3d_usage_word U desc.usage w hu
    exact ⟨w', hw', word w w' hw'⟩
  intro hcd
  have hrt : ∀ w0 w', convert_usage_to_d3d_usage U desc.usage w0 = some w' →
      has_flag w' D3DUSAGE_RENDERTARGET :=
    fun w0 w' hw => (word w0 w' hw).1.mpr (Or.inr hcd)
  obtain ⟨fv, fs, fi, fb⟩ := convert_resource_desc_native_frame U desc
  refine ⟨?_, ?_, ?_, ?_⟩
  · intro n0 levels n l h levels' r hr
    have hn := hrt _ _ (fv n0 levels n l h).1
    unfold convert_resource_desc_from_volume at hr
    by_cases h1 : n.Type_ = D3DRTYPE_VOLUME ∨ n.Type_ = D3DRTYPE_VOLUMETEXTURE
    swap
    · simp [assert, h1] at hr
    by_cases h2 : n.Depth ≤ uint16_max
    swap
    · simp [assert, h1, h2] at hr
    by_cases h3 : levels' ≤ uint16_max
    swap
    · simp [assert, h1, h2, h3] at hr
    simp only [assert, if_pos h1, if_pos h2, if_pos h3, Option.pure_def, Option.bind_eq_bind,
      Option.some_bind, Option.some.injEq, resource_desc.zero] at hr
    subst hr
    show has_flag (if _ then _ else _) _
    split
    · rw [has_flag_lor]
      exact Or.inl (convert_d3d_usage_to_usage_render_target hU hn 0)
    · exact convert_d3d_usage_to_usage_render_target hU hn 0
  · intro n0 levels n l h levels' caps r hr
    have hn := hrt _ _ (fs n0 levels n l h).1
    exact convert_resource_desc_from_surface_usage_ge hr
      (convert_d3d_usage_to_usage_render_target hU hn 0)
  · intro n0 n h r hr
    have hn := hrt _ _ (fi n0 n h).1
    unfold convert_resource_desc_from_index_buffer at hr
    simp only [Option.pure_def, Option.some.injEq, resource_desc.zero] at hr
    subst hr
    show has_flag (_ ||| _) _
    rw [has_flag_lor]
    exact Or.inl (convert_d3d_usage_to_usage_render_target hU hn 0)
  · intro n0 n h r hr
    have hn := hrt _ _ (fb n0 n h).1
    unfold convert_resource_desc_from_vertex_buffer at hr
    simp only [Option.pure_def, Option.some.injEq, resource_desc.zero] at hr
    subst hr
    show has_flag (_ ||| _) _
    rw [has_flag_lor]
    exact Or.inl (convert_d3d_usage_to_usage_render_target hU hn 0)

/-- C31 on a 256x256 texture that asks for `copy_dest` alone: the native usage word
is `D3DUSAGE_RENDERTARGET`, and the descriptor that comes back from the surface
descriptor has `render_target`. -/
theorem copy_dest_comes_back_as_render_target_witness :
    ¬ has_flag { sample.plain_texture_desc with usage := usage_values.copy_dest }.usage
      usage_values.unordered_access ∧
    ¬ has_flag { sample.plain_texture_desc with usage := usage_values.copy_dest }.usage
      usage_values.render_target ∧
    (convert_resource_desc_surface usage_values
        { sample.plain_texture_desc with usage := usage_values.copy_dest }
        sample.depth_stencil_surface (some 0)).map (fun p => p.1.Usage)
      = some D3DUSAGE_RENDERTARGET ∧
    ∃ r, (convert_resource_desc_surface usage_values
        { sample.plain_texture_desc with usage := usage_values.copy_dest }
        sample.depth_stencil_surface (some 0)).bind
          (fun p => convert_resource_desc_from_surface usage_values p.1 1 sample.caps_plain)
        = some r ∧ has_flag r.usage usage_values.render_target :=
  ⟨by decide, by decide, by decide,
   ⟨_, rfl,
    ((copy_dest_comes_back_as_render_target usage_values (by decide)
        { sample.plain_texture_desc with usage := usage_values.copy_dest } 0 (by decide)).2
      (Or.inl (by decide))).2.1
      sample.depth_stencil_surface (some 0) _ _ rfl 1 sample.caps_plain _ rfl⟩⟩

end d3d9

namespace d3d10

/-- The bind flags `convert_usage_to_bind_flags` returns agree with the initial ones
on every 32-bit mask that meets none of the six flags the function manages. -/
theorem convert_usage_to_bind_flags_frame {U : resource_usage} {usage b f : Nat}
    (h : convert_usage_to_bind_flags U usage b = some f) {Y : Nat} (hY : Y < 4294967296)
    (hd : (D3D10_BIND_RENDER_TARGET ||| D3D10_BIND_DEPTH_STENCIL |||
      D3D10_BIND_SHADER_RESOURCE ||| D3D10_BIND_INDEX_BUFFER ||| D3D10_BIND_VERTEX_BUFFER |||
      D3D10_BIND_CONSTANT_BUFFER) &&& Y = 0) :
    f &&& Y = b &&& Y := by
  obtain ⟨h5, d6⟩ := land_lor_eq_zero.mp hd
  obtain ⟨h4, d5⟩ := land_lor_eq_zero.mp h5
  obtain ⟨h3, d4⟩ := land_lor_eq_zero.mp h4
  obtain ⟨h2, d3⟩ := land_lor_eq_zero.mp h3
  obtain ⟨d1, d2⟩ := land_lor_eq_zero.mp h2
  unfold convert_usage_to_bind_flags at h
  by_cases hu : usage &&& U.unordered_access = 0
  swap
  · simp [assert, hu] at h
  simp only [assert, hu, if_true, Option.pure_def, Option.bind_eq_bind, Option.some_bind,
    Option.some.injEq] at h
  subst h
  rw [land_set_or_clear_disjoint _ hY d6, land_set_or_clear_disjoint _ hY d5,
    land_set_or_clear_disjoint _ hY d4, land_set_or_clear_disjoint _ hY d3,
    land_set_or_clear_disjoint _ hY d2, land_set_or_clear_disjoint _ hY d1]

/-- What the four conversions to a native Direct3D 10 descriptor write and what they
leave alone: the bind flags are those `convert_usage_to_bind_flags` makes of the
initial ones, and `Usage`, `CPUAccessFlags`, `MiscFlags` (and `SampleDesc.Quality`)
are those of the initial descriptor. -/
theorem d3d10_convert_resource_desc_native_frame (U : resource_usage) (desc : resource_desc) :
    (∀ n0 n, convert_resource_desc_buffer U desc n0 = some n →
      convert_usage_to_bind_flags U desc.usage n0.BindFlags = some n.BindFlags ∧
      n.Usage = n0.Usage ∧ n.CPUAccessFlags = n0.CPUAccessFlags ∧ n.MiscFlags = n0.MiscFlags) ∧
    (∀ n0 n, convert_resource_desc_texture1d U desc n0 = some n →
      convert_usage_to_bind_flags U desc.usage n0.BindFlags = some n.BindFlags ∧
      n.Usage = n0.Usage ∧ n.CPUAccessFlags = n0.CPUAccessFlags ∧ n.MiscFlags = n0.MiscFlags) ∧
    (∀ n0 n, convert_resource_desc_texture2d U desc n0 = some n →
      convert_usage_to_bind_flags U desc.usage n0.BindFlags = some n.BindFlags ∧
      n.Usage = n0.Usage ∧ n.CPUAccessFlags = n0.CPUAccessFlags ∧ n.MiscFlags = n0.MiscFlags ∧
      n.SampleDesc.Quality = n0.SampleDesc.Quality) ∧
    (∀ n0 n, convert_resource_desc_texture3d U desc n0 = some n →
      convert_usage_to_bind_flags U desc.usage n0.BindFlags = some n.BindFlags ∧
      n.Usage = n0.Usage ∧ n.CPUAccessFlags = n0.CPUAccessFlags ∧ n.MiscFlags = n0.MiscFlags) := by
  refine ⟨?_, ?_, ?_, ?_⟩
  · intro n0 n h
    unfold convert_resource_desc_buffer at h
    by_cases h1 : desc.height = 0
    swap
    · simp [assert, h1] at h
    simp only [assert, if_pos h1, Option.pure_def, Option.bind_eq_bind, Option.some_bind] at h
    cases hc : convert_usage_to_bind_flags U desc.usage n0.BindFlags with
    | none => simp [hc] at h
    | some f =>
      simp only [hc, Option.some_bind, Option.some.injEq] at h
      subst h
      exact ⟨rfl, rfl, rfl, rfl⟩
  · intro n0 n h
    unfold convert_resource_desc_texture1d at h
    by_cases h1 : desc.height = 1
    swap
    · simp [assert, h1] at h
    by_cases h2 : desc.samples = 1
    swap
    · simp [assert, h1, h2] at h
    simp only [assert, if_pos h1, if_pos h2, Option.pure_def, Option.bind_eq_bind,
      Option.some_bind] at h
    cases hc : convert_usage_to_bind_flags U desc.usage n0.BindFlags with
    | none => simp [hc] at h
    | some f =>
      simp only [hc, Option.some_bind, Option.some.injEq] at h
      subst h
      exact ⟨rfl, rfl, rfl, rfl⟩
  · intro n0 n h
    unfold convert_resource_desc_texture2d at h
    simp only [Option.pure_def, Option.bind_eq_bind] at h
    cases hc : convert_usage_to_bind_flags U desc.usage n0.BindFlags with
    | none => simp [hc] at h
    | some f =>
      simp only [hc, Option.some_bind, Option.some.injEq] at h
      subst h
      exact ⟨rfl, rfl, rfl, rfl, rfl⟩
  · intro n0 n h
    unfold convert_resource_desc_texture3d at h
    by_cases h2 : desc.samples = 1
    swap
    · simp [assert, h2] at h
    simp only [assert, if_pos h2, Option.pure_def, Option.bind_eq_bind, Option.some_bind] at h
    cases hc : convert_usage_to_bind_flags U desc.usage n0.BindFlags with
    | none => simp [hc] at h
    | some f =>
      simp only [hc, Option.some_bind, Option.some.injEq] at h
      subst h
      exact ⟨rfl, rfl, rfl, rfl⟩

end d3d10

/-- C37. Every conversion of an abstract resource descriptor to a native one that
returns a descriptor leaves alone what it does not derive from the abstract
descriptor, whatever the initial native descriptor.  On Direct3D 10 (buffer, 1D, 2D,
3D texture): `Usage`, `CPUAccessFlags`, `MiscFlags`, for the 2D texture
`SampleDesc.Quality`, and the bits of `BindFlags` under every 32-bit mask that meets
none of the six bind flags managed.  On Direct3D 9 (volume, surface, index buffer,
vertex buffer): `Type`, `Pool`, for the surface `MultiSampleQuality`, and the bits of
`Usage` under every 32-bit mask that meets neither `D3DUSAGE_RENDERTARGET` nor
`D3DUSAGE_DEPTHSTENCIL`. -/
theorem conversions_keep_unmanaged_fields (U : resource_usage) (desc : resource_desc) :
    (∀ n0 n, d3d10.convert_resource_desc_buffer U desc n0 = some n →
      n.Usage = n0.Usage ∧ n.CPUAccessFlags = n0.CPUAccessFlags ∧ n.MiscFlags = n0.MiscFlags ∧
      ∀ Y, Y < 4294967296 →
        (d3d10.D3D10_BIND_RENDER_TARGET ||| d3d10.D3D10_BIND_DEPTH_STENCIL |||
          d3d10.D3D10_BIND_SHADER_RESOURCE ||| d3d10.D3D10_BIND_INDEX_BUFFER |||
          d3d10.D3D10_BIND_VERTEX_BUFFER ||| d3d10.D3D10_BIND_CONSTANT_BUFFER) &&& Y = 0 →
        n.BindFlags &&& Y = n0.BindFlags &&& Y) ∧
    (∀ n0 n, d3d10.convert_resource_desc_texture1d U desc n0 = some n →
      n.Usage = n0.Usage ∧ n.CPUAccessFlags = n0.CPUAccessFlags ∧ n.MiscFlags = n0.MiscFlags ∧
      ∀ Y, Y < 4294967296 →
        (d3d10.D3D10_BIND_RENDER_TARGET ||| d3d10.D3D10_BIND_DEPTH_STENCIL |||
          d3d10.D3D10_BIND_SHADER_RESOURCE ||| d3d10.D3D10_BIND_INDEX_BUFFER |||
          d3d10.D3D10_BIND_VERTEX_BUFFER ||| d3d10.D3D10_BIND_CONSTANT_BUFFER) &&& Y = 0 →
        n.BindFlags &&& Y = n0.BindFlags &&& Y) ∧
    (∀ n0 n, d3d10.convert_resource_desc_texture2d U desc n0 = some n →
      n.Usage = n0.Usage ∧ n.CPUAccessFlags = n0.CPUAccessFlags ∧ n.MiscFlags = n0.MiscFlags ∧
      n.SampleDesc.Quality = n0.SampleDesc.Quality ∧
      ∀ Y, Y < 4294967296 →
        (d3d10.D3D10_BIND_RENDER_TARGET ||| d3d10.D3D10_BIND_DEPTH_STENCIL |||
          d3d10.D3D10_BIND_SHADER_RESOURCE ||| d3d10.D3D10_BIND_INDEX_BUFFER |||
          d3d10.D3D10_BIND_VERTEX_BUFFER ||| d3d10.D3D10_BIND_CONSTANT_BUFFER) &&& Y = 0 →
        n.BindFlags &&& Y = n0.BindFlags &&& Y) ∧
    (∀ n0 n, d3d10.convert_resource_desc_texture3d U desc n0 = some n →
      n.Usage = n0.Usage ∧ n.CPUAccessFlags = n0.CPUAccessFlags ∧ n.MiscFlags = n0.MiscFlags ∧
      ∀ Y, Y < 4294967296 →
        (d3d10.D3D10_BIND_RENDER_TARGET ||| d3d10.D3D10_BIND_DEPTH_STENCIL |||
          d3d10.D3D10_BIND_SHADER_RESOURCE ||| d3d10.D3D10_BIND_INDEX_BUFFER |||
          d3d10.D3D10_BIND_VERTEX_BUFFER ||| d3d10.D3D10_BIND_CONSTANT_BUFFER) &&& Y = 0 →
        n.BindFlags &&& Y = n0.BindFlags &&& Y) ∧
    (∀ n0 levels n l, d3d9.convert_resource_desc_volume U desc n0 levels = some (n, l) →
      n.Type_ = n0.Type_ ∧ n.Pool = n0.Pool ∧
      ∀ Y, Y < 4294967296 →
        (d3d9.D3DUSAGE_RENDERTARGET ||| d3d9.D3DUSAGE_DEPTHSTENCIL) &&& Y = 0 →
        n.Usage &&& Y = n0.Usage &&& Y) ∧
    (∀ n0 levels n l, d3d9.convert_resource_desc_surface U desc n0 levels = some (n, l) →
      n.Type_ = n0.Type_ ∧ n.Pool = n0.Pool ∧ n.MultiSampleQuality = n0.MultiSampleQuality ∧
      ∀ Y, Y < 4294967296 →
        (d3d9.D3DUSAGE_RENDERTARGET ||| d3d9.D3DUSAGE_DEPTHSTENCIL) &&& Y = 0 →
        n.Usage &&& Y = n0.Usage &&& Y) ∧
    (∀ n0 n, d3d9.convert_resource_desc_index_buffer U desc n0 = some n →
      n.Type_ = n0.Type_ ∧ n.Pool = n0.Pool ∧
      ∀ Y, Y < 4294967296 →
        (d3d9.D3DUSAGE_RENDERTARGET ||| d3d9.D3DUSAGE_DEPTHSTENCIL) &&& Y = 0 →
        n.Usage &&& Y = n0.Usage &&& Y) ∧
    (∀ n0 n, d3d9.convert_resource_desc_vertex_buffer U desc n0 = some n →
      n.Type_ = n0.Type_ ∧ n.Pool = n0.Pool ∧
      ∀ Y, Y < 4294967296 →
        (d3d9.D3DUSAGE_RENDERTARGET ||| d3d9.D3DUSAGE_DEPTHSTENCIL) &&& Y = 0 →
        n.Usage &&& Y = n0.Usage &&& Y) := by
  obtain ⟨b1, b2, b3, b4⟩ := d3d10.d3d10_convert_resource_desc_native_frame U desc
  obtain ⟨v1, v2, v3, v4⟩ := d3d9.convert_resource_desc_native_frame U desc
  have word : ∀ w w', d3d9.convert_usage_to_d3d_usage U desc.usage w = some w' →
      ∀ Y, Y < 4294967296 →
        (d3d9.D3DUSAGE_RENDERTARGET ||| d3d9.D3DUSAGE_DEPTHSTENCIL) &&& Y = 0 →
        w' &&& Y = w &&& Y := by
    intro w w' hw
    have hu : ¬ has_flag desc.usage U.unordered_access := fun hh => by
      rw [(d3d9.convert_usage_to_d3d_usage_eq_none U desc.usage w).mpr hh] at hw
      cases hw
    obtain ⟨w'', hw'', -, -, hframe⟩ := d3d9.convert_usage_to_d3d_usage_word U desc.usage w hu
    rw [hw] at hw''
    cases hw''
    exact hframe
  refine ⟨?_, ?_, ?_, ?_, ?_, ?_, ?_, ?_⟩
  · intro n0 n h
    obtain ⟨hb, e1, e2, e3⟩ := b1 n0 n h
    exact ⟨e1, e2, e3, fun Y hY hd => d3d10.convert_usage_to_bind_flags_frame hb hY hd⟩
  · intro n0 n h
    obtain ⟨hb, e1, e2, e3⟩ := b2 n0 n h
    exact ⟨e1, e2, e3, fun Y hY hd => d3d10.convert_usage_to_bind_flags_frame hb hY hd⟩
  · intro n0 n h
    obtain ⟨hb, e1, e2, e3, e4⟩ := b3 n0 n h
    exact ⟨e1, e2, e3, e4, fun Y hY hd => d3d10.convert_usage_to_bind_flags_frame hb hY hd⟩
  · intro n0 n h
    obtain ⟨hb, e1, e2, e3⟩ := b4 n0 n h
    exact ⟨e1, e2, e3, fun Y hY hd => d3d10.convert_usage_to_bind_flags_frame hb hY hd⟩
  · intro n0 levels n l h
    obtain ⟨hw, e1, e2⟩ := v1 n0 levels n l h
    exact ⟨e1, e2, word _ _ hw⟩
  · intro n0 levels n l h
    obtain ⟨hw, e1, e2, e3⟩ := v2 n0 levels n l h
    exact ⟨e1, e2, e3, word _ _ hw⟩
  · intro n0 n h
    obtain ⟨hw, e1, e2, -⟩ := v3 n0 n h
    exact ⟨e1, e2, word _ _ hw⟩
  · intro n0 n h
    obtain ⟨hw, e1, e2, -, -⟩ := v4 n0 n h
    exact ⟨e1, e2, word _ _ hw⟩

/-- C37 on the multisampled render target converted on top of a native 2D texture
descriptor with every field set, and on the plain texture converted on top of a
surface descriptor with every field set: the fields and bits that are not managed
come out as they went in. -/
theorem conversions_keep_unmanaged_fields_witness :
    (∃ n, d3d10.convert_resource_desc_texture2d usage_values sample.texture2d_desc
        sample.busy_texture2d = some n ∧
      n.Usage = 3 ∧ n.CPUAccessFlags = 0x10000 ∧ n.MiscFlags = 0x4 ∧ n.SampleDesc.Quality = 7 ∧
      n.BindFlags &&& 0x10 = sample.busy_texture2d.BindFlags &&& 0x10 ∧
      sample.busy_texture2d.BindFlags &&& 0x10 = 0x10) ∧
    (∃ n l, d3d9.convert_resource_desc_surface usage_values sample.plain_texture_desc
        sample.busy_surface (some 0) = some (n, l) ∧
      n.Type_ = d3d9.D3DRTYPE_TEXTURE ∧ n.Pool = 1 ∧ n.MultiSampleQuality = 3 ∧
      n.Usage &&& 0x200 = sample.busy_surface.Usage &&& 0x200 ∧
      sample.busy_surface.Usage &&& 0x200 = 0x200) :=
  ⟨⟨_, rfl,
    ((conversions_keep_unmanaged_fields usage_values sample.texture2d_desc).2.2.1
      sample.busy_texture2d _ rfl).1,
    ((conversions_keep_unmanaged_fields usage_values sample.texture2d_desc).2.2.1
      sample.busy_texture2d _ rfl).2.1,
    ((conversions_keep_unmanaged_fields usage_values sample.texture2d_desc).2.2.1
      sample.busy_texture2d _ rfl).2.2.1,
    ((conversions_keep_unmanaged_fields usage_values sample.texture2d_desc).2.2.1
      sample.busy_texture2d _ rfl).2.2.2.1,
    ((conversions_keep_unmanaged_fields usage_values sample.texture2d_desc).2.2.1
      sample.busy_texture2d _ rfl).2.2.2.2 0x10 (by decide) (by decide),
    by decide⟩,
   ⟨_, _, rfl,
    ((conversions_keep_unmanaged_fields usage_values sample.plain_texture_desc).2.2.2.2.2.1
      sample.busy_surface (some 0) _ _ rfl).1,
    ((conversions_keep_unmanaged_fields usage_values sample.plain_texture_desc).2.2.2.2.2.1
      sample.busy_surface (some 0) _ _ rfl).2.1,
    ((conversions_keep_unmanaged_fields usage_values sample.plain_texture_desc).2.2.2.2.2.1
      sample.busy_surface (some 0) _ _ rfl).2.2.1,
    ((conversions_keep_unmanaged_fields usage_values sample.plain_texture_desc).2.2.2.2.2.1
      sample.busy_surface (some 0) _ _ rfl).2.2.2 0x200 (by decide) (by decide),
    by decide⟩⟩

/-! ### Texture creation of Direct3D 9 -/

namespace d3d9

/-- C32. `create_resource` returns `false` and the null handle, issues no call and
leaves the registry alone when the type is `texture_1d` or `texture_2d` and the
descriptor has `depth_or_layers ≠ 1` or `samples ≠ 1`, and when the type is
`texture_3d` and `samples ≠ 1`.  For every other descriptor of these types that
passes the assertion of the conversion (no `unordered_access`) it issues exactly one
call: `CreateTexture`, resp. `CreateVolumeTexture`, in `D3DPOOL_DEFAULT`, with the
width, height, (depth,) level count and format of the descriptor and the usage word
`convert_usage_to_d3d_usage` makes of the usage. -/
theorem create_texture_dispatch (U : resource_usage) (orig : IDirect3DDevice9)
    (self : device_impl) (type : resource_type) (desc : resource_desc) :
    (type = resource_type.texture_1d ∨ type = resource_type.texture_2d →
      desc.depth_or_layers ≠ 1 ∨ desc.samples ≠ 1 →
      self.create_resource U orig type desc =
        some { self := self, ret := false, out := 0, calls := [] }) ∧
    (type = resource_type.texture_3d → desc.samples ≠ 1 →
      self.create_resource U orig type desc =
        some { self := self, ret := false, out := 0, calls := [] }) ∧
    (type = resource_type.texture_1d ∨ type = resource_type.texture_2d →
      desc.depth_or_layers = 1 → desc.samples = 1 →
      ¬ has_flag desc.usage U.unordered_access →
      ∃ d3d_usage res, convert_usage_to_d3d_usage U desc.usage 0 = some d3d_usage ∧
        self.create_resource U orig type desc = some res ∧
        res.calls = [.CreateTexture desc.width desc.height desc.levels d3d_usage desc.format
          D3DPOOL_DEFAULT]) ∧
    (type = resource_type.texture_3d → desc.samples = 1 →
      ¬ has_flag desc.usage U.unordered_access →
      ∃ d3d_usage res, convert_usage_to_d3d_usage U desc.usage 0 = some d3d_usage ∧
        self.create_resource U orig type desc = some res ∧
        res.calls = [.CreateVolumeTexture desc.width desc.height desc.depth_or_layers
          desc.levels d3d_usage desc.format D3DPOOL_DEFAULT]) := by
  refine ⟨?_, ?_, ?_, ?_⟩
  · intro ht hd
    rcases ht with rfl | rfl <;>
      simp only [device_impl.create_resource, if_pos hd, Option.pure_def]
  · rintro rfl hs
    simp only [device_impl.create_resource, if_pos hs, Option.pure_def]
  · intro ht hd hs hu
    obtain ⟨w, hw, -⟩ := convert_usage_to_d3d_usage_word U desc.usage 0 hu
    have hn : ¬ (desc.depth_or_layers ≠ 1 ∨ desc.samples ≠ 1) := by
      rintro (h | h)
      · exact h hd
      · exact h hs
    have hc : convert_resource_desc_surface U desc D3DSURFACE_DESC.zero (some 0) =
        some ({ D3DSURFACE_DESC.zero with
                  Width := desc.width, Height := desc.height, Format := desc.format,
                  MultiSampleType :=
                    (if desc.samples > 1 then desc.samples else D3DMULTISAMPLE_NONE),
                  Usage := w }, some desc.levels) := by
      unfold convert_resource_desc_surface
      have hw0 : convert_usage_to_d3d_usage U desc.usage D3DSURFACE_DESC.zero.Usage = some w := hw
      simp only [assert, hd, true_or, if_true, hw0, Option.pure_def, Option.bind_eq_bind,
        Option.some_bind]
    refine ⟨w, ?_⟩
    rcases ht with rfl | rfl
    all_goals
      simp only [device_impl.create_resource, if_neg hn, hc, Option.pure_def,
        Option.bind_eq_bind, Option.some_bind, Option.getD_some]
      cases orig.CreateTexture desc.width desc.height desc.levels w desc.format D3DPOOL_DEFAULT
      · exact ⟨_, hw, rfl, rfl⟩
      · exact ⟨_, hw, rfl, rfl⟩
  · rintro rfl hs hu
    obtain ⟨w, hw, -⟩ := convert_usage_to_d3d_usage_word U desc.usage 0 hu
    have hn : ¬ desc.samples ≠ 1 := not_not.mpr hs
    have hc : convert_resource_desc_volume U desc D3DVOLUME_DESC.zero (some 0) =
        some ({ D3DVOLUME_DESC.zero with
                  Width := desc.width, Height := desc.height, Depth := desc.depth_or_layers,
                  Format := desc.format, Usage := w }, some desc.levels) := by
      unfold convert_resource_desc_volume
      have hw0 : convert_usage_to_d3d_usage U desc.usage D3DVOLUME_DESC.zero.Usage = some w := hw
      simp only [assert, hs, if_true, hw0, Option.pure_def, Option.bind_eq_bind,
        Option.some_bind]
    refine ⟨w, ?_⟩
    simp only [device_impl.create_resource, if_neg hn, hc, Option.pure_def,
      Option.bind_eq_bind, Option.some_bind, Option.getD_some]
    cases orig.CreateVolumeTexture desc.width desc.height desc.depth_or_layers desc.levels w
      desc.format D3DPOOL_DEFAULT
    · exact ⟨_, hw, rfl, rfl⟩
    · exact ⟨_, hw, rfl, rfl⟩

/-- C32 on the sample device: a texture with six layers and a multisampled volume
are refused without a call, the 256x256 render target texture and the 32x32x32
volume texture are created by one call each. -/
theorem create_texture_dispatch_witness :
    sample.d3d9_fresh.create_resource usage_values sample.d3d9_device .texture_2d
      { sample.plain_texture_desc with depth_or_layers := 6 } =
        some { self := sample.d3d9_fresh, ret := false, out := 0, calls := [] } ∧
    sample.d3d9_fresh.create_resource usage_values sample.d3d9_device .texture_3d
      { sample.texture3d_desc with samples := 4 } =
        some { self := sample.d3d9_fresh, ret := false, out := 0, calls := [] } ∧
    (∃ d3d_usage res,
      convert_usage_to_d3d_usage usage_values sample.plain_texture_desc.usage 0 = some d3d_usage ∧
      sample.d3d9_fresh.create_resource usage_values sample.d3d9_device .texture_2d
        sample.plain_texture_desc = some res ∧
      res.calls = [.CreateTexture 256 256 1 d3d_usage D3DFMT_A8R8G8B8 D3DPOOL_DEFAULT]) ∧
    (∃ d3d_usage res,
      convert_usage_to_d3d_usage usage_values sample.texture3d_desc.usage 0 = some d3d_usage ∧
      sample.d3d9_fresh.create_resource usage_values sample.d3d9_device .texture_3d
        sample.texture3d_desc = some res ∧
      res.calls = [.CreateVolumeTexture 32 32 32 6 d3d_usage 28 D3DPOOL_DEFAULT]) :=
  ⟨(create_texture_dispatch usage_values sample.d3d9_device sample.d3d9_fresh .texture_2d
      { sample.plain_texture_desc with depth_or_layers := 6 }).1 (Or.inr rfl)
      (Or.inl (by decide)),
   (create_texture_dispatch usage_values sample.d3d9_device sample.d3d9_fresh .texture_3d
      { sample.texture3d_desc with samples := 4 }).2.1 rfl (by decide),
   (create_texture_dispatch usage_values sample.d3d9_device sample.d3d9_fresh .texture_2d
      sample.plain_texture_desc).2.2.1 (Or.inr rfl) (by decide) (by decide) (by decide),
   (create_texture_dispatch usage_values sample.d3d9_device sample.d3d9_fresh .texture_3d
      sample.texture3d_desc).2.2.2 rfl (by decide) (by decide)⟩

end d3d9

/-! ### The automatic depth-stencil surface of Direct3D 9 -/

/-- A word that has a flag keeps its value when the flag is set again. -/
theorem lor_eq_self_of_land_eq {w X : Nat} (h : w &&& X = X) : w ||| X = w := by
  apply Nat.eq_of_testBit_eq
  intro i
  have := congrArg (fun n => Nat.testBit n i) h
  simp only [Nat.testBit_and] at this
  simp only [Nat.testBit_or]
  cases hw : w.testBit i <;> cases hX : X.testBit i <;> simp_all

/-- A 32-bit word without a flag keeps its value when the flag is cleared. -/
theorem land_bnot32_eq_self {w X : Nat} (hw : w < 4294967296) (h : w &&& X = 0) :
    w &&& bnot32 X = w := by
  rw [Nat.and_comm]
  exact bnot32_land_of_disjoint hw (by rw [Nat.and_comm]; exact h)

/-- Setting a one-bit flag that the word has, or clearing one it has not, changes
nothing. -/
theorem set_or_clear_eq_self {c : Prop} [Decidable c] {w X : Nat} (hw : w < 4294967296)
    (hX : ∀ v : Nat, v &&& X ≠ 0 → v &&& X = X) (hc : c ↔ w &&& X ≠ 0) :
    (if c then w ||| X else w &&& bnot32 X) = w := by
  by_cases h : c
  · rw [if_pos h]
    exact lor_eq_self_of_land_eq (hX w (hc.mp h))
  · rw [if_neg h]
    exact land_bnot32_eq_self hw (not_not.mp (fun hh => h (hc.mpr hh)))

namespace d3d9

/-- `D3DUSAGE_RENDERTARGET` is one bit: a word that meets it has it. -/
theorem land_rendertarget_eq (v : Nat) (h : v &&& D3DUSAGE_RENDERTARGET ≠ 0) :
    v &&& D3DUSAGE_RENDERTARGET = D3DUSAGE_RENDERTARGET := by
  unfold D3DUSAGE_RENDERTARGET at h ⊢
  rw [Nat.and_one_is_mod] at h ⊢
  omega

/-- `D3DUSAGE_DEPTHSTENCIL` is one bit: a word that meets it has it. -/
theorem land_depthstencil_eq (v : Nat) (h : v &&& D3DUSAGE_DEPTHSTENCIL ≠ 0) :
    v &&& D3DUSAGE_DEPTHSTENCIL = D3DUSAGE_DEPTHSTENCIL := by
  unfold D3DUSAGE_DEPTHSTENCIL at h ⊢
  have h1 : v &&& 2 ≤ 2 := Nat.and_le_right
  have h2 : (v &&& 2) % 2 = 0 := by
    have e : (2 &&& 1 : Nat) = 0 := by decide
    rw [← Nat.and_one_is_mod, Nat.and_assoc, e, Nat.and_zero]
  omega

/-- The usage the surface conversion returns, as one disjunction. -/
theorem convert_resource_desc_from_surface_usage_sum {U : resource_usage} {s : D3DSURFACE_DESC}
    {levels : Nat} {caps : D3DCAPS9} {r : resource_desc}
    (h : convert_resource_desc_from_surface U s levels caps = some r) :
    r.usage =
      (if s.Type_ = D3DRTYPE_TEXTURE ∨ s.Type_ = D3DRTYPE_CUBETEXTURE then
        convert_d3d_usage_to_usage U s.Usage 0 ||| U.shader_resource
       else convert_d3d_usage_to_usage U s.Usage 0) |||
      (if copies_by_stretch_rect s caps then U.copy_source else 0) |||
      (if copies_by_stretch_rect s caps ∧ to_int32 s.MultiSampleType ≥ to_int32 D3DMULTISAMPLE_2_SAMPLES then
        U.resolve_source else 0) |||
      (if copies_by_stretch_rect s caps ∧ has_flag s.Usage D3DUSAGE_RENDERTARGET then
        U.copy_dest ||| U.resolve_dest else 0) := by
  rw [convert_resource_desc_from_surface_usage h _ rfl]
  generalize (if s.Type_ = D3DRTYPE_TEXTURE ∨ s.Type_ = D3DRTYPE_CUBETEXTURE then
      convert_d3d_usage_to_usage U s.Usage 0 ||| U.shader_resource
     else convert_d3d_usage_to_usage U s.Usage 0) = base
  show (if copies_by_stretch_rect s caps then
      (if has_flag s.Usage D3DUSAGE_RENDERTARGET then _ else _) else _) = _
  by_cases g : copies_by_stretch_rect s caps
  · by_cases hrt : has_flag s.Usage D3DUSAGE_RENDERTARGET
    · by_cases hms : to_int32 s.MultiSampleType ≥ to_int32 D3DMULTISAMPLE_2_SAMPLES
      · simp only [g, hrt, hms, and_self, if_true]
      · simp only [g, hrt, hms, and_self, and_false, if_true, if_false, Nat.or_zero]
    · by_cases hms : to_int32 s.MultiSampleType ≥ to_int32 D3DMULTISAMPLE_2_SAMPLES
      · simp only [g, hrt, hms, and_self, and_false, if_true, if_false, Nat.or_zero]
      · simp only [g, hrt, hms, and_false, if_true, if_false, Nat.or_zero]
  · simp only [g, false_and, if_false, Nat.or_zero]

/-- Which flags the usage has that the conversion of a native descriptor of type
`SURFACE` returns, by the place of the flag in the list of flags. -/
theorem convert_resource_desc_from_surface_flags {U : resource_usage} (hU : U.distinct)
    {s : D3DSURFACE_DESC} {levels : Nat} {caps : D3DCAPS9} {r : resource_desc}
    (ht : s.Type_ = D3DRTYPE_SURFACE)
    (h : convert_resource_desc_from_surface U s levels caps = some r)
    {j : Nat} (hj : j < U.flags.length) :
    has_flag r.usage U.flags[j] ↔
      (has_flag s.Usage D3DUSAGE_RENDERTARGET ∧ 0 = j) ∨
      (has_flag s.Usage D3DUSAGE_DEPTHSTENCIL ∧ 1 = j) ∨
      (copies_by_stretch_rect s caps ∧ 7 = j) ∨
      ((copies_by_stretch_rect s caps ∧ to_int32 s.MultiSampleType ≥ to_int32 D3DMULTISAMPLE_2_SAMPLES) ∧ 9 = j) ∨
      ((copies_by_stretch_rect s caps ∧ has_flag s.Usage D3DUSAGE_RENDERTARGET) ∧
        (8 = j ∨ 10 = j)) := by
  have e0 : has_flag U.render_target U.flags[j] ↔ 0 = j :=
    hU.has_flag_iff (i := 0) (by simp [resource_usage.flags]) hj
  have e1 : has_flag U.depth_stencil U.flags[j] ↔ 1 = j :=
    hU.has_flag_iff (i := 1) (by simp [resource_usage.flags]) hj
  have e7 : has_flag U.copy_source U.flags[j] ↔ 7 = j :=
    hU.has_flag_iff (i := 7) (by simp [resource_usage.flags]) hj
  have e8 : has_flag U.copy_dest U.flags[j] ↔ 8 = j :=
    hU.has_flag_iff (i := 8) (by simp [resource_usage.flags]) hj
  have e9 : has_flag U.resolve_source U.flags[j] ↔ 9 = j :=
    hU.has_flag_iff (i := 9) (by simp [resource_usage.flags]) hj
  have e10 : has_flag U.resolve_dest U.flags[j] ↔ 10 = j :=
    hU.has_flag_iff (i := 10) (by simp [resource_usage.flags]) hj
  have hn : ¬ (s.Type_ = D3DRTYPE_TEXTURE ∨ s.Type_ = D3DRTYPE_CUBETEXTURE) := by
    rw [ht]; decide
  have hb : convert_d3d_usage_to_usage U s.Usage 0 =
      0 ||| (if has_flag s.Usage D3DUSAGE_RENDERTARGET then U.render_target else 0) |||
        (if has_flag s.Usage D3DUSAGE_DEPTHSTENCIL then U.depth_stencil else 0) := by
    unfold convert_d3d_usage_to_usage has_flag
    simp only [ite_lor_eq]
  rw [convert_resource_desc_from_surface_usage_sum h, if_neg hn, hb]
  simp only [has_flag_lor, has_flag_ite_zero, e0, e1, e7, e8, e9, e10, not_has_flag_zero,
    false_or, or_assoc]

/-- Apart from non-maskable multisampling, the description of a surface survives the
way to the abstract descriptor and back.  Let the flags of `resource_usage` be
distinct, and let `s` be a native descriptor of type `SURFACE` with a 32-bit `Usage`
and a multisample type that fits 16 bits and is not `D3DMULTISAMPLE_NONMASKABLE`.
When its conversion with level count 1 returns `d`, converting `d` back onto `s`
with a null `levels` pointer returns `s`. -/
theorem surface_desc_survives_unless_nonmaskable (U : resource_usage) (hU : U.distinct)
    (s : D3DSURFACE_DESC) (caps : D3DCAPS9) (d : resource_desc)
    (ht : s.Type_ = D3DRTYPE_SURFACE) (husage : s.Usage < 4294967296)
    (hms : s.MultiSampleType < 65536) (hnm : s.MultiSampleType ≠ D3DMULTISAMPLE_NONMASKABLE)
    (h : convert_resource_desc_from_surface U s 1 caps = some d) :
    convert_resource_desc_surface U d s none = some (s, none) := by
  obtain ⟨-, hshape⟩ := convert_resource_desc_from_surface_shape h
  have hcube : ¬ s.Type_ = D3DRTYPE_CUBETEXTURE := by
    rw [ht]; decide
  simp only [resource_desc.shape, Prod.mk.injEq, hcube, if_false] at hshape
  obtain ⟨hw, hh, hdepth, hlevels, hformat, hsamples⟩ := hshape
  have hlev : d.levels = 1 := by
    rw [hlevels]; rfl
  have f0 := convert_resource_desc_from_surface_flags hU ht h (j := 0)
    (by simp [resource_usage.flags])
  have f1 := convert_resource_desc_from_surface_flags hU ht h (j := 1)
    (by simp [resource_usage.flags])
  have f3 := convert_resource_desc_from_surface_flags hU ht h (j := 3)
    (by simp [resource_usage.flags])
  have f8 := convert_resource_desc_from_surface_flags hU ht h (j := 8)
    (by simp [resource_usage.flags])
  have f10 := convert_resource_desc_from_surface_flags hU ht h (j := 10)
    (by simp [resource_usage.flags])
  have g0 : has_flag d.usage U.render_target ↔ has_flag s.Usage D3DUSAGE_RENDERTARGET := by
    simpa using f0
  have g1 : has_flag d.usage U.depth_stencil ↔ has_flag s.Usage D3DUSAGE_DEPTHSTENCIL := by
    simpa using f1
  have g3 : ¬ has_flag d.usage U.unordered_access := by
    simpa using f3
  have g8 : has_flag d.usage U.copy_dest ↔
      copies_by_stretch_rect s caps ∧ has_flag s.Usage D3DUSAGE_RENDERTARGET := by
    simpa using f8
  have g10 : has_flag d.usage U.resolve_dest ↔
      copies_by_stretch_rect s caps ∧ has_flag s.Usage D3DUSAGE_RENDERTARGET := by
    simpa using f10
  have c1 : (d.usage &&& (U.render_target ||| U.copy_dest ||| U.resolve_dest) ≠ 0) ↔
      s.Usage &&& D3DUSAGE_RENDERTARGET ≠ 0 := by
    show has_flag d.usage _ ↔ has_flag s.Usage _
    rw [has_flag_lor_right, has_flag_lor_right, g0, g8, g10]
    constructor
    · rintro ((h | h) | h)
      · exact h
      · exact h.2
      · exact h.2
    · intro h
      exact Or.inl (Or.inl h)
  have c2 : (d.usage &&& U.depth_stencil ≠ 0) ↔ s.Usage &&& D3DUSAGE_DEPTHSTENCIL ≠ 0 := g1
  have hu0 : d.usage &&& U.unordered_access = 0 := by
    unfold has_flag at g3
    exact not_not.mp g3
  have step1 : (if d.usage &&& (U.render_target ||| U.copy_dest ||| U.resolve_dest) ≠ 0 then
      s.Usage ||| D3DUSAGE_RENDERTARGET else s.Usage &&& bnot32 D3DUSAGE_RENDERTARGET) = s.Usage :=
    set_or_clear_eq_self husage land_rendertarget_eq c1
  have step2 : (if d.usage &&& U.depth_stencil ≠ 0 then
      s.Usage ||| D3DUSAGE_DEPTHSTENCIL else s.Usage &&& bnot32 D3DUSAGE_DEPTHSTENCIL) = s.Usage :=
    set_or_clear_eq_self husage land_depthstencil_eq c2
  have hword : convert_usage_to_d3d_usage U d.usage s.Usage = some s.Usage := by
    unfold convert_usage_to_d3d_usage
    simp only [assert, hu0, if_true, Option.pure_def, Option.bind_eq_bind, Option.some_bind,
      step1, step2]
  have hmst : (if d.samples > 1 then d.samples else D3DMULTISAMPLE_NONE) = s.MultiSampleType := by
    have hnm1 : s.MultiSampleType ≠ 1 := hnm
    by_cases c : to_int32 s.MultiSampleType ≥ to_int32 D3DMULTISAMPLE_2_SAMPLES
    · have c2 : s.MultiSampleType ≥ 2 := (to_int32_ge_2_samples_of_lt hms).mp c
      have e : to_uint16 s.MultiSampleType = s.MultiSampleType := by
        unfold to_uint16
        omega
      rw [if_pos c, e] at hsamples
      have hgt : d.samples > 1 := by
        rw [hsamples]
        exact c2
      rw [if_pos hgt, hsamples]
    · have c2 : ¬ s.MultiSampleType ≥ 2 := fun h => c ((to_int32_ge_2_samples_of_lt hms).mpr h)
      rw [if_neg c] at hsamples
      have hgt : ¬ d.samples > 1 := by
        rw [hsamples]
        decide
      rw [if_neg hgt]
      show 0 = s.MultiSampleType
      omega
  unfold convert_resource_desc_surface
  have hd1 : d.depth_or_layers = 1 ∨ d.depth_or_layers = 6 := Or.inl hdepth
  simp only [assert, if_pos hd1, hword, if_pos hlev, Option.pure_def, Option.bind_eq_bind,
    Option.some_bind, hmst, hw, hh, hformat]

/-- C33, at a failing input.  The automatic depth-stencil surface has non-maskable
multisampling (`D3DMULTISAMPLE_NONMASKABLE`, quality 2).  Its abstract descriptor has
`samples = 1`, and converting that descriptor, unmodified, back onto the native one
gives `D3DMULTISAMPLE_NONE`; so `on_after_reset`, with an add-on that changes
nothing, creates a texture as replacement and binds its level 0 as the depth-stencil
surface, where for the same surface without multisampling it only registers the
surface. -/
theorem unmodified_nonmaskable_surface_is_replaced :
    sample.nonmaskable_depth_stencil_surface.MultiSampleType = D3DMULTISAMPLE_NONMASKABLE ∧
    (convert_resource_desc_from_surface usage_values sample.nonmaskable_depth_stencil_surface 1
        sample.caps_plain).bind
        (fun d => convert_resource_desc_surface usage_values (sample.quiet_observer.create_resource
          .surface d) sample.nonmaskable_depth_stencil_surface none)
      = some ({ sample.nonmaskable_depth_stencil_surface with
                  MultiSampleType := D3DMULTISAMPLE_NONE }, none) ∧
    (sample.d3d9_reset.on_after_reset usage_values
        { sample.d3d9_device with
          Surface_GetDesc := fun _ => sample.nonmaskable_depth_stencil_surface }
        sample.quiet_observer { EnableAutoDepthStencil := 1 }).map
        (fun after => (after.1._resources.objects, after.2.drop 39))
      = some ([8192, 4096],
          [.GetDepthStencilSurface,
           .addon (.create_resource .surface
             { width := 256, height := 256, depth_or_layers := 1, levels := 1,
               format := D3DFMT_D24S8, samples := 1, usage := usage_values.depth_stencil }),
           .CreateTexture 256 256 1 D3DUSAGE_DEPTHSTENCIL D3DFMT_D24S8 D3DPOOL_DEFAULT,
           .GetSurfaceLevel 4096 0,
           .SetDepthStencilSurface 8192,
           .addon (.set_render_targets_and_depth_stencil 0 0 8192)]) ∧
    (sample.d3d9_reset.on_after_reset usage_values sample.d3d9_device
        sample.quiet_observer { EnableAutoDepthStencil := 1 }).map
        (fun after => (after.1._resources.objects, after.2.drop 39))
      = some ([16384],
          [.GetDepthStencilSurface,
           .addon (.create_resource .surface
             { width := 256, height := 256, depth_or_layers := 1, levels := 1,
               format := D3DFMT_D24S8, samples := 1, usage := usage_values.depth_stencil }),
           .addon (.set_render_targets_and_depth_stencil 0 0 16384)]) := by
  refine ⟨rfl, ?_, ?_, ?_⟩ <;> rfl

end d3d9

/-! ### The capability snapshot of Direct3D 9 -/

namespace d3d9

/-- C35, as stated, fails.  A device is made while the native device reports four
render target slots and no stretching from textures; it is reset, and
`on_after_reset` runs while the native device reports two slots and stretching from
textures.  The snapshot afterwards is still the one taken at construction. -/
theorem reset_keeps_cached_caps :
    ((device_impl.construct usage_values sample.d3d9_device sample.quiet_observer).bind
        (fun made => made.1.on_reset.1.on_after_reset usage_values
          { sample.d3d9_device with GetDeviceCaps := { Caps2 := 0x10, NumSimultaneousRTs := 2 } }
          sample.quiet_observer { EnableAutoDepthStencil := 1 })).map
        (fun reset => reset.1._caps)
      = some { Caps2 := 0, NumSimultaneousRTs := 4 } := by
  rfl

/-- C35, amended.  A reset cycle, `on_reset` followed by `on_after_reset`, leaves the
capability snapshot of the device as it was, whatever the native device reports at
that time; and the snapshot of a device the constructor made holds the `Caps2` the
native device reported then and its `NumSimultaneousRTs` clamped to 8. -/
theorem reset_cycle_keeps_caps (U : resource_usage) (orig : IDirect3DDevice9)
    (observer : addon_observer) :
    (∀ (self dev : device_impl) (pp : D3DPRESENT_PARAMETERS) (calls : List native_call),
      self.on_reset.1.on_after_reset U orig observer pp = some (dev, calls) →
      dev._caps = self._caps) ∧
    (∀ (dev : device_impl) (calls : List native_call),
      device_impl.construct U orig observer = some (dev, calls) →
      dev._caps.NumSimultaneousRTs = min orig.GetDeviceCaps.NumSimultaneousRTs 8 ∧
      dev._caps.Caps2 = orig.GetDeviceCaps.Caps2) := by
  constructor
  · intro self dev pp calls h
    rw [on_after_reset_caps h]
    unfold device_impl.on_reset
    split <;> rfl
  · intro dev calls h
    exact construct_caps h

/-- The amended C35 on the sample device: the snapshot of the active device after a
reset cycle, and the snapshot the constructor takes of a native device that reports
sixteen render target slots. -/
theorem reset_cycle_keeps_caps_witness :
    (∃ dev calls, sample.d3d9_fresh.on_reset.1.on_after_reset usage_values
        { sample.d3d9_device with GetDeviceCaps := { Caps2 := 0x10, NumSimultaneousRTs := 2 } }
        sample.quiet_observer { EnableAutoDepthStencil := 1 } = some (dev, calls) ∧
      dev._caps = sample.d3d9_fresh._caps) ∧
    (∃ dev calls, device_impl.construct usage_values
        { sample.d3d9_device with GetDeviceCaps := { Caps2 := 0x10, NumSimultaneousRTs := 16 } }
        sample.quiet_observer = some (dev, calls) ∧
      dev._caps.NumSimultaneousRTs = 8 ∧ dev._caps.Caps2 = 0x10) :=
  ⟨⟨_, _, rfl,
    (reset_cycle_keeps_caps usage_values
      { sample.d3d9_device with GetDeviceCaps := { Caps2 := 0x10, NumSimultaneousRTs := 2 } }
      sample.quiet_observer).1 sample.d3d9_fresh _ { EnableAutoDepthStencil := 1 } _ rfl⟩,
   ⟨_, _, rfl,
    (reset_cycle_keeps_caps usage_values
      { sample.d3d9_device with GetDeviceCaps := { Caps2 := 0x10, NumSimultaneousRTs := 16 } }
      sample.quiet_observer).2 _ _ rfl⟩⟩

end d3d9

/-! ### Cube array views of Direct3D 10 -/

namespace d3d10

/-- C34, at a failing input.  `create_resource_view(resource, shader_resource, d)`
converts `d` to a plain `D3D10_SHADER_RESOURCE_VIEW_DESC`, whose conversion has no
case for `texture_cube_array`: for the view of two cubes the native
`CreateShaderResourceView` is handed a descriptor with the format alone, the view
dimension and the union still zero, where the conversion to
`D3D10_SHADER_RESOURCE_VIEW_DESC1` gives the cube array variant with
`NumCubes = 2`. -/
theorem cube_array_view_is_created_without_dimension :
    sample.cube_array_view.dimension = resource_view_dimension.texture_cube_array ∧
    (sample.d3d10_fresh.create_resource_view sample.d3d10_device 4096 .shader_resource
        sample.cube_array_view).map (fun r => (r.ret, r.calls))
      = some (true, [.CreateShaderResourceView 4096
          { Format := 28, ViewDimension := 0, w0 := 0, w1 := 0, w2 := 0, w3 := 0 }]) ∧
    convert_resource_view_desc_srv1 sample.cube_array_view D3D10_SHADER_RESOURCE_VIEW_DESC.zero
      = some { Format := 28, ViewDimension := D3D10_1_SRV_DIMENSION_TEXTURECUBEARRAY,
               w0 := 0, w1 := 1, w2 := 0, w3 := 2 } := by
  refine ⟨rfl, ?_, ?_⟩ <;> rfl

/-- C38. Let `d` be a view descriptor of dimension `texture_cube_array` whose
`layers` fits 32 bits.  Converting `d` to a `D3D10_SHADER_RESOURCE_VIEW_DESC1` and
back gives `layers' = 6 * (layers / 6) = layers - layers % 6`, the product
`NumCubes * 6` staying below `2^32`; so `layers' ≤ layers`, at most 5 layers are
dropped, and `layers' = layers` exactly when 6 divides `layers`.  In the other
direction, the abstract layer count of a native cube array view with a 32-bit
`NumCubes` is `NumCubes * 6` modulo `2^32`, and converting that descriptor to native
again gives `NumCubes` back exactly when `NumCubes * 6 < 2^32`. -/
theorem cube_array_layers_round_trip :
    (∀ (d : resource_view_desc) (n0 : D3D10_SHADER_RESOURCE_VIEW_DESC),
      d.dimension = resource_view_dimension.texture_cube_array → d.layers < 4294967296 →
      ∃ n, convert_resource_view_desc_srv1 d n0 = some n ∧
        n.w3 * 6 < 4294967296 ∧
        (convert_resource_view_desc_from_srv1 n).layers = 6 * (d.layers / 6) ∧
        6 * (d.layers / 6) = d.layers - d.layers % 6 ∧
        (convert_resource_view_desc_from_srv1 n).layers ≤ d.layers ∧
        d.layers - (convert_resource_view_desc_from_srv1 n).layers ≤ 5 ∧
        ((convert_resource_view_desc_from_srv1 n).layers = d.layers ↔ 6 ∣ d.layers)) ∧
    (∀ (n n0 : D3D10_SHADER_RESOURCE_VIEW_DESC),
      n.ViewDimension = D3D10_1_SRV_DIMENSION_TEXTURECUBEARRAY → n.w3 < 4294967296 →
      (convert_resource_view_desc_from_srv1 n).layers = n.w3 * 6 % 4294967296 ∧
      ∃ n', convert_resource_view_desc_srv1 (convert_resource_view_desc_from_srv1 n) n0
          = some n' ∧
        (n'.w3 = n.w3 ↔ n.w3 * 6 < 4294967296)) := by
  constructor
  · intro d n0 hdim hl
    have e : convert_resource_view_desc_srv1 d n0 =
        some { n0 with
                 Format := d.format, ViewDimension := D3D10_1_SRV_DIMENSION_TEXTURECUBEARRAY,
                 w0 := d.first_level, w1 := d.levels, w2 := d.first_layer,
                 w3 := d.layers / 6 } := by
      unfold convert_resource_view_desc_srv1
      rw [if_pos hdim]
      rfl
    have el : (convert_resource_view_desc_from_srv1
        { n0 with
            Format := d.format, ViewDimension := D3D10_1_SRV_DIMENSION_TEXTURECUBEARRAY,
            w0 := d.first_level, w1 := d.levels, w2 := d.first_layer,
            w3 := d.layers / 6 }).layers = d.layers / 6 * 6 % 4294967296 := by
      unfold convert_resource_view_desc_from_srv1
      rw [if_pos rfl]
    refine ⟨_, e, ?_, ?_, ?_, ?_, ?_, ?_⟩
    · show d.layers / 6 * 6 < 4294967296
      omega
    · rw [el]; omega
    · omega
    · rw [el]; omega
    · rw [el]; omega
    · rw [el]
      constructor
      · intro h
        exact Nat.dvd_of_mod_eq_zero (by omega)
      · intro h
        have := Nat.mod_eq_zero_of_dvd h
        omega
  · intro n n0 hdim hw
    have el : (convert_resource_view_desc_from_srv1 n).layers = n.w3 * 6 % 4294967296 := by
      unfold convert_resource_view_desc_from_srv1
      rw [if_pos hdim]
    have ed : (convert_resource_view_desc_from_srv1 n).dimension =
        resource_view_dimension.texture_cube_array := by
      unfold convert_resource_view_desc_from_srv1
      rw [if_pos hdim]
    refine ⟨el, ?_⟩
    have e : convert_resource_view_desc_srv1 (convert_resource_view_desc_from_srv1 n) n0 =
        some { n0 with
                 Format := (convert_resource_view_desc_from_srv1 n).format,
                 ViewDimension := D3D10_1_SRV_DIMENSION_TEXTURECUBEARRAY,
                 w0 := (convert_resource_view_desc_from_srv1 n).first_level,
                 w1 := (convert_resource_view_desc_from_srv1 n).levels,
                 w2 := (convert_resource_view_desc_from_srv1 n).first_layer,
                 w3 := (convert_resource_view_desc_from_srv1 n).layers / 6 } := by
      generalize convert_resource_view_desc_from_srv1 n = d at ed ⊢
      unfold convert_resource_view_desc_srv1
      rw [if_pos ed]
      rfl
    refine ⟨_, e, ?_⟩
    show (convert_resource_view_desc_from_srv1 n).layers / 6 = n.w3 ↔ _
    rw [el]
    omega

/-- C38 on a view of 13 layers, which comes back with 12, on a view of 12 layers,
and on a native view of `2^30` cubes, whose layer count wraps around. -/
theorem cube_array_layers_round_trip_witness :
    (∃ n, convert_resource_view_desc_srv1 { sample.cube_array_view with layers := 13 }
        D3D10_SHADER_RESOURCE_VIEW_DESC.zero = some n ∧
      (convert_resource_view_desc_from_srv1 n).layers = 12) ∧
    (∃ n, convert_resource_view_desc_srv1 sample.cube_array_view
        D3D10_SHADER_RESOURCE_VIEW_DESC.zero = some n ∧
      (convert_resource_view_desc_from_srv1 n).layers = 12) ∧
    (convert_resource_view_desc_from_srv1
        { Format := 28, ViewDimension := D3D10_1_SRV_DIMENSION_TEXTURECUBEARRAY,
          w0 := 0, w1 := 1, w2 := 0, w3 := 1073741824 }).layers = 2147483648 ∧
    ∃ n', convert_resource_view_desc_srv1 (convert_resource_view_desc_from_srv1
        { Format := 28, ViewDimension := D3D10_1_SRV_DIMENSION_TEXTURECUBEARRAY,
          w0 := 0, w1 := 1, w2 := 0, w3 := 1073741824 }) D3D10_SHADER_RESOURCE_VIEW_DESC.zero
        = some n' ∧ n'.w3 = 357913941 :=
  ⟨(cube_array_layers_round_trip.1 { sample.cube_array_view with layers := 13 }
      D3D10_SHADER_RESOURCE_VIEW_DESC.zero rfl (by decide)).imp
      (fun _ h => ⟨h.1, h.2.2.1⟩),
   (cube_array_layers_round_trip.1 sample.cube_array_view
      D3D10_SHADER_RESOURCE_VIEW_DESC.zero rfl (by decide)).imp
      (fun _ h => ⟨h.1, h.2.2.1⟩),
   (cube_array_layers_round_trip.2
      { Format := 28, ViewDimension := D3D10_1_SRV_DIMENSION_TEXTURECUBEARRAY,
        w0 := 0, w1 := 1, w2 := 0, w3 := 1073741824 }
      D3D10_SHADER_RESOURCE_VIEW_DESC.zero rfl (by decide)).1,
   ⟨_, rfl, by decide⟩⟩

/-- C36. The Direct3D 10 `check_format_support` is antitone in the usage: for every
format and native device, if it returns `true` for a usage `u`, it returns `true`
for every usage `u'` all of whose bits are bits of `u`. -/
theorem check_format_support_antitone (U : resource_usage) (orig : ID3D10Device1)
    (dev : device_impl) (format u u' : Nat) (hsub : u' &&& u = u')
    (h : dev.check_format_support U orig format u = true) :
    dev.check_format_support U orig format u' = true := by
  have mono : ∀ X, u' &&& X ≠ 0 → u &&& X ≠ 0 := by
    intro X hX h0
    apply hX
    rw [← hsub, Nat.and_assoc, h0, Nat.and_zero]
  unfold device_impl.check_format_support at h ⊢
  by_cases hua : u &&& U.unordered_access ≠ 0
  · rw [if_pos hua] at h
    cases h
  rw [if_neg hua] at h
  rw [if_neg (fun hh => hua (mono _ hh))]
  cases hc : orig.CheckFormatSupport format with
  | none =>
    rw [hc] at h
    cases h
  | some support =>
    rw [hc] at h
    simp only at h ⊢
    by_cases h1 : u &&& U.render_target ≠ 0 ∧ support &&& D3D10_FORMAT_SUPPORT_RENDER_TARGET = 0
    · rw [if_pos h1] at h
      cases h
    rw [if_neg h1] at h
    rw [if_neg (fun hh => h1 ⟨mono _ hh.1, hh.2⟩)]
    by_cases h2 : u &&& U.depth_stencil ≠ 0 ∧ support &&& D3D10_FORMAT_SUPPORT_DEPTH_STENCIL = 0
    · rw [if_pos h2] at h
      cases h
    rw [if_neg h2] at h
    rw [if_neg (fun hh => h2 ⟨mono _ hh.1, hh.2⟩)]
    by_cases h3 : u &&& U.shader_resource ≠ 0 ∧ support &&& D3D10_FORMAT_SUPPORT_SHADER_SAMPLE = 0
    · rw [if_pos h3] at h
      cases h
    rw [if_neg h3] at h
    rw [if_neg (fun hh => h3 ⟨mono _ hh.1, hh.2⟩)]
    by_cases h4 : u &&& (U.resolve_source ||| U.resolve_dest) ≠ 0 ∧
        support &&& D3D10_FORMAT_SUPPORT_MULTISAMPLE_RESOLVE = 0
    · rw [if_pos h4] at h
      cases h
    rw [if_neg (fun hh => h4 ⟨mono _ hh.1, hh.2⟩)]

/-- C36 on the sample device: format 28 is supported as a sampled, resolvable render
target, and so it is as a render target alone. -/
theorem check_format_support_antitone_witness :
    usage_values.render_target &&&
      (usage_values.render_target ||| usage_values.shader_resource |||
        usage_values.resolve_dest) = usage_values.render_target ∧
    sample.d3d10_fresh.check_format_support usage_values sample.d3d10_device 28
      (usage_values.render_target ||| usage_values.shader_resource |||
        usage_values.resolve_dest) = true ∧
    sample.d3d10_fresh.check_format_support usage_values sample.d3d10_device 28
      usage_values.render_target = true :=
  ⟨by decide, by decide,
   check_format_support_antitone usage_values sample.d3d10_device sample.d3d10_fresh 28
     (usage_values.render_target ||| usage_values.shader_resource ||| usage_values.resolve_dest)
     usage_values.render_target (by decide) (by decide)⟩

end d3d10

end reshade
